import Mathlib

/-!
# Entity registry, wave control, spawning, collisions, pickups and shop of the Brotato-like game

Shallow embedding of `src/Gameplay/Entities/EntityManager.h`,
`src/Gameplay/Entities/EntityManager.cpp`, the component records of
`src/Gameplay/Components/Components.h`, the wave controller
(`src/Gameplay/Systems/WaveSystem.cpp`), the wave and boss logic of the legacy
loop (`src/Game.cpp`), the creation, collection and collision code of
`EnemySpawnSystem.cpp`, `PickupSystem.cpp` and `CollisionSystem.cpp`, the shop
(`src/Gameplay/Systems/ShopSystem.cpp`) and the frame update of
`src/Gameplay/World/GameplayManager.cpp`.

Modelling conventions.

* `std::unordered_map<K, V>` is a finite map with distinct keys: `UMap V`
  (an association list whose keys are pairwise different by construction).
  `find` is `AList.lookup`, `m[k] = v` is `AList.insert`, `erase` is
  `AList.erase`, `size()` is the number of entries, and a range-for over the
  map walks the entries. The iteration order of an unordered map is
  unspecified, so the order of the entries carries no meaning.
* `std::vector<T>` is `List T`; `push_back` appends at the end, `pop_back`
  is `List.dropLast`. An out-of-range `operator[]` (undefined behaviour in
  C++) reads nothing and writes nothing in the model.
* `std::queue<EntityId>` is a list whose head is the front of the queue.
* `size_t` is 64 bit and `EntityId` is `uint32_t`; wrap-around is written out
  where an operation can wrap.
* `std::bitset<MAX_COMPONENTS>` is a bit mask held in a natural number.
* The component types of the program are identified with their type ids
  (`getComponentTypeId<T>()`), which index a 32-slot array; all component
  values live in one value type `T`.
* Event publication through the service locator does not touch the registry
  and is left out.
* `float` is `ℚ` (exact arithmetic, no rounding, no NaN) and `int` is `ℤ`
  (signed overflow is undefined behaviour in C++ and outside the model). The
  circle test, whose answer at the boundary depends on rounding, is modelled a
  second time in IEEE 754 binary32 arithmetic (`Binary32`).
* Random numbers are arguments of the functions that draw them; console
  output is left out.
* A dereference of a null pointer (undefined behaviour in C++) makes a
  function return `none`.
* The quotient of a `float` by a square root, which exact arithmetic cannot
  hold, is an argument of `Vector2.normalized`.
-/

namespace BrotatoGame

/-- Finite map keyed by natural numbers: the model of `std::unordered_map`. -/
abbrev UMap (V : Type) := AList (fun _ : Nat => V)

/-- Entity identifiers, `using EntityId = uint32_t`. -/
abbrev EntityId := Nat

/-- Reserved sentinel, `const EntityId INVALID_ENTITY_ID = 0`. -/
def INVALID_ENTITY_ID : EntityId := 0

/-- Number of slots, `const size_t MAX_COMPONENTS = 32`. -/
abbrev MAX_COMPONENTS : Nat := 32

/-- Component type ids as handed out by `getComponentTypeId<T>()`. -/
abbrev ComponentTypeId := Fin MAX_COMPONENTS

/-- Bit mask model of `std::bitset<MAX_COMPONENTS>`. -/
abbrev ComponentSignature := Nat

namespace ComponentSignature

/-- Default constructed bitset, `ComponentSignature{}`. -/
def empty : ComponentSignature := 0

/-- Member `set(pos)` of the bitset. -/
def set (s : ComponentSignature) (pos : Nat) : ComponentSignature := s ||| 2 ^ pos

/-- Member `reset(pos)` of the bitset. -/
def reset (s : ComponentSignature) (pos : Nat) : ComponentSignature := s ^^^ (s &&& 2 ^ pos)

/-- Member `test(pos)` of the bitset. -/
def test (s : ComponentSignature) (pos : Nat) : Bool := s.testBit pos

end ComponentSignature

/-- Dense storage of one component type, `class ComponentArray<T>`. -/
structure ComponentArray (T : Type) where
  components : List T
  entityToIndex : UMap Nat
  indexToEntity : UMap EntityId

namespace ComponentArray

variable {T : Type}

/-- Freshly constructed storage, `std::make_unique<ComponentArray<T>>()`. -/
def empty : ComponentArray T :=
  { components := [], entityToIndex := ∅, indexToEntity := ∅ }

/-- Method `insertComponent` of `ComponentArray<T>`. -/
def insertComponent (a : ComponentArray T) (entity : EntityId) (component : T) :
    ComponentArray T :=
  { components := a.components ++ [component]
    entityToIndex := a.entityToIndex.insert entity a.components.length
    indexToEntity := a.indexToEntity.insert a.components.length entity }

/-- Value of `components.size() - 1` in 64-bit unsigned arithmetic. -/
def lastIndexOf (size : Nat) : Nat :=
  if size = 0 then 2 ^ 64 - 1 else size - 1

/-- Method `removeComponent` of `ComponentArray<T>`. -/
def removeComponent (a : ComponentArray T) (entity : EntityId) : ComponentArray T :=
  match a.entityToIndex.lookup entity with
  | none => a
  | some removedIndex =>
    let lastIndex := lastIndexOf a.components.length
    -- components[removedIndex] = components[lastIndex];
    let components1 :=
      match a.components[lastIndex]? with
      | some x => a.components.set removedIndex x
      | none => a.components
    -- EntityId lastEntity = indexToEntity[lastIndex];
    let lastEntity := (a.indexToEntity.lookup lastIndex).getD 0
    let indexToEntity1 :=
      match a.indexToEntity.lookup lastIndex with
      | some _ => a.indexToEntity
      | none => a.indexToEntity.insert lastIndex 0
    -- entityToIndex[lastEntity] = removedIndex;
    let entityToIndex1 := a.entityToIndex.insert lastEntity removedIndex
    -- indexToEntity[removedIndex] = lastEntity;
    let indexToEntity2 := indexToEntity1.insert removedIndex lastEntity
    { components := components1.dropLast
      entityToIndex := entityToIndex1.erase entity
      indexToEntity := indexToEntity2.erase lastIndex }

/-- Method `getComponent` of `ComponentArray<T>`; `none` is the null pointer. -/
def getComponent (a : ComponentArray T) (entity : EntityId) : Option T :=
  match a.entityToIndex.lookup entity with
  | some i => a.components[i]?
  | none => none

/-- Method `removeEntity` of `ComponentArray<T>`. -/
def removeEntity (a : ComponentArray T) (entity : EntityId) : ComponentArray T :=
  a.removeComponent entity

/-- Method `getAllComponents` of `ComponentArray<T>`. -/
def getAllComponents (a : ComponentArray T) : List T := a.components

/-- Method `getAllEntities` of `ComponentArray<T>`. -/
def getAllEntities (a : ComponentArray T) : List EntityId := a.entityToIndex.keys

/-- Calls on a storage: `insertComponent(entity, component)` and
`removeComponent(entity)`. -/
inductive Call (T : Type) where
  | insert (entity : EntityId) (component : T)
  | remove (entity : EntityId)

/-- Storage after one call. -/
def apply (a : ComponentArray T) : Call T → ComponentArray T
  | Call.insert entity component => a.insertComponent entity component
  | Call.remove entity => a.removeComponent entity

/-- Storage after a sequence of calls, first call first. -/
def run (a : ComponentArray T) : List (Call T) → ComponentArray T
  | [] => a
  | call :: rest => run (a.apply call) rest

/-- Number of slots of the backing vector that `indexToEntity` assigns to
`entity`. -/
def entryCount (a : ComponentArray T) (entity : EntityId) : Nat :=
  (a.indexToEntity.entries.filter (fun pair => pair.2 == entity)).length

/-- Every stored entity (every key of `entityToIndex`) has exactly one entry. -/
def OneEntryEach (a : ComponentArray T) : Prop :=
  ∀ entity ∈ a.entityToIndex.keys, a.entryCount entity = 1

instance (a : ComponentArray T) : Decidable a.OneEntryEach := by
  unfold OneEntryEach
  infer_instance

/-- Facts that hold for every storage built by `insertComponent` and
`removeComponent`: `indexToEntity` has exactly the slots of the backing vector
as keys, and the slot recorded for a stored entity is assigned to it. -/
def Linked (a : ComponentArray T) : Prop :=
  (∀ i, i ∈ a.indexToEntity ↔ i < a.components.length) ∧
  (∀ e i, a.entityToIndex.lookup e = some i → a.indexToEntity.lookup i = some e)

/-- Write through the pointer returned by `getComponent(entity)`:
`*getComponent(entity) = value`. Nothing happens for a null pointer. -/
def writeComponent (a : ComponentArray T) (entity : EntityId) (value : T) : ComponentArray T :=
  match a.entityToIndex.lookup entity with
  | some i => { a with components := a.components.set i value }
  | none => a

/-- Storage invariant of the data model: the facts of `Linked`, and the two
index maps are mutual inverses (every slot belongs to the stored entity that
records it). -/
def Dense (a : ComponentArray T) : Prop :=
  a.Linked ∧ ∀ i e, a.indexToEntity.lookup i = some e → a.entityToIndex.lookup e = some i

end ComponentArray

/-- Registry of entities, `class EntityManager`. -/
structure EntityManager (T : Type) where
  entitySignatures : UMap ComponentSignature
  componentArrays : ComponentTypeId → Option (ComponentArray T)
  availableEntities : List EntityId
  nextEntityId : EntityId

namespace EntityManager

variable {T : Type}

/-- Constructor `EntityManager::EntityManager`: ids 1 .. 9999 are queued. -/
def new : EntityManager T :=
  { entitySignatures := ∅
    componentArrays := fun _ => none
    availableEntities := List.range' 1 9999
    nextEntityId := 1 }

/-- Method `EntityManager::isEntityValid`. -/
def isEntityValid (m : EntityManager T) (entity : EntityId) : Bool :=
  (m.entitySignatures.lookup entity).isSome

/-- Method `EntityManager::createEntity`: the returned id and the new state. -/
def createEntity (m : EntityManager T) : EntityId × EntityManager T :=
  match m.availableEntities with
  | front :: rest =>
    (front, { m with entitySignatures := m.entitySignatures.insert front ComponentSignature.empty
                     availableEntities := rest })
  | [] =>
    (m.nextEntityId,
      { m with entitySignatures :=
                 m.entitySignatures.insert m.nextEntityId ComponentSignature.empty
               nextEntityId := (m.nextEntityId + 1) % 2 ^ 32 })

/-- Method `EntityManager::destroyEntity`. -/
def destroyEntity (m : EntityManager T) (entity : EntityId) : EntityManager T :=
  if m.isEntityValid entity then
    { m with componentArrays := fun i => (m.componentArrays i).map (fun a => a.removeEntity entity)
             entitySignatures := m.entitySignatures.erase entity
             availableEntities := m.availableEntities ++ [entity] }
  else m

/-- Value read by `entitySignatures[entity]`: the stored signature, or the
default constructed one that `operator[]` inserts for a missing key. -/
def signatureAt (m : EntityManager T) (entity : EntityId) : ComponentSignature :=
  (m.entitySignatures.lookup entity).getD ComponentSignature.empty

/-- Method `EntityManager::addComponent<T>(entity, component)`: the returned
pointer (as the value it points to) and the new state. -/
def addComponent (m : EntityManager T) (typeId : ComponentTypeId) (entity : EntityId)
    (component : T) : Option T × EntityManager T :=
  let componentArray := ((m.componentArrays typeId).getD ComponentArray.empty).insertComponent
    entity component
  (componentArray.getComponent entity,
    { m with componentArrays := Function.update m.componentArrays typeId (some componentArray)
             entitySignatures :=
               m.entitySignatures.insert entity ((m.signatureAt entity).set typeId) })

/-- Method `EntityManager::addComponent<T>(entity)`, which stores `T{}`. -/
def addComponentDefault [Inhabited T] (m : EntityManager T) (typeId : ComponentTypeId)
    (entity : EntityId) : Option T × EntityManager T :=
  m.addComponent typeId entity default

/-- Method `EntityManager::removeComponent<T>`. -/
def removeComponent (m : EntityManager T) (typeId : ComponentTypeId) (entity : EntityId) :
    EntityManager T :=
  match m.componentArrays typeId with
  | some componentArray =>
    { m with componentArrays :=
               Function.update m.componentArrays typeId (some (componentArray.removeComponent entity))
             entitySignatures :=
               m.entitySignatures.insert entity ((m.signatureAt entity).reset typeId) }
  | none => m

/-- Method `EntityManager::getComponent<T>`; it does not change the registry. -/
def getComponent (m : EntityManager T) (typeId : ComponentTypeId) (entity : EntityId) :
    Option T :=
  match m.componentArrays typeId with
  | some componentArray => componentArray.getComponent entity
  | none => none

/-- Method `EntityManager::hasComponent<T>`: the answer and the new state
(`entitySignatures[entity]` inserts an empty signature for a missing key). -/
def hasComponent (m : EntityManager T) (typeId : ComponentTypeId) (entity : EntityId) :
    Bool × EntityManager T :=
  ((m.signatureAt entity).test typeId,
    match m.entitySignatures.lookup entity with
    | some _ => m
    | none => { m with entitySignatures :=
                         m.entitySignatures.insert entity ComponentSignature.empty })

/-- Signature built by the fold `(signature.set(getComponentTypeId<Components>()), ...)`. -/
def querySignature (types : List ComponentTypeId) : ComponentSignature :=
  types.foldl (fun (s : ComponentSignature) (t : ComponentTypeId) => s.set t.val)
    ComponentSignature.empty

/-- Method `EntityManager::getEntitiesWith<Components...>`. -/
def getEntitiesWith (m : EntityManager T) (types : List ComponentTypeId) : List EntityId :=
  (m.entitySignatures.entries.filter
    (fun pair => pair.2 &&& querySignature types == querySignature types)).map (fun pair => pair.1)

/-- Method `EntityManager::getEntitySignature`. -/
def getEntitySignature (m : EntityManager T) (entity : EntityId) : ComponentSignature :=
  match m.entitySignatures.lookup entity with
  | some s => s
  | none => ComponentSignature.empty

/-- Method `EntityManager::getAllComponents<T>`: the vector and the new state
(the storage is created when it does not exist yet). -/
def getAllComponents (m : EntityManager T) (typeId : ComponentTypeId) :
    List T × EntityManager T :=
  match m.componentArrays typeId with
  | some componentArray => (componentArray.getAllComponents, m)
  | none =>
    ((ComponentArray.empty : ComponentArray T).getAllComponents,
      { m with componentArrays :=
                 Function.update m.componentArrays typeId (some ComponentArray.empty) })

/-- Method `EntityManager::getEntityCount`: a `size_t` subtraction. -/
def getEntityCount (m : EntityManager T) : Nat :=
  (m.entitySignatures.entries.length + 2 ^ 64 - m.availableEntities.length) % 2 ^ 64

/-- Write through the pointer returned by `getComponent<T>(entity)`:
`*getComponent<T>(entity) = value`. Nothing happens for a null pointer. -/
def writeComponent (m : EntityManager T) (typeId : ComponentTypeId) (entity : EntityId)
    (value : T) : EntityManager T :=
  match m.componentArrays typeId with
  | some componentArray =>
    { m with componentArrays :=
               Function.update m.componentArrays typeId
                 (some (componentArray.writeComponent entity value)) }
  | none => m

/-- Invariants of the data model for a registry: every storage is dense with
mutually inverse index maps, every stored component belongs to an entity
whose signature has the bit of the component type, and the queue of free ids
holds pairwise different ids none of which is valid. -/
def WF (m : EntityManager T) : Prop :=
  (∀ t arr, m.componentArrays t = some arr → arr.Dense) ∧
  (∀ t E, m.getComponent t E ≠ none →
    ∃ sig, m.entitySignatures.lookup E = some sig ∧ ComponentSignature.test sig t.val = true) ∧
  (∀ q ∈ m.availableEntities, m.isEntityValid q = false) ∧
  m.availableEntities.Nodup

/-- Calls of the entity life cycle: `createEntity()` and `destroyEntity(entity)`. -/
inductive LifeCall where
  | create
  | destroy (entity : EntityId)
  deriving DecidableEq, Repr

/-- State after one life-cycle call. -/
def applyLife (m : EntityManager T) : LifeCall → EntityManager T
  | LifeCall.create => m.createEntity.2
  | LifeCall.destroy entity => m.destroyEntity entity

/-- State after a sequence of life-cycle calls, first call first. -/
def runLife (m : EntityManager T) : List LifeCall → EntityManager T
  | [] => m
  | call :: rest => runLife (applyLife m call) rest

/-- Calls of the public interface of the registry. The `const` methods
(`isEntityValid`, `getEntitySignature`, `getEntityCount`) and
`getEntitiesWithComponent` leave the registry as it is and are not listed. -/
inductive Call (T : Type) where
  | createEntity
  | destroyEntity (entity : EntityId)
  | addComponent (typeId : ComponentTypeId) (entity : EntityId) (component : T)
  | addComponentDefault (typeId : ComponentTypeId) (entity : EntityId)
  | removeComponent (typeId : ComponentTypeId) (entity : EntityId)
  | getComponent (typeId : ComponentTypeId) (entity : EntityId)
  | hasComponent (typeId : ComponentTypeId) (entity : EntityId)
  | getEntitiesWith (types : List ComponentTypeId)
  | getAllComponents (typeId : ComponentTypeId)

/-- Registry after one call of the public interface. -/
def apply [Inhabited T] (m : EntityManager T) : Call T → EntityManager T
  | Call.createEntity => m.createEntity.2
  | Call.destroyEntity entity => m.destroyEntity entity
  | Call.addComponent typeId entity component => (m.addComponent typeId entity component).2
  | Call.addComponentDefault typeId entity => (m.addComponentDefault typeId entity).2
  | Call.removeComponent typeId entity => m.removeComponent typeId entity
  | Call.getComponent _ _ => m
  | Call.hasComponent typeId entity => (m.hasComponent typeId entity).2
  | Call.getEntitiesWith _ => m
  | Call.getAllComponents typeId => (m.getAllComponents typeId).2

/-- Registry after a sequence of calls, first call first. -/
def run [Inhabited T] (m : EntityManager T) : List (Call T) → EntityManager T
  | [] => m
  | call :: rest => run (m.apply call) rest

end EntityManager

/-! ### Wave controller (`src/Gameplay/Systems/WaveSystem.h`, `WaveSystem.cpp`)

`float` values are modelled by rational numbers: rounding, infinities and NaN
are not modelled. The duration formula only handles small integers, which
binary32 represents exactly, and for larger wave numbers the rounded value
still exceeds the cap. `int` values are modelled by integers; signed overflow
is undefined behaviour in C++ and lies outside the model. -/

/-- States of a wave, `enum class WaveState`. -/
inductive WaveState where
  | PREPARING
  | ACTIVE
  | COMPLETED
  deriving DecidableEq, Repr

/-- Wave state of `class WaveSystem` (its private fields `waveState`,
`currentWave`, `waveTimer`, `waveDuration`). -/
structure WaveSystem where
  waveState : WaveState
  currentWave : Int
  waveTimer : ℚ
  waveDuration : ℚ
  deriving DecidableEq

namespace WaveSystem

/-- Constant `WaveSystem::INITIAL_WAVE_DURATION = 20.0f`. -/
def INITIAL_WAVE_DURATION : ℚ := 20

/-- Constant `WaveSystem::WAVE_DURATION_INCREMENT = 5.0f`. -/
def WAVE_DURATION_INCREMENT : ℚ := 5

/-- Constant `WaveSystem::MAX_WAVE_DURATION = 60.0f`. -/
def MAX_WAVE_DURATION : ℚ := 60

/-- Constructor `WaveSystem::WaveSystem`. -/
def new : WaveSystem :=
  { waveState := WaveState.PREPARING
    currentWave := 1
    waveTimer := 0
    waveDuration := INITIAL_WAVE_DURATION }

/-- Method `WaveSystem::calculateWaveDuration`. -/
def calculateWaveDuration (w : WaveSystem) : WaveSystem :=
  let waveDuration := INITIAL_WAVE_DURATION + ((w.currentWave - 1 : Int) : ℚ) * WAVE_DURATION_INCREMENT
  if waveDuration > MAX_WAVE_DURATION then { w with waveDuration := MAX_WAVE_DURATION }
  else { w with waveDuration := waveDuration }

/-- Method `WaveSystem::startWave` (`onWaveStart` only prints). -/
def startWave (w : WaveSystem) : WaveSystem :=
  if w.waveState ≠ WaveState.PREPARING then w
  else { w with waveState := WaveState.ACTIVE, waveTimer := 0 }

/-- Method `WaveSystem::endWave` (`onWaveEnd` only prints). -/
def endWave (w : WaveSystem) : WaveSystem :=
  if w.waveState ≠ WaveState.ACTIVE then w
  else { w with waveState := WaveState.COMPLETED }

/-- Method `WaveSystem::startNextWave`. -/
def startNextWave (w : WaveSystem) : WaveSystem :=
  if w.waveState ≠ WaveState.COMPLETED then w
  else
    { calculateWaveDuration { w with currentWave := w.currentWave + 1 } with
      waveState := WaveState.PREPARING }

/-- Method `WaveSystem::update`. -/
def update (w : WaveSystem) (deltaTime : ℚ) : WaveSystem :=
  match w.waveState with
  | WaveState.PREPARING => w
  | WaveState.ACTIVE =>
    let w1 := { w with waveTimer := w.waveTimer + deltaTime }
    if w1.waveTimer ≥ w1.waveDuration then w1.endWave else w1
  | WaveState.COMPLETED => w.startNextWave

/-- Method `WaveSystem::closeShop`. -/
def closeShop (w : WaveSystem) : WaveSystem := w.startWave

/-- Method `WaveSystem::isWaveActive`. -/
def isWaveActive (w : WaveSystem) : Bool := w.waveState == WaveState.ACTIVE

/-- Method `WaveSystem::getCurrentWave`. -/
def getCurrentWave (w : WaveSystem) : Int := w.currentWave

/-- Calls that change a `WaveSystem`. -/
inductive Call where
  | update (deltaTime : ℚ)
  | startWave
  | endWave
  | startNextWave
  | closeShop

/-- Wave system after one call. -/
def apply (w : WaveSystem) : Call → WaveSystem
  | Call.update deltaTime => w.update deltaTime
  | Call.startWave => w.startWave
  | Call.endWave => w.endWave
  | Call.startNextWave => w.startNextWave
  | Call.closeShop => w.closeShop

/-- Wave system after a sequence of calls, first call first. -/
def run (w : WaveSystem) : List Call → WaveSystem
  | [] => w
  | call :: rest => run (w.apply call) rest

/-- The moves between wave states seen in the source: no move, and the cycle
`PREPARING → ACTIVE → COMPLETED → PREPARING`. -/
def Step (a b : WaveState) : Prop :=
  a = b ∨ (a = WaveState.PREPARING ∧ b = WaveState.ACTIVE) ∨
    (a = WaveState.ACTIVE ∧ b = WaveState.COMPLETED) ∨
    (a = WaveState.COMPLETED ∧ b = WaveState.PREPARING)

/-- Wave number and duration formula, kept by every call. -/
def Good (w : WaveSystem) : Prop :=
  1 ≤ w.currentWave ∧ w.waveDuration = min 60 (20 + ((w.currentWave - 1 : Int) : ℚ) * 5)

end WaveSystem

/-! ### Component records (`src/Gameplay/Components/Components.h`, `src/Core/Math/Vector2.h`) -/

/-- Two-dimensional vector, `class Vector2` (fields `x`, `y`). -/
structure Vector2 where
  x : ℚ
  y : ℚ
  deriving DecidableEq

/-- Player record, `struct Player`; field defaults as in the source. -/
structure Player where
  level : Int := 1
  experience : Int := 0
  experienceToNextLevel : Int := 10
  materials : Int := 0
  maxHealth : Int := 100
  moveSpeed : ℚ := 200
  pickupRange : ℚ := 80
  attackSpeed : ℚ := 1
  damage : Int := 10
  range : ℚ := 400
  armor : Int := 0
  healthRegen : ℚ := 0
  dodgeChance : ℚ := 0
  luck : Int := 0
  isDashing : Bool := false
  dashCooldown : ℚ := 0
  aimDirection : Vector2 := ⟨1, 0⟩
  deriving DecidableEq

namespace Player

/-- Method `Player::levelUp`. -/
def levelUp (p : Player) : Player :=
  let level := p.level + 1
  let levelIndex := level - 1
  { p with level := level
           maxHealth := p.maxHealth + 5
           damage := p.damage + 1
           moveSpeed := p.moveSpeed + 2
           experienceToNextLevel := 10 + (levelIndex * 15) + (levelIndex * levelIndex * 5) }

/-- Method `Player::canLevelUp`. -/
def canLevelUp (p : Player) : Bool := decide (p.experience ≥ p.experienceToNextLevel)

/-- Method `Player::gainExperience`. -/
def gainExperience (p : Player) (xp : Int) : Player :=
  { p with experience := p.experience + xp }

/-- Method `Player::gainMaterials`. -/
def gainMaterials (p : Player) (mats : Int) : Player :=
  { p with materials := p.materials + mats }

/-- Method `Player::getExperienceToNextLevel`. -/
def getExperienceToNextLevel (p : Player) : Int :=
  let nextLevel := p.level + 1
  (nextLevel + 3) * (nextLevel + 3)

/-- Calls that change a `Player` record. -/
inductive Call where
  | levelUp
  | gainExperience (xp : Int)
  | gainMaterials (mats : Int)

/-- Player record after one call. -/
def apply (p : Player) : Call → Player
  | Call.levelUp => p.levelUp
  | Call.gainExperience xp => p.gainExperience xp
  | Call.gainMaterials mats => p.gainMaterials mats

/-- Player record after a sequence of calls, first call first. -/
def run (p : Player) : List Call → Player
  | [] => p
  | call :: rest => run (p.apply call) rest

end Player

/-! ### Legacy game loop (`src/Game.cpp`)

`Game.h` and the headers of the classes it owns (`Player`, `Shop`, `Menu`,
`Enemy`, `Bullet`, `ExperienceOrb`, `Material`) are not among the sources.
Their objects are represented by the values that `Game.cpp` reads from them
and writes to them. Results of the random number generators are arguments. -/

/-- Modelled from the spec: `enum class GameState` of the missing `Game.h`,
with the values that `Game.cpp` names. -/
inductive Game.GameState where
  | MENU
  | PLAYING
  | GAME_OVER
  deriving DecidableEq, Repr

/-- Modelled from the spec: `enum class EnemySpawnType` of the missing
`Game.h`, with the values that `Game.cpp` names. -/
inductive Game.EnemySpawnType where
  | BASE
  | SLIME
  | PEBBLIN
  | BOSS
  deriving DecidableEq, Repr

/-- Modelled from the spec: `struct SpawnIndicator` of the missing `Game.h`
(position, telegraph duration, target enemy type, elapsed time), built by
`spawnIndicators.emplace_back(position, duration, type)`. -/
structure Game.SpawnIndicator where
  position : Vector2
  duration : ℚ
  enemyType : Game.EnemySpawnType
  elapsed : ℚ := 0
  deriving DecidableEq

/-- Modelled from the spec: an object of the missing class `Enemy`, as the
answers of its `isBoss()` and `isAlive()`. -/
structure Game.Enemy where
  isBoss : Bool
  isAlive : Bool
  deriving DecidableEq

/-- Modelled from the spec: an object of the missing class `Material`, as the
answers of its `isAlive()` and `getMaterialValue()`. -/
structure Game.Material where
  isAlive : Bool
  materialValue : Int
  deriving DecidableEq

/-- State of `class Game` that `update`, `spawnEnemies`, `isBossDefeated`,
`clearWaveEntities` and `initializeBossWaves` use. `playerHealth` and
`playerMaterials` stand for the `Player` object, `shopActive` for
`shop->isShopActive()`, `experienceOrbs` holds the `isAlive()` answers of the
orbs and `bullets` the number of bullets. -/
structure Game where
  gameState : Game.GameState
  escCooldownTimer : ℚ
  playerHealth : Int
  playerMaterials : Int
  shopActive : Bool
  wave : Int
  waveTimer : ℚ
  waveDuration : ℚ
  waveActive : Bool
  materialBag : Int
  bossSpawnedThisWave : Bool
  bossWaves : Int → Option Bool
  timeSinceLastSpawn : ℚ
  spawnTelegraphSeconds : ℚ
  spawnIndicators : List Game.SpawnIndicator
  enemies : List Game.Enemy
  experienceOrbs : List Bool
  materials : List Game.Material
  bullets : Nat

namespace Game

/-- The four assignments `bossWaves[2] = true`, `bossWaves[4] = true`,
`bossWaves[7] = true`, `bossWaves[10] = true` of `Game::initializeBossWaves`. -/
def setBossWaves (table : Int → Option Bool) : Int → Option Bool :=
  Function.update (Function.update (Function.update (Function.update table
    2 (some true)) 4 (some true)) 7 (some true)) 10 (some true)

/-- Method `Game::initializeBossWaves`. -/
def initializeBossWaves (g : Game) : Game :=
  { g with bossWaves := setBossWaves g.bossWaves }

/-- Method `Game::shouldSpawnBoss`. -/
def shouldSpawnBoss (g : Game) : Bool :=
  match g.bossWaves g.wave with
  | some flag => flag && !g.bossSpawnedThisWave
  | none => false

/-- Method `Game::isBossDefeated`. -/
def isBossDefeated (g : Game) : Bool :=
  if !g.bossSpawnedThisWave then false
  else if g.spawnIndicators.any (fun indicator => indicator.enemyType == EnemySpawnType.BOSS)
    then false
  else if g.enemies.any (fun enemy => enemy.isBoss && enemy.isAlive) then false
  else true

/-- Method `Game::clearWaveEntities`. -/
def clearWaveEntities (g : Game) : Game :=
  let bag1 := g.experienceOrbs.foldl (fun bag alive => if alive then bag + 1 else bag)
    g.materialBag
  let bag2 := g.materials.foldl
    (fun bag material => if material.isAlive then bag + material.materialValue else bag) bag1
  { g with enemies := [], experienceOrbs := [], materials := [], bullets := 0
           spawnIndicators := [], materialBag := bag2 }

/-- Value of the local `waveCompleted` in the wave block of `Game::update`,
computed after `waveTimer += deltaTime`. -/
def waveCompleted (g : Game) : Bool :=
  if g.waveTimer ≥ g.waveDuration then true
  else if g.isBossDefeated then true
  else false

/-- Wave block of `Game::update` (`if (waveActive) { ... }`). The call
`shop->openShop(wave)` is modelled from the spec: it opens the shop. -/
def waveBlock (g : Game) (deltaTime : ℚ) : Game :=
  if g.waveActive then
    let g1 := { g with waveTimer := g.waveTimer + deltaTime }
    if g1.waveCompleted then
      let g2 := g1.clearWaveEntities
      let g3 :=
        if g2.materialBag > 0 then
          { g2 with playerMaterials := g2.playerMaterials + g2.materialBag, materialBag := 0 }
        else g2
      let g4 := { g3 with shopActive := true }
      let g5 := { g4 with wave := g4.wave + 1, waveTimer := 0, bossSpawnedThisWave := false }
      if g5.waveDuration < 60 then
        let d := g5.waveDuration + 5
        { g5 with waveDuration := if d > 60 then 60 else d }
      else g5
    else g1
  else g

/-- Method `Game::update` from its start to the end of the wave block; the
flag tells whether `update` goes on to the simulation part (it returned early
otherwise). The simulation part that follows does not write `wave`,
`waveTimer` or `waveDuration`. -/
def updateWavePhase (g : Game) (deltaTime : ℚ) : Game × Bool :=
  let g1 :=
    if g.escCooldownTimer > 0 then
      let t := g.escCooldownTimer - deltaTime
      { g with escCooldownTimer := if t < 0 then 0 else t }
    else g
  if g1.gameState = GameState.MENU then (g1, false)
  else if g1.gameState ≠ GameState.PLAYING then (g1, false)
  else if g1.playerHealth ≤ 0 then ({ g1 with gameState := GameState.MENU }, false)
  else if g1.shopActive then (g1, false)
  else (g1.waveBlock deltaTime, true)

/-- Results of the random draws of one `Game::spawnEnemies` call: the corner
chosen by `getBossSpawnPosition`, the position drawn for a regular enemy and
the roll that selects its type. -/
structure SpawnRandom where
  bossPos : Vector2
  spawnPos : Vector2
  typeRoll : ℚ

/-- Method `Game::spawnEnemies`. -/
def spawnEnemies (g : Game) (r : SpawnRandom) : Game :=
  if g.bossSpawnedThisWave then g
  else if g.shouldSpawnBoss then
    { g with spawnIndicators :=
               g.spawnIndicators ++ [⟨r.bossPos, g.spawnTelegraphSeconds, EnemySpawnType.BOSS, 0⟩]
             bossSpawnedThisWave := true }
  else
    let g1 := { g with timeSinceLastSpawn := g.timeSinceLastSpawn + 0.016 }
    let spawnRate0 : ℚ := 1 - (g1.wave : ℚ) * 0.1
    let spawnRate : ℚ := if spawnRate0 < 0.2 then 0.2 else spawnRate0
    if g1.timeSinceLastSpawn ≥ spawnRate then
      let enemyType :=
        if g1.wave ≥ 2 then
          if r.typeRoll < 0.4 then EnemySpawnType.SLIME
          else if r.typeRoll < 0.8 then EnemySpawnType.PEBBLIN
          else EnemySpawnType.BASE
        else
          if r.typeRoll < 0.5 then EnemySpawnType.SLIME else EnemySpawnType.BASE
      { g1 with timeSinceLastSpawn := 0
                spawnIndicators :=
                  g1.spawnIndicators ++ [⟨r.spawnPos, g1.spawnTelegraphSeconds, enemyType, 0⟩] }
    else g1

/-- Consecutive `spawnEnemies` calls, one per element of the list of random
results. -/
def spawnRun (g : Game) : List SpawnRandom → Game
  | [] => g
  | r :: rest => spawnRun (g.spawnEnemies r) rest

/-- The boss wave table after `initializeBossWaves` on the empty table of a
newly constructed `Game`. -/
def initialBossWaves : Int → Option Bool := setBossWaves (fun _ => none)

/-- Constructor `Game::Game` followed by the `initializeBossWaves()` call of
`Game::init`. The health of the player object and the telegraph time
`spawnTelegraphSeconds` are declared in the missing headers and are
arguments. -/
def new (playerHealth : Int) (spawnTelegraphSeconds : ℚ) : Game :=
  initializeBossWaves
    { gameState := GameState.MENU
      escCooldownTimer := 0
      playerHealth := playerHealth
      playerMaterials := 0
      shopActive := false
      wave := 1
      waveTimer := 0
      waveDuration := 20
      waveActive := true
      materialBag := 0
      bossSpawnedThisWave := false
      bossWaves := fun _ => none
      timeSinceLastSpawn := 0
      spawnTelegraphSeconds := spawnTelegraphSeconds
      spawnIndicators := []
      enemies := []
      experienceOrbs := []
      materials := []
      bullets := 0 }

end Game

/-! ### Component records of the systems (`src/Gameplay/Components/Components.h`) -/

/-- Kinds of enemies, `enum class EnemyType`. -/
inductive EnemyType where
  | BASE
  | BASIC
  | FAST
  | STRONG
  | SLIME
  | PEBBLIN
  deriving DecidableEq, Repr

/-- Record `struct Transform`. -/
structure Transform where
  position : Vector2 := ⟨0, 0⟩
  rotation : ℚ := 0
  scale : Vector2 := ⟨1, 1⟩
  deriving DecidableEq

/-- Constructor `Transform(pos)` with the default rotation and scale. -/
def Transform.ofPosition (pos : Vector2) : Transform := { position := pos }

/-- Record `struct Health`. -/
structure Health where
  current : Int := 100
  maximum : Int := 100
  regeneration : ℚ := 0
  regenTimer : ℚ := 0
  invulnerable : Bool := false
  invulnerabilityTime : ℚ := 0
  deriving DecidableEq

namespace Health

/-- Constructor `Health(hp)` with the default regeneration. -/
def ofHp (hp : Int) : Health := { current := hp, maximum := hp }

/-- Method `Health::isAlive`. -/
def isAlive (h : Health) : Bool := decide (h.current > 0)

/-- Method `Health::takeDamage`. -/
def takeDamage (h : Health) (amount : Int) : Health :=
  if !h.invulnerable then { h with current := max 0 (h.current - amount) } else h

end Health

/-- Record `struct Movement`. -/
structure Movement where
  velocity : Vector2 := ⟨0, 0⟩
  speed : ℚ := 200
  acceleration : ℚ := 1000
  friction : ℚ := 9 / 10
  maxSpeed : ℚ := 500
  deriving DecidableEq

/-- Constructor `Movement(spd)`. -/
def Movement.ofSpeed (spd : ℚ) : Movement := { speed := spd, maxSpeed := spd * 2 }

/-- Record `struct Enemy`. -/
structure Enemy where
  type : EnemyType := EnemyType.BASE
  maxHealth : Int := 30
  currentHealth : Int := 30
  damage : Int := 10
  speed : ℚ := 50
  experienceValue : Int := 5
  materialValue : Int := 2
  scoreValue : Int := 10
  spawnTime : ℚ := 0
  canSplit : Bool := false
  splitCount : Int := 2
  deriving DecidableEq

/-- Record `struct Projectile`. -/
structure Projectile where
  direction : Vector2 := ⟨1, 0⟩
  speed : ℚ := 400
  damage : Int := 10
  maxRange : ℚ := 400
  travelDistance : ℚ := 0
  lifetime : ℚ := 3 / 2
  enemyOwned : Bool := false
  pierceCount : Int := 0
  explosive : Bool := false
  explosionRadius : ℚ := 0
  deriving DecidableEq

/-- Record `struct ExperienceOrb`. -/
structure ExperienceOrb where
  experienceValue : Int
  lifetime : ℚ
  collected : Bool
  magnetRadius : ℚ
  deriving DecidableEq

/-- Constructor `ExperienceOrb(xp)`. -/
def ExperienceOrb.ofXp (xp : Int) : ExperienceOrb :=
  { experienceValue := xp, lifetime := 30, collected := false, magnetRadius := 100 }

/-- Record `struct Material`. -/
structure Material where
  materialValue : Int
  experienceValue : Int
  lifetime : ℚ
  collected : Bool
  magnetRadius : ℚ
  deriving DecidableEq

/-- Constructor `Material(materials, xp)`. -/
def Material.ofValues (materials xp : Int) : Material :=
  { materialValue := materials, experienceValue := xp, lifetime := 30, collected := false
    magnetRadius := 100 }

/-- Record `struct SpawnIndicator`. -/
structure SpawnIndicator where
  enemyType : EnemyType
  elapsed : ℚ
  duration : ℚ
  completed : Bool
  deriving DecidableEq

namespace SpawnIndicator

/-- Constructor `SpawnIndicator(type, dur)`. -/
def ofType (type : EnemyType) (dur : ℚ) : SpawnIndicator :=
  { enemyType := type, elapsed := 0, duration := dur, completed := false }

/-- Method `SpawnIndicator::isComplete`. -/
def isComplete (s : SpawnIndicator) : Bool := decide (s.elapsed ≥ s.duration)

/-- Method `SpawnIndicator::update`. -/
def update (s : SpawnIndicator) (deltaTime : ℚ) : SpawnIndicator :=
  let elapsed := s.elapsed + deltaTime
  { s with elapsed := elapsed
           completed := if elapsed ≥ s.duration then true else s.completed }

end SpawnIndicator

/-- Values of all component types that the modelled systems store; the
registry of the systems is an `EntityManager Component`. -/
inductive Component where
  | transform (c : Transform)
  | health (c : Health)
  | movement (c : Movement)
  | enemy (c : Enemy)
  | projectile (c : Projectile)
  | experienceOrb (c : ExperienceOrb)
  | material (c : Material)
  | spawnIndicator (c : SpawnIndicator)
  | player (c : Player)
  deriving DecidableEq

/-! The ids that `getComponentTypeId<T>()` hands out depend on which type is
asked for first; the model fixes one assignment, and only the fact that
different types have different ids is used. -/

/-- Id of `Transform`. -/
def TypeId.transform : ComponentTypeId := 0

/-- Id of `Health`. -/
def TypeId.health : ComponentTypeId := 1

/-- Id of `Movement`. -/
def TypeId.movement : ComponentTypeId := 2

/-- Id of `Enemy`. -/
def TypeId.enemy : ComponentTypeId := 3

/-- Id of `Projectile`. -/
def TypeId.projectile : ComponentTypeId := 4

/-- Id of `ExperienceOrb`. -/
def TypeId.experienceOrb : ComponentTypeId := 5

/-- Id of `Material`. -/
def TypeId.material : ComponentTypeId := 6

/-- Id of `SpawnIndicator`. -/
def TypeId.spawnIndicator : ComponentTypeId := 7

/-- Id of `Player`. -/
def TypeId.player : ComponentTypeId := 8

namespace EntityManager

/-- Call `getComponent<Transform>(entity)`. -/
def getTransform (m : EntityManager Component) (entity : EntityId) : Option Transform :=
  match m.getComponent TypeId.transform entity with
  | some (Component.transform c) => some c
  | _ => none

/-- Call `getComponent<Health>(entity)`. -/
def getHealth (m : EntityManager Component) (entity : EntityId) : Option Health :=
  match m.getComponent TypeId.health entity with
  | some (Component.health c) => some c
  | _ => none

/-- Call `getComponent<Enemy>(entity)`. -/
def getEnemy (m : EntityManager Component) (entity : EntityId) : Option Enemy :=
  match m.getComponent TypeId.enemy entity with
  | some (Component.enemy c) => some c
  | _ => none

/-- Call `getComponent<Projectile>(entity)`. -/
def getProjectile (m : EntityManager Component) (entity : EntityId) : Option Projectile :=
  match m.getComponent TypeId.projectile entity with
  | some (Component.projectile c) => some c
  | _ => none

/-- Call `getComponent<SpawnIndicator>(entity)`. -/
def getSpawnIndicator (m : EntityManager Component) (entity : EntityId) :
    Option SpawnIndicator :=
  match m.getComponent TypeId.spawnIndicator entity with
  | some (Component.spawnIndicator c) => some c
  | _ => none

/-- Call `getComponent<ExperienceOrb>(entity)`. -/
def getExperienceOrb (m : EntityManager Component) (entity : EntityId) :
    Option ExperienceOrb :=
  match m.getComponent TypeId.experienceOrb entity with
  | some (Component.experienceOrb c) => some c
  | _ => none

/-- Call `getComponent<Material>(entity)`. -/
def getMaterial (m : EntityManager Component) (entity : EntityId) : Option Material :=
  match m.getComponent TypeId.material entity with
  | some (Component.material c) => some c
  | _ => none

/-- A new entity with the given components: `createEntity()` followed by one
`addComponent` call per listed component, in the order of the list. The
creation functions of the systems all have this shape. -/
def spawn (m : EntityManager Component) (components : List (ComponentTypeId × Component)) :
    EntityId × EntityManager Component :=
  (m.createEntity.1,
    components.foldl (fun r c => (r.addComponent c.1 m.createEntity.1 c.2).2) m.createEntity.2)

end EntityManager

/-! ### Pickup creation (`src/Gameplay/Systems/PickupSystem.cpp`) -/

namespace PickupSystem

/-- Method `PickupSystem::createExperienceOrb`: the id of the orb and the new
registry. -/
def createExperienceOrb (m : EntityManager Component) (position : Vector2)
    (experienceValue : Int) : EntityId × EntityManager Component :=
  m.spawn
    [(TypeId.transform, Component.transform (Transform.ofPosition position)),
     (TypeId.experienceOrb, Component.experienceOrb (ExperienceOrb.ofXp experienceValue))]

/-- Method `PickupSystem::createMaterial`: the id of the material and the new
registry. -/
def createMaterial (m : EntityManager Component) (position : Vector2)
    (materialValue experienceValue : Int) : EntityId × EntityManager Component :=
  m.spawn
    [(TypeId.transform, Component.transform (Transform.ofPosition position)),
     (TypeId.material, Component.material (Material.ofValues materialValue experienceValue))]

end PickupSystem

/-! ### Spawn director (`src/Gameplay/Systems/EnemySpawnSystem.cpp`) -/

namespace EnemySpawnSystem

/-- Constant `EnemySpawnSystem::SPAWN_TELEGRAPH_DURATION = 2.0f`. -/
def SPAWN_TELEGRAPH_DURATION : ℚ := 2

/-- Method `EnemySpawnSystem::createBasicEnemy`. -/
def createBasicEnemy (m : EntityManager Component) (position : Vector2) :
    EntityManager Component :=
  (m.spawn
    [(TypeId.transform, Component.transform (Transform.ofPosition position)),
     (TypeId.enemy, Component.enemy
        { type := EnemyType.BASIC, maxHealth := 30, currentHealth := 30, damage := 10
          speed := 50, experienceValue := 5, materialValue := 2 }),
     (TypeId.health, Component.health (Health.ofHp 30)),
     (TypeId.movement, Component.movement (Movement.ofSpeed 50))]).2

/-- Method `EnemySpawnSystem::createSlimeEnemy`. -/
def createSlimeEnemy (m : EntityManager Component) (position : Vector2) :
    EntityManager Component :=
  (m.spawn
    [(TypeId.transform, Component.transform (Transform.ofPosition position)),
     (TypeId.enemy, Component.enemy
        { type := EnemyType.SLIME, maxHealth := 50, currentHealth := 50, damage := 15
          speed := 40, experienceValue := 8, materialValue := 3, scoreValue := 15 }),
     (TypeId.health, Component.health (Health.ofHp 50)),
     (TypeId.movement, Component.movement (Movement.ofSpeed 40))]).2

/-- Method `EnemySpawnSystem::createPebblinEnemy`. -/
def createPebblinEnemy (m : EntityManager Component) (position : Vector2) :
    EntityManager Component :=
  (m.spawn
    [(TypeId.transform, Component.transform (Transform.ofPosition position)),
     (TypeId.enemy, Component.enemy
        { type := EnemyType.PEBBLIN, maxHealth := 20, currentHealth := 20, damage := 8
          speed := 70, experienceValue := 6, materialValue := 2, scoreValue := 12 }),
     (TypeId.health, Component.health (Health.ofHp 20)),
     (TypeId.movement, Component.movement (Movement.ofSpeed 70))]).2

/-- Method `EnemySpawnSystem::createSpawnIndicator`. -/
def createSpawnIndicator (m : EntityManager Component) (position : Vector2)
    (enemyType : EnemyType) : EntityManager Component :=
  (m.spawn
    [(TypeId.transform, Component.transform (Transform.ofPosition position)),
     (TypeId.spawnIndicator,
        Component.spawnIndicator (SpawnIndicator.ofType enemyType SPAWN_TELEGRAPH_DURATION))]).2

/-- Body of the loop of `EnemySpawnSystem::updateSpawnIndicators` for one id. -/
def updateIndicator (deltaTime : ℚ) (m : EntityManager Component) (indicatorId : EntityId) :
    EntityManager Component :=
  match m.getSpawnIndicator indicatorId with
  | some indicator =>
    if !indicator.completed then
      m.writeComponent TypeId.spawnIndicator indicatorId
        (Component.spawnIndicator (indicator.update deltaTime))
    else m
  | none => m

/-- Method `EnemySpawnSystem::updateSpawnIndicators`. -/
def updateSpawnIndicators (m : EntityManager Component) (deltaTime : ℚ) :
    EntityManager Component :=
  (m.getEntitiesWith [TypeId.transform, TypeId.spawnIndicator]).foldl (updateIndicator deltaTime) m

/-- The `switch (enemyType)` of `EnemySpawnSystem::processCompletedIndicators`:
SLIME and PEBBLIN have their own case, BASIC and `default` create a basic
enemy. -/
def createEnemyOfType (m : EntityManager Component) (enemyType : EnemyType)
    (spawnPosition : Vector2) : EntityManager Component :=
  match enemyType with
  | EnemyType.SLIME => createSlimeEnemy m spawnPosition
  | EnemyType.PEBBLIN => createPebblinEnemy m spawnPosition
  | _ => createBasicEnemy m spawnPosition

/-- Body of the loop of `EnemySpawnSystem::processCompletedIndicators` for one
id of the snapshot. -/
def processIndicator (m : EntityManager Component) (indicatorId : EntityId) :
    EntityManager Component :=
  match m.getTransform indicatorId, m.getSpawnIndicator indicatorId with
  | some transform, some indicator =>
    if indicator.isComplete then
      let spawnPosition := transform.position
      let enemyType := indicator.enemyType
      (createEnemyOfType m enemyType spawnPosition).destroyEntity indicatorId
    else m
  | _, _ => m

/-- Method `EnemySpawnSystem::processCompletedIndicators`. -/
def processCompletedIndicators (m : EntityManager Component) : EntityManager Component :=
  (m.getEntitiesWith [TypeId.transform, TypeId.spawnIndicator]).foldl processIndicator m

/-- Test made by the loop body: the entity has a `Transform` and a
`SpawnIndicator` whose elapsed time has reached its duration. -/
def isCompleteIndicator (m : EntityManager Component) (entity : EntityId) : Bool :=
  match m.getTransform entity, m.getSpawnIndicator entity with
  | some _, some indicator => indicator.isComplete
  | _, _ => false

/-- Enemy type that the claim assigns to an indicator type: SLIME and PEBBLIN
spawn themselves, every other type spawns BASIC. -/
def spawnedType : EnemyType → EnemyType
  | EnemyType.SLIME => EnemyType.SLIME
  | EnemyType.PEBBLIN => EnemyType.PEBBLIN
  | _ => EnemyType.BASIC

end EnemySpawnSystem

namespace EnemySpawnSystem

/-- A registry in which the only entity is a spawn indicator: a new registry
after `createEntity` and the two `addComponent` calls for its `Transform` and
its `SpawnIndicator`. -/
def indicatorAt (position : Vector2) (indicator : SpawnIndicator) : EntityManager Component :=
  ((EntityManager.new : EntityManager Component).spawn
    [(TypeId.transform, Component.transform (Transform.ofPosition position)),
     (TypeId.spawnIndicator, Component.spawnIndicator indicator)]).2

end EnemySpawnSystem

/-- Entity `X` is the same in `m1` as in `m`: same validity, and the same value
(or absence) of every component type. -/
def EntityManager.Unchanged {T : Type} (m m1 : EntityManager T) (X : EntityId) : Prop :=
  m1.isEntityValid X = m.isEntityValid X ∧ ∀ t, m1.getComponent t X = m.getComponent t X

/-! ### Collision resolution (`src/Gameplay/Systems/CollisionSystem.h`, `CollisionSystem.cpp`)

`float` is modelled by `ℚ`, and the result of `std::sqrt` by the exact square
root, kept as its radicand (`Root`) so that comparing it with a rational stays
decidable; rounding is not modelled here (the binary32 version of the circle
test is `Binary32.isCircleCollision`). The numbers returned by `dist(gen)` come
from a `RandomSource`. The pickup system that `destroyEnemy` calls works on the same
registry (`GameplayManager.cpp` hands one `EntityManager` to both systems). -/

/-- A value `std::sqrt(radicand)` in exact arithmetic: the non-negative real
number whose square is `radicand`. -/
structure Root where
  radicand : ℚ

/-- Call `std::sqrt(x)`. -/
def Root.sqrt (x : ℚ) : Root := ⟨x⟩

/-- Test `root <= bound` for a rational bound: the square root of `s` is at
most `b` exactly when `b` is not negative and `s ≤ b * b`. The square root of
a negative number is NaN, for which every comparison is false. -/
def Root.le (root : Root) (bound : ℚ) : Bool :=
  decide (0 ≤ root.radicand ∧ 0 ≤ bound ∧ root.radicand ≤ bound * bound)

/-- The generator behind `dist(gen)`: the sequence of numbers it will return
and how many have been taken. -/
structure RandomSource where
  draws : Nat → ℚ
  taken : Nat := 0

/-- One call `dist(gen)`: the number and the advanced generator. -/
def RandomSource.next (r : RandomSource) : ℚ × RandomSource :=
  (r.draws r.taken, { r with taken := r.taken + 1 })

/-- Fields of `class CollisionSystem` other than the registry: whether
`pickupSystem` is set, the wave controller `waveSystem` points to (if set), and
`playerEntity`. -/
structure CollisionSystem where
  pickupSystem : Bool
  waveSystem : Option WaveSystem
  playerEntity : EntityId := INVALID_ENTITY_ID

namespace CollisionSystem

/-- Constant `CollisionSystem::PLAYER_RADIUS`. -/
def PLAYER_RADIUS : ℚ := 20

/-- Constant `CollisionSystem::ENEMY_RADIUS`. -/
def ENEMY_RADIUS : ℚ := 15

/-- Constant `CollisionSystem::BULLET_RADIUS`. -/
def BULLET_RADIUS : ℚ := 3

/-- Constant `CollisionSystem::ENEMY_CONTACT_DAMAGE`. -/
def ENEMY_CONTACT_DAMAGE : Int := 10

/-- Method `CollisionSystem::getDistance` in exact arithmetic; with the rounding
of `float` it is `Binary32.getDistance`. -/
def getDistance (pos1 pos2 : Vector2) : Root :=
  let diffX := pos2.x - pos1.x
  let diffY := pos2.y - pos1.y
  Root.sqrt (diffX * diffX + diffY * diffY)

/-- Method `CollisionSystem::isCircleCollision` in exact arithmetic; with the
rounding of `float` it is `Binary32.isCircleCollision`. -/
def isCircleCollision (pos1 : Vector2) (radius1 : ℚ) (pos2 : Vector2) (radius2 : ℚ) : Bool :=
  let distance := getDistance pos1 pos2
  distance.le (radius1 + radius2)

/-- Method `CollisionSystem::destroyEnemy`: the new registry and the advanced
generator. The second `dist(gen)` call only chooses the text of the log line. -/
def destroyEnemy (cs : CollisionSystem) (m : EntityManager Component) (rng : RandomSource)
    (enemyId : EntityId) : EntityManager Component × RandomSource :=
  match m.getTransform enemyId, m.getEnemy enemyId, cs.pickupSystem with
  | some enemyTransform, some _, true =>
    let dropPosition := enemyTransform.position
    let xpValue : Int :=
      match cs.waveSystem with
      | some w => 1 + Int.tdiv w.getCurrentWave 5
      | none => 1
    let m1 := (PickupSystem.createExperienceOrb m dropPosition xpValue).2
    let materialDropChance : ℚ :=
      match cs.waveSystem with
      | some w =>
        let chance : ℚ := 7 / 10 + (w.getCurrentWave : ℚ) * (1 / 20)
        if chance > 19 / 20 then 19 / 20 else chance
      | none => 7 / 10
    let d1 := rng.next
    let m2 :=
      if d1.1 < materialDropChance then
        let materialValue : Int :=
          match cs.waveSystem with
          | some w => 2 + Int.tdiv w.getCurrentWave 3
          | none => 2
        (PickupSystem.createMaterial m1 dropPosition materialValue 1).2
      else m1
    let d2 := d1.2.next
    (m2.destroyEntity enemyId, d2.2)
  | _, _, _ => (m.destroyEntity enemyId, rng)

/-- Body of the `if (isCircleCollision(...))` block of
`checkBulletEnemyCollisions`: damage the enemy, run `destroyEnemy` when it is no
longer alive, destroy the bullet. -/
def hitEnemy (cs : CollisionSystem) (m : EntityManager Component) (rng : RandomSource)
    (bulletId : EntityId) (projectile : Projectile) (enemyId : EntityId) :
    EntityManager Component × RandomSource :=
  let r : EntityManager Component × RandomSource :=
    match m.getHealth enemyId with
    | some enemyHealth =>
      let damaged := enemyHealth.takeDamage projectile.damage
      let m1 := m.writeComponent TypeId.health enemyId (Component.health damaged)
      if !damaged.isAlive then destroyEnemy cs m1 rng enemyId else (m1, rng)
    | none => (m, rng)
  (r.1.destroyEntity bulletId, r.2)

/-- Test of the inner loop of `checkBulletEnemyCollisions` for one enemy id:
the entity has a `Transform` and an `Enemy`, and its circle meets the circle of
the bullet. -/
def hits (m : EntityManager Component) (bulletPosition : Vector2) (enemyId : EntityId) : Bool :=
  match m.getTransform enemyId, m.getEnemy enemyId with
  | some enemyTransform, some _ =>
    isCircleCollision bulletPosition BULLET_RADIUS enemyTransform.position ENEMY_RADIUS
  | _, _ => false

/-- Inner loop of `checkBulletEnemyCollisions` over the snapshot `enemies`: the
first enemy that passes the test is hit and the loop is left (`break`). -/
def scanEnemies (cs : CollisionSystem) (m : EntityManager Component) (rng : RandomSource)
    (bulletId : EntityId) (bulletTransform : Transform) (projectile : Projectile) :
    List EntityId → EntityManager Component × RandomSource
  | [] => (m, rng)
  | enemyId :: rest =>
    match m.getTransform enemyId, m.getEnemy enemyId with
    | some enemyTransform, some _ =>
      if isCircleCollision bulletTransform.position BULLET_RADIUS enemyTransform.position
          ENEMY_RADIUS then
        hitEnemy cs m rng bulletId projectile enemyId
      else scanEnemies cs m rng bulletId bulletTransform projectile rest
    | _, _ => scanEnemies cs m rng bulletId bulletTransform projectile rest

/-- Body of the outer loop of `checkBulletEnemyCollisions` for one bullet id. -/
def processBullet (cs : CollisionSystem) (enemies : List EntityId)
    (s : EntityManager Component × RandomSource) (bulletId : EntityId) :
    EntityManager Component × RandomSource :=
  match s.1.getTransform bulletId, s.1.getProjectile bulletId with
  | some bulletTransform, some projectile =>
    scanEnemies cs s.1 s.2 bulletId bulletTransform projectile enemies
  | _, _ => s

/-- Method `CollisionSystem::checkBulletEnemyCollisions`. -/
def checkBulletEnemyCollisions (cs : CollisionSystem) (m : EntityManager Component)
    (rng : RandomSource) : EntityManager Component × RandomSource :=
  let bullets := m.getEntitiesWith [TypeId.transform, TypeId.projectile]
  let enemies := m.getEntitiesWith [TypeId.transform, TypeId.enemy]
  bullets.foldl (processBullet cs enemies) (m, rng)

/-- A registry with two entities at the origin: entity 1 is an enemy with the
given `Health`, entity 2 a projectile. -/
def duel (enemyHealth : Health) (projectile : Projectile) : EntityManager Component :=
  (((EntityManager.new : EntityManager Component).spawn
    [(TypeId.transform, Component.transform (Transform.ofPosition ⟨0, 0⟩)),
     (TypeId.enemy, Component.enemy {}),
     (TypeId.health, Component.health enemyHealth)]).2.spawn
    [(TypeId.transform, Component.transform (Transform.ofPosition ⟨0, 0⟩)),
     (TypeId.projectile, Component.projectile projectile)]).2

end CollisionSystem

/-- Call `getComponent<Player>(entity)`. -/
def EntityManager.getPlayer (m : EntityManager Component) (entity : EntityId) : Option Player :=
  match m.getComponent TypeId.player entity with
  | some (Component.player c) => some c
  | _ => none

/-! ### Shop (`src/Gameplay/Systems/ShopSystem.h`, `ShopSystem.cpp`)

The display strings `name` and `description` of a `ShopItem` are functions of
its weapon type and tier that only the console and the renderer read; they are
left out, as are the texture tables and the rendering code. A call of a
`std::uniform_int_distribution<int>(a, b)` on the generator of the shop yields
some value between `a` and `b`; the values come from a `Generator`. -/

/-- States of the shop, `enum class ShopState`. -/
inductive ShopState where
  | CLOSED
  | OPENING
  | OPEN
  | CLOSING
  deriving DecidableEq, Repr

/-- Kinds of shop items, `enum class ShopItemType`. -/
inductive ShopItemType where
  | WEAPON
  | ITEM
  deriving DecidableEq, Repr

/-- Weapon types, `enum class WeaponType` of `src/Core/Events/GameEvents.h`. -/
inductive WeaponType where
  | PISTOL
  | SMG
  | SHOTGUN
  | RAILGUN
  | MELEE_STICK
  deriving DecidableEq, Repr

/-- Weapon tiers, `enum class WeaponTier`. -/
inductive WeaponTier where
  | TIER_1
  | TIER_2
  | TIER_3
  | TIER_4
  deriving DecidableEq, Repr

/-- Record `struct ShopItem` without its display strings. -/
structure ShopItem where
  type : ShopItemType
  weaponType : WeaponType
  tier : WeaponTier
  price : Int
  locked : Bool
  deriving DecidableEq, Repr

/-- Constructor `ShopItem(wType, wTier, cost)`. -/
def ShopItem.new (wType : WeaponType) (wTier : WeaponTier) (cost : Int) : ShopItem :=
  { type := ShopItemType.WEAPON, weaponType := wType, tier := wTier, price := cost
    locked := false }

/-- The random engine of the shop, `std::mt19937 randomGenerator`, as the
sequence of numbers from which the following distribution calls are answered
and how many have been used. -/
structure Generator where
  outputs : Nat → Nat
  taken : Nat := 0

/-- One call `std::uniform_int_distribution<int>(a, b)(generator)` with
`a ≤ b`: a value between `a` and `b`, and the advanced generator. -/
def Generator.uniformInt (g : Generator) (a b : Int) : Int × Generator :=
  (a + (g.outputs g.taken : Int) % (b - a + 1), { g with taken := g.taken + 1 })

/-- Keys that `InputManager::isKeyPressed` reports as pressed in this frame,
for the keys the shop asks about. -/
structure KeyInput where
  escape : Bool := false
  space : Bool := false
  r : Bool := false
  num1 : Bool := false
  num2 : Bool := false
  num3 : Bool := false
  num4 : Bool := false
  deriving DecidableEq, Repr

/-- Fields of `class ShopSystem` that the shop logic reads or writes. The
registry and the wave controller behind the two shared pointers are arguments
of the methods that use them. -/
structure ShopSystem where
  playerEntity : EntityId := INVALID_ENTITY_ID
  shopState : ShopState := ShopState.CLOSED
  currentWave : Int := 0
  rerollCount : Int := 0
  items : List ShopItem := []
  hoveredItem : Int := -1
  selectedItem : Int := 0
  lastMousePressed : Bool := false
  rPressed : Bool := false
  escapePressed : Bool := false
  spacePressed : Bool := false
  randomGenerator : Generator

namespace ShopSystem

/-- Constant `ShopSystem::MAX_SHOP_ITEMS`. -/
def MAX_SHOP_ITEMS : Nat := 4

/-- Constructor `ShopSystem::ShopSystem`, for a given seeded engine. -/
def new (randomGenerator : Generator) : ShopSystem := { randomGenerator := randomGenerator }

/-- Method `ShopSystem::isShopActive`. -/
def isShopActive (s : ShopSystem) : Bool := decide (s.shopState = ShopState.OPEN)

/-- Method `ShopSystem::calculateItemPrice`. -/
def calculateItemPrice (weaponType : WeaponType) (tier : WeaponTier) (_waveNumber : Int) : Int :=
  let basePrice : Int :=
    match tier with
    | WeaponTier.TIER_1 => 15
    | WeaponTier.TIER_2 => 25
    | WeaponTier.TIER_3 => 40
    | WeaponTier.TIER_4 => 60
  let basePrice : Int :=
    match weaponType with
    | WeaponType.PISTOL => basePrice
    | WeaponType.SMG => basePrice + 5
    | WeaponType.SHOTGUN => basePrice + 10
    | WeaponType.RAILGUN => basePrice + 20
    | WeaponType.MELEE_STICK => basePrice - 5
  max 5 basePrice

/-- Method `ShopSystem::calculateRerollPrice`. -/
def calculateRerollPrice (waveNumber rerollCount : Int) : Int :=
  let basePrice := 2 + waveNumber
  basePrice + (rerollCount * 2)

/-- Method `ShopSystem::canItemAppear`. -/
def canItemAppear (_weaponType : WeaponType) (tier : WeaponTier) (waveNumber : Int) : Bool :=
  match tier with
  | WeaponTier.TIER_1 => true
  | WeaponTier.TIER_2 => decide (waveNumber ≥ 2)
  | WeaponTier.TIER_3 => decide (waveNumber ≥ 4)
  | WeaponTier.TIER_4 => decide (waveNumber ≥ 8)

/-- The vector `availableTiers` that `generateItems` fills for a wave. -/
def availableTiers (waveNumber : Int) : List WeaponTier :=
  [WeaponTier.TIER_1] ++ (if waveNumber ≥ 2 then [WeaponTier.TIER_2] else []) ++
    (if waveNumber ≥ 4 then [WeaponTier.TIER_3] else []) ++
    (if waveNumber ≥ 8 then [WeaponTier.TIER_4] else [])

/-- Body of the loop of `ShopSystem::generateItems`: one offer and the advanced
engine. The index drawn for `availableTiers` is always inside the vector. -/
def generateItem (waveNumber : Int) (g : Generator) : ShopItem × Generator :=
  let d1 := g.uniformInt 0 1
  let weaponType := if d1.1 = 0 then WeaponType.PISTOL else WeaponType.SMG
  let tiers := availableTiers waveNumber
  let d2 := d1.2.uniformInt 0 ((tiers.length : Int) - 1)
  let tier := tiers.getD d2.1.toNat WeaponTier.TIER_1
  let price := calculateItemPrice weaponType tier waveNumber
  (ShopItem.new weaponType tier price, d2.2)

/-- Method `ShopSystem::generateItems` (the parameter `playerLuck` is not
used by the body). -/
def generateItems (s : ShopSystem) (waveNumber : Int) (_playerLuck : Int := 0) : ShopSystem :=
  (List.range MAX_SHOP_ITEMS).foldl
    (fun (s : ShopSystem) (_ : Nat) =>
      let r := generateItem waveNumber s.randomGenerator
      { s with items := s.items ++ [r.1], randomGenerator := r.2 })
    { s with items := [] }

/-- Method `ShopSystem::openShop` (`onShopOpen` only prints). -/
def openShop (s : ShopSystem) (waveNumber : Int) : ShopSystem :=
  if s.shopState ≠ ShopState.CLOSED then s
  else
    generateItems
      { s with shopState := ShopState.OPEN
               currentWave := waveNumber
               rerollCount := 0
               selectedItem := 0
               hoveredItem := -1 }
      waveNumber

/-- Method `ShopSystem::closeShop`, with the wave controller that the pointer
`waveSystem` refers to (`none` for a null pointer): the new shop and the new
wave controller. -/
def closeShop (s : ShopSystem) (waveSystem : Option WaveSystem) :
    ShopSystem × Option WaveSystem :=
  if s.shopState ≠ ShopState.OPEN then (s, waveSystem)
  else
    ({ s with shopState := ShopState.CLOSED, items := [] },
      match waveSystem with
      | some w => some w.closeShop
      | none => none)

/-- The `switch (item.weaponType)` of `ShopSystem::buyItem`. -/
def applyWeaponBonus (playerComp : Player) (weaponType : WeaponType) : Player :=
  match weaponType with
  | WeaponType.PISTOL => { playerComp with damage := playerComp.damage + 5 }
  | WeaponType.SMG =>
    { playerComp with attackSpeed := playerComp.attackSpeed * (3 / 2)
                      damage := playerComp.damage + 2 }
  | WeaponType.SHOTGUN =>
    { playerComp with damage := playerComp.damage + 10
                      attackSpeed := playerComp.attackSpeed * (7 / 10) }
  | WeaponType.RAILGUN =>
    { playerComp with damage := playerComp.damage + 20
                      attackSpeed := playerComp.attackSpeed * (1 / 2) }
  | WeaponType.MELEE_STICK => { playerComp with damage := playerComp.damage + 15 }

/-- Method `ShopSystem::buyItem`: the new shop and the new registry. -/
def buyItem (s : ShopSystem) (m : EntityManager Component) (index : Int) :
    ShopSystem × EntityManager Component :=
  if index < 0 ∨ index ≥ (s.items.length : Int) then (s, m)
  else
    match m.getPlayer s.playerEntity with
    | none => (s, m)
    | some playerComp =>
      match s.items.get? index.toNat with
      | none => (s, m)
      | some item =>
        if playerComp.materials < item.price then (s, m)
        else
          let playerComp1 := { playerComp with materials := playerComp.materials - item.price }
          let playerComp2 := applyWeaponBonus playerComp1 item.weaponType
          ({ s with items := s.items.eraseIdx index.toNat },
            m.writeComponent TypeId.player s.playerEntity (Component.player playerComp2))

/-- Method `ShopSystem::lockItem`. -/
def lockItem (s : ShopSystem) (index : Int) : ShopSystem :=
  if index ≥ 0 ∧ index < (s.items.length : Int) then
    { s with
      items := List.modify (fun item => { item with locked := !item.locked }) index.toNat s.items }
  else s

/-- The loop of `ShopSystem::rerollItems` that puts the saved locked offers
back: slot `i` of the new list receives the `i`-th saved offer as long as both
exist. -/
def restoreLocked : List ShopItem → List ShopItem → List ShopItem
  | _ :: items, lockedItem :: lockedItems => lockedItem :: restoreLocked items lockedItems
  | items, [] => items
  | [], _ :: _ => []

/-- Method `ShopSystem::rerollItems`: the new shop and the new registry. -/
def rerollItems (s : ShopSystem) (m : EntityManager Component) :
    ShopSystem × EntityManager Component :=
  match m.getPlayer s.playerEntity with
  | none => (s, m)
  | some playerComp =>
    let rerollPrice := calculateRerollPrice s.currentWave s.rerollCount
    if playerComp.materials < rerollPrice then (s, m)
    else
      let m1 := m.writeComponent TypeId.player s.playerEntity
        (Component.player { playerComp with materials := playerComp.materials - rerollPrice })
      let s1 := { s with rerollCount := s.rerollCount + 1 }
      let lockedItems := s1.items.filter (fun item => item.locked)
      let s2 := generateItems s1 s1.currentWave
      ({ s2 with items := restoreLocked s2.items lockedItems }, m1)

/-- State that the shop methods work on together: the shop, the wave
controller behind its pointer and the registry. -/
structure Session where
  shop : ShopSystem
  waveSystem : Option WaveSystem
  entityManager : EntityManager Component

/-- Method `ShopSystem::handleInput` for the keys that the input manager
reports (`none` when the shop has no input manager). -/
def handleInput (x : Session) (input : Option KeyInput) : Session :=
  match input with
  | none => x
  | some keys =>
    let x1 : Session :=
      if keys.escape ∧ !x.shop.escapePressed then
        let r := x.shop.closeShop x.waveSystem
        { x with shop := r.1, waveSystem := r.2 }
      else x
    let x2 : Session := { x1 with shop := { x1.shop with escapePressed := keys.escape } }
    let x3 : Session :=
      if keys.space ∧ !x2.shop.spacePressed then
        let r := x2.shop.closeShop x2.waveSystem
        { x2 with shop := r.1, waveSystem := r.2 }
      else x2
    let x4 : Session := { x3 with shop := { x3.shop with spacePressed := keys.space } }
    let x5 : Session :=
      if keys.r ∧ !x4.shop.rPressed then
        let r := x4.shop.rerollItems x4.entityManager
        { x4 with shop := r.1, entityManager := r.2 }
      else x4
    let x6 : Session := { x5 with shop := { x5.shop with rPressed := keys.r } }
    let buy (x : Session) (pressed : Bool) (index : Int) : Session :=
      if pressed then
        let r := x.shop.buyItem x.entityManager index
        { x with shop := r.1, entityManager := r.2 }
      else x
    buy (buy (buy (buy x6 keys.num1 0) keys.num2 1) keys.num3 2) keys.num4 3

/-- Method `ShopSystem::update`. -/
def update (x : Session) (input : Option KeyInput) : Session :=
  if x.shop.shopState = ShopState.OPEN then handleInput x input else x

/-- Shop actions of the player. -/
inductive Action where
  | buyItem (index : Int)
  | lockItem (index : Int)
  | rerollItems
  deriving DecidableEq, Repr

/-- Shop and registry after one shop action. -/
def act (x : ShopSystem × EntityManager Component) :
    Action → ShopSystem × EntityManager Component
  | Action.buyItem index => x.1.buyItem x.2 index
  | Action.lockItem index => (x.1.lockItem index, x.2)
  | Action.rerollItems => x.1.rerollItems x.2

/-- Shop and registry after a sequence of shop actions, first action first. -/
def actAll (x : ShopSystem × EntityManager Component) :
    List Action → ShopSystem × EntityManager Component
  | [] => x
  | a :: rest => actAll (act x a) rest

/-- Whether `rerollItems` would go through: the player exists and has at least
the reroll price. -/
def canReroll (x : ShopSystem × EntityManager Component) : Bool :=
  match x.2.getPlayer x.1.playerEntity with
  | some playerComp =>
    decide (calculateRerollPrice x.1.currentWave x.1.rerollCount ≤ playerComp.materials)
  | none => false

/-- Number of `rerollItems` actions of the sequence that go through. -/
def successfulRerolls (x : ShopSystem × EntityManager Component) : List Action → Nat
  | [] => 0
  | a :: rest =>
    (if a = Action.rerollItems ∧ canReroll x = true then 1 else 0) +
      successfulRerolls (act x a) rest

/-- Base price of a tier in the price table of the specification. -/
def tierBase : WeaponTier → Int
  | WeaponTier.TIER_1 => 15
  | WeaponTier.TIER_2 => 25
  | WeaponTier.TIER_3 => 40
  | WeaponTier.TIER_4 => 60

/-- Price modifier of a weapon type in the price table of the specification. -/
def typeModifier : WeaponType → Int
  | WeaponType.PISTOL => 0
  | WeaponType.SMG => 5
  | WeaponType.SHOTGUN => 10
  | WeaponType.RAILGUN => 20
  | WeaponType.MELEE_STICK => -5

/-- An offer as the specification describes a generated one for wave `w`: an
unlocked weapon whose tier passes the wave gate and whose price is the tier
base plus the type modifier, floored at 5. -/
def FreshOffer (w : Int) (item : ShopItem) : Prop :=
  item.type = ShopItemType.WEAPON ∧ item.locked = false ∧
  (item.tier = WeaponTier.TIER_2 → 2 ≤ w) ∧
  (item.tier = WeaponTier.TIER_3 → 4 ≤ w) ∧
  (item.tier = WeaponTier.TIER_4 → 8 ≤ w) ∧
  item.price = max 5 (tierBase item.tier + typeModifier item.weaponType) ∧
  item.price = tierBase item.tier + typeModifier item.weaponType

end ShopSystem

/-- A registry whose only entity, number 1, carries the given `Player` record:
a new registry after `createEntity` and `addComponent<Player>`. -/
def ShopSystem.lonePlayer (player : Player) : EntityManager Component :=
  ((EntityManager.new : EntityManager Component).spawn
    [(TypeId.player, Component.player player)]).2

/-! ### Pickup collection (`src/Gameplay/Systems/PickupSystem.cpp`)

The field `playerEntity` of the pickup system is an argument. A result `none`
stands for the dereference of a null pointer. -/

namespace PickupSystem

/-- Method `PickupSystem::applyPlayerLevelUp`: the new value of the `Health`
record it is given. -/
def applyPlayerLevelUp (player : Player) (health : Health) : Health :=
  { health with current := player.maxHealth, maximum := player.maxHealth }

/-- The block `if (player->canLevelUp()) { player->levelUp();
applyPlayerLevelUp(*player, *health); }` that both collect methods run on the
player record after the gains, followed by the write of the record; `health`
is what the pointer `health` refers to. -/
def levelUpCheck (playerEntity : EntityId) (m : EntityManager Component) (player : Player)
    (health : Option Health) : Option (EntityManager Component) :=
  if player.canLevelUp then
    let player1 := player.levelUp
    match health with
    | some h =>
      some ((m.writeComponent TypeId.player playerEntity
        (Component.player player1)).writeComponent TypeId.health playerEntity
          (Component.health (applyPlayerLevelUp player1 h)))
    | none => none
  else some (m.writeComponent TypeId.player playerEntity (Component.player player))

/-- Method `PickupSystem::collectExperienceOrb`. -/
def collectExperienceOrb (playerEntity : EntityId) (m : EntityManager Component)
    (orbId : EntityId) (orb : ExperienceOrb) : Option (EntityManager Component) :=
  let health := m.getHealth playerEntity
  match m.getPlayer playerEntity with
  | some player =>
    (levelUpCheck playerEntity m (player.gainExperience orb.experienceValue) health).map
      (fun m1 => m1.destroyEntity orbId)
  | none => some (m.destroyEntity orbId)

/-- Method `PickupSystem::collectMaterial`. -/
def collectMaterial (playerEntity : EntityId) (m : EntityManager Component)
    (materialId : EntityId) (material : Material) : Option (EntityManager Component) :=
  let health := m.getHealth playerEntity
  match m.getPlayer playerEntity with
  | some player =>
    (levelUpCheck playerEntity m
      ((player.gainMaterials material.materialValue).gainExperience material.experienceValue)
      health).map (fun m1 => m1.destroyEntity materialId)
  | none => some (m.destroyEntity materialId)

/-- A registry whose only entity, number 1, is a player with the given `Player`
and `Health` records. -/
def hero (player : Player) (health : Health) : EntityManager Component :=
  ((EntityManager.new : EntityManager Component).spawn
    [(TypeId.player, Component.player player), (TypeId.health, Component.health health)]).2

end PickupSystem

/-! ### Game loop of the systems (`src/Gameplay/World/GameplayManager.cpp`)

Of the systems that `GameplayManager` owns, the wave controller and the shop
are modelled as fields; the pointer `waveSystem` of the shop refers to the wave
controller of the manager (`initialize` sets it). The other systems that
`update` runs (movement, spawning, enemy AI, shooting, projectiles, collisions,
pickups) work on the registry only and never call a method that changes the
wave controller or the shop; what they do to the registry in one frame is the
argument `world` of `update`. -/

/-- Method `WaveSystem::getWaveState`. -/
def WaveSystem.getWaveState (w : WaveSystem) : WaveState := w.waveState

/-- Fields of `class GameplayManager`. -/
structure GameplayManager where
  entityManager : EntityManager Component
  waveSystem : Option WaveSystem
  shopSystem : Option ShopSystem
  playerId : EntityId := INVALID_ENTITY_ID
  gameTime : ℚ := 0

namespace GameplayManager

/-- Method `GameplayManager::createPlayer`: the id of the player and the new
registry. -/
def createPlayer (m : EntityManager Component) : EntityId × EntityManager Component :=
  m.spawn
    [(TypeId.transform, Component.transform (Transform.ofPosition ⟨1920 / 2, 1080 / 2⟩)),
     (TypeId.movement, Component.movement (Movement.ofSpeed 200)),
     (TypeId.player, Component.player
        { level := 1, experience := 0, materials := 50, pickupRange := 50
          aimDirection := ⟨1, 0⟩ }),
     (TypeId.health, Component.health (Health.ofHp 100))]

/-- The manager after a successful `GameplayManager::initialize`, for a given
seeded engine of the shop: a new registry with the player, a wave controller
on which `startWave` has been called, and a new shop that knows the player. -/
def start (randomGenerator : Generator) : GameplayManager :=
  let r := createPlayer (EntityManager.new : EntityManager Component)
  { entityManager := r.2
    waveSystem := some WaveSystem.new.startWave
    shopSystem := some { ShopSystem.new randomGenerator with playerEntity := r.1 }
    playerId := r.1
    gameTime := 0 }

/-- Method `GameplayManager::isPlayerAlive`. -/
def isPlayerAlive (g : GameplayManager) : Bool :=
  if g.playerId = INVALID_ENTITY_ID then false
  else
    match g.entityManager.getHealth g.playerId with
    | some playerHealth => playerHealth.isAlive
    | none => false

/-- The block of `GameplayManager::update` that updates the wave controller and
opens the shop after a completed wave. -/
def updateWave (g : GameplayManager) (deltaTime : ℚ) : GameplayManager :=
  match g.waveSystem with
  | some w =>
    let w1 := w.update deltaTime
    let shopSystem :=
      match g.shopSystem with
      | some s =>
        if w1.getWaveState = WaveState.COMPLETED ∧ !s.isShopActive then
          some (s.openShop (w1.getCurrentWave - 1))
        else some s
      | none => none
    { g with waveSystem := some w1, shopSystem := shopSystem }
  | none => g

/-- The block of `GameplayManager::update` that updates the shop. -/
def updateShop (g : GameplayManager) (input : Option KeyInput) : GameplayManager :=
  match g.shopSystem with
  | some s =>
    let x := ShopSystem.update ⟨s, g.waveSystem, g.entityManager⟩ input
    { g with shopSystem := some x.shop, waveSystem := x.waveSystem
             entityManager := x.entityManager }
  | none => g

/-- Method `GameplayManager::update` for the keys reported in this frame. -/
def update (g : GameplayManager) (deltaTime : ℚ) (input : Option KeyInput)
    (world : EntityManager Component → EntityManager Component) : GameplayManager :=
  let g1 := { g with gameTime := g.gameTime + deltaTime }
  if !g1.isPlayerAlive then g1
  else
    let g2 := updateShop (updateWave g1 deltaTime) input
    { g2 with entityManager := world g2.entityManager }

/-- One frame: the arguments of one `update` call. -/
structure Frame where
  deltaTime : ℚ
  input : Option KeyInput
  world : EntityManager Component → EntityManager Component

/-- The manager after a sequence of frames, first frame first. -/
def run (g : GameplayManager) : List Frame → GameplayManager
  | [] => g
  | f :: rest => run (g.update f.deltaTime f.input f.world) rest

/-- State of the wave controller, if there is one. -/
def waveState (g : GameplayManager) : Option WaveState := g.waveSystem.map (fun w => w.waveState)

/-- State of the shop, if there is one. -/
def shopState (g : GameplayManager) : Option ShopState := g.shopSystem.map (fun s => s.shopState)

end GameplayManager

/-! ### Contact between enemies and the player (`CollisionSystem::checkEnemyPlayerCollisions`)

The quotient of a `float` by a square root is in general not rational, so
`Vector2::normalized` takes the division `x / len` as an argument; everything
proved about it holds for every such division. -/

/-- Operator `Vector2::operator+`. -/
def Vector2.add (a other : Vector2) : Vector2 := ⟨a.x + other.x, a.y + other.y⟩

/-- Operator `Vector2::operator-`. -/
def Vector2.sub (a other : Vector2) : Vector2 := ⟨a.x - other.x, a.y - other.y⟩

/-- Operator `Vector2::operator*` with a scalar. -/
def Vector2.scale (a : Vector2) (scalar : ℚ) : Vector2 := ⟨a.x * scalar, a.y * scalar⟩

/-- Method `Vector2::length`. -/
def Vector2.length (a : Vector2) : Root := Root.sqrt (a.x * a.x + a.y * a.y)

/-- Test `root > bound` for a rational bound: the square root of `s` is greater
than `b` exactly when `b` is negative or `b * b < s`. The square root of a
negative number is NaN, for which every comparison is false. -/
def Root.gt (root : Root) (bound : ℚ) : Bool :=
  decide (0 ≤ root.radicand ∧ (bound < 0 ∨ bound * bound < root.radicand))

/-- Method `Vector2::normalized`; `quotient x len` is the division `x / len`. -/
def Vector2.normalized (quotient : ℚ → Root → ℚ) (a : Vector2) : Vector2 :=
  let len := a.length
  if len.gt (1 / 1000) then ⟨quotient a.x len, quotient a.y len⟩ else ⟨0, 0⟩

namespace CollisionSystem

/-- Method `CollisionSystem::damagePlayer`. -/
def damagePlayer (m : EntityManager Component) (playerId : EntityId) (damage : Int) :
    EntityManager Component :=
  match m.getHealth playerId with
  | some playerHealth =>
    m.writeComponent TypeId.health playerId (Component.health (playerHealth.takeDamage damage))
  | none => m

/-- Statements `pushDirection = (enemyTransform->position -
playerTransform->position).normalized()` and
`enemyTransform->position += pushDirection * 5.0f`: the new value of the record
`enemyTransform` points to. -/
def pushAway (quotient : ℚ → Root → ℚ) (enemyTransform playerTransform : Transform) :
    Transform :=
  let pushDirection :=
    (enemyTransform.position.sub playerTransform.position).normalized quotient
  { enemyTransform with position := enemyTransform.position.add (pushDirection.scale 5) }

/-- Body of the `if (isCircleCollision(...))` block of
`checkEnemyPlayerCollisions` up to the test for the death of the player: damage
the player, push the enemy. `damagePlayer` changes no `Transform`, so the
positions read after it are the ones read before it. -/
def strike (cs : CollisionSystem) (quotient : ℚ → Root → ℚ) (m : EntityManager Component)
    (enemyId : EntityId) (enemyTransform playerTransform : Transform) :
    EntityManager Component :=
  let m1 := damagePlayer m cs.playerEntity ENEMY_CONTACT_DAMAGE
  m1.writeComponent TypeId.transform enemyId
    (Component.transform (pushAway quotient enemyTransform playerTransform))

/-- Loop of `checkEnemyPlayerCollisions` over the snapshot `enemies`. The
pointers `playerTransform` and `playerHealth` are followed through the registry
at each use (an enemy that is the player entity itself shares the record); no
component is added or removed during the pass, so they cannot dangle, and the
branches for a missing player record only continue or return. -/
def contactLoop (cs : CollisionSystem) (quotient : ℚ → Root → ℚ) :
    EntityManager Component → List EntityId → EntityManager Component
  | m, [] => m
  | m, enemyId :: rest =>
    match m.getTransform enemyId, m.getTransform cs.playerEntity with
    | some enemyTransform, some playerTransform =>
      if isCircleCollision enemyTransform.position ENEMY_RADIUS playerTransform.position
          PLAYER_RADIUS then
        let m2 := strike cs quotient m enemyId enemyTransform playerTransform
        match m2.getHealth cs.playerEntity with
        | some playerHealth =>
          if !playerHealth.isAlive then m2 else contactLoop cs quotient m2 rest
        | none => m2
      else contactLoop cs quotient m rest
    | _, _ => contactLoop cs quotient m rest

/-- Method `CollisionSystem::checkEnemyPlayerCollisions`. -/
def checkEnemyPlayerCollisions (cs : CollisionSystem) (quotient : ℚ → Root → ℚ)
    (m : EntityManager Component) : EntityManager Component :=
  match m.getTransform cs.playerEntity, m.getHealth cs.playerEntity with
  | some _, some playerHealth =>
    if !playerHealth.isAlive then m
    else contactLoop cs quotient m (m.getEntitiesWith [TypeId.transform, TypeId.enemy])
  | _, _ => m

/-- Whether the entity has a `Transform` whose circle of radius `ENEMY_RADIUS`
meets the circle of radius `PLAYER_RADIUS` around `playerPosition`. -/
def touches (m : EntityManager Component) (playerPosition : Vector2) (enemyId : EntityId) :
    Bool :=
  match m.getTransform enemyId with
  | some enemyTransform =>
    isCircleCollision enemyTransform.position ENEMY_RADIUS playerPosition PLAYER_RADIUS
  | none => false

/-- Number of contact hits after which a health of `h` is used up: the least
`k` with `h ≤ 10 * k`. -/
def hitsToKill (h : Int) : Nat := ((h + 9) / 10).toNat

/-- A registry with three entities: entity 1 has a `Transform` at the origin
and the given `Health`, entity 2 is an enemy at (10, 0), entity 3 an enemy at
(100, 0). -/
def arena (playerHealth : Health) : EntityManager Component :=
  ((((EntityManager.new : EntityManager Component).spawn
    [(TypeId.transform, Component.transform (Transform.ofPosition ⟨0, 0⟩)),
     (TypeId.health, Component.health playerHealth)]).2.spawn
    [(TypeId.transform, Component.transform (Transform.ofPosition ⟨10, 0⟩)),
     (TypeId.enemy, Component.enemy {})]).2.spawn
    [(TypeId.transform, Component.transform (Transform.ofPosition ⟨100, 0⟩)),
     (TypeId.enemy, Component.enemy {})]).2

end CollisionSystem

namespace CollisionSystem

/-- The entities of the snapshot `getEntitiesWith<Transform, Enemy>()` that
overlap the player standing at `playerPosition`, in the order of the pass. -/
def contacts (m : EntityManager Component) (playerPosition : Vector2) : List EntityId :=
  (m.getEntitiesWith [TypeId.transform, TypeId.enemy]).filter (touches m playerPosition)

/-- The overlapping enemies that are reached while a player of health `h` is
alive: the first `hitsToKill h` of them. -/
def struck (m : EntityManager Component) (playerPosition : Vector2) (h : Int) : List EntityId :=
  (contacts m playerPosition).take (hitsToKill h)

end CollisionSystem

namespace EnemySpawnSystem

/-- A registry in which all 9999 reserved ids are in use: `createEntity()`
(entity 1, no components), then a spawn indicator for a SLIME at (5, 7) whose
elapsed time has reached its duration (entity 2), then 9997 more
`createEntity()` calls. -/
def crowded : EntityManager Component :=
  EntityManager.runLife
    ((EntityManager.new : EntityManager Component).createEntity.2.spawn
      [(TypeId.transform, Component.transform (Transform.ofPosition ⟨5, 7⟩)),
       (TypeId.spawnIndicator, Component.spawnIndicator ⟨EnemyType.SLIME, 2, 2, true⟩)]).2
    (List.replicate 9997 EntityManager.LifeCall.create)

end EnemySpawnSystem

/-! ### The circle test in binary32 arithmetic (`CollisionSystem::getDistance`, `isCircleCollision`)

The two methods compute in `float`. This section models them with the
rounding of IEEE 754 binary32: every operation (`-`, `*`, `+`, `std::sqrt`)
returns the binary32 number nearest to the exact result, ties going to the
even significand (the default rounding mode, each operation rounded to
`float`); a result of magnitude `2 ^ 128` or more becomes an infinity. The
sign of a zero is not kept, since no operation of the test depends on it. -/

/-- A value of type `float`: a finite number, an infinity or NaN. -/
inductive Binary32 where
  | finite (value : ℚ)
  | posInf
  | negInf
  | nan
  deriving DecidableEq

namespace Binary32

/-- Distance between neighbouring binary32 numbers at a positive `x`:
`2 ^ (e - 23)` for `2 ^ e ≤ x < 2 ^ (e + 1)`, and `2 ^ (-149)` in the
subnormal range below `2 ^ (-126)`. -/
def quantum (x : ℚ) : ℚ := (2 : ℚ) ^ (max (Int.log 2 x) (-126) - 23)

/-- The integer nearest to `y`, the even one of the two when `y` lies half way. -/
def nearestEven (y : ℚ) : Int :=
  if y - ⌊y⌋ < 1 / 2 then ⌊y⌋
  else if 1 / 2 < y - ⌊y⌋ then ⌊y⌋ + 1
  else if ⌊y⌋ % 2 = 0 then ⌊y⌋ else ⌊y⌋ + 1

/-- Round to nearest, ties to even, for a positive `x`, with unbounded exponent. -/
def roundPos (x : ℚ) : ℚ := (nearestEven (x / quantum x) : ℚ) * quantum x

/-- The `float` that an operation with exact result `x` returns. -/
def round (x : ℚ) : Binary32 :=
  if x = 0 then finite 0
  else if 0 < x then (if roundPos x < 2 ^ 128 then finite (roundPos x) else posInf)
  else (if roundPos (-x) < 2 ^ 128 then finite (-roundPos (-x)) else negInf)

/-- Operator `-` on `float`. -/
def sub : Binary32 → Binary32 → Binary32
  | finite a, finite b => round (a - b)
  | nan, _ => nan
  | _, nan => nan
  | posInf, posInf => nan
  | negInf, negInf => nan
  | posInf, _ => posInf
  | negInf, _ => negInf
  | finite _, posInf => negInf
  | finite _, negInf => posInf

/-- Operator `+` on `float`. -/
def add : Binary32 → Binary32 → Binary32
  | finite a, finite b => round (a + b)
  | nan, _ => nan
  | _, nan => nan
  | posInf, negInf => nan
  | negInf, posInf => nan
  | posInf, _ => posInf
  | negInf, _ => negInf
  | finite _, posInf => posInf
  | finite _, negInf => negInf

/-- Operator `*` on `float`. -/
def mul : Binary32 → Binary32 → Binary32
  | finite a, finite b => round (a * b)
  | nan, _ => nan
  | _, nan => nan
  | posInf, posInf => posInf
  | negInf, negInf => posInf
  | posInf, negInf => negInf
  | negInf, posInf => negInf
  | posInf, finite b => if b = 0 then nan else if 0 < b then posInf else negInf
  | negInf, finite b => if b = 0 then nan else if 0 < b then negInf else posInf
  | finite a, posInf => if a = 0 then nan else if 0 < a then posInf else negInf
  | finite a, negInf => if a = 0 then nan else if 0 < a then negInf else posInf

/-- The binary32 number nearest to the square root of a positive `x`. With
`4 ^ e ≤ x < 4 ^ (e + 1)` the root lies in `[2 ^ e, 2 ^ (e + 1))`, where the
binary32 numbers are the multiples of `q = 2 ^ (e - 23)`; `n * q` is the
largest of them whose square is at most `x`. -/
def sqrtPos (x : ℚ) : ℚ :=
  let q : ℚ := (2 : ℚ) ^ (Int.log 4 x - 23)
  let n : Nat := Nat.sqrt ⌊x / (q * q)⌋₊
  if x < ((n : ℚ) + 1 / 2) ^ 2 * (q * q) then (n : ℚ) * q
  else if ((n : ℚ) + 1 / 2) ^ 2 * (q * q) < x then ((n : ℚ) + 1) * q
  else if n % 2 = 0 then (n : ℚ) * q else ((n : ℚ) + 1) * q

/-- Call `std::sqrt(x)` on a `float`: the correctly rounded square root. -/
def sqrt : Binary32 → Binary32
  | finite x => if x < 0 then nan else if x = 0 then finite 0 else finite (sqrtPos x)
  | posInf => posInf
  | negInf => nan
  | nan => nan

/-- Comparison `a <= b` on `float`; it is false when an operand is NaN. -/
def le : Binary32 → Binary32 → Bool
  | finite a, finite b => decide (a ≤ b)
  | nan, _ => false
  | _, nan => false
  | negInf, _ => true
  | _, posInf => true
  | posInf, _ => false
  | finite _, negInf => false

/-- Class `Vector2` with its two `float` fields. -/
structure Vector2 where
  x : Binary32
  y : Binary32

/-- Method `CollisionSystem::getDistance` in binary32. -/
def getDistance (pos1 pos2 : Vector2) : Binary32 :=
  let diffX := sub pos2.x pos1.x
  let diffY := sub pos2.y pos1.y
  sqrt (add (mul diffX diffX) (mul diffY diffY))

/-- Method `CollisionSystem::isCircleCollision` in binary32. -/
def isCircleCollision (pos1 : Vector2) (radius1 : Binary32) (pos2 : Vector2)
    (radius2 : Binary32) : Bool :=
  let distance := getDistance pos1 pos2
  le distance (add radius1 radius2)

end Binary32

end BrotatoGame

/-! ## Bitset facts -/

namespace BrotatoGame

namespace ComponentSignature

theorem test_empty (pos : Nat) : empty.test pos = false := by
  simp [empty, test]

theorem test_set (s : ComponentSignature) (pos i : Nat) :
    (s.set pos).test i = (s.test i || decide (pos = i)) := by
  simp [set, test, Nat.testBit_or, Nat.testBit_two_pow]

theorem test_reset (s : ComponentSignature) (pos i : Nat) :
    (s.reset pos).test i = (s.test i && !decide (pos = i)) := by
  simp only [reset, test, Nat.testBit_xor, Nat.testBit_and, Nat.testBit_two_pow]
  cases s.testBit i <;> by_cases h : pos = i <;> simp [h]

theorem covers_iff (s q : ComponentSignature) :
    (s &&& q == q) = true ↔ ∀ i, q.testBit i = true → s.testBit i = true := by
  rw [beq_iff_eq]
  constructor
  · intro h i hi
    have := congrArg (fun n => n.testBit i) h
    simp only [Nat.testBit_and, hi, Bool.and_true] at this
    exact this
  · intro h
    apply Nat.eq_of_testBit_eq
    intro i
    rw [Nat.testBit_and]
    cases hq : q.testBit i
    · simp
    · simp [h i hq]

end ComponentSignature

namespace ComponentArray

variable {T : Type}

/-! ## Storage facts -/

theorem linked_empty : (empty : ComponentArray T).Linked := by
  constructor
  · intro i
    simp [empty]
  · intro e i h
    simp [empty] at h

theorem linked_insertComponent (a : ComponentArray T) (h : a.Linked) (entity : EntityId)
    (component : T) : (a.insertComponent entity component).Linked := by
  obtain ⟨h1, h2⟩ := h
  constructor
  · intro i
    simp only [insertComponent, AList.mem_insert, h1, List.length_append, List.length_singleton]
    omega
  · intro e i hlook
    simp only [insertComponent] at hlook ⊢
    by_cases he : e = entity
    · subst he
      rw [AList.lookup_insert] at hlook
      cases hlook
      exact AList.lookup_insert _
    · rw [AList.lookup_insert_ne he] at hlook
      have hi := h2 e i hlook
      have hlt : i < a.components.length :=
        (h1 i).mp (AList.lookup_isSome.mp (by rw [hi]; rfl))
      rw [AList.lookup_insert_ne (Nat.ne_of_lt hlt)]
      exact hi

theorem removeComponent_of_not_stored (a : ComponentArray T) (entity : EntityId)
    (h : a.entityToIndex.lookup entity = none) : a.removeComponent entity = a := by
  unfold removeComponent
  rw [h]

/-- Shape of `removeComponent` on a stored entity of a linked storage. -/
theorem removeComponent_of_stored (a : ComponentArray T) (h : a.Linked) (entity : EntityId)
    (r : Nat) (hr : a.entityToIndex.lookup entity = some r) :
    ∃ x L, 0 < a.components.length ∧ r < a.components.length ∧
      a.components[a.components.length - 1]? = some x ∧
      a.indexToEntity.lookup (a.components.length - 1) = some L ∧
      a.indexToEntity.lookup r = some entity ∧
      a.removeComponent entity =
        { components := (a.components.set r x).dropLast
          entityToIndex := (a.entityToIndex.insert L r).erase entity
          indexToEntity := (a.indexToEntity.insert r L).erase (a.components.length - 1) } := by
  obtain ⟨h1, h2⟩ := h
  have hre := h2 entity r hr
  have hrlt : r < a.components.length := (h1 r).mp (AList.lookup_isSome.mp (by rw [hre]; rfl))
  have hpos : 0 < a.components.length := by omega
  have hlast : a.components.length - 1 < a.components.length := by omega
  obtain ⟨L, hL⟩ := Option.isSome_iff_exists.mp
    (AList.lookup_isSome.mpr ((h1 (a.components.length - 1)).mpr hlast))
  refine ⟨a.components[a.components.length - 1], L, hpos, hrlt,
    List.getElem?_eq_getElem hlast, hL, hre, ?_⟩
  have hidx : lastIndexOf a.components.length = a.components.length - 1 := by
    unfold lastIndexOf
    rw [if_neg (by omega)]
  unfold removeComponent
  simp only [hr]
  rw [hidx]
  simp only [hL, List.getElem?_eq_getElem hlast, Option.getD_some]

theorem linked_removeComponent (a : ComponentArray T) (h : a.Linked) (entity : EntityId) :
    (a.removeComponent entity).Linked := by
  cases hr : a.entityToIndex.lookup entity with
  | none => rw [removeComponent_of_not_stored a entity hr]; exact h
  | some r =>
    obtain ⟨x, L, hpos, hrlt, _, hL, hre, heq⟩ := removeComponent_of_stored a h entity r hr
    obtain ⟨h1, h2⟩ := h
    rw [heq]
    constructor
    · intro i
      simp only [AList.mem_erase, AList.mem_insert, h1, List.length_dropLast, List.length_set]
      omega
    · intro e i hlook
      simp only at hlook ⊢
      have hne : e ≠ entity := by
        rintro rfl
        rw [AList.lookup_erase] at hlook
        cases hlook
      rw [AList.lookup_erase_ne hne] at hlook
      by_cases heL : e = L
      · subst heL
        rw [AList.lookup_insert] at hlook
        cases hlook
        have hrl : r ≠ a.components.length - 1 := by
          intro hcontra
          rw [hcontra, hL] at hre
          exact hne (Option.some.inj hre)
        rw [AList.lookup_erase_ne hrl, AList.lookup_insert]
      · rw [AList.lookup_insert_ne heL] at hlook
        have hi := h2 e i hlook
        have hir : i ≠ r := by
          rintro rfl
          rw [hre] at hi
          exact hne (Option.some.inj hi).symm
        have hil : i ≠ a.components.length - 1 := by
          intro hcontra
          rw [hcontra, hL] at hi
          exact heL (Option.some.inj hi).symm
        rw [AList.lookup_erase_ne hil, AList.lookup_insert_ne hir]
        exact hi

theorem linked_run (calls : List (Call T)) (a : ComponentArray T) (h : a.Linked) :
    (a.run calls).Linked := by
  induction calls generalizing a with
  | nil => exact h
  | cons call rest ih =>
    apply ih
    cases call with
    | insert entity component => exact linked_insertComponent a h entity component
    | remove entity => exact linked_removeComponent a h entity

theorem slot_unique (a : ComponentArray T) (hone : a.OneEntryEach) (e : EntityId)
    (he : e ∈ a.entityToIndex.keys) (i j : Nat) (hi : a.indexToEntity.lookup i = some e)
    (hj : a.indexToEntity.lookup j = some e) : i = j := by
  have hc := hone e he
  unfold entryCount at hc
  obtain ⟨x, hx⟩ := List.length_eq_one.mp hc
  have hmem : ∀ k, a.indexToEntity.lookup k = some e →
      (⟨k, e⟩ : Sigma (fun _ : Nat => EntityId)) = x := by
    intro k hk
    have h1 : (⟨k, e⟩ : Sigma (fun _ : Nat => EntityId)) ∈ a.indexToEntity.entries :=
      AList.mem_lookup_iff.mp (Option.mem_def.mpr hk)
    have h2 : (⟨k, e⟩ : Sigma (fun _ : Nat => EntityId)) ∈
        a.indexToEntity.entries.filter (fun pair => pair.2 == e) := by
      rw [List.mem_filter]
      exact ⟨h1, by simp⟩
    rw [hx] at h2
    exact List.mem_singleton.mp h2
  have := (hmem i hi).trans (hmem j hj).symm
  exact congrArg Sigma.fst this

/-- Effect of `removeComponent` on a stored entity of a linked storage in
which every stored entity has exactly one entry. -/
theorem removeComponent_stored_effect (a : ComponentArray T) (h : a.Linked)
    (hone : a.OneEntryEach) (e : EntityId) (r : Nat)
    (hr : a.entityToIndex.lookup e = some r) :
    (a.removeComponent e).components.length + 1 = a.components.length ∧
    (a.removeComponent e).getComponent e = none ∧
    ∀ e', e' ≠ e → ∀ i, a.entityToIndex.lookup e' = some i →
      (a.removeComponent e).getComponent e' = a.getComponent e' ∧
      (a.removeComponent e).entityToIndex.lookup e' =
        some (if i = a.components.length - 1 then r else i) := by
  obtain ⟨x, L, hpos, hrlt, hx, hL, hre, heq⟩ := removeComponent_of_stored a h e r hr
  obtain ⟨h1, h2⟩ := h
  rw [heq]
  refine ⟨?_, ?_, ?_⟩
  · simp only [List.length_dropLast, List.length_set]
    omega
  · simp [getComponent, AList.lookup_erase]
  · intro e' hne i hi
    have hie := h2 e' i hi
    have hilt : i < a.components.length := (h1 i).mp (AList.lookup_isSome.mp (by rw [hie]; rfl))
    have hir : i ≠ r := by
      rintro rfl
      rw [hre] at hie
      exact hne (Option.some.inj hie).symm
    have hget : a.getComponent e' = a.components[i]? := by
      simp [getComponent, hi]
    by_cases hil : i = a.components.length - 1
    · have heL : e' = L := by
        rw [hil, hL] at hie
        exact (Option.some.inj hie).symm
      subst heL
      have hlook : ((a.entityToIndex.insert e' r).erase e).lookup e' = some r := by
        rw [AList.lookup_erase_ne hne, AList.lookup_insert]
      refine ⟨?_, by rw [hlook, if_pos hil]⟩
      rw [hget]
      simp only [getComponent, hlook]
      rw [List.getElem?_dropLast, List.length_set, if_pos (by omega), List.getElem?_set,
        if_pos rfl, if_pos hrlt, hil, hx]
    · have heL : e' ≠ L := by
        rintro rfl
        have he' : e' ∈ a.entityToIndex.keys :=
          AList.mem_keys.mp (AList.lookup_isSome.mp (by rw [hi]; rfl))
        exact hil (slot_unique a hone e' he' i _ hie hL)
      have hlook : ((a.entityToIndex.insert L r).erase e).lookup e' = some i := by
        rw [AList.lookup_erase_ne hne, AList.lookup_insert_ne heL, hi]
      refine ⟨?_, by rw [hlook, if_neg hil]⟩
      rw [hget]
      simp only [getComponent, hlook]
      rw [List.getElem?_dropLast, List.length_set, if_pos (by omega),
        List.getElem?_set_ne (Ne.symm hir)]

end ComponentArray

namespace EntityManager

variable {T : Type}

theorem testBit_foldl_set (types : List ComponentTypeId) (s : ComponentSignature) (i : Nat) :
    (types.foldl (fun (s : ComponentSignature) (t : ComponentTypeId) => s.set t.val) s).testBit i
        = true ↔
      s.testBit i = true ∨ ∃ t ∈ types, (t : Nat) = i := by
  induction types generalizing s with
  | nil => simp
  | cons t rest ih =>
    rw [List.foldl_cons, ih]
    have h := ComponentSignature.test_set s t i
    simp only [ComponentSignature.test] at h
    rw [h]
    simp only [Bool.or_eq_true, decide_eq_true_eq, List.mem_cons, exists_eq_or_imp]
    tauto

theorem testBit_querySignature (types : List ComponentTypeId) (i : Nat) :
    (querySignature types).testBit i = true ↔ ∃ t ∈ types, (t : Nat) = i := by
  unfold querySignature
  rw [testBit_foldl_set]
  simp [ComponentSignature.empty]

/-! ## Validity under creation and destruction -/

theorem createEntity_signatures (m : EntityManager T) :
    m.createEntity.2.entitySignatures =
      m.entitySignatures.insert m.createEntity.1 ComponentSignature.empty := by
  unfold createEntity
  cases m.availableEntities <;> rfl

theorem isEntityValid_createEntity (m : EntityManager T) (id : EntityId) :
    m.createEntity.2.isEntityValid id = true ↔
      m.createEntity.1 = id ∨ m.isEntityValid id = true := by
  simp only [isEntityValid, createEntity_signatures, AList.lookup_isSome, AList.mem_insert]
  constructor
  · rintro (h | h)
    · exact Or.inl h.symm
    · exact Or.inr h
  · rintro (h | h)
    · exact Or.inl h.symm
    · exact Or.inr h

theorem isEntityValid_destroyEntity (m : EntityManager T) (entity id : EntityId) :
    (m.destroyEntity entity).isEntityValid id = true ↔
      m.isEntityValid id = true ∧ id ≠ entity := by
  unfold destroyEntity
  by_cases hv : m.isEntityValid entity = true
  · rw [if_pos hv]
    simp only [isEntityValid, AList.lookup_isSome, AList.mem_erase]
    tauto
  · rw [if_neg hv]
    constructor
    · intro h
      refine ⟨h, ?_⟩
      rintro rfl
      exact hv h
    · exact fun h => h.1

theorem isEntityValid_runLife (calls : List LifeCall) (m : EntityManager T) (id : EntityId) :
    (runLife m calls).isEntityValid id = true ↔
      (m.isEntityValid id = true ∧ LifeCall.destroy id ∉ calls) ∨
      ∃ before after, calls = before ++ LifeCall.create :: after ∧
        (runLife m before).createEntity.1 = id ∧ LifeCall.destroy id ∉ after := by
  induction calls generalizing m with
  | nil => simp [runLife]
  | cons call rest ih =>
    have hsplit : (∃ before after, call :: rest = before ++ LifeCall.create :: after ∧
          (runLife m before).createEntity.1 = id ∧ LifeCall.destroy id ∉ after) ↔
        (call = LifeCall.create ∧ m.createEntity.1 = id ∧ LifeCall.destroy id ∉ rest) ∨
        ∃ before after, rest = before ++ LifeCall.create :: after ∧
          (runLife (applyLife m call) before).createEntity.1 = id ∧
          LifeCall.destroy id ∉ after := by
      constructor
      · rintro ⟨before, after, heq, hid, hno⟩
        cases before with
        | nil =>
          simp only [List.nil_append, List.cons.injEq] at heq
          obtain ⟨rfl, rfl⟩ := heq
          exact Or.inl ⟨rfl, hid, hno⟩
        | cons b before =>
          simp only [List.cons_append, List.cons.injEq] at heq
          obtain ⟨rfl, rfl⟩ := heq
          exact Or.inr ⟨before, after, rfl, hid, hno⟩
      · rintro (⟨rfl, hid, hno⟩ | ⟨before, after, rfl, hid, hno⟩)
        · exact ⟨[], rest, rfl, hid, hno⟩
        · exact ⟨call :: before, after, rfl, hid, hno⟩
    rw [hsplit]
    show (runLife (applyLife m call) rest).isEntityValid id = true ↔ _
    rw [ih]
    cases call with
    | create =>
      simp only [applyLife, isEntityValid_createEntity, List.mem_cons, true_and, not_or]
      constructor
      · rintro (⟨h | h, hno⟩ | h)
        · exact Or.inr (Or.inl ⟨h, hno⟩)
        · exact Or.inl ⟨h, by simp, hno⟩
        · exact Or.inr (Or.inr h)
      · rintro (⟨h, _, hno⟩ | ⟨h, hno⟩ | h)
        · exact Or.inl ⟨Or.inr h, hno⟩
        · exact Or.inl ⟨Or.inl h, hno⟩
        · exact Or.inr h
    | destroy entity =>
      simp only [applyLife, isEntityValid_destroyEntity, List.mem_cons, not_or,
        LifeCall.destroy.injEq, false_and, false_or, reduceCtorEq]
      tauto

/-! ## Signature queries -/

theorem mem_getEntitiesWith (m : EntityManager T) (types : List ComponentTypeId)
    (E : EntityId) :
    E ∈ m.getEntitiesWith types ↔
      ∃ sig, m.entitySignatures.lookup E = some sig ∧
        ∀ t ∈ types, ComponentSignature.test sig t.val = true := by
  unfold getEntitiesWith
  simp only [List.mem_map, List.mem_filter, ComponentSignature.covers_iff,
    testBit_querySignature, ComponentSignature.test]
  constructor
  · rintro ⟨⟨k, sig⟩, ⟨hmem, hbits⟩, rfl⟩
    refine ⟨sig, ?_, fun t ht => hbits t.val ⟨t, ht, rfl⟩⟩
    exact Option.mem_def.mp (AList.mem_lookup_iff.mpr hmem)
  · rintro ⟨sig, hlook, hbits⟩
    refine ⟨⟨E, sig⟩, ⟨AList.mem_lookup_iff.mp (Option.mem_def.mpr hlook), ?_⟩, rfl⟩
    rintro i ⟨t, ht, rfl⟩
    exact hbits t ht

theorem nodup_getEntitiesWith (m : EntityManager T) (types : List ComponentTypeId) :
    (m.getEntitiesWith types).Nodup := by
  unfold getEntitiesWith
  have hsub : ((m.entitySignatures.entries.filter
      (fun pair => pair.2 &&& querySignature types == querySignature types)).map
        (fun pair => pair.1)).Sublist m.entitySignatures.keys :=
    (List.filter_sublist _).map _
  exact hsub.nodup m.entitySignatures.keys_nodup

/-! ## Storages of a registry reached through its public interface -/

theorem createEntity_componentArrays (m : EntityManager T) :
    m.createEntity.2.componentArrays = m.componentArrays := by
  unfold createEntity
  cases m.availableEntities <;> rfl

theorem hasComponent_componentArrays (m : EntityManager T) (typeId : ComponentTypeId)
    (entity : EntityId) : (m.hasComponent typeId entity).2.componentArrays = m.componentArrays := by
  unfold hasComponent
  cases m.entitySignatures.lookup entity <;> rfl

theorem storages_linked_addComponent (m : EntityManager T)
    (h : ∀ t arr, m.componentArrays t = some arr → arr.Linked) (typeId : ComponentTypeId)
    (entity : EntityId) (component : T) :
    ∀ t arr, (m.addComponent typeId entity component).2.componentArrays t = some arr →
      arr.Linked := by
  intro t arr harr
  simp only [addComponent] at harr
  by_cases ht : t = typeId
  · subst ht
    rw [Function.update_same] at harr
    cases Option.some.inj harr
    apply ComponentArray.linked_insertComponent
    cases hc : m.componentArrays t with
    | none => exact ComponentArray.linked_empty
    | some a0 => exact h t a0 hc
  · rw [Function.update_noteq ht] at harr
    exact h t arr harr

theorem storages_linked_apply [Inhabited T] (m : EntityManager T)
    (h : ∀ t arr, m.componentArrays t = some arr → arr.Linked) (call : Call T) :
    ∀ t arr, (m.apply call).componentArrays t = some arr → arr.Linked := by
  intro t arr harr
  cases call with
  | createEntity =>
    simp only [apply, createEntity_componentArrays] at harr
    exact h t arr harr
  | destroyEntity entity =>
    simp only [apply, destroyEntity] at harr
    by_cases hv : m.isEntityValid entity = true
    · rw [if_pos hv] at harr
      simp only [Option.map_eq_some'] at harr
      obtain ⟨a0, ha0, rfl⟩ := harr
      exact ComponentArray.linked_removeComponent a0 (h t a0 ha0) entity
    · rw [if_neg hv] at harr
      exact h t arr harr
  | addComponent typeId entity component =>
    exact storages_linked_addComponent m h typeId entity component t arr harr
  | addComponentDefault typeId entity =>
    exact storages_linked_addComponent m h typeId entity default t arr harr
  | removeComponent typeId entity =>
    simp only [apply, removeComponent] at harr
    cases hc : m.componentArrays typeId with
    | none =>
      rw [hc] at harr
      exact h t arr harr
    | some a0 =>
      rw [hc] at harr
      simp only at harr
      by_cases ht : t = typeId
      · subst ht
        rw [Function.update_same] at harr
        cases Option.some.inj harr
        exact ComponentArray.linked_removeComponent a0 (h t a0 hc) entity
      · rw [Function.update_noteq ht] at harr
        exact h t arr harr
  | getComponent typeId entity => exact h t arr harr
  | hasComponent typeId entity =>
    simp only [apply, hasComponent_componentArrays] at harr
    exact h t arr harr
  | getEntitiesWith types => exact h t arr harr
  | getAllComponents typeId =>
    simp only [apply, getAllComponents] at harr
    cases hc : m.componentArrays typeId with
    | none =>
      rw [hc] at harr
      simp only at harr
      by_cases ht : t = typeId
      · subst ht
        rw [Function.update_same] at harr
        cases Option.some.inj harr
        exact ComponentArray.linked_empty
      · rw [Function.update_noteq ht] at harr
        exact h t arr harr
    | some a0 =>
      rw [hc] at harr
      exact h t arr harr

theorem storages_linked_run [Inhabited T] (calls : List (Call T)) (m : EntityManager T)
    (h : ∀ t arr, m.componentArrays t = some arr → arr.Linked) :
    ∀ t arr, (m.run calls).componentArrays t = some arr → arr.Linked := by
  induction calls generalizing m with
  | nil => exact h
  | cons call rest ih => exact ih (m.apply call) (storages_linked_apply m h call)

theorem storages_linked_run_new [Inhabited T] (calls : List (Call T)) :
    ∀ t arr, ((new : EntityManager T).run calls).componentArrays t = some arr → arr.Linked :=
  storages_linked_run calls new (fun t arr h => by simp [new] at h)

/-- Effect of `addComponent` on a registry whose storages are linked. -/
theorem addComponent_effect (m : EntityManager T)
    (h : ∀ t arr, m.componentArrays t = some arr → arr.Linked) (typeId : ComponentTypeId)
    (E : EntityId) (v : T) :
    (m.addComponent typeId E v).1 = some v ∧
    (m.addComponent typeId E v).2.getComponent typeId E = some v ∧
    ((m.addComponent typeId E v).2.hasComponent typeId E).1 = true ∧
    (∀ j : Nat, j ≠ typeId.val →
      ComponentSignature.test ((m.addComponent typeId E v).2.getEntitySignature E) j =
        ComponentSignature.test (m.getEntitySignature E) j) ∧
    (∀ E', E' ≠ E →
      (m.addComponent typeId E v).2.entitySignatures.lookup E' =
        m.entitySignatures.lookup E') ∧
    (∀ t' E', (t' ≠ typeId ∨ E' ≠ E) →
      (m.addComponent typeId E v).2.getComponent t' E' = m.getComponent t' E') := by
  have hret : (((m.componentArrays typeId).getD ComponentArray.empty).insertComponent
      E v).getComponent E = some v := by
    simp [ComponentArray.getComponent, ComponentArray.insertComponent, AList.lookup_insert]
  refine ⟨hret, ?_, ?_, ?_, ?_, ?_⟩
  · simp only [getComponent, addComponent, Function.update_same]
    exact hret
  · simp [hasComponent, addComponent, signatureAt, AList.lookup_insert,
      ComponentSignature.test_set]
  · intro j hj
    have hsig : m.getEntitySignature E = m.signatureAt E := by
      unfold getEntitySignature signatureAt
      cases m.entitySignatures.lookup E <;> rfl
    rw [hsig]
    simp only [getEntitySignature, addComponent, AList.lookup_insert,
      ComponentSignature.test_set]
    simp [Ne.symm hj]
  · intro E' hE'
    simp only [addComponent]
    exact AList.lookup_insert_ne hE'
  · intro t' E' hne
    simp only [getComponent, addComponent]
    by_cases ht : t' = typeId
    · subst ht
      have hE' : E' ≠ E := by
        rcases hne with hne | hne
        · exact absurd rfl hne
        · exact hne
      rw [Function.update_same]
      cases hc : m.componentArrays t' with
      | none =>
        simp only [Option.getD_none, ComponentArray.getComponent,
          ComponentArray.insertComponent, ComponentArray.empty, AList.lookup_insert_ne hE',
          AList.lookup_empty]
      | some a0 =>
        obtain ⟨h1, h2⟩ := h t' a0 hc
        simp only [Option.getD_some, ComponentArray.getComponent,
          ComponentArray.insertComponent, AList.lookup_insert_ne hE']
        cases hi : a0.entityToIndex.lookup E' with
        | none => rfl
        | some i =>
          have hie := h2 E' i hi
          have hilt : i < a0.components.length :=
            (h1 i).mp (AList.lookup_isSome.mp (by rw [hie]; rfl))
          exact List.getElem?_append_left hilt
    · rw [Function.update_noteq ht]

/-! ## What `destroyEntity` does in every state -/

theorem getComponent_removeComponent_self (a : ComponentArray T) (entity : EntityId) :
    (a.removeComponent entity).getComponent entity = none := by
  cases hr : a.entityToIndex.lookup entity with
  | none =>
    rw [ComponentArray.removeComponent_of_not_stored a entity hr]
    simp [ComponentArray.getComponent, hr]
  | some r =>
    unfold ComponentArray.removeComponent
    simp [hr, ComponentArray.getComponent, AList.lookup_erase]

/-- `destroyEntity` is a no-op on an invalid id; on a valid id it makes the id
invalid, leaves no component of it, queues the id and keeps every other
signature. -/
theorem destroyEntity_effect (m : EntityManager T) (id : EntityId) :
    (m.isEntityValid id = false → m.destroyEntity id = m) ∧
    (m.isEntityValid id = true →
      (m.destroyEntity id).isEntityValid id = false ∧
      (∀ t, (m.destroyEntity id).getComponent t id = none) ∧
      (m.destroyEntity id).availableEntities = m.availableEntities ++ [id] ∧
      ∀ E', E' ≠ id →
        (m.destroyEntity id).entitySignatures.lookup E' = m.entitySignatures.lookup E') := by
  constructor
  · intro h
    unfold destroyEntity
    rw [h]
    rfl
  · intro h
    unfold destroyEntity
    rw [if_pos h]
    refine ⟨?_, ?_, rfl, ?_⟩
    · simp [isEntityValid, AList.lookup_erase]
    · intro t
      simp only [getComponent]
      cases m.componentArrays t with
      | none => rfl
      | some a0 => exact getComponent_removeComponent_self a0 id
    · intro E' hE'
      exact AList.lookup_erase_ne hE'

/-! ## Exhausting the queue of pre-reserved ids -/

theorem run_append [Inhabited T] (m : EntityManager T) (xs ys : List (Call T)) :
    m.run (xs ++ ys) = (m.run xs).run ys := by
  induction xs generalizing m with
  | nil => rfl
  | cons x xs ih => exact ih (m.apply x)

theorem run_replicate_createEntity [Inhabited T] (n : Nat) (m : EntityManager T)
    (h : m.availableEntities.length = n) :
    (m.run (List.replicate n Call.createEntity)).availableEntities = [] ∧
    (m.run (List.replicate n Call.createEntity)).nextEntityId = m.nextEntityId ∧
    (m.run (List.replicate n Call.createEntity)).componentArrays = m.componentArrays := by
  induction n generalizing m with
  | zero => exact ⟨List.length_eq_zero.mp h, rfl, rfl⟩
  | succ n ih =>
    cases hq : m.availableEntities with
    | nil => rw [hq] at h; cases h
    | cons front rest =>
      have hstep : m.createEntity.2 =
          { m with entitySignatures := m.entitySignatures.insert front ComponentSignature.empty
                   availableEntities := rest } := by
        unfold createEntity
        rw [hq]
      have hlen : (m.apply Call.createEntity).availableEntities.length = n := by
        show m.createEntity.2.availableEntities.length = n
        rw [hstep]
        rw [hq] at h
        exact Nat.succ.inj h
      obtain ⟨h1, h2, h3⟩ := ih (m.apply Call.createEntity) hlen
      refine ⟨h1, ?_, ?_⟩
      · rw [show m.run (List.replicate (n + 1) Call.createEntity) =
          (m.apply Call.createEntity).run (List.replicate n Call.createEntity) from rfl, h2]
        show m.createEntity.2.nextEntityId = _
        rw [hstep]
      · rw [show m.run (List.replicate (n + 1) Call.createEntity) =
          (m.apply Call.createEntity).run (List.replicate n Call.createEntity) from rfl, h3]
        show m.createEntity.2.componentArrays = _
        rw [hstep]

theorem createEntity_of_empty_queue (m : EntityManager T) (h : m.availableEntities = []) :
    m.createEntity.1 = m.nextEntityId ∧
    m.createEntity.2.entitySignatures =
      m.entitySignatures.insert m.nextEntityId ComponentSignature.empty ∧
    m.createEntity.2.componentArrays = m.componentArrays := by
  unfold createEntity
  rw [h]
  exact ⟨rfl, rfl, rfl⟩

/-- With an empty queue `createEntity` hands out `nextEntityId`, registers the
empty signature for it and leaves every storage as it is. -/
theorem createEntity_empty_queue_effect [Inhabited T] (X m1 : EntityManager T)
    (typeId : ComponentTypeId) (e : EntityId) (v : T) (d1 : X.availableEntities = [])
    (d3 : X.componentArrays = m1.componentArrays) (hget : m1.getComponent typeId e = some v) :
    X.createEntity.1 = X.nextEntityId ∧
    (X.run [Call.createEntity]).getEntitySignature X.nextEntityId = ComponentSignature.empty ∧
    (X.run [Call.createEntity]).getComponent typeId e = some v := by
  obtain ⟨c1, c2, c3⟩ := createEntity_of_empty_queue X d1
  refine ⟨c1, ?_, ?_⟩
  · show getEntitySignature X.createEntity.2 X.nextEntityId = ComponentSignature.empty
    unfold getEntitySignature
    rw [c2, AList.lookup_insert]
  · show getComponent X.createEntity.2 typeId e = some v
    unfold getComponent at hget ⊢
    rw [c3, d3]
    exact hget

end EntityManager

/-! ## Wave controller -/

namespace WaveSystem

/-- The duration the source computes for wave number `n`. -/
theorem calculateWaveDuration_eq (w : WaveSystem) :
    (calculateWaveDuration w).waveDuration = min 60 (20 + ((w.currentWave - 1 : Int) : ℚ) * 5) ∧
    (calculateWaveDuration w).currentWave = w.currentWave ∧
    (calculateWaveDuration w).waveState = w.waveState ∧
    (calculateWaveDuration w).waveTimer = w.waveTimer := by
  unfold calculateWaveDuration
  simp only [INITIAL_WAVE_DURATION, WAVE_DURATION_INCREMENT, MAX_WAVE_DURATION]
  split_ifs with h
  · refine ⟨?_, rfl, rfl, rfl⟩
    rw [min_eq_left (le_of_lt h)]
  · refine ⟨?_, rfl, rfl, rfl⟩
    rw [min_eq_right (not_lt.mp h)]

theorem good_new : Good new := by
  constructor
  · decide
  · norm_num [new, INITIAL_WAVE_DURATION]

theorem good_startWave (w : WaveSystem) (h : Good w) : Good w.startWave := by
  unfold startWave
  split_ifs
  · exact h
  · exact h

theorem good_endWave (w : WaveSystem) (h : Good w) : Good w.endWave := by
  unfold endWave
  split_ifs
  · exact h
  · exact h

theorem good_startNextWave (w : WaveSystem) (h : Good w) : Good w.startNextWave := by
  unfold startNextWave
  split_ifs
  · exact h
  · obtain ⟨h1, h2, _, _⟩ := calculateWaveDuration_eq { w with currentWave := w.currentWave + 1 }
    constructor
    · show 1 ≤ (calculateWaveDuration { w with currentWave := w.currentWave + 1 }).currentWave
      rw [h2]
      have := h.1
      show 1 ≤ w.currentWave + 1
      omega
    · show (calculateWaveDuration { w with currentWave := w.currentWave + 1 }).waveDuration = _
      rw [h1]
      show _ = min 60 (20 + (((calculateWaveDuration
        { w with currentWave := w.currentWave + 1 }).currentWave - 1 : Int) : ℚ) * 5)
      rw [h2]

theorem good_update (w : WaveSystem) (h : Good w) (deltaTime : ℚ) :
    Good (w.update deltaTime) := by
  unfold update
  split
  · exact h
  · dsimp only
    split_ifs
    · exact good_endWave _ h
    · exact h
  · exact good_startNextWave w h

theorem good_run (calls : List Call) (w : WaveSystem) (h : Good w) : Good (w.run calls) := by
  induction calls generalizing w with
  | nil => exact h
  | cons call rest ih =>
    apply ih
    cases call with
    | update deltaTime => exact good_update w h deltaTime
    | startWave => exact good_startWave w h
    | endWave => exact good_endWave w h
    | startNextWave => exact good_startNextWave w h
    | closeShop => exact good_startWave w h

end WaveSystem

namespace WaveSystem

theorem update_preparing (w : WaveSystem) (deltaTime : ℚ)
    (h : w.waveState = WaveState.PREPARING) : w.update deltaTime = w := by
  unfold update
  rw [h]

theorem update_active (w : WaveSystem) (deltaTime : ℚ) (h : w.waveState = WaveState.ACTIVE) :
    w.update deltaTime =
      if w.waveTimer + deltaTime ≥ w.waveDuration then
        { w with waveTimer := w.waveTimer + deltaTime, waveState := WaveState.COMPLETED }
      else { w with waveTimer := w.waveTimer + deltaTime } := by
  unfold update
  rw [h]
  dsimp only
  split_ifs
  · unfold endWave
    rw [if_neg (by simp [h])]
  · rfl

theorem update_completed (w : WaveSystem) (deltaTime : ℚ)
    (h : w.waveState = WaveState.COMPLETED) :
    w.update deltaTime =
      { calculateWaveDuration { w with currentWave := w.currentWave + 1 } with
        waveState := WaveState.PREPARING } := by
  have hu : w.update deltaTime = w.startNextWave := by
    unfold update
    split
    · rename_i hh
      rw [h] at hh
      cases hh
    · rename_i hh
      rw [h] at hh
      cases hh
    · rfl
  rw [hu]
  unfold startNextWave
  rw [if_neg (by simp [h])]

theorem step_apply (w : WaveSystem) (call : Call) :
    Step w.waveState (w.apply call).waveState := by
  have hstart : Step w.waveState w.startWave.waveState := by
    unfold startWave
    split_ifs with h
    · exact Or.inl rfl
    · exact Or.inr (Or.inl ⟨not_not.mp h, rfl⟩)
  have hend : Step w.waveState w.endWave.waveState := by
    unfold endWave
    split_ifs with h
    · exact Or.inl rfl
    · exact Or.inr (Or.inr (Or.inl ⟨not_not.mp h, rfl⟩))
  have hnext : Step w.waveState w.startNextWave.waveState := by
    unfold startNextWave
    split_ifs with h
    · exact Or.inl rfl
    · exact Or.inr (Or.inr (Or.inr ⟨not_not.mp h, rfl⟩))
  cases call with
  | update deltaTime =>
    show Step w.waveState (w.update deltaTime).waveState
    cases hs : w.waveState with
    | PREPARING =>
      rw [update_preparing w deltaTime hs, hs]
      exact Or.inl rfl
    | ACTIVE =>
      rw [update_active w deltaTime hs]
      split_ifs
      · exact Or.inr (Or.inr (Or.inl ⟨rfl, rfl⟩))
      · exact Or.inl hs.symm
    | COMPLETED =>
      rw [update_completed w deltaTime hs]
      exact Or.inr (Or.inr (Or.inr ⟨rfl, rfl⟩))
  | startWave => exact hstart
  | endWave => exact hend
  | startNextWave => exact hnext
  | closeShop => exact hstart

end WaveSystem

/-! ## Level-up threshold -/

namespace Player

theorem threshold_run (calls : List Call) (p : Player)
    (h : 1 ≤ p.level ∧
      p.experienceToNextLevel = 10 + 15 * (p.level - 1) + 5 * (p.level - 1) ^ 2) :
    1 ≤ (p.run calls).level ∧
      (p.run calls).experienceToNextLevel =
        10 + 15 * ((p.run calls).level - 1) + 5 * ((p.run calls).level - 1) ^ 2 := by
  induction calls generalizing p with
  | nil => exact h
  | cons call rest ih =>
    apply ih
    cases call with
    | levelUp =>
      constructor
      · show 1 ≤ p.level + 1
        omega
      · show 10 + (p.level + 1 - 1) * 15 + (p.level + 1 - 1) * (p.level + 1 - 1) * 5 =
          10 + 15 * (p.level + 1 - 1) + 5 * (p.level + 1 - 1) ^ 2
        ring
    | gainExperience xp => exact h
    | gainMaterials mats => exact h

end Player

/-! ## Legacy game loop: wave completion and boss waves -/

namespace Game

theorem isBossDefeated_iff (g : Game) :
    g.isBossDefeated = true ↔
      g.bossSpawnedThisWave = true ∧
      (∀ i ∈ g.spawnIndicators, i.enemyType ≠ EnemySpawnType.BOSS) ∧
      (∀ e ∈ g.enemies, ¬ (e.isBoss = true ∧ e.isAlive = true)) := by
  unfold isBossDefeated
  cases hflag : g.bossSpawnedThisWave
  · simp
  · simp only [Bool.not_true, Bool.false_eq_true, if_false, true_and]
    by_cases hi : (g.spawnIndicators.any
        (fun indicator => indicator.enemyType == EnemySpawnType.BOSS)) = true
    · rw [if_pos hi]
      simp only [Bool.false_eq_true, false_iff, not_and]
      intro hno
      rw [List.any_eq_true] at hi
      obtain ⟨i, hmem, hbeq⟩ := hi
      exact absurd (beq_iff_eq.mp hbeq) (hno i hmem)
    · rw [if_neg hi]
      have hno : ∀ i ∈ g.spawnIndicators, i.enemyType ≠ EnemySpawnType.BOSS := by
        intro i hmem heq
        apply hi
        rw [List.any_eq_true]
        exact ⟨i, hmem, beq_iff_eq.mpr heq⟩
      by_cases he : (g.enemies.any (fun enemy => enemy.isBoss && enemy.isAlive)) = true
      · rw [if_pos he]
        constructor
        · intro h
          cases h
        · rintro ⟨_, hall⟩
          rw [List.any_eq_true] at he
          obtain ⟨e, hmem, hb⟩ := he
          rw [Bool.and_eq_true] at hb
          exact absurd hb (hall e hmem)
      · rw [if_neg he]
        simp only [true_iff]
        refine ⟨hno, ?_⟩
        intro e hmem hb
        apply he
        rw [List.any_eq_true]
        exact ⟨e, hmem, by rw [Bool.and_eq_true]; exact hb⟩

theorem waveBlock_completed (g : Game) (deltaTime : ℚ) (ha : g.waveActive = true)
    (hc : waveCompleted { g with waveTimer := g.waveTimer + deltaTime } = true) :
    (g.waveBlock deltaTime).wave = g.wave + 1 ∧ (g.waveBlock deltaTime).shopActive = true ∧
    (g.waveBlock deltaTime).bossSpawnedThisWave = false ∧
    (g.waveBlock deltaTime).waveTimer = 0 := by
  unfold waveBlock
  rw [if_pos ha]
  dsimp only
  rw [if_pos hc]
  split_ifs <;> exact ⟨rfl, rfl, rfl, rfl⟩

theorem waveBlock_not_completed (g : Game) (deltaTime : ℚ) (ha : g.waveActive = true)
    (hc : ¬ waveCompleted { g with waveTimer := g.waveTimer + deltaTime } = true) :
    g.waveBlock deltaTime = { g with waveTimer := g.waveTimer + deltaTime } := by
  unfold waveBlock
  rw [if_pos ha]
  dsimp only
  rw [if_neg hc]

theorem waveCompleted_iff (g : Game) (deltaTime : ℚ) :
    waveCompleted { g with waveTimer := g.waveTimer + deltaTime } = true ↔
      (g.waveTimer + deltaTime ≥ g.waveDuration ∨ g.isBossDefeated = true) := by
  have hb : isBossDefeated { g with waveTimer := g.waveTimer + deltaTime } = g.isBossDefeated :=
    rfl
  unfold waveCompleted
  rw [hb]
  dsimp only
  split_ifs with h1 h2
  · exact ⟨fun _ => Or.inl h1, fun _ => rfl⟩
  · exact ⟨fun _ => Or.inr h2, fun _ => rfl⟩
  · constructor
    · intro h
      cases h
    · rintro (h | h)
      · exact absurd h h1
      · exact absurd h h2

theorem updateWavePhase_active (g : Game) (deltaTime : ℚ)
    (hplay : g.gameState = GameState.PLAYING) (halive : 0 < g.playerHealth)
    (hshop : g.shopActive = false) :
    ∃ g1 : Game, g.updateWavePhase deltaTime = (g1.waveBlock deltaTime, true) ∧
      g1.wave = g.wave ∧ g1.waveTimer = g.waveTimer ∧ g1.waveDuration = g.waveDuration ∧
      g1.waveActive = g.waveActive ∧ g1.isBossDefeated = g.isBossDefeated ∧
      g1.shopActive = g.shopActive := by
  have key : ∀ g1 : Game, g1.gameState = GameState.PLAYING → 0 < g1.playerHealth →
      g1.shopActive = false →
      (if g1.gameState = GameState.MENU then (g1, false)
        else if g1.gameState ≠ GameState.PLAYING then (g1, false)
        else if g1.playerHealth ≤ 0 then ({ g1 with gameState := GameState.MENU }, false)
        else if g1.shopActive then (g1, false)
        else (g1.waveBlock deltaTime, true)) = (g1.waveBlock deltaTime, true) := by
    intro g1 h1 h2 h3
    rw [if_neg (by simp [h1]), if_neg (by simp [h1]), if_neg (by omega), if_neg (by simp [h3])]
  unfold updateWavePhase
  dsimp only
  by_cases hesc : g.escCooldownTimer > 0
  · rw [if_pos hesc]
    exact ⟨_, key _ hplay halive hshop, rfl, rfl, rfl, rfl, rfl, rfl⟩
  · rw [if_neg hesc]
    exact ⟨_, key _ hplay halive hshop, rfl, rfl, rfl, rfl, rfl, rfl⟩

end Game

namespace Game

theorem initialBossWaves_apply (w : Int) :
    initialBossWaves w = if w = 2 ∨ w = 4 ∨ w = 7 ∨ w = 10 then some true else none := by
  unfold initialBossWaves setBossWaves
  simp only [Function.update_apply]
  split_ifs <;> simp_all

theorem spawnEnemies_boss_planned (g : Game) (r : SpawnRandom)
    (h : g.bossSpawnedThisWave = true) : g.spawnEnemies r = g := by
  unfold spawnEnemies
  rw [if_pos h]

theorem spawnEnemies_boss_wave (g : Game) (r : SpawnRandom) (hb : g.bossWaves = initialBossWaves)
    (hw : g.wave = 2 ∨ g.wave = 4 ∨ g.wave = 7 ∨ g.wave = 10)
    (h : g.bossSpawnedThisWave = false) :
    g.spawnEnemies r =
      { g with spawnIndicators :=
                 g.spawnIndicators ++
                   [⟨r.bossPos, g.spawnTelegraphSeconds, EnemySpawnType.BOSS, 0⟩]
               bossSpawnedThisWave := true } := by
  have hs : g.shouldSpawnBoss = true := by
    unfold shouldSpawnBoss
    rw [hb, initialBossWaves_apply, if_pos hw, h]
    rfl
  unfold spawnEnemies
  rw [if_neg (by simp [h]), if_pos hs]

theorem spawnEnemies_regular_wave (g : Game) (r : SpawnRandom)
    (hb : g.bossWaves = initialBossWaves)
    (hw : ¬ (g.wave = 2 ∨ g.wave = 4 ∨ g.wave = 7 ∨ g.wave = 10)) :
    (g.spawnEnemies r).bossWaves = g.bossWaves ∧ (g.spawnEnemies r).wave = g.wave ∧
    ∃ added, (g.spawnEnemies r).spawnIndicators = g.spawnIndicators ++ added ∧
      ∀ i ∈ added, i.enemyType ≠ EnemySpawnType.BOSS := by
  have hs : g.shouldSpawnBoss = false := by
    unfold shouldSpawnBoss
    rw [hb, initialBossWaves_apply, if_neg hw]
  unfold spawnEnemies
  by_cases hflag : g.bossSpawnedThisWave = true
  · rw [if_pos hflag]
    exact ⟨rfl, rfl, [], by simp, by simp⟩
  · rw [if_neg hflag, if_neg (by simp [hs])]
    dsimp only
    split_ifs
    all_goals first
      | (refine ⟨rfl, rfl, [_], rfl, fun i hi => ?_⟩
         have hi' := List.mem_singleton.mp hi
         subst hi'
         intro hcontra
         cases hcontra)
      | exact ⟨rfl, rfl, [], (List.append_nil _).symm, fun i hi => absurd hi (List.not_mem_nil i)⟩

theorem spawnRun_boss_planned (rs : List SpawnRandom) (g : Game)
    (h : g.bossSpawnedThisWave = true) : g.spawnRun rs = g := by
  induction rs with
  | nil => rfl
  | cons r rest ih =>
    show (g.spawnEnemies r).spawnRun rest = g
    rw [spawnEnemies_boss_planned g r h]
    exact ih

theorem spawnRun_regular_wave (rs : List SpawnRandom) (g : Game)
    (hb : g.bossWaves = initialBossWaves)
    (hw : ¬ (g.wave = 2 ∨ g.wave = 4 ∨ g.wave = 7 ∨ g.wave = 10)) :
    ∃ added, (g.spawnRun rs).spawnIndicators = g.spawnIndicators ++ added ∧
      ∀ i ∈ added, i.enemyType ≠ EnemySpawnType.BOSS := by
  induction rs generalizing g with
  | nil => exact ⟨[], by simp [spawnRun], by simp⟩
  | cons r rest ih =>
    obtain ⟨h1, h2, a1, ha1, hn1⟩ := spawnEnemies_regular_wave g r hb hw
    obtain ⟨a2, ha2, hn2⟩ := ih (g.spawnEnemies r) (by rw [h1, hb]) (by rw [h2]; exact hw)
    refine ⟨a1 ++ a2, ?_, ?_⟩
    · show ((g.spawnEnemies r).spawnRun rest).spawnIndicators = _
      rw [ha2, ha1, List.append_assoc]
    · intro i hi
      rcases List.mem_append.mp hi with hi | hi
      · exact hn1 i hi
      · exact hn2 i hi

theorem waveBlock_flag (g : Game) (deltaTime : ℚ) :
    (g.waveBlock deltaTime).bossSpawnedThisWave = g.bossSpawnedThisWave ∨
      (g.waveBlock deltaTime).wave = g.wave + 1 := by
  by_cases ha : g.waveActive = true
  · by_cases hc : waveCompleted { g with waveTimer := g.waveTimer + deltaTime } = true
    · exact Or.inr (waveBlock_completed g deltaTime ha hc).1
    · rw [waveBlock_not_completed g deltaTime ha hc]
      exact Or.inl rfl
  · unfold waveBlock
    rw [if_neg ha]
    exact Or.inl rfl

end Game

/-! ## Dense storages -/

namespace ComponentArray

variable {T : Type}

theorem dense_empty : (empty : ComponentArray T).Dense := by
  refine ⟨linked_empty, ?_⟩
  intro i e h
  simp [empty] at h

theorem lookup_lt_of_linked (a : ComponentArray T) (h : a.Linked) (e : EntityId) (i : Nat)
    (hi : a.entityToIndex.lookup e = some i) : i < a.components.length :=
  (h.1 i).mp (AList.lookup_isSome.mp (by rw [h.2 e i hi]; rfl))

theorem getComponent_eq_none_iff (a : ComponentArray T) (h : a.Linked) (e : EntityId) :
    a.getComponent e = none ↔ a.entityToIndex.lookup e = none := by
  unfold getComponent
  cases hi : a.entityToIndex.lookup e with
  | none => simp
  | some i =>
    have hlt := lookup_lt_of_linked a h e i hi
    simp [List.getElem?_eq_getElem hlt]

theorem dense_insertComponent (a : ComponentArray T) (h : a.Dense) (entity : EntityId)
    (component : T) (hnot : a.entityToIndex.lookup entity = none) :
    (a.insertComponent entity component).Dense := by
  refine ⟨linked_insertComponent a h.1 entity component, ?_⟩
  intro i e hlook
  simp only [insertComponent] at hlook ⊢
  by_cases hi : i = a.components.length
  · subst hi
    rw [AList.lookup_insert] at hlook
    cases hlook
    exact AList.lookup_insert _
  · rw [AList.lookup_insert_ne hi] at hlook
    have he := h.2 i e hlook
    have hne : e ≠ entity := by
      rintro rfl
      rw [hnot] at he
      cases he
    rw [AList.lookup_insert_ne hne]
    exact he

theorem getComponent_insertComponent_self (a : ComponentArray T) (entity : EntityId)
    (component : T) : (a.insertComponent entity component).getComponent entity = some component := by
  simp [getComponent, insertComponent, AList.lookup_insert]

theorem getComponent_insertComponent_ne (a : ComponentArray T) (h : a.Linked)
    (entity : EntityId) (component : T) (e' : EntityId) (hne : e' ≠ entity) :
    (a.insertComponent entity component).getComponent e' = a.getComponent e' := by
  simp only [getComponent, insertComponent, AList.lookup_insert_ne hne]
  cases hi : a.entityToIndex.lookup e' with
  | none => rfl
  | some i => exact List.getElem?_append_left (lookup_lt_of_linked a h e' i hi)

theorem dense_removeComponent (a : ComponentArray T) (h : a.Dense) (entity : EntityId) :
    (a.removeComponent entity).Dense := by
  refine ⟨linked_removeComponent a h.1 entity, ?_⟩
  cases hr : a.entityToIndex.lookup entity with
  | none => rw [removeComponent_of_not_stored a entity hr]; exact h.2
  | some r =>
    obtain ⟨x, L, hpos, hrlt, _, hL, hre, heq⟩ := removeComponent_of_stored a h.1 entity r hr
    rw [heq]
    intro i e hlook
    simp only at hlook ⊢
    have hil : i ≠ a.components.length - 1 := by
      rintro rfl
      rw [AList.lookup_erase] at hlook
      cases hlook
    rw [AList.lookup_erase_ne hil] at hlook
    have hLlast : a.entityToIndex.lookup L = some (a.components.length - 1) := h.2 _ _ hL
    by_cases hir : i = r
    · rw [hir] at hlook hil ⊢
      rw [AList.lookup_insert] at hlook
      have hEq : L = e := Option.some.inj hlook
      subst hEq
      have hne : L ≠ entity := by
        intro hc
        rw [hc, hr] at hLlast
        exact hil (Option.some.inj hLlast)
      rw [AList.lookup_erase_ne hne, AList.lookup_insert]
    · rw [AList.lookup_insert_ne hir] at hlook
      have he := h.2 i e hlook
      have hne : e ≠ entity := by
        rintro rfl
        rw [hr] at he
        exact hir (Option.some.inj he).symm
      have hneL : e ≠ L := by
        rintro rfl
        rw [hLlast] at he
        exact hil (Option.some.inj he).symm
      rw [AList.lookup_erase_ne hne, AList.lookup_insert_ne hneL]
      exact he

theorem getComponent_removeComponent_ne (a : ComponentArray T) (h : a.Dense)
    (entity e' : EntityId) (hne : e' ≠ entity) :
    (a.removeComponent entity).getComponent e' = a.getComponent e' := by
  cases hr : a.entityToIndex.lookup entity with
  | none => rw [removeComponent_of_not_stored a entity hr]
  | some r =>
    obtain ⟨x, L, hpos, hrlt, hx, hL, hre, heq⟩ := removeComponent_of_stored a h.1 entity r hr
    have hLlast : a.entityToIndex.lookup L = some (a.components.length - 1) := h.2 _ _ hL
    rw [heq]
    cases hi : a.entityToIndex.lookup e' with
    | none =>
      have hneL : e' ≠ L := by
        rintro rfl
        rw [hLlast] at hi
        cases hi
      simp only [getComponent, AList.lookup_erase_ne hne, AList.lookup_insert_ne hneL, hi]
    | some i =>
      have hie := h.1.2 e' i hi
      have hilt := lookup_lt_of_linked a h.1 e' i hi
      have hir : i ≠ r := by
        rintro rfl
        rw [hre] at hie
        exact hne (Option.some.inj hie).symm
      by_cases hil : i = a.components.length - 1
      · have heL : e' = L := by
          rw [hil, hL] at hie
          exact (Option.some.inj hie).symm
        subst heL
        simp only [getComponent, AList.lookup_erase_ne hne, AList.lookup_insert, hi]
        rw [List.getElem?_dropLast, List.length_set, if_pos (by omega), List.getElem?_set,
          if_pos rfl, if_pos hrlt, hil, hx]
      · have heL : e' ≠ L := by
          rintro rfl
          rw [hLlast] at hi
          exact hil (Option.some.inj hi).symm
        simp only [getComponent, AList.lookup_erase_ne hne, AList.lookup_insert_ne heL, hi]
        rw [List.getElem?_dropLast, List.length_set, if_pos (by omega),
          List.getElem?_set_ne (Ne.symm hir)]

theorem dense_writeComponent (a : ComponentArray T) (h : a.Dense) (entity : EntityId)
    (value : T) : (a.writeComponent entity value).Dense := by
  unfold writeComponent
  cases a.entityToIndex.lookup entity with
  | none => exact h
  | some i =>
    refine ⟨⟨?_, h.1.2⟩, h.2⟩
    intro j
    simp only [List.length_set]
    exact h.1.1 j

theorem getComponent_writeComponent_self (a : ComponentArray T) (h : a.Linked)
    (entity : EntityId) (value : T) (hs : a.getComponent entity ≠ none) :
    (a.writeComponent entity value).getComponent entity = some value := by
  have hs' : a.entityToIndex.lookup entity ≠ none :=
    fun hc => hs ((getComponent_eq_none_iff a h entity).mpr hc)
  obtain ⟨i, hi⟩ := Option.ne_none_iff_exists'.mp hs'
  have hlt := lookup_lt_of_linked a h entity i hi
  simp only [writeComponent, getComponent, hi]
  rw [List.getElem?_set, if_pos rfl, if_pos hlt]

theorem getComponent_writeComponent_ne (a : ComponentArray T) (h : a.Linked)
    (entity e' : EntityId) (value : T) (hne : e' ≠ entity) :
    (a.writeComponent entity value).getComponent e' = a.getComponent e' := by
  unfold writeComponent
  cases hi : a.entityToIndex.lookup entity with
  | none => rfl
  | some i =>
    simp only [getComponent]
    cases hj : a.entityToIndex.lookup e' with
    | none => rfl
    | some j =>
      have hij : i ≠ j := by
        rintro rfl
        have h1 := h.2 entity i hi
        rw [h.2 e' i hj] at h1
        exact hne (Option.some.inj h1)
      simp only [List.getElem?_set_ne hij]

end ComponentArray

/-! ## Well-formed registries -/

namespace EntityManager

variable {T : Type}

theorem wf_new : (new : EntityManager T).WF := by
  refine ⟨fun t arr h => ?_, fun t E h => ?_, fun q _ => ?_, ?_⟩
  · simp [new] at h
  · simp [new, getComponent] at h
  · simp [new, isEntityValid]
  · exact List.nodup_range' 1 9999

theorem getComponent_of_not_valid (m : EntityManager T) (h : m.WF) (t : ComponentTypeId)
    (E : EntityId) (hv : m.isEntityValid E = false) : m.getComponent t E = none := by
  by_contra hc
  obtain ⟨sig, hsig, _⟩ := h.2.1 t E hc
  simp [isEntityValid, hsig] at hv

theorem isEntityValid_of_getComponent (m : EntityManager T) (h : m.WF) (t : ComponentTypeId)
    (E : EntityId) (c : T) (hc : m.getComponent t E = some c) : m.isEntityValid E = true := by
  obtain ⟨sig, hsig, _⟩ := h.2.1 t E (by rw [hc]; simp)
  simp [isEntityValid, hsig]

theorem createEntity_of_cons (m : EntityManager T) (q : EntityId) (rest : List EntityId)
    (hq : m.availableEntities = q :: rest) :
    m.createEntity =
      (q, { m with entitySignatures := m.entitySignatures.insert q ComponentSignature.empty
                   availableEntities := rest }) := by
  unfold createEntity
  rw [hq]

theorem wf_createEntity (m : EntityManager T) (h : m.WF) (q : EntityId) (rest : List EntityId)
    (hq : m.availableEntities = q :: rest) :
    m.createEntity.2.WF ∧ m.createEntity.1 = q ∧ m.createEntity.2.availableEntities = rest ∧
    m.createEntity.2.componentArrays = m.componentArrays ∧
    m.isEntityValid q = false ∧
    (∀ E, m.createEntity.2.isEntityValid E = true ↔ (E = q ∨ m.isEntityValid E = true)) := by
  obtain ⟨h1, h2, h3, h4⟩ := h
  have hqinv : m.isEntityValid q = false := h3 q (by rw [hq]; exact List.mem_cons_self _ _)
  rw [createEntity_of_cons m q rest hq]
  have hvalid : ∀ E, isEntityValid ({ m with
      entitySignatures := m.entitySignatures.insert q ComponentSignature.empty
      availableEntities := rest } : EntityManager T) E = true ↔
        (E = q ∨ m.isEntityValid E = true) := by
    intro E
    simp only [isEntityValid, AList.lookup_isSome, AList.mem_insert]
  refine ⟨⟨h1, ?_, ?_, ?_⟩, rfl, rfl, rfl, hqinv, hvalid⟩
  · intro t E hc
    have hc' : m.getComponent t E ≠ none := hc
    obtain ⟨sig, hsig, hbit⟩ := h2 t E hc'
    have hne : E ≠ q := by
      rintro rfl
      simp [isEntityValid, hsig] at hqinv
    exact ⟨sig, by simp only [AList.lookup_insert_ne hne]; exact hsig, hbit⟩
  · intro q' hq'
    have hq'm : q' ∈ m.availableEntities := by rw [hq]; exact List.mem_cons_of_mem _ hq'
    have hne : q' ≠ q := by
      rintro rfl
      rw [hq] at h4
      exact (List.nodup_cons.mp h4).1 hq'
    have := h3 q' hq'm
    cases hv : isEntityValid ({ m with
      entitySignatures := m.entitySignatures.insert q ComponentSignature.empty
      availableEntities := rest } : EntityManager T) q' with
    | false => rfl
    | true =>
      rcases (hvalid q').mp hv with hc | hc
      · exact absurd hc hne
      · rw [this] at hc
        cases hc
  · rw [hq] at h4
    exact (List.nodup_cons.mp h4).2

theorem getComponent_createEntity (m : EntityManager T) (t : ComponentTypeId) (E : EntityId) :
    m.createEntity.2.getComponent t E = m.getComponent t E := by
  unfold getComponent
  rw [createEntity_componentArrays]

theorem wf_addComponent (m : EntityManager T) (h : m.WF) (t : ComponentTypeId) (E : EntityId)
    (c : T) (hv : m.isEntityValid E = true) (hnone : m.getComponent t E = none) :
    (m.addComponent t E c).2.WF ∧
    (m.addComponent t E c).2.getComponent t E = some c ∧
    (∀ t' E', (t' ≠ t ∨ E' ≠ E) →
      (m.addComponent t E c).2.getComponent t' E' = m.getComponent t' E') ∧
    (∀ E', (m.addComponent t E c).2.isEntityValid E' = m.isEntityValid E') ∧
    (m.addComponent t E c).2.availableEntities = m.availableEntities := by
  obtain ⟨h1, h2, h3, h4⟩ := h
  have hlinked : ∀ t arr, m.componentArrays t = some arr → arr.Linked :=
    fun t arr ha => (h1 t arr ha).1
  obtain ⟨_, e2, _, _, _, e6⟩ := addComponent_effect m hlinked t E c
  have hvalid : ∀ E', (m.addComponent t E c).2.isEntityValid E' = m.isEntityValid E' := by
    intro E'
    simp only [isEntityValid, addComponent]
    by_cases hE : E' = E
    · subst hE
      rw [AList.lookup_insert]
      simp only [isEntityValid] at hv
      rw [hv]
      rfl
    · rw [AList.lookup_insert_ne hE]
  refine ⟨⟨?_, ?_, ?_, h4⟩, e2, e6, hvalid, rfl⟩
  · intro t' arr ha
    simp only [addComponent] at ha
    by_cases ht : t' = t
    · subst ht
      rw [Function.update_same] at ha
      cases Option.some.inj ha
      cases hc : m.componentArrays t' with
      | none =>
        exact ComponentArray.dense_insertComponent _ ComponentArray.dense_empty E c
          (by simp [ComponentArray.empty])
      | some a0 =>
        have hd := h1 t' a0 hc
        have hn : a0.getComponent E = none := by
          simp only [getComponent, hc] at hnone
          exact hnone
        exact ComponentArray.dense_insertComponent a0 hd E c
          ((ComponentArray.getComponent_eq_none_iff a0 hd.1 E).mp hn)
    · rw [Function.update_noteq ht] at ha
      exact h1 t' arr ha
  · intro t' E' hc
    by_cases hE : E' = E
    · subst hE
      refine ⟨(m.signatureAt E').set t.val, ?_, ?_⟩
      · simp only [addComponent, AList.lookup_insert]
      · rw [ComponentSignature.test_set]
        by_cases ht : t' = t
        · subst ht
          simp
        · have hold : m.getComponent t' E' ≠ none := by
            rw [← e6 t' E' (Or.inl ht)]
            exact hc
          obtain ⟨sig, hsig, hbit⟩ := h2 t' E' hold
          simp [signatureAt, hsig, hbit]
    · have hold : m.getComponent t' E' ≠ none := by
        rw [← e6 t' E' (Or.inr hE)]
        exact hc
      obtain ⟨sig, hsig, hbit⟩ := h2 t' E' hold
      exact ⟨sig, by simp only [addComponent, AList.lookup_insert_ne hE]; exact hsig, hbit⟩
  · intro q hq
    rw [hvalid q]
    exact h3 q hq

theorem wf_writeComponent (m : EntityManager T) (h : m.WF) (t : ComponentTypeId) (E : EntityId)
    (v : T) :
    (m.writeComponent t E v).WF ∧
    (m.getComponent t E ≠ none → (m.writeComponent t E v).getComponent t E = some v) ∧
    (∀ t' E', (t' ≠ t ∨ E' ≠ E) →
      (m.writeComponent t E v).getComponent t' E' = m.getComponent t' E') ∧
    (m.writeComponent t E v).entitySignatures = m.entitySignatures ∧
    (m.writeComponent t E v).availableEntities = m.availableEntities := by
  obtain ⟨h1, h2, h3, h4⟩ := h
  cases hc : m.componentArrays t with
  | none =>
    have hw : m.writeComponent t E v = m := by
      unfold writeComponent
      rw [hc]
    rw [hw]
    refine ⟨⟨h1, h2, h3, h4⟩, ?_, fun _ _ _ => rfl, rfl, rfl⟩
    intro hs
    simp [getComponent, hc] at hs
  | some a0 =>
    have hw : m.writeComponent t E v =
        { m with componentArrays :=
            Function.update m.componentArrays t (some (a0.writeComponent E v)) } := by
      unfold writeComponent
      rw [hc]
    have hd := h1 t a0 hc
    have hself : m.getComponent t E ≠ none →
        (m.writeComponent t E v).getComponent t E = some v := by
      intro hs
      rw [hw]
      simp only [getComponent, Function.update_same]
      apply ComponentArray.getComponent_writeComponent_self a0 hd.1 E v
      simp only [getComponent, hc] at hs
      exact hs
    have hframe : ∀ t' E', (t' ≠ t ∨ E' ≠ E) →
        (m.writeComponent t E v).getComponent t' E' = m.getComponent t' E' := by
      intro t' E' hne
      rw [hw]
      simp only [getComponent]
      by_cases ht : t' = t
      · subst ht
        have hE : E' ≠ E := by
          rcases hne with hne | hne
          · exact absurd rfl hne
          · exact hne
        rw [Function.update_same, hc]
        exact ComponentArray.getComponent_writeComponent_ne a0 hd.1 E E' v hE
      · rw [Function.update_noteq ht]
    have hsig : (m.writeComponent t E v).entitySignatures = m.entitySignatures := by rw [hw]
    have hq : (m.writeComponent t E v).availableEntities = m.availableEntities := by rw [hw]
    refine ⟨⟨?_, ?_, ?_, ?_⟩, hself, hframe, hsig, hq⟩
    · intro t' arr ha
      rw [hw] at ha
      simp only at ha
      by_cases ht : t' = t
      · subst ht
        rw [Function.update_same] at ha
        cases Option.some.inj ha
        exact ComponentArray.dense_writeComponent a0 hd E v
      · rw [Function.update_noteq ht] at ha
        exact h1 t' arr ha
    · intro t' E' hne
      rw [hsig]
      apply h2 t' E'
      by_cases hte : t' = t ∧ E' = E
      · obtain ⟨rfl, rfl⟩ := hte
        intro hnone
        have hlook : a0.entityToIndex.lookup E' = none := by
          apply (ComponentArray.getComponent_eq_none_iff a0 hd.1 E').mp
          simp only [getComponent, hc] at hnone
          exact hnone
        apply hne
        rw [hw]
        simp only [getComponent, Function.update_same, ComponentArray.writeComponent, hlook]
        apply (ComponentArray.getComponent_eq_none_iff a0 hd.1 E').mpr hlook
      · rw [← hframe t' E' (by tauto)]
        exact hne
    · intro q hqm
      rw [hq] at hqm
      have := h3 q hqm
      simp only [isEntityValid, hsig] at this ⊢
      exact this
    · rw [hq]
      exact h4

theorem wf_destroyEntity (m : EntityManager T) (h : m.WF) (E : EntityId) :
    (m.destroyEntity E).WF ∧
    (∀ t, (m.destroyEntity E).getComponent t E = none) ∧
    (∀ t E', E' ≠ E → (m.destroyEntity E).getComponent t E' = m.getComponent t E') ∧
    (∀ E', (m.destroyEntity E).isEntityValid E' = true ↔ (m.isEntityValid E' = true ∧ E' ≠ E)) ∧
    (m.isEntityValid E = true →
      (m.destroyEntity E).availableEntities = m.availableEntities ++ [E]) := by
  obtain ⟨h1, h2, h3, h4⟩ := h
  have hvalid := isEntityValid_destroyEntity m E
  cases hv : m.isEntityValid E with
  | false =>
    have hd : m.destroyEntity E = m := (destroyEntity_effect m E).1 hv
    rw [hd]
    refine ⟨⟨h1, h2, h3, h4⟩, fun t => getComponent_of_not_valid m ⟨h1, h2, h3, h4⟩ t E hv,
      fun _ _ _ => rfl, ?_, fun hc => by cases hc⟩
    intro E'
    constructor
    · intro hE'
      refine ⟨hE', ?_⟩
      rintro rfl
      rw [hv] at hE'
      cases hE'
    · exact fun hE' => hE'.1
  | true =>
    obtain ⟨_, hcomp, hqueue, hsigs⟩ := (destroyEntity_effect m E).2 hv
    have hframe : ∀ t E', E' ≠ E →
        (m.destroyEntity E).getComponent t E' = m.getComponent t E' := by
      intro t E' hne
      unfold destroyEntity
      rw [if_pos hv]
      simp only [getComponent]
      cases hc : m.componentArrays t with
      | none => rfl
      | some a0 =>
        exact ComponentArray.getComponent_removeComponent_ne a0 (h1 t a0 hc) E E' hne
    refine ⟨⟨?_, ?_, ?_, ?_⟩, hcomp, hframe, hvalid, fun _ => hqueue⟩
    · intro t arr ha
      unfold destroyEntity at ha
      rw [if_pos hv] at ha
      simp only [Option.map_eq_some'] at ha
      obtain ⟨a0, ha0, rfl⟩ := ha
      exact ComponentArray.dense_removeComponent a0 (h1 t a0 ha0) E
    · intro t E' hne
      have hE' : E' ≠ E := by
        rintro rfl
        exact hne (hcomp t)
      rw [hframe t E' hE'] at hne
      obtain ⟨sig, hsig, hbit⟩ := h2 t E' hne
      exact ⟨sig, by rw [hsigs E' hE']; exact hsig, hbit⟩
    · intro q hq
      rw [hqueue] at hq
      cases hvq : (m.destroyEntity E).isEntityValid q with
      | false => rfl
      | true =>
        obtain ⟨hqv, hqne⟩ := (hvalid q).mp hvq
        rcases List.mem_append.mp hq with hq | hq
        · rw [h3 q hq] at hqv
          cases hqv
        · exact absurd (List.mem_singleton.mp hq) hqne
    · rw [hqueue]
      rw [List.nodup_append]
      refine ⟨h4, List.nodup_singleton E, ?_⟩
      intro q hq hq'
      rw [List.mem_singleton.mp hq'] at hq
      rw [h3 E hq] at hv
      cases hv

end EntityManager

/-! ## Creating an entity with components -/

namespace EntityManager

variable {T : Type}

theorem wf_addAll (e : EntityId) (comps : List (ComponentTypeId × T)) :
    ∀ (m : EntityManager T), m.WF → m.isEntityValid e = true →
      (∀ c ∈ comps, m.getComponent c.1 e = none) → (comps.map Prod.fst).Nodup →
      (comps.foldl (fun r c => (r.addComponent c.1 e c.2).2) m).WF ∧
      (∀ c ∈ comps,
        (comps.foldl (fun r c => (r.addComponent c.1 e c.2).2) m).getComponent c.1 e
          = some c.2) ∧
      (∀ t, t ∉ comps.map Prod.fst →
        (comps.foldl (fun r c => (r.addComponent c.1 e c.2).2) m).getComponent t e
          = m.getComponent t e) ∧
      (∀ t E, E ≠ e →
        (comps.foldl (fun r c => (r.addComponent c.1 e c.2).2) m).getComponent t E
          = m.getComponent t E) ∧
      (∀ E, (comps.foldl (fun r c => (r.addComponent c.1 e c.2).2) m).isEntityValid E
          = m.isEntityValid E) ∧
      (comps.foldl (fun r c => (r.addComponent c.1 e c.2).2) m).availableEntities
          = m.availableEntities := by
  induction comps with
  | nil =>
    intro m h _ _ _
    exact ⟨h, fun c hc => absurd hc (List.not_mem_nil c), fun _ _ => rfl, fun _ _ _ => rfl,
      fun _ => rfl, rfl⟩
  | cons c cs ih =>
    intro m h hv hnone hnd
    simp only [List.foldl_cons]
    obtain ⟨hw, hself, hframe, hval, hq⟩ :=
      wf_addComponent m h c.1 e c.2 hv (hnone c (List.mem_cons_self _ _))
    have hnd1 : c.1 ∉ cs.map Prod.fst := (List.nodup_cons.mp hnd).1
    have hnd2 : (cs.map Prod.fst).Nodup := (List.nodup_cons.mp hnd).2
    have hne : ∀ d ∈ cs, d.1 ≠ c.1 := by
      intro d hd hdc
      exact hnd1 (hdc ▸ List.mem_map_of_mem Prod.fst hd)
    obtain ⟨ih1, ih2, ih3, ih4, ih5, ih6⟩ :=
      ih _ hw (by rw [hval]; exact hv)
        (fun d hd => by
          rw [hframe d.1 e (Or.inl (hne d hd))]
          exact hnone d (List.mem_cons_of_mem _ hd))
        hnd2
    refine ⟨ih1, ?_, ?_, ?_, ?_, ?_⟩
    · intro d hd
      rcases List.mem_cons.mp hd with hdc | hd
      · rw [hdc, ih3 _ hnd1]
        exact hself
      · exact ih2 d hd
    · intro t ht
      have ht1 : t ≠ c.1 := fun htc => ht (by rw [htc]; exact List.mem_cons_self _ _)
      have ht2 : t ∉ cs.map Prod.fst := fun htc => ht (List.mem_cons_of_mem _ htc)
      rw [ih3 t ht2, hframe t e (Or.inl ht1)]
    · intro t E hE
      rw [ih4 t E hE, hframe t E (Or.inr hE)]
    · intro E
      rw [ih5, hval]
    · rw [ih6, hq]

theorem wf_spawn (m : EntityManager Component) (h : m.WF) (q : EntityId)
    (rest : List EntityId) (hq : m.availableEntities = q :: rest)
    (comps : List (ComponentTypeId × Component)) (hnd : (comps.map Prod.fst).Nodup) :
    (m.spawn comps).1 = q ∧ (m.spawn comps).2.WF ∧
    (m.spawn comps).2.availableEntities = rest ∧ m.isEntityValid q = false ∧
    (∀ E, (m.spawn comps).2.isEntityValid E = true ↔ (E = q ∨ m.isEntityValid E = true)) ∧
    (∀ c ∈ comps, (m.spawn comps).2.getComponent c.1 q = some c.2) ∧
    (∀ t, t ∉ comps.map Prod.fst → (m.spawn comps).2.getComponent t q = none) ∧
    (∀ t E, E ≠ q → (m.spawn comps).2.getComponent t E = m.getComponent t E) := by
  obtain ⟨hw, hid, hqueue, _, hinv, hvalid⟩ := wf_createEntity m h q rest hq
  have hnone : ∀ t, m.createEntity.2.getComponent t q = none := by
    intro t
    rw [getComponent_createEntity]
    exact getComponent_of_not_valid m h t q hinv
  have hvq : m.createEntity.2.isEntityValid q = true := (hvalid q).mpr (Or.inl rfl)
  obtain ⟨a1, a2, a3, a4, a5, a6⟩ :=
    wf_addAll q comps m.createEntity.2 hw hvq (fun c _ => hnone c.1) hnd
  unfold spawn
  simp only [hid]
  refine ⟨trivial, a1, by rw [a6]; exact hqueue, hinv, ?_, a2, ?_, ?_⟩
  · intro E
    rw [a5 E]
    exact hvalid E
  · intro t ht
    rw [a3 t ht]
    exact hnone t
  · intro t E hE
    rw [a4 t E hE]
    exact getComponent_createEntity m t E

theorem getTransform_of (m : EntityManager Component) (E : EntityId) (c : Transform)
    (h : m.getComponent TypeId.transform E = some (Component.transform c)) :
    m.getTransform E = some c := by
  unfold getTransform
  rw [h]

theorem getEnemy_of (m : EntityManager Component) (E : EntityId) (c : Enemy)
    (h : m.getComponent TypeId.enemy E = some (Component.enemy c)) :
    m.getEnemy E = some c := by
  unfold getEnemy
  rw [h]

theorem getHealth_of (m : EntityManager Component) (E : EntityId) (c : Health)
    (h : m.getComponent TypeId.health E = some (Component.health c)) :
    m.getHealth E = some c := by
  unfold getHealth
  rw [h]

theorem getProjectile_of (m : EntityManager Component) (E : EntityId) (c : Projectile)
    (h : m.getComponent TypeId.projectile E = some (Component.projectile c)) :
    m.getProjectile E = some c := by
  unfold getProjectile
  rw [h]

theorem getSpawnIndicator_of (m : EntityManager Component) (E : EntityId) (c : SpawnIndicator)
    (h : m.getComponent TypeId.spawnIndicator E = some (Component.spawnIndicator c)) :
    m.getSpawnIndicator E = some c := by
  unfold getSpawnIndicator
  rw [h]

theorem getExperienceOrb_of (m : EntityManager Component) (E : EntityId) (c : ExperienceOrb)
    (h : m.getComponent TypeId.experienceOrb E = some (Component.experienceOrb c)) :
    m.getExperienceOrb E = some c := by
  unfold getExperienceOrb
  rw [h]

theorem getMaterial_of (m : EntityManager Component) (E : EntityId) (c : Material)
    (h : m.getComponent TypeId.material E = some (Component.material c)) :
    m.getMaterial E = some c := by
  unfold getMaterial
  rw [h]

theorem getTransform_ne_none (m : EntityManager Component) (E : EntityId)
    (h : m.getTransform E ≠ none) : m.getComponent TypeId.transform E ≠ none := by
  intro hc
  apply h
  unfold getTransform
  rw [hc]

theorem getSpawnIndicator_ne_none (m : EntityManager Component) (E : EntityId)
    (h : m.getSpawnIndicator E ≠ none) : m.getComponent TypeId.spawnIndicator E ≠ none := by
  intro hc
  apply h
  unfold getSpawnIndicator
  rw [hc]

theorem getSpawnIndicator_of_none (m : EntityManager Component) (E : EntityId)
    (h : m.getComponent TypeId.spawnIndicator E = none) : m.getSpawnIndicator E = none := by
  unfold getSpawnIndicator
  rw [h]

theorem getTransform_congr (m m1 : EntityManager Component) (E E1 : EntityId)
    (h : m1.getComponent TypeId.transform E1 = m.getComponent TypeId.transform E) :
    m1.getTransform E1 = m.getTransform E := by
  unfold getTransform
  rw [h]

theorem getSpawnIndicator_congr (m m1 : EntityManager Component) (E E1 : EntityId)
    (h : m1.getComponent TypeId.spawnIndicator E1 = m.getComponent TypeId.spawnIndicator E) :
    m1.getSpawnIndicator E1 = m.getSpawnIndicator E := by
  unfold getSpawnIndicator
  rw [h]

theorem getEnemy_congr (m m1 : EntityManager Component) (E E1 : EntityId)
    (h : m1.getComponent TypeId.enemy E1 = m.getComponent TypeId.enemy E) :
    m1.getEnemy E1 = m.getEnemy E := by
  unfold getEnemy
  rw [h]

theorem getHealth_congr (m m1 : EntityManager Component) (E E1 : EntityId)
    (h : m1.getComponent TypeId.health E1 = m.getComponent TypeId.health E) :
    m1.getHealth E1 = m.getHealth E := by
  unfold getHealth
  rw [h]

theorem getProjectile_congr (m m1 : EntityManager Component) (E E1 : EntityId)
    (h : m1.getComponent TypeId.projectile E1 = m.getComponent TypeId.projectile E) :
    m1.getProjectile E1 = m.getProjectile E := by
  unfold getProjectile
  rw [h]

theorem mem_getEntitiesWith_of_components (m : EntityManager T) (h : m.WF)
    (types : List ComponentTypeId) (E : EntityId)
    (hc : ∀ t ∈ types, m.getComponent t E ≠ none) (hne : types ≠ []) :
    E ∈ m.getEntitiesWith types := by
  rw [mem_getEntitiesWith]
  obtain ⟨t0, ht0⟩ := List.exists_mem_of_ne_nil types hne
  obtain ⟨sig, hsig, _⟩ := h.2.1 t0 E (hc t0 ht0)
  refine ⟨sig, hsig, fun t ht => ?_⟩
  obtain ⟨sig1, hsig1, htest⟩ := h.2.1 t E (hc t ht)
  rw [hsig] at hsig1
  rw [Option.some.inj hsig1]
  exact htest

end EntityManager

/-! ## Completed spawn indicators -/

namespace EnemySpawnSystem

open EntityManager

theorem isEntityValid_of_getTransform (m : EntityManager Component) (h : m.WF) (E : EntityId)
    (tr : Transform) (hT : m.getTransform E = some tr) : m.isEntityValid E = true := by
  have hne := getTransform_ne_none m E (by rw [hT]; exact Option.some_ne_none tr)
  cases hcomp : m.getComponent TypeId.transform E with
  | none => exact absurd hcomp hne
  | some c => exact isEntityValid_of_getComponent m h _ E c hcomp

theorem createEnemyOfType_eq (m : EntityManager Component) (ty : EnemyType) (pos : Vector2) :
    ∃ en hh mv, createEnemyOfType m ty pos =
      (m.spawn [(TypeId.transform, Component.transform (Transform.ofPosition pos)),
                (TypeId.enemy, Component.enemy en), (TypeId.health, Component.health hh),
                (TypeId.movement, Component.movement mv)]).2 ∧ en.type = spawnedType ty := by
  cases ty <;> exact ⟨_, _, _, rfl, rfl⟩

theorem createEnemyOfType_effect (m : EntityManager Component) (h : m.WF) (q : EntityId)
    (rest : List EntityId) (hq : m.availableEntities = q :: rest) (ty : EnemyType)
    (pos : Vector2) :
    (createEnemyOfType m ty pos).WF ∧ (createEnemyOfType m ty pos).availableEntities = rest ∧
    m.isEntityValid q = false ∧
    (∀ E, (createEnemyOfType m ty pos).isEntityValid E = true ↔
      (E = q ∨ m.isEntityValid E = true)) ∧
    (createEnemyOfType m ty pos).getTransform q = some (Transform.ofPosition pos) ∧
    (∃ en, (createEnemyOfType m ty pos).getEnemy q = some en ∧ en.type = spawnedType ty) ∧
    (createEnemyOfType m ty pos).getComponent TypeId.spawnIndicator q = none ∧
    (∀ t E, E ≠ q → (createEnemyOfType m ty pos).getComponent t E = m.getComponent t E) := by
  obtain ⟨en, hh, mv, heq, hty⟩ := createEnemyOfType_eq m ty pos
  rw [heq]
  obtain ⟨_, s2, s3, s4, s5, s6, s7, s8⟩ := wf_spawn m h q rest hq
    [(TypeId.transform, Component.transform (Transform.ofPosition pos)),
     (TypeId.enemy, Component.enemy en), (TypeId.health, Component.health hh),
     (TypeId.movement, Component.movement mv)]
    (by
      show [TypeId.transform, TypeId.enemy, TypeId.health, TypeId.movement].Nodup
      decide)
  exact ⟨s2, s3, s4, s5, getTransform_of _ _ _ (s6 _ (List.mem_cons_self _ _)),
    ⟨en, getEnemy_of _ _ _ (s6 _ (List.mem_cons_of_mem _ (List.mem_cons_self _ _))), hty⟩,
    s7 _ (by
      show TypeId.spawnIndicator ∉
        [TypeId.transform, TypeId.enemy, TypeId.health, TypeId.movement]
      decide), s8⟩

theorem processIndicator_complete (m : EntityManager Component) (h : m.WF) (I : EntityId)
    (tr : Transform) (ind : SpawnIndicator) (hT : m.getTransform I = some tr)
    (hS : m.getSpawnIndicator I = some ind) (hc : ind.isComplete = true) (q : EntityId)
    (rest : List EntityId) (hq : m.availableEntities = q :: rest) :
    (processIndicator m I).WF ∧ (processIndicator m I).availableEntities = rest ++ [I] ∧
    q ≠ I ∧
    (processIndicator m I).isEntityValid q = true ∧
    (processIndicator m I).getTransform q = some (Transform.ofPosition tr.position) ∧
    (∃ en, (processIndicator m I).getEnemy q = some en ∧
      en.type = spawnedType ind.enemyType) ∧
    (processIndicator m I).getComponent TypeId.spawnIndicator q = none ∧
    (processIndicator m I).isEntityValid I = false ∧
    (∀ t, (processIndicator m I).getComponent t I = none) ∧
    (∀ E, E ≠ q → E ≠ I →
      ((processIndicator m I).isEntityValid E = m.isEntityValid E ∧
        ∀ t, (processIndicator m I).getComponent t E = m.getComponent t E)) := by
  have hproc : processIndicator m I =
      (createEnemyOfType m ind.enemyType tr.position).destroyEntity I := by
    unfold processIndicator
    rw [hT, hS]
    simp only [hc, if_true]
  rw [hproc]
  obtain ⟨c1, c2, c3, c4, c5, ⟨en, c6, c7⟩, c8, c9⟩ :=
    createEnemyOfType_effect m h q rest hq ind.enemyType tr.position
  have hIvalid : m.isEntityValid I = true := isEntityValid_of_getTransform m h I tr hT
  have hqI : q ≠ I := by
    intro e
    rw [e, hIvalid] at c3
    cases c3
  obtain ⟨d1, d2, d3, d4, d5⟩ := wf_destroyEntity _ c1 I
  have hIvalid1 : (createEnemyOfType m ind.enemyType tr.position).isEntityValid I = true :=
    (c4 I).mpr (Or.inr hIvalid)
  refine ⟨d1, ?_, hqI, ?_, ?_, ⟨en, ?_, c7⟩, ?_, ?_, d2, ?_⟩
  · rw [d5 hIvalid1, c2]
  · exact (d4 q).mpr ⟨(c4 q).mpr (Or.inl rfl), hqI⟩
  · rw [getTransform_congr _ _ q q (d3 _ q hqI)]
    exact c5
  · rw [getEnemy_congr _ _ q q (d3 _ q hqI)]
    exact c6
  · rw [d3 _ q hqI]
    exact c8
  · cases hv : ((createEnemyOfType m ind.enemyType tr.position).destroyEntity I).isEntityValid I
      with
    | false => rfl
    | true => exact absurd rfl ((d4 I).mp hv).2
  · intro E hEq hEI
    refine ⟨?_, fun t => by rw [d3 t E hEI, c9 t E hEq]⟩
    apply Bool.eq_iff_iff.mpr
    constructor
    · intro hv
      rcases (c4 E).mp ((d4 E).mp hv).1 with h1 | h1
      · exact absurd h1 hEq
      · exact h1
    · intro hv
      exact (d4 E).mpr ⟨(c4 E).mpr (Or.inr hv), hEI⟩

theorem isCompleteIndicator_iff (m : EntityManager Component) (E : EntityId) :
    isCompleteIndicator m E = true ↔
      ∃ tr ind, m.getTransform E = some tr ∧ m.getSpawnIndicator E = some ind ∧
        ind.isComplete = true := by
  unfold isCompleteIndicator
  cases hT : m.getTransform E <;> cases hS : m.getSpawnIndicator E <;> simp

theorem processIndicator_skip (m : EntityManager Component) (I : EntityId)
    (h : isCompleteIndicator m I = false) : processIndicator m I = m := by
  unfold processIndicator
  split
  · rename_i tr ind hT hS
    have hc : ind.isComplete = false := by
      unfold isCompleteIndicator at h
      rw [hT, hS] at h
      exact h
    simp only [hc]
    rfl
  · rfl

theorem isCompleteIndicator_congr (m m1 : EntityManager Component) (E : EntityId)
    (h : ∀ t, m1.getComponent t E = m.getComponent t E) :
    isCompleteIndicator m1 E = isCompleteIndicator m E := by
  unfold isCompleteIndicator
  rw [getTransform_congr m m1 E E (h _), getSpawnIndicator_congr m m1 E E (h _)]

theorem isCompleteIndicator_of_none (m : EntityManager Component) (E : EntityId)
    (h : m.getComponent TypeId.spawnIndicator E = none) : isCompleteIndicator m E = false := by
  unfold isCompleteIndicator
  rw [getSpawnIndicator_of_none m E h]
  cases m.getTransform E <;> rfl

theorem processIndicators_list (l : List EntityId) :
    ∀ (m : EntityManager Component), m.WF → l.Nodup →
      (l.filter (isCompleteIndicator m)).length ≤ m.availableEntities.length →
      (l.foldl processIndicator m).WF ∧
      (∀ p ∈ List.zip (l.filter (isCompleteIndicator m))
          (m.availableEntities.take (l.filter (isCompleteIndicator m)).length),
        ∀ tr ind, m.getTransform p.1 = some tr → m.getSpawnIndicator p.1 = some ind →
          (l.foldl processIndicator m).isEntityValid p.2 = true ∧
          (l.foldl processIndicator m).getTransform p.2
            = some (Transform.ofPosition tr.position) ∧
          ∃ en, (l.foldl processIndicator m).getEnemy p.2 = some en ∧
            en.type = spawnedType ind.enemyType) ∧
      (∀ I ∈ l.filter (isCompleteIndicator m),
        (l.foldl processIndicator m).isEntityValid I = false ∧
        ∀ t, (l.foldl processIndicator m).getComponent t I = none) ∧
      (∀ E, E ∉ l.filter (isCompleteIndicator m) →
        E ∉ m.availableEntities.take (l.filter (isCompleteIndicator m)).length →
        ((l.foldl processIndicator m).isEntityValid E = m.isEntityValid E ∧
          ∀ t, (l.foldl processIndicator m).getComponent t E = m.getComponent t E)) := by
  induction l with
  | nil =>
    intro m h _ _
    refine ⟨h, ?_, ?_, fun E _ _ => ⟨rfl, fun _ => rfl⟩⟩
    · intro p hp
      simp at hp
    · intro I hI
      simp at hI
  | cons I l ih =>
    intro m h hnd hfree
    simp only [List.foldl_cons]
    by_cases hc : isCompleteIndicator m I = true
    · obtain ⟨tr, ind, hT, hS, hcomp⟩ := (isCompleteIndicator_iff m I).mp hc
      have hfilter : (I :: l).filter (isCompleteIndicator m)
          = I :: l.filter (isCompleteIndicator m) := List.filter_cons_of_pos hc
      rw [hfilter] at hfree ⊢
      cases hq : m.availableEntities with
      | nil =>
        rw [hq] at hfree
        simp at hfree
      | cons q rest =>
        rw [hq] at hfree
        simp only [List.length_cons, List.take_succ_cons, List.zip_cons_cons] at hfree ⊢
        obtain ⟨s1, s2, _, s4, s5, ⟨en, s6, s7⟩, s8, s9, s10, s11⟩ :=
          processIndicator_complete m h I tr ind hT hS hcomp q rest hq
        have hIl : I ∉ l := (List.nodup_cons.mp hnd).1
        have hndl : l.Nodup := (List.nodup_cons.mp hnd).2
        have hqueue : (q :: rest).Nodup := hq ▸ h.2.2.2
        have hqrest : q ∉ rest := (List.nodup_cons.mp hqueue).1
        have hqinv : m.isEntityValid q = false :=
          h.2.2.1 q (by rw [hq]; exact List.mem_cons_self _ _)
        have hIvalid : m.isEntityValid I = true := isEntityValid_of_getTransform m h I tr hT
        have hIrest : I ∉ rest := by
          intro hmem
          have hinv := h.2.2.1 I (by rw [hq]; exact List.mem_cons_of_mem _ hmem)
          rw [hinv] at hIvalid
          cases hIvalid
        have hcq0 : isCompleteIndicator m q = false :=
          isCompleteIndicator_of_none m q (getComponent_of_not_valid m h _ q hqinv)
        have hcq : isCompleteIndicator (processIndicator m I) q = false :=
          isCompleteIndicator_of_none _ _ s8
        have hfilt : l.filter (isCompleteIndicator (processIndicator m I))
            = l.filter (isCompleteIndicator m) := by
          apply List.filter_congr
          intro J hJ
          by_cases hJq : J = q
          · rw [hJq, hcq, hcq0]
          · have hJI : J ≠ I := fun e => hIl (e ▸ hJ)
            exact isCompleteIndicator_congr m _ J (s11 J hJq hJI).2
        have hlen : (l.filter (isCompleteIndicator m)).length ≤ rest.length := by omega
        have htake : (rest ++ [I]).take (l.filter (isCompleteIndicator m)).length
            = rest.take (l.filter (isCompleteIndicator m)).length :=
          List.take_append_of_le_length hlen
        obtain ⟨i1, i2, i3, i4⟩ := ih (processIndicator m I) s1 hndl (by
          rw [hfilt, s2, List.length_append]
          omega)
        rw [hfilt, s2, htake] at i2 i4
        rw [hfilt] at i3
        have hq_notdone : q ∉ l.filter (isCompleteIndicator m) := by
          intro hmem
          have hqc := (List.mem_filter.mp hmem).2
          rw [hcq0] at hqc
          cases hqc
        have hq_notnews : q ∉ rest.take (l.filter (isCompleteIndicator m)).length :=
          fun hmem => hqrest (List.mem_of_mem_take hmem)
        have hI_notdone : I ∉ l.filter (isCompleteIndicator m) :=
          fun hmem => hIl (List.mem_of_mem_filter hmem)
        have hI_notnews : I ∉ rest.take (l.filter (isCompleteIndicator m)).length :=
          fun hmem => hIrest (List.mem_of_mem_take hmem)
        refine ⟨i1, ?_, ?_, ?_⟩
        · intro p hp tr1 ind1 hT1 hS1
          rcases List.mem_cons.mp hp with hp | hp
          · rw [hp] at hT1 hS1 ⊢
            simp only at hT1 hS1 ⊢
            rw [hT] at hT1
            rw [hS] at hS1
            cases hT1
            cases hS1
            obtain ⟨f1, f2⟩ := i4 q hq_notdone hq_notnews
            exact ⟨by rw [f1]; exact s4,
              by rw [getTransform_congr _ _ q q (f2 _)]; exact s5,
              en, by rw [getEnemy_congr _ _ q q (f2 _)]; exact s6, s7⟩
          · obtain ⟨a, b⟩ := p
            have hp1 : a ∈ l.filter (isCompleteIndicator m) := (List.of_mem_zip hp).1
            have hpq : a ≠ q := fun e => hq_notdone (e ▸ hp1)
            have hpI : a ≠ I := fun e => hI_notdone (e ▸ hp1)
            have g := (s11 a hpq hpI).2
            exact i2 (a, b) hp tr1 ind1
              (by rw [getTransform_congr m _ a a (g _)]; exact hT1)
              (by rw [getSpawnIndicator_congr m _ a a (g _)]; exact hS1)
        · intro J hJ
          rcases List.mem_cons.mp hJ with hJ | hJ
          · rw [hJ]
            obtain ⟨f1, f2⟩ := i4 I hI_notdone hI_notnews
            exact ⟨by rw [f1]; exact s9, fun t => by rw [f2 t]; exact s10 t⟩
          · exact i3 J hJ
        · intro E hE1 hE2
          have hEI : E ≠ I := fun e => hE1 (e ▸ List.mem_cons_self _ _)
          have hEd : E ∉ l.filter (isCompleteIndicator m) :=
            fun hmem => hE1 (List.mem_cons_of_mem _ hmem)
          have hEq : E ≠ q := fun e => hE2 (e ▸ List.mem_cons_self _ _)
          have hEn : E ∉ rest.take (l.filter (isCompleteIndicator m)).length :=
            fun hmem => hE2 (List.mem_cons_of_mem _ hmem)
          obtain ⟨f1, f2⟩ := i4 E hEd hEn
          obtain ⟨g1, g2⟩ := s11 E hEq hEI
          exact ⟨by rw [f1, g1], fun t => by rw [f2 t, g2 t]⟩
    · have hc1 : isCompleteIndicator m I = false := by
        cases hb : isCompleteIndicator m I with
        | false => rfl
        | true => exact absurd hb hc
      have hfilter : (I :: l).filter (isCompleteIndicator m)
          = l.filter (isCompleteIndicator m) := List.filter_cons_of_neg hc
      rw [hfilter] at hfree ⊢
      rw [processIndicator_skip m I hc1]
      exact ih m h (List.nodup_cons.mp hnd).2 hfree

end EnemySpawnSystem

/-! ## Entities that an operation leaves alone -/

namespace EntityManager

variable {T : Type}

theorem unchanged_refl (m : EntityManager T) (X : EntityId) : Unchanged m m X :=
  ⟨rfl, fun _ => rfl⟩

theorem unchanged_trans {m m1 m2 : EntityManager T} {X : EntityId} (h1 : Unchanged m m1 X)
    (h2 : Unchanged m1 m2 X) : Unchanged m m2 X :=
  ⟨h2.1.trans h1.1, fun t => (h2.2 t).trans (h1.2 t)⟩

theorem spawn_unchanged (m : EntityManager Component) (h : m.WF) (q : EntityId)
    (rest : List EntityId) (hq : m.availableEntities = q :: rest)
    (comps : List (ComponentTypeId × Component)) (hnd : (comps.map Prod.fst).Nodup)
    (X : EntityId) (hX : X ≠ q) : Unchanged m (m.spawn comps).2 X := by
  obtain ⟨_, _, _, _, s5, _, _, s8⟩ := wf_spawn m h q rest hq comps hnd
  refine ⟨Bool.eq_iff_iff.mpr ⟨fun hv => ((s5 X).mp hv).resolve_left hX,
    fun hv => (s5 X).mpr (Or.inr hv)⟩, fun t => s8 t X hX⟩

theorem destroyEntity_unchanged (m : EntityManager T) (h : m.WF) (E X : EntityId)
    (hX : X ≠ E) : Unchanged m (m.destroyEntity E) X := by
  obtain ⟨_, _, d3, d4, _⟩ := wf_destroyEntity m h E
  exact ⟨Bool.eq_iff_iff.mpr ⟨fun hv => ((d4 X).mp hv).1, fun hv => (d4 X).mpr ⟨hv, hX⟩⟩,
    fun t => d3 t X hX⟩

theorem destroyEntity_invalid (m : EntityManager T) (h : m.WF) (E : EntityId) :
    (m.destroyEntity E).isEntityValid E = false := by
  obtain ⟨_, _, _, d4, _⟩ := wf_destroyEntity m h E
  cases hv : (m.destroyEntity E).isEntityValid E with
  | false => rfl
  | true => exact absurd rfl ((d4 E).mp hv).2

theorem length_destroyEntity (m : EntityManager T) (h : m.WF) (E : EntityId)
    (hv : m.isEntityValid E = true) :
    (m.destroyEntity E).availableEntities.length = m.availableEntities.length + 1 := by
  rw [(wf_destroyEntity m h E).2.2.2.2 hv, List.length_append, List.length_singleton]

theorem isEntityValid_writeComponent (m : EntityManager T) (h : m.WF) (t : ComponentTypeId)
    (E : EntityId) (v : T) (X : EntityId) :
    (m.writeComponent t E v).isEntityValid X = m.isEntityValid X := by
  unfold isEntityValid
  rw [(wf_writeComponent m h t E v).2.2.2.1]

theorem writeComponent_unchanged (m : EntityManager T) (h : m.WF) (t : ComponentTypeId)
    (E : EntityId) (v : T) (X : EntityId) (hX : X ≠ E) :
    Unchanged m (m.writeComponent t E v) X :=
  ⟨isEntityValid_writeComponent m h t E v X,
    fun t1 => (wf_writeComponent m h t E v).2.2.1 t1 X (Or.inr hX)⟩

theorem not_mem_queue_of_valid (m : EntityManager T) (h : m.WF) (X : EntityId)
    (hv : m.isEntityValid X = true) : X ∉ m.availableEntities := by
  intro hmem
  rw [h.2.2.1 X hmem] at hv
  cases hv

theorem getHealth_ne_none (m : EntityManager Component) (E : EntityId)
    (h : m.getHealth E ≠ none) : m.getComponent TypeId.health E ≠ none := by
  intro hc
  apply h
  unfold getHealth
  rw [hc]

theorem getProjectile_of_none (m : EntityManager Component) (E : EntityId)
    (h : m.getComponent TypeId.projectile E = none) : m.getProjectile E = none := by
  unfold getProjectile
  rw [h]

theorem getEnemy_of_none (m : EntityManager Component) (E : EntityId)
    (h : m.getComponent TypeId.enemy E = none) : m.getEnemy E = none := by
  unfold getEnemy
  rw [h]

theorem getTransform_of_none (m : EntityManager Component) (E : EntityId)
    (h : m.getComponent TypeId.transform E = none) : m.getTransform E = none := by
  unfold getTransform
  rw [h]

end EntityManager

/-! ## One bullet against the list of enemies -/

namespace CollisionSystem

open EntityManager

theorem scanEnemies_none (cs : CollisionSystem) (m : EntityManager Component)
    (rng : RandomSource) (B : EntityId) (bt : Transform) (p : Projectile)
    (enemies : List EntityId) (h : ∀ e ∈ enemies, hits m bt.position e = false) :
    scanEnemies cs m rng B bt p enemies = (m, rng) := by
  induction enemies with
  | nil => rfl
  | cons e rest ih =>
    have he := h e (List.mem_cons_self _ _)
    have ih1 := ih (fun x hx => h x (List.mem_cons_of_mem _ hx))
    unfold hits at he
    cases hT : m.getTransform e <;> cases hE : m.getEnemy e <;>
      simp only [scanEnemies, hT, hE] at he ⊢
    · exact ih1
    · exact ih1
    · exact ih1
    · rw [he]
      simpa using ih1

theorem scanEnemies_hit (cs : CollisionSystem) (m : EntityManager Component)
    (rng : RandomSource) (B : EntityId) (bt : Transform) (p : Projectile)
    (pre : List EntityId) (E : EntityId) (post : List EntityId)
    (hpre : ∀ e ∈ pre, hits m bt.position e = false) (hE : hits m bt.position E = true) :
    scanEnemies cs m rng B bt p (pre ++ E :: post) = hitEnemy cs m rng B p E := by
  induction pre with
  | nil =>
    unfold hits at hE
    cases hT : m.getTransform E <;> cases hEn : m.getEnemy E <;>
      simp only [scanEnemies, hT, hEn, List.nil_append] at hE ⊢
    · cases hE
    · cases hE
    · cases hE
    · rw [hE]
      simp
  | cons e rest ih =>
    have he := hpre e (List.mem_cons_self _ _)
    have ih1 := ih (fun x hx => hpre x (List.mem_cons_of_mem _ hx))
    unfold hits at he
    cases hT : m.getTransform e <;> cases hEn : m.getEnemy e <;>
      simp only [scanEnemies, hT, hEn, List.cons_append] at he ⊢
    · exact ih1
    · exact ih1
    · exact ih1
    · rw [he]
      simpa using ih1

end CollisionSystem

/-! ## Death handling -/

namespace CollisionSystem

open EntityManager

theorem drops_then_destroy (m : EntityManager Component) (h : m.WF) (E : EntityId)
    (hv : m.isEntityValid E = true) (q1 q2 : EntityId) (rest2 : List EntityId)
    (hq : m.availableEntities = q1 :: q2 :: rest2) (pos : Vector2) (xp : Int)
    (m2 : EntityManager Component)
    (hm2 : m2 = (PickupSystem.createExperienceOrb m pos xp).2 ∨
      ∃ mv, m2 = (PickupSystem.createMaterial (PickupSystem.createExperienceOrb m pos xp).2
        pos mv 1).2) :
    (m2.destroyEntity E).WF ∧
    m.availableEntities.length ≤ (m2.destroyEntity E).availableEntities.length + 1 ∧
    (m2.destroyEntity E).isEntityValid E = false ∧
    (∀ t, (m2.destroyEntity E).getComponent t E = none) ∧
    (∀ X, X ≠ E → X ∉ m.availableEntities.take 2 → Unchanged m (m2.destroyEntity E) X) ∧
    (∀ X, X ∈ m.availableEntities.take 2 →
      (m2.destroyEntity E).getComponent TypeId.projectile X = none ∧
      (m2.destroyEntity E).getComponent TypeId.enemy X = none) ∧
    ((m2.destroyEntity E).isEntityValid q1 = true ∧
      (m2.destroyEntity E).getTransform q1 = some (Transform.ofPosition pos) ∧
      (m2.destroyEntity E).getExperienceOrb q1 = some (ExperienceOrb.ofXp xp)) := by
  have hqueue : (q1 :: q2 :: rest2).Nodup := hq ▸ h.2.2.2
  have hq12 : q1 ≠ q2 := by
    intro e
    have hmem := (List.nodup_cons.mp hqueue).1
    rw [e] at hmem
    exact hmem (List.mem_cons_self _ _)
  have hEq : E ∉ m.availableEntities := not_mem_queue_of_valid m h E hv
  have hE1 : E ≠ q1 := fun e => hEq (by rw [hq, e]; exact List.mem_cons_self _ _)
  have hE2 : E ≠ q2 := fun e =>
    hEq (by rw [hq, e]; exact List.mem_cons_of_mem _ (List.mem_cons_self _ _))
  have hnd1 : (List.map Prod.fst
      [(TypeId.transform, Component.transform (Transform.ofPosition pos)),
       (TypeId.experienceOrb, Component.experienceOrb (ExperienceOrb.ofXp xp))]).Nodup := by
    show [TypeId.transform, TypeId.experienceOrb].Nodup
    decide
  obtain ⟨_, a2, a3, _, a5, a6, a7, a8⟩ := wf_spawn m h q1 (q2 :: rest2) hq _ hnd1
  have u1 : ∀ X, X ≠ q1 → Unchanged m (PickupSystem.createExperienceOrb m pos xp).2 X :=
    fun X hX => spawn_unchanged m h q1 (q2 :: rest2) hq _ hnd1 X hX
  have hq2inv : (PickupSystem.createExperienceOrb m pos xp).2.isEntityValid q2 = false :=
    a2.2.2.1 q2 (by
      show q2 ∈ (m.spawn _).2.availableEntities
      rw [a3]
      exact List.mem_cons_self _ _)
  -- the facts about the registry before the enemy is destroyed
  have key : m2.WF ∧ rest2.length ≤ m2.availableEntities.length ∧
      (∀ X, X ≠ q1 → X ≠ q2 → Unchanged m m2 X) ∧
      (m2.isEntityValid q1 = true ∧
        m2.getComponent TypeId.transform q1
          = some (Component.transform (Transform.ofPosition pos)) ∧
        m2.getComponent TypeId.experienceOrb q1
          = some (Component.experienceOrb (ExperienceOrb.ofXp xp))) ∧
      (∀ X, X = q1 ∨ X = q2 → m2.getComponent TypeId.projectile X = none ∧
        m2.getComponent TypeId.enemy X = none) := by
    have o1 : (PickupSystem.createExperienceOrb m pos xp).2.isEntityValid q1 = true :=
      (a5 q1).mpr (Or.inl rfl)
    have o2 := a6 _ (List.mem_cons_self _ _)
    have o3 := a6 _ (List.mem_cons_of_mem _ (List.mem_cons_self _ _))
    have o4 : (PickupSystem.createExperienceOrb m pos xp).2.getComponent TypeId.projectile q1
        = none := a7 _ (by
      show TypeId.projectile ∉ [TypeId.transform, TypeId.experienceOrb]
      decide)
    have o5 : (PickupSystem.createExperienceOrb m pos xp).2.getComponent TypeId.enemy q1
        = none := a7 _ (by
      show TypeId.enemy ∉ [TypeId.transform, TypeId.experienceOrb]
      decide)
    rcases hm2 with hm2 | ⟨mv, hm2⟩
    · rw [hm2]
      refine ⟨a2, ?_, fun X hX1 _ => u1 X hX1, ⟨o1, o2, o3⟩, ?_⟩
      · show rest2.length ≤ (m.spawn _).2.availableEntities.length
        rw [a3]
        simp
      · rintro X (hX | hX)
        · rw [hX]
          exact ⟨o4, o5⟩
        · rw [hX]
          exact ⟨getComponent_of_not_valid _ a2 _ q2 hq2inv,
            getComponent_of_not_valid _ a2 _ q2 hq2inv⟩
    · have hnd2 : (List.map Prod.fst
          [(TypeId.transform, Component.transform (Transform.ofPosition pos)),
           (TypeId.material, Component.material (Material.ofValues mv 1))]).Nodup := by
        show [TypeId.transform, TypeId.material].Nodup
        decide
      obtain ⟨_, b2, b3, _, b5, _, b7, b8⟩ :=
        wf_spawn (PickupSystem.createExperienceOrb m pos xp).2 a2 q2 rest2 a3 _ hnd2
      have u2 : ∀ X, X ≠ q2 → Unchanged (PickupSystem.createExperienceOrb m pos xp).2
          (PickupSystem.createMaterial (PickupSystem.createExperienceOrb m pos xp).2
            pos mv 1).2 X :=
        fun X hX => spawn_unchanged _ a2 q2 rest2 a3 _ hnd2 X hX
      rw [hm2]
      refine ⟨b2, ?_, fun X hX1 hX2 => unchanged_trans (u1 X hX1) (u2 X hX2), ⟨?_, ?_, ?_⟩, ?_⟩
      · show rest2.length ≤ (((PickupSystem.createExperienceOrb m pos xp).2).spawn
          _).2.availableEntities.length
        rw [b3]
      · rw [(u2 q1 hq12).1]
        exact o1
      · rw [(u2 q1 hq12).2]
        exact o2
      · rw [(u2 q1 hq12).2]
        exact o3
      · rintro X (hX | hX)
        · rw [hX, (u2 q1 hq12).2, (u2 q1 hq12).2]
          exact ⟨o4, o5⟩
        · rw [hX]
          exact ⟨b7 _ (by
              show TypeId.projectile ∉ [TypeId.transform, TypeId.material]
              decide),
            b7 _ (by
              show TypeId.enemy ∉ [TypeId.transform, TypeId.material]
              decide)⟩
  obtain ⟨k1, k2, k3, ⟨k4, k5, k6⟩, k7⟩ := key
  have hEv2 : m2.isEntityValid E = true := by
    rw [(k3 E hE1 hE2).1]
    exact hv
  obtain ⟨d1, d2, d3, d4, d5⟩ := wf_destroyEntity m2 k1 E
  have htake : m.availableEntities.take 2 = [q1, q2] := by
    rw [hq]
    rfl
  refine ⟨d1, ?_, destroyEntity_invalid m2 k1 E, d2, ?_, ?_, ?_, ?_, ?_⟩
  · rw [length_destroyEntity m2 k1 E hEv2, hq]
    simp only [List.length_cons]
    omega
  · intro X hXE hXq
    rw [htake] at hXq
    have hX1 : X ≠ q1 := fun e => hXq (by rw [e]; exact List.mem_cons_self _ _)
    have hX2 : X ≠ q2 := fun e =>
      hXq (by rw [e]; exact List.mem_cons_of_mem _ (List.mem_cons_self _ _))
    exact unchanged_trans (k3 X hX1 hX2) (destroyEntity_unchanged m2 k1 E X hXE)
  · intro X hX
    rw [htake] at hX
    have hX12 : X = q1 ∨ X = q2 := by
      rcases List.mem_cons.mp hX with e | e
      · exact Or.inl e
      · exact Or.inr (List.mem_singleton.mp e)
    have hXE : X ≠ E := by
      rcases hX12 with e | e
      · rw [e]
        exact fun e1 => hE1 e1.symm
      · rw [e]
        exact fun e1 => hE2 e1.symm
    rw [d3 _ X hXE, d3 _ X hXE]
    exact k7 X hX12
  · exact (d4 q1).mpr ⟨k4, fun e => hE1 e.symm⟩
  · apply getTransform_of
    rw [d3 _ q1 (fun e => hE1 e.symm)]
    exact k5
  · apply getExperienceOrb_of
    rw [d3 _ q1 (fun e => hE1 e.symm)]
    exact k6

end CollisionSystem

namespace CollisionSystem

open EntityManager

theorem queue_none_of_mem_take (m : EntityManager Component) (h : m.WF) (n : Nat)
    (X : EntityId) (hX : X ∈ m.availableEntities.take n) :
    m.isEntityValid X = false ∧ ∀ t, m.getComponent t X = none := by
  have hinv := h.2.2.1 X (List.mem_of_mem_take hX)
  exact ⟨hinv, fun t => getComponent_of_not_valid m h t X hinv⟩

theorem destroyEnemy_effect (cs : CollisionSystem) (m : EntityManager Component) (h : m.WF)
    (rng : RandomSource) (E : EntityId) (hv : m.isEntityValid E = true)
    (hlen : 2 ≤ m.availableEntities.length) :
    ∀ R, R = (destroyEnemy cs m rng E).1 →
    R.WF ∧ m.availableEntities.length ≤ R.availableEntities.length + 1 ∧
    R.isEntityValid E = false ∧ (∀ t, R.getComponent t E = none) ∧
    (∀ X, X ≠ E → X ∉ m.availableEntities.take 2 → Unchanged m R X) ∧
    (∀ X, X ∈ m.availableEntities.take 2 →
      R.getComponent TypeId.projectile X = none ∧ R.getComponent TypeId.enemy X = none) ∧
    (cs.pickupSystem = true → ∀ et, m.getTransform E = some et → m.getEnemy E ≠ none →
      ∀ q, m.availableEntities.head? = some q →
        R.isEntityValid q = true ∧ R.getTransform q = some (Transform.ofPosition et.position) ∧
        ∃ orb, R.getExperienceOrb q = some orb) := by
  intro R hR
  obtain ⟨q1, q2, rest2, hq⟩ : ∃ q1 q2 rest2, m.availableEntities = q1 :: q2 :: rest2 := by
    cases hq : m.availableEntities with
    | nil =>
      rw [hq] at hlen
      simp at hlen
    | cons q1 t =>
      cases t with
      | nil =>
        rw [hq] at hlen
        simp at hlen
      | cons q2 rest2 => exact ⟨_, _, _, rfl⟩
  by_cases hmain : ∃ et en, m.getTransform E = some et ∧ m.getEnemy E = some en ∧
      cs.pickupSystem = true
  · obtain ⟨et, en, hT, hEn, hP⟩ := hmain
    have shape : ∃ xp m2, (m2 = (PickupSystem.createExperienceOrb m et.position xp).2 ∨
        ∃ mv, m2 = (PickupSystem.createMaterial
          (PickupSystem.createExperienceOrb m et.position xp).2 et.position mv 1).2) ∧
        (destroyEnemy cs m rng E).1 = m2.destroyEntity E := by
      unfold destroyEnemy
      rw [hT, hEn, hP]
      dsimp only
      split_ifs
      · exact ⟨_, _, Or.inr ⟨_, rfl⟩, rfl⟩
      · exact ⟨_, _, Or.inl rfl, rfl⟩
    obtain ⟨xp, m2, hm2, hshape⟩ := shape
    rw [hshape] at hR
    rw [hR]
    obtain ⟨r1, r2, r3, r4, r5, r6, r7, r8, r9⟩ :=
      drops_then_destroy m h E hv q1 q2 rest2 hq et.position xp m2 hm2
    refine ⟨r1, r2, r3, r4, r5, r6, ?_⟩
    intro _ et1 hT1 _ q hqh
    rw [hT] at hT1
    cases hT1
    rw [hq] at hqh
    cases hqh
    exact ⟨r7, r8, _, r9⟩
  · have hplain : destroyEnemy cs m rng E = (m.destroyEntity E, rng) := by
      unfold destroyEnemy
      split
      · rename_i et en hT hEn hP
        exact absurd ⟨et, en, hT, hEn, hP⟩ hmain
      · rfl
    rw [hplain] at hR
    rw [hR]
    obtain ⟨d1, d2, d3, _, _⟩ := wf_destroyEntity m h E
    refine ⟨d1, ?_, destroyEntity_invalid m h E, d2,
      fun X hXE _ => destroyEntity_unchanged m h E X hXE, ?_, ?_⟩
    · show m.availableEntities.length ≤ (m.destroyEntity E).availableEntities.length + 1
      rw [length_destroyEntity m h E hv]
      omega
    · intro X hX
      obtain ⟨hXinv, hXnone⟩ := queue_none_of_mem_take m h 2 X hX
      have hXE : X ≠ E := by
        intro e
        rw [e, hv] at hXinv
        cases hXinv
      show (m.destroyEntity E).getComponent TypeId.projectile X = none ∧
        (m.destroyEntity E).getComponent TypeId.enemy X = none
      rw [d3 _ X hXE, d3 _ X hXE]
      exact ⟨hXnone _, hXnone _⟩
    · intro hP et hT hEn
      cases hen : m.getEnemy E with
      | none => exact absurd hen hEn
      | some en => exact absurd ⟨et, en, hT, hen, hP⟩ hmain

theorem hitEnemy_none (cs : CollisionSystem) (m : EntityManager Component)
    (rng : RandomSource) (B : EntityId) (p : Projectile) (E : EntityId)
    (hH : m.getHealth E = none) : hitEnemy cs m rng B p E = (m.destroyEntity B, rng) := by
  unfold hitEnemy
  rw [hH]

theorem hitEnemy_alive (cs : CollisionSystem) (m : EntityManager Component)
    (rng : RandomSource) (B : EntityId) (p : Projectile) (E : EntityId) (hh : Health)
    (hH : m.getHealth E = some hh) (ha : (hh.takeDamage p.damage).isAlive = true) :
    hitEnemy cs m rng B p E =
      ((m.writeComponent TypeId.health E
        (Component.health (hh.takeDamage p.damage))).destroyEntity B, rng) := by
  unfold hitEnemy
  rw [hH]
  simp [ha]

theorem hitEnemy_dead (cs : CollisionSystem) (m : EntityManager Component)
    (rng : RandomSource) (B : EntityId) (p : Projectile) (E : EntityId) (hh : Health)
    (hH : m.getHealth E = some hh) (ha : (hh.takeDamage p.damage).isAlive = false) :
    (hitEnemy cs m rng B p E).1 =
      (destroyEnemy cs (m.writeComponent TypeId.health E
        (Component.health (hh.takeDamage p.damage))) rng E).1.destroyEntity B := by
  unfold hitEnemy
  rw [hH]
  simp [ha]

theorem hitEnemy_effect (cs : CollisionSystem) (m : EntityManager Component) (h : m.WF)
    (rng : RandomSource) (B : EntityId) (p : Projectile) (E : EntityId)
    (hB : m.isEntityValid B = true) (hE : m.isEntityValid E = true) (hBE : B ≠ E)
    (hlen : 2 ≤ m.availableEntities.length) :
    ∀ R, R = (hitEnemy cs m rng B p E).1 →
    R.WF ∧ m.availableEntities.length ≤ R.availableEntities.length ∧
    R.isEntityValid B = false ∧ (∀ t, R.getComponent t B = none) ∧
    (∀ X, X ≠ B → X ≠ E → X ∉ m.availableEntities.take 2 → Unchanged m R X) ∧
    (∀ X, X ∈ m.availableEntities.take 2 →
      R.getComponent TypeId.projectile X = none ∧ R.getComponent TypeId.enemy X = none) ∧
    (m.getHealth E = none → Unchanged m R E) ∧
    (∀ hh, m.getHealth E = some hh →
      ((hh.takeDamage p.damage).isAlive = true →
        R.isEntityValid E = true ∧ R.getHealth E = some (hh.takeDamage p.damage) ∧
        ∀ t, t ≠ TypeId.health → R.getComponent t E = m.getComponent t E) ∧
      ((hh.takeDamage p.damage).isAlive = false →
        R.isEntityValid E = false ∧ (∀ t, R.getComponent t E = none) ∧
        (cs.pickupSystem = true → ∀ et, m.getTransform E = some et → m.getEnemy E ≠ none →
          ∀ q, m.availableEntities.head? = some q →
            R.isEntityValid q = true ∧
            R.getTransform q = some (Transform.ofPosition et.position) ∧
            ∃ orb, R.getExperienceOrb q = some orb))) := by
  intro R hR
  have hBq : B ∉ m.availableEntities := not_mem_queue_of_valid m h B hB
  have hEq : E ∉ m.availableEntities := not_mem_queue_of_valid m h E hE
  have hqX : ∀ X, X ∈ m.availableEntities.take 2 → X ≠ B ∧ X ≠ E := by
    intro X hX
    have hmem := List.mem_of_mem_take hX
    exact ⟨fun e => hBq (e ▸ hmem), fun e => hEq (e ▸ hmem)⟩
  cases hH : m.getHealth E with
  | none =>
    rw [hitEnemy_none cs m rng B p E hH] at hR
    rw [hR]
    obtain ⟨d1, d2, d3, _, _⟩ := wf_destroyEntity m h B
    refine ⟨d1, ?_, destroyEntity_invalid m h B, d2,
      fun X hXB _ _ => destroyEntity_unchanged m h B X hXB, ?_,
      fun _ => destroyEntity_unchanged m h B E (fun e => hBE e.symm), ?_⟩
    · show m.availableEntities.length ≤ (m.destroyEntity B).availableEntities.length
      rw [length_destroyEntity m h B hB]
      omega
    · intro X hX
      show (m.destroyEntity B).getComponent TypeId.projectile X = none ∧
        (m.destroyEntity B).getComponent TypeId.enemy X = none
      rw [d3 _ X (hqX X hX).1, d3 _ X (hqX X hX).1]
      exact ⟨(queue_none_of_mem_take m h 2 X hX).2 _, (queue_none_of_mem_take m h 2 X hX).2 _⟩
    · intro hh hc
      cases hc
  | some hh =>
    obtain ⟨w1, w2, w3, _, w5⟩ := wf_writeComponent m h TypeId.health E
      (Component.health (hh.takeDamage p.damage))
    have hHne : m.getComponent TypeId.health E ≠ none :=
      getHealth_ne_none m E (by rw [hH]; exact Option.some_ne_none hh)
    have wv := isEntityValid_writeComponent m h TypeId.health E
      (Component.health (hh.takeDamage p.damage))
    cases ha : (hh.takeDamage p.damage).isAlive with
    | true =>
      rw [hitEnemy_alive cs m rng B p E hh hH ha] at hR
      rw [hR]
      obtain ⟨d1, d2, d3, d4, _⟩ := wf_destroyEntity _ w1 B
      have hE' : E ≠ B := fun e => hBE e.symm
      refine ⟨d1, ?_, destroyEntity_invalid _ w1 B, d2, ?_, ?_, ?_, ?_⟩
      · show m.availableEntities.length ≤ ((m.writeComponent TypeId.health E
          (Component.health (hh.takeDamage p.damage))).destroyEntity B).availableEntities.length
        rw [length_destroyEntity _ w1 B (by rw [wv]; exact hB), w5]
        omega
      · intro X hXB hXE _
        exact unchanged_trans (writeComponent_unchanged m h _ E _ X hXE)
          (destroyEntity_unchanged _ w1 B X hXB)
      · intro X hX
        show (((m.writeComponent TypeId.health E
          (Component.health (hh.takeDamage p.damage))).destroyEntity B).getComponent
            TypeId.projectile X = none) ∧
          (((m.writeComponent TypeId.health E
          (Component.health (hh.takeDamage p.damage))).destroyEntity B).getComponent
            TypeId.enemy X = none)
        rw [d3 _ X (hqX X hX).1, d3 _ X (hqX X hX).1, w3 _ X (Or.inr (hqX X hX).2),
          w3 _ X (Or.inr (hqX X hX).2)]
        exact ⟨(queue_none_of_mem_take m h 2 X hX).2 _,
          (queue_none_of_mem_take m h 2 X hX).2 _⟩
      · intro hc
        cases hc
      · intro hh1 hc
        cases hc
        refine ⟨fun _ => ⟨?_, ?_, ?_⟩, fun hc => absurd (ha.symm.trans hc) (by decide)⟩
        · exact (d4 E).mpr ⟨by rw [wv]; exact hE, hE'⟩
        · apply getHealth_of
          rw [d3 _ E hE']
          exact w2 hHne
        · intro t ht
          rw [d3 _ E hE']
          exact w3 t E (Or.inl ht)
    | false =>
      rw [hitEnemy_dead cs m rng B p E hh hH ha] at hR
      rw [hR]
      obtain ⟨e1, e2, e3, e4, e5, e6, e7⟩ := destroyEnemy_effect cs
        (m.writeComponent TypeId.health E (Component.health (hh.takeDamage p.damage))) w1 rng E
        (by rw [wv]; exact hE) (by rw [w5]; exact hlen) _ rfl
      rw [w5] at e2 e5 e6 e7
      have hE' : E ≠ B := fun e => hBE e.symm
      have hBtake : B ∉ m.availableEntities.take 2 := fun hmem => hBq (List.mem_of_mem_take hmem)
      have hBv : (destroyEnemy cs (m.writeComponent TypeId.health E
          (Component.health (hh.takeDamage p.damage))) rng E).1.isEntityValid B = true := by
        rw [(e5 B hBE hBtake).1, wv]
        exact hB
      obtain ⟨d1, d2, d3, d4, _⟩ := wf_destroyEntity _ e1 B
      refine ⟨d1, ?_, destroyEntity_invalid _ e1 B, d2, ?_, ?_, ?_, ?_⟩
      · rw [length_destroyEntity _ e1 B hBv]
        omega
      · intro X hXB hXE hXq
        exact unchanged_trans (unchanged_trans (writeComponent_unchanged m h _ E _ X hXE)
          (e5 X hXE hXq)) (destroyEntity_unchanged _ e1 B X hXB)
      · intro X hX
        rw [d3 _ X (hqX X hX).1, d3 _ X (hqX X hX).1]
        exact e6 X hX
      · intro hc
        cases hc
      · intro hh1 hc
        cases hc
        refine ⟨fun hc => absurd (ha.symm.trans hc) (by decide), fun _ => ⟨?_, ?_, ?_⟩⟩
        · cases hval : ((destroyEnemy cs (m.writeComponent TypeId.health E
            (Component.health (hh.takeDamage p.damage))) rng E).1.destroyEntity B).isEntityValid E
            with
          | false => rfl
          | true =>
            have hcontra := ((d4 E).mp hval).1
            rw [e3] at hcontra
            cases hcontra
        · intro t
          rw [d3 t E hE']
          exact e4 t
        · intro hP et hT hEn q hqh
          have hqmem : q ∈ m.availableEntities := by
            cases hqq : m.availableEntities with
            | nil =>
              rw [hqq] at hqh
              cases hqh
            | cons a l =>
              rw [hqq] at hqh
              cases hqh
              exact List.mem_cons_self _ _
          have hqB : q ≠ B := fun e => hBq (e ▸ hqmem)
          obtain ⟨o1, o2, orb, o3⟩ := e7 hP et
            (by rw [getTransform_congr m _ E E (w3 _ E (Or.inl (by decide)))]; exact hT)
            (by rw [getEnemy_congr m _ E E (w3 _ E (Or.inl (by decide)))]; exact hEn) q hqh
          refine ⟨(d4 q).mpr ⟨o1, hqB⟩, ?_, orb, ?_⟩
          · rw [getTransform_congr _ _ q q (d3 _ q hqB)]
            exact o2
          · unfold getExperienceOrb
            rw [d3 _ q hqB]
            exact o3

end CollisionSystem

/-! ## One bullet of the pass, and the entities a pass leaves alone -/

namespace CollisionSystem

open EntityManager

theorem hits_iff (m : EntityManager Component) (pos : Vector2) (E : EntityId) :
    hits m pos E = true ↔
      ∃ et en, m.getTransform E = some et ∧ m.getEnemy E = some en ∧
        isCircleCollision pos BULLET_RADIUS et.position ENEMY_RADIUS = true := by
  unfold hits
  cases hT : m.getTransform E <;> cases hE : m.getEnemy E <;> simp

theorem first_split (f : EntityId → Bool) (l : List EntityId) (h : ∃ e ∈ l, f e = true) :
    ∃ pre E post, l = pre ++ E :: post ∧ (∀ e ∈ pre, f e = false) ∧ f E = true := by
  induction l with
  | nil =>
    obtain ⟨e, he, _⟩ := h
    cases he
  | cons a l ih =>
    cases hfa : f a with
    | true => exact ⟨[], a, l, rfl, fun e he => absurd he (List.not_mem_nil e), hfa⟩
    | false =>
      obtain ⟨e, he, hfe⟩ := h
      have hl : ∃ e ∈ l, f e = true := by
        rcases List.mem_cons.mp he with e1 | e1
        · rw [e1, hfa] at hfe
          cases hfe
        · exact ⟨e, e1, hfe⟩
      obtain ⟨pre, E, post, hsplit, hpre, hE⟩ := ih hl
      refine ⟨a :: pre, E, post, by rw [hsplit]; rfl, ?_, hE⟩
      intro x hx
      rcases List.mem_cons.mp hx with e1 | e1
      · rw [e1]
        exact hfa
      · exact hpre x e1

theorem processBullet_eq_scan (cs : CollisionSystem) (enemies : List EntityId)
    (m : EntityManager Component) (rng : RandomSource) (B : EntityId) (bt : Transform)
    (p : Projectile) (hT : m.getTransform B = some bt) (hP : m.getProjectile B = some p) :
    processBullet cs enemies (m, rng) B = scanEnemies cs m rng B bt p enemies := by
  unfold processBullet
  dsimp only
  rw [hT, hP]

theorem processBullet_skip (cs : CollisionSystem) (enemies : List EntityId)
    (m : EntityManager Component) (rng : RandomSource) (B : EntityId)
    (h : m.getTransform B = none ∨ m.getProjectile B = none) :
    processBullet cs enemies (m, rng) B = (m, rng) := by
  unfold processBullet
  dsimp only
  split
  · rename_i bt p hT hP
    rcases h with h | h
    · rw [h] at hT
      cases hT
    · rw [h] at hP
      cases hP
  · rfl

theorem isEntityValid_of_getProjectile (m : EntityManager Component) (h : m.WF) (E : EntityId)
    (p : Projectile) (hP : m.getProjectile E = some p) : m.isEntityValid E = true := by
  cases hcomp : m.getComponent TypeId.projectile E with
  | none =>
    rw [getProjectile_of_none m E hcomp] at hP
    cases hP
  | some c => exact isEntityValid_of_getComponent m h _ E c hcomp

theorem processBullet_miss (cs : CollisionSystem) (enemies : List EntityId)
    (m : EntityManager Component) (rng : RandomSource) (B : EntityId) (bt : Transform)
    (p : Projectile) (hT : m.getTransform B = some bt) (hP : m.getProjectile B = some p)
    (hmiss : ∀ e ∈ enemies, hits m bt.position e = false) :
    processBullet cs enemies (m, rng) B = (m, rng) := by
  rw [processBullet_eq_scan cs enemies m rng B bt p hT hP]
  exact scanEnemies_none cs m rng B bt p enemies hmiss

theorem takeDamage_vulnerable (hh : Health) (amount : Int) (h : hh.invulnerable = false) :
    (hh.takeDamage amount).current = max 0 (hh.current - amount) := by
  unfold Health.takeDamage
  rw [h]
  rfl

theorem takeDamage_invulnerable (hh : Health) (amount : Int) (h : hh.invulnerable = true) :
    hh.takeDamage amount = hh := by
  unfold Health.takeDamage
  rw [h]
  rfl

theorem isAlive_iff (hh : Health) : hh.isAlive = true ↔ 0 < hh.current := by
  unfold Health.isAlive
  simp

theorem isAlive_false_iff (hh : Health) : hh.isAlive = false ↔ hh.current ≤ 0 := by
  unfold Health.isAlive
  simp

theorem processBullet_hit (cs : CollisionSystem) (m : EntityManager Component) (hwf : m.WF)
    (rng : RandomSource) (hfree : 2 ≤ m.availableEntities.length)
    (enemies pre post : List EntityId) (B E : EntityId) (bt : Transform) (p : Projectile)
    (hT : m.getTransform B = some bt) (hP : m.getProjectile B = some p)
    (hsplit : enemies = pre ++ E :: post) (hpre : ∀ e ∈ pre, hits m bt.position e = false)
    (hE : hits m bt.position E = true) (hBE : B ≠ E) :
    ∀ R, R = (processBullet cs enemies (m, rng) B).1 →
      R.WF ∧ 2 ≤ R.availableEntities.length ∧
      R.isEntityValid B = false ∧ (∀ t, R.getComponent t B = none) ∧
      (∀ hh, m.getHealth E = some hh →
        (hh.invulnerable = false →
          (hh.takeDamage p.damage).current = max 0 (hh.current - p.damage)) ∧
        (hh.invulnerable = true → hh.takeDamage p.damage = hh) ∧
        (0 < (hh.takeDamage p.damage).current →
          R.isEntityValid E = true ∧ R.getHealth E = some (hh.takeDamage p.damage) ∧
          ∀ t, t ≠ TypeId.health → R.getComponent t E = m.getComponent t E) ∧
        ((hh.takeDamage p.damage).current ≤ 0 →
          R.isEntityValid E = false ∧ (∀ t, R.getComponent t E = none) ∧
          (cs.pickupSystem = true → ∀ et, m.getTransform E = some et →
            ∀ q, m.availableEntities.head? = some q →
              R.isEntityValid q = true ∧
              R.getTransform q = some (Transform.ofPosition et.position) ∧
              ∃ orb, R.getExperienceOrb q = some orb))) ∧
      (m.getHealth E = none → Unchanged m R E) ∧
      (∀ X, X ≠ B → X ≠ E → m.isEntityValid X = true → Unchanged m R X) ∧
      (∀ X, X ≠ B → X ≠ E → X ∉ m.availableEntities.take 2 → Unchanged m R X) ∧
      (∀ X, X ∈ m.availableEntities.take 2 →
        R.getComponent TypeId.projectile X = none ∧ R.getComponent TypeId.enemy X = none) := by
  intro R hR
  obtain ⟨et, en, hET, hEn, _⟩ := (hits_iff m bt.position E).mp hE
  have hBv : m.isEntityValid B = true := isEntityValid_of_getProjectile m hwf B p hP
  have hEv : m.isEntityValid E = true :=
    EnemySpawnSystem.isEntityValid_of_getTransform m hwf E et hET
  rw [processBullet_eq_scan cs enemies m rng B bt p hT hP, hsplit,
    scanEnemies_hit cs m rng B bt p pre E post hpre hE] at hR
  obtain ⟨r1, r2, r3, r4, r5, r6, r7, r8⟩ :=
    hitEnemy_effect cs m hwf rng B p E hBv hEv hBE hfree R hR
  refine ⟨r1, le_trans hfree r2, r3, r4, ?_, r7, ?_, r5, r6⟩
  · intro hh hH
    obtain ⟨a1, a2⟩ := r8 hh hH
    refine ⟨takeDamage_vulnerable hh p.damage, takeDamage_invulnerable hh p.damage,
      fun hpos => a1 ((isAlive_iff _).mpr hpos), fun hle => ?_⟩
    obtain ⟨b1, b2, b3⟩ := a2 ((isAlive_false_iff _).mpr hle)
    refine ⟨b1, b2, fun hpick et1 hT1 q hq => b3 hpick et1 hT1 ?_ q hq⟩
    rw [hEn]
    exact Option.some_ne_none en
  · intro X hXB hXE hXv
    exact r5 X hXB hXE
      (fun hmem => not_mem_queue_of_valid m hwf X hXv (List.mem_of_mem_take hmem))

theorem pass_frame (cs : CollisionSystem) (m : EntityManager Component)
    (enemies : List EntityId)
    (hsep : ∀ Y, m.getProjectile Y = none ∨ m.getEnemy Y = none)
    (X : EntityId) (hXv : m.isEntityValid X = true)
    (hXfree : ∀ B E bt pr et en, m.getTransform B = some bt → m.getProjectile B = some pr →
      m.getTransform E = some et → m.getEnemy E = some en →
      isCircleCollision bt.position BULLET_RADIUS et.position ENEMY_RADIUS = true →
      X ≠ B ∧ X ≠ E)
    (bullets : List EntityId) :
    ∀ (s : EntityManager Component) (rng : RandomSource),
      s.WF → 2 ≤ s.availableEntities.length →
      (∀ Y, (s.getComponent TypeId.projectile Y ≠ none ∨
          s.getComponent TypeId.enemy Y ≠ none) →
        s.getComponent TypeId.transform Y = m.getComponent TypeId.transform Y ∧
        s.getComponent TypeId.projectile Y = m.getComponent TypeId.projectile Y ∧
        s.getComponent TypeId.enemy Y = m.getComponent TypeId.enemy Y) →
      Unchanged m s X →
      Unchanged m (bullets.foldl (processBullet cs enemies) (s, rng)).1 X := by
  induction bullets with
  | nil =>
    intro s rng _ _ _ hX
    exact hX
  | cons B bullets ih =>
    intro s rng hwf hfree hinv hX
    simp only [List.foldl_cons]
    -- a bullet that changes nothing
    have same : processBullet cs enemies (s, rng) B = (s, rng) →
        Unchanged m (bullets.foldl (processBullet cs enemies)
          (processBullet cs enemies (s, rng) B)).1 X := by
      intro hsame
      rw [hsame]
      exact ih s rng hwf hfree hinv hX
    cases hT : s.getTransform B with
    | none => exact same (processBullet_skip cs enemies s rng B (Or.inl hT))
    | some bt =>
      cases hP : s.getProjectile B with
      | none => exact same (processBullet_skip cs enemies s rng B (Or.inr hP))
      | some p =>
        by_cases hany : ∃ e ∈ enemies, hits s bt.position e = true
        · obtain ⟨pre, E, post, hsplit, hpre, hE⟩ :=
            first_split (hits s bt.position) enemies hany
          obtain ⟨et, en, hET, hEn, hover⟩ := (hits_iff s bt.position E).mp hE
          -- both are entities of the initial registry with the same position
          have hBproj : s.getComponent TypeId.projectile B ≠ none := by
            intro hc
            rw [getProjectile_of_none s B hc] at hP
            cases hP
          have hEenemy : s.getComponent TypeId.enemy E ≠ none := by
            intro hc
            rw [getEnemy_of_none s E hc] at hEn
            cases hEn
          obtain ⟨b1, b2, b3⟩ := hinv B (Or.inl hBproj)
          obtain ⟨e1, e2, e3⟩ := hinv E (Or.inr hEenemy)
          have mT : m.getTransform B = some bt := by
            rw [← getTransform_congr m s B B b1]
            exact hT
          have mP : m.getProjectile B = some p := by
            rw [← getProjectile_congr m s B B b2]
            exact hP
          have mET : m.getTransform E = some et := by
            rw [← getTransform_congr m s E E e1]
            exact hET
          have mEn : m.getEnemy E = some en := by
            rw [← getEnemy_congr m s E E e3]
            exact hEn
          have hBE : B ≠ E := by
            intro e
            rcases hsep E with hc | hc
            · rw [← e, mP] at hc
              cases hc
            · rw [mEn] at hc
              cases hc
          obtain ⟨hXB, hXE⟩ := hXfree B E bt p et en mT mP mET mEn hover
          obtain ⟨r1, r2, r3, r4, r5, r6, r7, r8, r9⟩ :=
            processBullet_hit cs s hwf rng hfree enemies pre post B E bt p hT hP hsplit hpre hE
              hBE _ rfl
          have hXs : s.isEntityValid X = true := by
            rw [hX.1]
            exact hXv
          have hXR := unchanged_trans hX (r7 X hXB hXE hXs)
          refine ih (processBullet cs enemies (s, rng) B).1 (processBullet cs enemies (s, rng) B).2
            r1 r2 ?_ hXR
          intro Y hY
          by_cases hYB : Y = B
          · rw [hYB, r4, r4] at hY
            rcases hY with hc | hc <;> exact absurd rfl hc
          by_cases hYq : Y ∈ s.availableEntities.take 2
          · rw [(r9 Y hYq).1, (r9 Y hYq).2] at hY
            rcases hY with hc | hc <;> exact absurd rfl hc
          by_cases hYE : Y = E
          · rw [hYE] at hY ⊢
            cases hH : s.getHealth E with
            | none =>
              have hu := (r6 hH).2
              rw [hu, hu, hu]
              exact ⟨e1, e2, e3⟩
            | some hh =>
              obtain ⟨_, _, a3, a4⟩ := r5 hh hH
              by_cases hpos : 0 < (hh.takeDamage p.damage).current
              · have hu := (a3 hpos).2.2
                rw [hu _ (by decide), hu _ (by decide), hu _ (by decide)]
                exact ⟨e1, e2, e3⟩
              · have hnone := (a4 (not_lt.mp hpos)).2.1
                rw [hnone, hnone] at hY
                rcases hY with hc | hc <;> exact absurd rfl hc
          · have hu := (r8 Y hYB hYE hYq).2
            rw [hu, hu] at hY
            rw [hu, hu, hu]
            exact hinv Y hY
        · have hmiss : ∀ e ∈ enemies, hits s bt.position e = false := by
            intro e he
            cases hhe : hits s bt.position e with
            | false => rfl
            | true => exact absurd ⟨e, he, hhe⟩ hany
          exact same (processBullet_miss cs enemies s rng B bt p hT hP hmiss)

end CollisionSystem

/-! ## An enemy and a projectile at the same place -/

namespace CollisionSystem

open EntityManager

theorem getEntitiesWith_congr (m m1 : EntityManager Component)
    (h : m.entitySignatures = m1.entitySignatures) (types : List ComponentTypeId) :
    m.getEntitiesWith types = m1.getEntitiesWith types := by
  unfold getEntitiesWith
  rw [h]

theorem overlap_at_origin :
    isCircleCollision ⟨0, 0⟩ BULLET_RADIUS ⟨0, 0⟩ ENEMY_RADIUS = true := by
  norm_num [isCircleCollision, getDistance, Root.le, Root.sqrt, BULLET_RADIUS, ENEMY_RADIUS]

theorem duel_facts (H : Health) (P : Projectile) :
    (duel H P).WF ∧ (duel H P).availableEntities = List.range' 3 9997 ∧
    (duel H P).getTransform 1 = some (Transform.ofPosition ⟨0, 0⟩) ∧
    (duel H P).getEnemy 1 = some {} ∧
    (duel H P).getHealth 1 = some H ∧
    (duel H P).getTransform 2 = some (Transform.ofPosition ⟨0, 0⟩) ∧
    (duel H P).getProjectile 2 = some P ∧
    (duel H P).getEntitiesWith [TypeId.transform, TypeId.projectile] = [2] ∧
    (duel H P).getEntitiesWith [TypeId.transform, TypeId.enemy] = [1] ∧
    hits (duel H P) (Transform.ofPosition ⟨0, 0⟩).position 1 = true := by
  have hnd1 : (List.map Prod.fst
      [(TypeId.transform, Component.transform (Transform.ofPosition ⟨0, 0⟩)),
       (TypeId.enemy, Component.enemy {}),
       (TypeId.health, Component.health H)]).Nodup := by
    show [TypeId.transform, TypeId.enemy, TypeId.health].Nodup
    decide
  obtain ⟨_, a2, a3, _, _, a6, _, _⟩ := wf_spawn (EntityManager.new : EntityManager Component)
    wf_new 1 (List.range' 2 9998) rfl _ hnd1
  have hnd2 : (List.map Prod.fst
      [(TypeId.transform, Component.transform (Transform.ofPosition ⟨0, 0⟩)),
       (TypeId.projectile, Component.projectile P)]).Nodup := by
    show [TypeId.transform, TypeId.projectile].Nodup
    decide
  obtain ⟨_, b2, b3, _, _, b6, _, b8⟩ := wf_spawn _ a2 2 (List.range' 3 9997) (a3.trans rfl) _ hnd2
  have hT1 : (duel H P).getTransform 1 = some (Transform.ofPosition ⟨0, 0⟩) := by
    apply getTransform_of
    show ((_ : EntityManager Component).spawn _).2.getComponent TypeId.transform 1 = _
    rw [b8 _ 1 (by decide)]
    exact a6 _ (List.mem_cons_self _ _)
  have hE1 : (duel H P).getEnemy 1 = some {} := by
    apply getEnemy_of
    show ((_ : EntityManager Component).spawn _).2.getComponent TypeId.enemy 1 = _
    rw [b8 _ 1 (by decide)]
    exact a6 _ (List.mem_cons_of_mem _ (List.mem_cons_self _ _))
  have hH1 : (duel H P).getHealth 1 = some H := by
    apply getHealth_of
    show ((_ : EntityManager Component).spawn _).2.getComponent TypeId.health 1 = _
    rw [b8 _ 1 (by decide)]
    exact a6 _ (List.mem_cons_of_mem _ (List.mem_cons_of_mem _ (List.mem_cons_self _ _)))
  refine ⟨b2, b3, hT1, hE1, hH1, getTransform_of _ _ _ (b6 _ (List.mem_cons_self _ _)),
    getProjectile_of _ _ _ (b6 _ (List.mem_cons_of_mem _ (List.mem_cons_self _ _))), ?_, ?_, ?_⟩
  · rw [getEntitiesWith_congr (duel H P) (duel {} {}) rfl]
    decide
  · rw [getEntitiesWith_congr (duel H P) (duel {} {}) rfl]
    decide
  · rw [hits_iff]
    exact ⟨_, _, hT1, hE1, overlap_at_origin⟩

theorem duel_pass (cs : CollisionSystem) (rng : RandomSource) (H : Health) (P : Projectile) :
    ∀ R, R = (checkBulletEnemyCollisions cs (duel H P) rng).1 →
      R.isEntityValid 2 = false ∧
      (0 < (H.takeDamage P.damage).current →
        R.isEntityValid 1 = true ∧ R.getHealth 1 = some (H.takeDamage P.damage)) ∧
      ((H.takeDamage P.damage).current ≤ 0 → R.isEntityValid 1 = false) := by
  intro R hR
  obtain ⟨f1, f2, _, _, f5, f6, f7, f8, f9, f10⟩ := duel_facts H P
  have hpass : checkBulletEnemyCollisions cs (duel H P) rng
      = processBullet cs [1] (duel H P, rng) 2 := by
    unfold checkBulletEnemyCollisions
    rw [f8, f9]
    rfl
  rw [hpass] at hR
  obtain ⟨_, _, r3, _, r5, _, _, _, _⟩ := processBullet_hit cs (duel H P) f1 rng
    (by rw [f2]; simp) [1] [] [] 2 1 (Transform.ofPosition ⟨0, 0⟩) P f6 f7 rfl
    (fun e he => absurd he (List.not_mem_nil e)) f10 (by decide) R hR
  obtain ⟨_, _, a3, a4⟩ := r5 H f5
  exact ⟨r3, fun hpos => ⟨(a3 hpos).1, (a3 hpos).2.1⟩, fun hle => (a4 hle).1⟩

end CollisionSystem

/-! ## The circle test -/

namespace CollisionSystem

theorem root_le_iff (s b : ℚ) (hs : 0 ≤ s) :
    (Root.sqrt s).le b = true ↔ Real.sqrt (s : ℝ) ≤ (b : ℝ) := by
  unfold Root.le Root.sqrt
  rw [decide_eq_true_eq, Real.sqrt_le_iff]
  constructor
  · rintro ⟨_, hb, hle⟩
    refine ⟨by exact_mod_cast hb, ?_⟩
    rw [sq]
    exact_mod_cast hle
  · rintro ⟨hb, hle⟩
    rw [sq] at hle
    exact ⟨hs, by exact_mod_cast hb, by exact_mod_cast hle⟩

theorem isCircleCollision_iff (p1 p2 : Vector2) (r1 r2 : ℚ) :
    isCircleCollision p1 r1 p2 r2 = true ↔
      Real.sqrt (((p2.x : ℝ) - p1.x) ^ 2 + ((p2.y : ℝ) - p1.y) ^ 2) ≤ (r1 : ℝ) + r2 := by
  unfold isCircleCollision getDistance
  dsimp only
  rw [root_le_iff _ _ (add_nonneg (mul_self_nonneg _) (mul_self_nonneg _))]
  push_cast
  rw [sq, sq]

end CollisionSystem

/-! ## Life-cycle runs that exhaust the queue -/

namespace EntityManager

variable {T : Type}

theorem runLife_replicate_create (n : Nat) (m : EntityManager T)
    (h : m.availableEntities.length = n) :
    (runLife m (List.replicate n LifeCall.create)).availableEntities = [] ∧
    (runLife m (List.replicate n LifeCall.create)).nextEntityId = m.nextEntityId := by
  induction n generalizing m with
  | zero => exact ⟨List.length_eq_zero.mp h, rfl⟩
  | succ n ih =>
    cases hq : m.availableEntities with
    | nil =>
      rw [hq] at h
      cases h
    | cons front rest =>
      have hstep := createEntity_of_cons m front rest hq
      have hlen : (applyLife m LifeCall.create).availableEntities.length = n := by
        show m.createEntity.2.availableEntities.length = n
        rw [hstep]
        rw [hq] at h
        exact Nat.succ.inj h
      obtain ⟨h1, h2⟩ := ih (applyLife m LifeCall.create) hlen
      refine ⟨h1, ?_⟩
      show (runLife (applyLife m LifeCall.create) (List.replicate n LifeCall.create)).nextEntityId
        = m.nextEntityId
      rw [h2]
      show m.createEntity.2.nextEntityId = m.nextEntityId
      rw [hstep]

theorem live_id_after_full_run (m : EntityManager T) (n : Nat) (id : EntityId)
    (h : m.availableEntities.length = n + 1) (hid : m.createEntity.1 = id) (hnext : m.nextEntityId = id) :
    (runLife m (List.replicate (n + 1) LifeCall.create)).isEntityValid id = true ∧
    (runLife m (List.replicate (n + 1) LifeCall.create)).availableEntities = [] ∧
    (runLife m (List.replicate (n + 1) LifeCall.create)).createEntity.1 = id := by
  obtain ⟨h1, h2⟩ := runLife_replicate_create (n + 1) m h
  refine ⟨?_, h1, ?_⟩
  · rw [isEntityValid_runLife]
    refine Or.inr ⟨[], List.replicate n LifeCall.create, List.replicate_succ _ _, hid, ?_⟩
    intro hmem
    have := List.eq_of_mem_replicate hmem
    cases this
  · rw [(createEntity_of_empty_queue _ h1).1, h2, hnext]

end EntityManager

/-! ## Shop offers -/

namespace ShopSystem

theorem uniformInt_range (g : Generator) (a b : Int) (h : a ≤ b) :
    a ≤ (g.uniformInt a b).1 ∧ (g.uniformInt a b).1 ≤ b := by
  unfold Generator.uniformInt
  have hpos : (0 : Int) < b - a + 1 := by omega
  have h1 := Int.emod_nonneg (g.outputs g.taken : Int) (ne_of_gt hpos)
  have h2 := Int.emod_lt_of_pos (g.outputs g.taken : Int) hpos
  constructor
  · show a ≤ a + (g.outputs g.taken : Int) % (b - a + 1)
    omega
  · show a + (g.outputs g.taken : Int) % (b - a + 1) ≤ b
    omega

theorem availableTiers_length_pos (w : Int) : 1 ≤ (availableTiers w).length := by
  unfold availableTiers
  simp only [List.length_append, List.length_singleton]
  omega

theorem availableTiers_gate (w : Int) (wt : WeaponType) (t : WeaponTier)
    (ht : t ∈ availableTiers w) : canItemAppear wt t w = true := by
  unfold availableTiers at ht
  unfold canItemAppear
  cases t with
  | TIER_1 => rfl
  | TIER_2 =>
    by_cases h : w ≥ 2
    · simpa using h
    · simp [h] at ht
  | TIER_3 =>
    by_cases h : w ≥ 4
    · simpa using h
    · simp [h] at ht
  | TIER_4 =>
    by_cases h : w ≥ 8
    · simpa using h
    · simp [h] at ht

theorem tier1_mem_availableTiers (w : Int) : WeaponTier.TIER_1 ∈ availableTiers w := by
  unfold availableTiers
  simp

theorem generateItem_index_in_range (w : Int) (g : Generator) :
    (((g.uniformInt 0 1).2.uniformInt 0 (((availableTiers w).length : Int) - 1)).1).toNat
      < (availableTiers w).length := by
  have hlen := availableTiers_length_pos w
  obtain ⟨h1, h2⟩ := uniformInt_range (g.uniformInt 0 1).2 0
    (((availableTiers w).length : Int) - 1) (by omega)
  omega

theorem calculateItemPrice_table (wt : WeaponType) (t : WeaponTier) (w : Int) :
    calculateItemPrice wt t w = max 5 (tierBase t + typeModifier wt) ∧
    calculateItemPrice wt t w = tierBase t + typeModifier wt := by
  cases wt <;> cases t <;> exact ⟨rfl, rfl⟩

theorem canItemAppear_gate (wt : WeaponType) (t : WeaponTier) (w : Int)
    (h : canItemAppear wt t w = true) :
    (t = WeaponTier.TIER_2 → 2 ≤ w) ∧ (t = WeaponTier.TIER_3 → 4 ≤ w) ∧
    (t = WeaponTier.TIER_4 → 8 ≤ w) := by
  unfold canItemAppear at h
  cases t <;> simp at h ⊢ <;> exact h

theorem generateItem_fresh (w : Int) (g : Generator) :
    FreshOffer w (generateItem w g).1 ∧
    canItemAppear (generateItem w g).1.weaponType (generateItem w g).1.tier w = true ∧
    ((generateItem w g).1.weaponType = WeaponType.PISTOL ∨
      (generateItem w g).1.weaponType = WeaponType.SMG) := by
  have hin := generateItem_index_in_range w g
  have hmem : (generateItem w g).1.tier ∈ availableTiers w := by
    show (availableTiers w).getD _ WeaponTier.TIER_1 ∈ availableTiers w
    rw [List.getD_eq_getElem _ _ hin]
    exact List.getElem_mem _
  have hgate := availableTiers_gate w (generateItem w g).1.weaponType _ hmem
  obtain ⟨g2, g3, g4⟩ := canItemAppear_gate _ _ w hgate
  have hprice := calculateItemPrice_table (generateItem w g).1.weaponType
    (generateItem w g).1.tier w
  refine ⟨⟨rfl, rfl, g2, g3, g4, hprice.1, hprice.2⟩, hgate, ?_⟩
  show (if (g.uniformInt 0 1).1 = 0 then WeaponType.PISTOL else WeaponType.SMG)
      = WeaponType.PISTOL ∨
    (if (g.uniformInt 0 1).1 = 0 then WeaponType.PISTOL else WeaponType.SMG) = WeaponType.SMG
  split_ifs
  · exact Or.inl rfl
  · exact Or.inr rfl

theorem generate_fold (w : Int) (l : List Nat) :
    ∀ (s : ShopSystem),
      ∃ fresh : List ShopItem, fresh.length = l.length ∧
        (∀ f ∈ fresh, FreshOffer w f ∧ canItemAppear f.weaponType f.tier w = true) ∧
        (l.foldl (fun (s : ShopSystem) (_ : Nat) =>
          { s with items := s.items ++ [(generateItem w s.randomGenerator).1]
                   randomGenerator := (generateItem w s.randomGenerator).2 }) s).items
          = s.items ++ fresh ∧
        (l.foldl (fun (s : ShopSystem) (_ : Nat) =>
          { s with items := s.items ++ [(generateItem w s.randomGenerator).1]
                   randomGenerator := (generateItem w s.randomGenerator).2 }) s).shopState
          = s.shopState ∧
        (l.foldl (fun (s : ShopSystem) (_ : Nat) =>
          { s with items := s.items ++ [(generateItem w s.randomGenerator).1]
                   randomGenerator := (generateItem w s.randomGenerator).2 }) s).currentWave
          = s.currentWave ∧
        (l.foldl (fun (s : ShopSystem) (_ : Nat) =>
          { s with items := s.items ++ [(generateItem w s.randomGenerator).1]
                   randomGenerator := (generateItem w s.randomGenerator).2 }) s).rerollCount
          = s.rerollCount ∧
        (l.foldl (fun (s : ShopSystem) (_ : Nat) =>
          { s with items := s.items ++ [(generateItem w s.randomGenerator).1]
                   randomGenerator := (generateItem w s.randomGenerator).2 }) s).playerEntity
          = s.playerEntity := by
  induction l with
  | nil =>
    intro s
    exact ⟨[], rfl, fun f hf => absurd hf (List.not_mem_nil f), (List.append_nil _).symm, rfl, rfl,
      rfl, rfl⟩
  | cons a l ih =>
    intro s
    obtain ⟨fresh, h1, h2, h3, h4, h5, h6, h7⟩ := ih
      { s with items := s.items ++ [(generateItem w s.randomGenerator).1]
               randomGenerator := (generateItem w s.randomGenerator).2 }
    refine ⟨(generateItem w s.randomGenerator).1 :: fresh, ?_, ?_, ?_, h4, h5, h6, h7⟩
    · simp [h1]
    · intro f hf
      rcases List.mem_cons.mp hf with e | e
      · rw [e]
        exact ⟨(generateItem_fresh w s.randomGenerator).1, (generateItem_fresh w s.randomGenerator).2.1⟩
      · exact h2 f e
    · rw [List.foldl_cons, h3]
      simp

theorem generateItems_fresh (s : ShopSystem) (w : Int) :
    ∃ fresh : List ShopItem, fresh.length = MAX_SHOP_ITEMS ∧
      (∀ f ∈ fresh, FreshOffer w f ∧ canItemAppear f.weaponType f.tier w = true) ∧
      (generateItems s w).items = fresh ∧
      (generateItems s w).shopState = s.shopState ∧
      (generateItems s w).currentWave = s.currentWave ∧
      (generateItems s w).rerollCount = s.rerollCount ∧
      (generateItems s w).playerEntity = s.playerEntity := by
  obtain ⟨fresh, h1, h2, h3, h4, h5, h6, h7⟩ :=
    generate_fold w (List.range MAX_SHOP_ITEMS) { s with items := [] }
  exact ⟨fresh, by rw [h1, List.length_range], h2, h3.trans (List.nil_append fresh), h4, h5, h6,
    h7⟩

theorem restoreLocked_eq (items lockedItems : List ShopItem)
    (h : lockedItems.length ≤ items.length) :
    restoreLocked items lockedItems = lockedItems ++ items.drop lockedItems.length := by
  induction items generalizing lockedItems with
  | nil =>
    cases lockedItems with
    | nil => rfl
    | cons a l => simp at h
  | cons i items ih =>
    cases lockedItems with
    | nil => rfl
    | cons a l =>
      simp only [restoreLocked, List.length_cons, List.drop_succ_cons, List.cons_append]
      rw [ih l (by simpa using h)]

theorem getPlayer_of (m : EntityManager Component) (E : EntityId) (c : Player)
    (h : m.getComponent TypeId.player E = some (Component.player c)) :
    m.getPlayer E = some c := by
  unfold EntityManager.getPlayer
  rw [h]

theorem getPlayer_ne_none (m : EntityManager Component) (E : EntityId)
    (h : m.getPlayer E ≠ none) : m.getComponent TypeId.player E ≠ none := by
  intro hc
  apply h
  unfold EntityManager.getPlayer
  rw [hc]

theorem getPlayer_congr (m m1 : EntityManager Component) (E E1 : EntityId)
    (h : m1.getComponent TypeId.player E1 = m.getComponent TypeId.player E) :
    m1.getPlayer E1 = m.getPlayer E := by
  unfold EntityManager.getPlayer
  rw [h]

/-- Writing a new `Player` value through the pointer of an existing one. -/
theorem writePlayer_effect (m : EntityManager Component) (h : m.WF) (E : EntityId)
    (p q : Player) (hp : m.getPlayer E = some p) :
    (m.writeComponent TypeId.player E (Component.player q)).WF ∧
    (m.writeComponent TypeId.player E (Component.player q)).getPlayer E = some q ∧
    (∀ t, t ≠ TypeId.player →
      (m.writeComponent TypeId.player E (Component.player q)).getComponent t E
        = m.getComponent t E) ∧
    (∀ X, (m.writeComponent TypeId.player E (Component.player q)).isEntityValid X
        = m.isEntityValid X) ∧
    (∀ X, X ≠ E →
      EntityManager.Unchanged m (m.writeComponent TypeId.player E (Component.player q)) X) ∧
    (m.writeComponent TypeId.player E (Component.player q)).availableEntities
      = m.availableEntities := by
  obtain ⟨w1, w2, w3, _, w5⟩ := EntityManager.wf_writeComponent m h TypeId.player E
    (Component.player q)
  have hne := getPlayer_ne_none m E (by rw [hp]; exact Option.some_ne_none p)
  exact ⟨w1, getPlayer_of _ _ _ (w2 hne), fun t ht => w3 t E (Or.inl ht),
    EntityManager.isEntityValid_writeComponent m h _ E _,
    fun X hX => EntityManager.writeComponent_unchanged m h _ E _ X hX, w5⟩

end ShopSystem

/-! ## Buying and rerolling -/

namespace ShopSystem

theorem lonePlayer_facts (p : Player) :
    (lonePlayer p).WF ∧ (lonePlayer p).getPlayer 1 = some p := by
  obtain ⟨_, a2, _, _, _, a6, _, _⟩ := EntityManager.wf_spawn
    (EntityManager.new : EntityManager Component) EntityManager.wf_new 1 (List.range' 2 9998) rfl
    [(TypeId.player, Component.player p)] (by
      show [TypeId.player].Nodup
      decide)
  exact ⟨a2, getPlayer_of _ _ _ (a6 _ (List.mem_cons_self _ _))⟩

theorem buyItem_out_of_range (s : ShopSystem) (m : EntityManager Component) (index : Int)
    (h : index < 0 ∨ (s.items.length : Int) ≤ index) : s.buyItem m index = (s, m) := by
  unfold buyItem
  rw [if_pos h]

theorem buyItem_no_player (s : ShopSystem) (m : EntityManager Component) (index : Int)
    (h : m.getPlayer s.playerEntity = none) : s.buyItem m index = (s, m) := by
  unfold buyItem
  rw [h]
  split_ifs <;> rfl

theorem buyItem_eq (s : ShopSystem) (m : EntityManager Component) (index : Int) (p : Player)
    (item : ShopItem) (h0 : 0 ≤ index) (hget : s.items.get? index.toNat = some item)
    (hp : m.getPlayer s.playerEntity = some p) :
    s.buyItem m index =
      if p.materials < item.price then (s, m)
      else
        ({ s with items := s.items.eraseIdx index.toNat },
          m.writeComponent TypeId.player s.playerEntity
            (Component.player
              (applyWeaponBonus { p with materials := p.materials - item.price }
                item.weaponType))) := by
  obtain ⟨hlt, _⟩ := List.get?_eq_some.mp hget
  have hin : ¬(index < 0 ∨ index ≥ (s.items.length : Int)) := by omega
  unfold buyItem
  rw [if_neg hin, hp, hget]

theorem applyWeaponBonus_materials (p : Player) (wt : WeaponType) :
    (applyWeaponBonus p wt).materials = p.materials := by
  cases wt <;> rfl

theorem rerollItems_no_player (s : ShopSystem) (m : EntityManager Component)
    (h : m.getPlayer s.playerEntity = none) : s.rerollItems m = (s, m) := by
  unfold rerollItems
  rw [h]

theorem rerollItems_eq (s : ShopSystem) (m : EntityManager Component) (p : Player)
    (hp : m.getPlayer s.playerEntity = some p) :
    s.rerollItems m =
      if p.materials < calculateRerollPrice s.currentWave s.rerollCount then (s, m)
      else
        ({ generateItems { s with rerollCount := s.rerollCount + 1 } s.currentWave with
            items := restoreLocked
              (generateItems { s with rerollCount := s.rerollCount + 1 } s.currentWave).items
              (s.items.filter (fun item => item.locked)) },
          m.writeComponent TypeId.player s.playerEntity
            (Component.player
              { p with materials :=
                  p.materials - calculateRerollPrice s.currentWave s.rerollCount })) := by
  unfold rerollItems
  rw [hp]

end ShopSystem

/-! ## Shop sessions -/

namespace ShopSystem

theorem buyItem_shop (s : ShopSystem) (m : EntityManager Component) (index : Int) :
    (s.buyItem m index).1.currentWave = s.currentWave ∧
    (s.buyItem m index).1.rerollCount = s.rerollCount ∧
    (s.buyItem m index).1.playerEntity = s.playerEntity ∧
    (s.buyItem m index).1.items.length ≤ s.items.length := by
  unfold buyItem
  split_ifs with h1
  · exact ⟨rfl, rfl, rfl, le_refl _⟩
  · split
    · exact ⟨rfl, rfl, rfl, le_refl _⟩
    · split
      · exact ⟨rfl, rfl, rfl, le_refl _⟩
      · split_ifs
        · exact ⟨rfl, rfl, rfl, le_refl _⟩
        · refine ⟨rfl, rfl, rfl, ?_⟩
          show (s.items.eraseIdx index.toNat).length ≤ s.items.length
          rw [List.length_eraseIdx]
          split_ifs <;> omega

theorem lockItem_shop (s : ShopSystem) (index : Int) :
    (s.lockItem index).currentWave = s.currentWave ∧
    (s.lockItem index).rerollCount = s.rerollCount ∧
    (s.lockItem index).playerEntity = s.playerEntity ∧
    (s.lockItem index).items.length = s.items.length := by
  unfold lockItem
  split_ifs
  · exact ⟨rfl, rfl, rfl, List.length_modify _ _ _⟩
  · exact ⟨rfl, rfl, rfl, rfl⟩

theorem rerollItems_items (s : ShopSystem) (m : EntityManager Component) (p : Player)
    (hp : m.getPlayer s.playerEntity = some p)
    (hcost : calculateRerollPrice s.currentWave s.rerollCount ≤ p.materials)
    (hlen : (s.items.filter (fun item => item.locked)).length ≤ MAX_SHOP_ITEMS) :
    ∃ fresh : List ShopItem, fresh.length = MAX_SHOP_ITEMS ∧
      (∀ f ∈ fresh, FreshOffer s.currentWave f ∧
        canItemAppear f.weaponType f.tier s.currentWave = true) ∧
      (s.rerollItems m).1.items = s.items.filter (fun item => item.locked) ++
        fresh.drop (s.items.filter (fun item => item.locked)).length ∧
      (s.rerollItems m).1.rerollCount = s.rerollCount + 1 ∧
      (s.rerollItems m).1.currentWave = s.currentWave ∧
      (s.rerollItems m).1.shopState = s.shopState ∧
      (s.rerollItems m).1.playerEntity = s.playerEntity := by
  rw [rerollItems_eq s m p hp, if_neg (not_lt.mpr hcost)]
  obtain ⟨fresh, h1, h2, h3, h4, h5, h6, h7⟩ :=
    generateItems_fresh { s with rerollCount := s.rerollCount + 1 } s.currentWave
  refine ⟨fresh, h1, h2, ?_, h6, h5, h4, h7⟩
  show restoreLocked _ _ = _
  rw [h3, restoreLocked_eq _ _ (by rw [h1]; exact hlen)]

theorem rerollItems_shop (s : ShopSystem) (m : EntityManager Component) :
    (s.rerollItems m).1.currentWave = s.currentWave ∧
    (s.rerollItems m).1.rerollCount
      = s.rerollCount + (if canReroll (s, m) = true then 1 else 0) ∧
    (s.rerollItems m).1.playerEntity = s.playerEntity ∧
    (s.rerollItems m).1.shopState = s.shopState := by
  cases hp : m.getPlayer s.playerEntity with
  | none =>
    rw [rerollItems_no_player s m hp]
    have hc : canReroll (s, m) = false := by
      unfold canReroll
      rw [hp]
    rw [hc]
    exact ⟨rfl, by simp, rfl, rfl⟩
  | some p =>
    rw [rerollItems_eq s m p hp]
    by_cases hlt : p.materials < calculateRerollPrice s.currentWave s.rerollCount
    · rw [if_pos hlt]
      have hc : canReroll (s, m) = false := by
        unfold canReroll
        rw [hp]
        simpa using hlt
      rw [hc]
      exact ⟨rfl, by simp, rfl, rfl⟩
    · rw [if_neg hlt]
      have hc : canReroll (s, m) = true := by
        unfold canReroll
        rw [hp]
        simpa using hlt
      rw [hc]
      obtain ⟨_, _, _, _, h4, h5, h6, h7⟩ :=
        generateItems_fresh { s with rerollCount := s.rerollCount + 1 } s.currentWave
      exact ⟨h5, by rw [if_pos rfl]; exact h6, h7, h4⟩

theorem openShop_length (s : ShopSystem) (w : Int) (h : s.items.length ≤ MAX_SHOP_ITEMS) :
    (s.openShop w).items.length ≤ MAX_SHOP_ITEMS := by
  unfold openShop
  split_ifs
  · exact h
  · obtain ⟨fresh, h1, _, h3, _⟩ := generateItems_fresh
      { s with shopState := ShopState.OPEN
               currentWave := w
               rerollCount := 0
               selectedItem := 0
               hoveredItem := -1 } w
    rw [h3, h1]

theorem rerollItems_length (s : ShopSystem) (m : EntityManager Component)
    (hlen : s.items.length ≤ MAX_SHOP_ITEMS) :
    (s.rerollItems m).1.items.length ≤ MAX_SHOP_ITEMS := by
  cases hp : m.getPlayer s.playerEntity with
  | none =>
    rw [rerollItems_no_player s m hp]
    exact hlen
  | some p =>
    by_cases hlt : p.materials < calculateRerollPrice s.currentWave s.rerollCount
    · rw [rerollItems_eq s m p hp, if_pos hlt]
      exact hlen
    · have hl : (s.items.filter (fun item => item.locked)).length ≤ MAX_SHOP_ITEMS :=
        le_trans (List.length_filter_le _ _) hlen
      obtain ⟨fresh, h1, _, h3, _⟩ := rerollItems_items s m p hp (not_lt.mp hlt) hl
      rw [h3, List.length_append, List.length_drop, h1]
      omega

theorem act_shop (x : ShopSystem × EntityManager Component) (a : Action) :
    (act x a).1.currentWave = x.1.currentWave ∧
    (act x a).1.rerollCount
      = x.1.rerollCount + (if a = Action.rerollItems ∧ canReroll x = true then 1 else 0) ∧
    (x.1.items.length ≤ MAX_SHOP_ITEMS → (act x a).1.items.length ≤ MAX_SHOP_ITEMS) := by
  cases a with
  | buyItem index =>
    obtain ⟨b1, b2, _, b4⟩ := buyItem_shop x.1 x.2 index
    exact ⟨b1, by simpa using b2, fun h => le_trans b4 h⟩
  | lockItem index =>
    obtain ⟨b1, b2, _, b4⟩ := lockItem_shop x.1 index
    refine ⟨b1, by simpa using b2, fun h => ?_⟩
    show (x.1.lockItem index).items.length ≤ MAX_SHOP_ITEMS
    rw [b4]
    exact h
  | rerollItems =>
    obtain ⟨b1, b2, _⟩ := rerollItems_shop x.1 x.2
    refine ⟨b1, ?_, rerollItems_length x.1 x.2⟩
    show (x.1.rerollItems x.2).1.rerollCount = _
    rw [b2]
    simp

theorem actAll_shop (actions : List Action) :
    ∀ (x : ShopSystem × EntityManager Component),
      (actAll x actions).1.currentWave = x.1.currentWave ∧
      (actAll x actions).1.rerollCount = x.1.rerollCount + (successfulRerolls x actions : Int) ∧
      (x.1.items.length ≤ MAX_SHOP_ITEMS →
        (actAll x actions).1.items.length ≤ MAX_SHOP_ITEMS) := by
  induction actions with
  | nil =>
    intro x
    exact ⟨rfl, by simp [actAll, successfulRerolls], fun h => h⟩
  | cons a rest ih =>
    intro x
    obtain ⟨a1, a2, a3⟩ := act_shop x a
    obtain ⟨i1, i2, i3⟩ := ih (act x a)
    refine ⟨i1.trans a1, ?_, fun h => i3 (a3 h)⟩
    show (actAll (act x a) rest).1.rerollCount = _
    rw [i2, a2]
    simp only [successfulRerolls]
    split_ifs <;> push_cast <;> omega

end ShopSystem

/-! ## Collecting pickups -/

namespace PickupSystem

open EntityManager

theorem hero_facts (p : Player) (h : Health) :
    (hero p h).WF ∧ (hero p h).getPlayer 1 = some p ∧ (hero p h).getHealth 1 = some h := by
  obtain ⟨_, a2, _, _, _, a6, _, _⟩ := wf_spawn
    (EntityManager.new : EntityManager Component) wf_new 1 (List.range' 2 9998) rfl
    [(TypeId.player, Component.player p), (TypeId.health, Component.health h)] (by
      show [TypeId.player, TypeId.health].Nodup
      decide)
  exact ⟨a2, ShopSystem.getPlayer_of _ _ _ (a6 _ (List.mem_cons_self _ _)),
    getHealth_of _ _ _ (a6 _ (List.mem_cons_of_mem _ (List.mem_cons_self _ _)))⟩

/-- What the level-up block and the removal of the pickup leave behind. -/
theorem collect_effect (E pickup : EntityId) (m : EntityManager Component) (hwf : m.WF)
    (p q : Player) (h : Health) (hp : m.getPlayer E = some p) (hh : m.getHealth E = some h)
    (hne : pickup ≠ E) :
    ∃ R, (levelUpCheck E m q (some h)).map (fun m1 => m1.destroyEntity pickup) = some R ∧
      R.WF ∧
      (q.canLevelUp = true →
        R.getPlayer E = some q.levelUp ∧
        R.getHealth E = some (applyPlayerLevelUp q.levelUp h)) ∧
      (q.canLevelUp = false → R.getPlayer E = some q ∧ R.getHealth E = some h) ∧
      (∀ X, X ≠ E → X ≠ pickup → Unchanged m R X) := by
  have hEp : E ≠ pickup := fun e => hne e.symm
  cases hc : q.canLevelUp with
  | true =>
    obtain ⟨w1, w2, w3, _, w5, _⟩ := ShopSystem.writePlayer_effect m hwf E p q.levelUp hp
    have hh1 : (m.writeComponent TypeId.player E (Component.player q.levelUp)).getHealth E
        = some h := by
      rw [getHealth_congr m _ E E (w3 _ (by decide))]
      exact hh
    obtain ⟨v1, v2, v3, _, _⟩ := wf_writeComponent _ w1 TypeId.health E
      (Component.health (applyPlayerLevelUp q.levelUp h))
    have hne1 := getHealth_ne_none _ E (by rw [hh1]; exact Option.some_ne_none h)
    obtain ⟨d1, _, d3, _, _⟩ := wf_destroyEntity _ v1 pickup
    refine ⟨_, by unfold levelUpCheck; rw [if_pos hc]; rfl, d1, fun _ => ⟨?_, ?_⟩,
      fun hcontra => absurd hcontra (by decide), ?_⟩
    · rw [ShopSystem.getPlayer_congr _ _ E E (d3 _ E hEp),
        ShopSystem.getPlayer_congr _ _ E E (v3 _ E (Or.inl (by decide)))]
      exact w2
    · apply getHealth_of
      rw [d3 _ E hEp]
      exact v2 hne1
    · intro X hXE hXp
      exact unchanged_trans (unchanged_trans (w5 X hXE)
        (writeComponent_unchanged _ w1 _ E _ X hXE)) (destroyEntity_unchanged _ v1 pickup X hXp)
  | false =>
    obtain ⟨w1, w2, w3, _, w5, _⟩ := ShopSystem.writePlayer_effect m hwf E p q hp
    obtain ⟨d1, _, d3, _, _⟩ := wf_destroyEntity _ w1 pickup
    refine ⟨_, by unfold levelUpCheck; rw [hc]; rfl, d1, fun hcontra => absurd hcontra (by decide),
      fun _ => ⟨?_, ?_⟩, ?_⟩
    · rw [ShopSystem.getPlayer_congr _ _ E E (d3 _ E hEp)]
      exact w2
    · rw [getHealth_congr _ _ E E (d3 _ E hEp), getHealth_congr m _ E E (w3 _ (by decide))]
      exact hh
    · intro X hXE hXp
      exact unchanged_trans (w5 X hXE) (destroyEntity_unchanged _ w1 pickup X hXp)

theorem collectExperienceOrb_eq (E orbId : EntityId) (m : EntityManager Component)
    (orb : ExperienceOrb) (p : Player) (h : Health) (hp : m.getPlayer E = some p)
    (hh : m.getHealth E = some h) :
    collectExperienceOrb E m orbId orb =
      (levelUpCheck E m (p.gainExperience orb.experienceValue) (some h)).map
        (fun m1 => m1.destroyEntity orbId) := by
  unfold collectExperienceOrb
  rw [hp, hh]

theorem collectMaterial_eq (E materialId : EntityId) (m : EntityManager Component)
    (material : Material) (p : Player) (h : Health) (hp : m.getPlayer E = some p)
    (hh : m.getHealth E = some h) :
    collectMaterial E m materialId material =
      (levelUpCheck E m
        ((p.gainMaterials material.materialValue).gainExperience material.experienceValue)
        (some h)).map (fun m1 => m1.destroyEntity materialId) := by
  unfold collectMaterial
  rw [hp, hh]

end PickupSystem

namespace PickupSystem

open EntityManager

/-- A collection that levels the player up. -/
theorem collect_levelUp (E pickup : EntityId) (m : EntityManager Component) (hwf : m.WF)
    (p q : Player) (h : Health) (hp : m.getPlayer E = some p) (hh : m.getHealth E = some h)
    (hne : pickup ≠ E) (hc : q.canLevelUp = true) :
    ∃ R p1 h1, (levelUpCheck E m q (some h)).map (fun m1 => m1.destroyEntity pickup) = some R ∧
      R.getPlayer E = some p1 ∧ R.getHealth E = some h1 ∧ p1 = q.levelUp ∧
      p1.level = q.level + 1 ∧ p1.maxHealth = q.maxHealth + 5 ∧ p1.damage = q.damage + 1 ∧
      p1.moveSpeed = q.moveSpeed + 2 ∧ h1.current = p1.maxHealth ∧
      h1.maximum = p1.maxHealth := by
  obtain ⟨R, e, _, e1, _, _⟩ := collect_effect E pickup m hwf p q h hp hh hne
  exact ⟨R, q.levelUp, applyPlayerLevelUp q.levelUp h, e, (e1 hc).1, (e1 hc).2, rfl, rfl, rfl, rfl,
    rfl, rfl, rfl⟩

end PickupSystem

/-! ## Frames of the game loop -/

namespace GameplayManager

open EntityManager

theorem openShop_closed (s : ShopSystem) (w : Int) (h : s.shopState = ShopState.CLOSED) :
    (s.openShop w).shopState = ShopState.OPEN ∧ (s.openShop w).currentWave = w ∧
    (s.openShop w).rerollCount = 0 ∧ (s.openShop w).items.length = 4 ∧
    (∀ item ∈ (s.openShop w).items,
      ShopSystem.canItemAppear item.weaponType item.tier w = true) := by
  have hopen : s.openShop w = ShopSystem.generateItems
      { s with shopState := ShopState.OPEN
               currentWave := w
               rerollCount := 0
               selectedItem := 0
               hoveredItem := -1 } w := by
    unfold ShopSystem.openShop
    rw [if_neg (not_not.mpr h)]
  rw [hopen]
  obtain ⟨fresh, h1, h2, h3, h4, h5, h6, _⟩ := ShopSystem.generateItems_fresh
    { s with shopState := ShopState.OPEN
             currentWave := w
             rerollCount := 0
             selectedItem := 0
             hoveredItem := -1 } w
  refine ⟨h4, h5, h6, by rw [h3, h1]; rfl, ?_⟩
  intro item hitem
  rw [h3] at hitem
  exact (h2 item hitem).2

theorem start_facts (gen : Generator) :
    (start gen).playerId = 1 ∧ (start gen).isPlayerAlive = true ∧
    (start gen).waveSystem = some ⟨WaveState.ACTIVE, 1, 0, 20⟩ ∧
    (start gen).shopSystem = some { ShopSystem.new gen with playerEntity := 1 } := by
  have hid : (start gen).playerId = 1 := rfl
  refine ⟨hid, ?_, rfl, rfl⟩
  obtain ⟨_, _, _, _, _, a6, _, _⟩ := wf_spawn
    (EntityManager.new : EntityManager Component) wf_new 1 (List.range' 2 9998) rfl
    [(TypeId.transform, Component.transform (Transform.ofPosition ⟨1920 / 2, 1080 / 2⟩)),
     (TypeId.movement, Component.movement (Movement.ofSpeed 200)),
     (TypeId.player, Component.player
        { level := 1, experience := 0, materials := 50, pickupRange := 50
          aimDirection := ⟨1, 0⟩ }),
     (TypeId.health, Component.health (Health.ofHp 100))] (by
      show [TypeId.transform, TypeId.movement, TypeId.player, TypeId.health].Nodup
      decide)
  have hh : (start gen).entityManager.getHealth 1 = some (Health.ofHp 100) :=
    getHealth_of _ _ _ (a6 _ (List.mem_cons_of_mem _ (List.mem_cons_of_mem _
      (List.mem_cons_of_mem _ (List.mem_cons_self _ _)))))
  unfold isPlayerAlive
  rw [hid, hh]
  decide

theorem update_of_alive (g : GameplayManager) (dt : ℚ) (input : Option KeyInput)
    (world : EntityManager Component → EntityManager Component)
    (h : g.isPlayerAlive = true) :
    (g.update dt input world).waveSystem
      = (updateShop (updateWave { g with gameTime := g.gameTime + dt } dt) input).waveSystem ∧
    (g.update dt input world).shopSystem
      = (updateShop (updateWave { g with gameTime := g.gameTime + dt } dt) input).shopSystem := by
  have h1 : isPlayerAlive { g with gameTime := g.gameTime + dt } = true := h
  unfold update
  dsimp only
  rw [h1]
  exact ⟨rfl, rfl⟩

theorem update_of_dead (g : GameplayManager) (dt : ℚ) (input : Option KeyInput)
    (world : EntityManager Component → EntityManager Component)
    (h : g.isPlayerAlive = false) :
    (g.update dt input world).waveSystem = g.waveSystem ∧
    (g.update dt input world).shopSystem = g.shopSystem := by
  have h1 : isPlayerAlive { g with gameTime := g.gameTime + dt } = false := h
  unfold update
  dsimp only
  rw [h1]
  exact ⟨rfl, rfl⟩

theorem updateWave_completes (g : GameplayManager) (dt : ℚ) (w : WaveSystem) (s : ShopSystem)
    (hw : g.waveSystem = some w) (hs : g.shopSystem = some s)
    (hact : w.waveState = WaveState.ACTIVE) (htime : w.waveTimer + dt ≥ w.waveDuration)
    (hclosed : s.shopState = ShopState.CLOSED) :
    (updateWave g dt).waveSystem
      = some { w with waveTimer := w.waveTimer + dt, waveState := WaveState.COMPLETED } ∧
    (updateWave g dt).shopSystem = some (s.openShop (w.currentWave - 1)) ∧
    (updateWave g dt).entityManager = g.entityManager := by
  unfold updateWave
  rw [hw, hs]
  dsimp only
  rw [WaveSystem.update_active w dt hact, if_pos htime]
  refine ⟨rfl, ?_, rfl⟩
  have hna : s.isShopActive = false := by
    unfold ShopSystem.isShopActive
    rw [hclosed]
    rfl
  simp [WaveSystem.getWaveState, WaveSystem.getCurrentWave, hna]

theorem updateShop_no_input (g : GameplayManager) :
    (updateShop g none).waveSystem = g.waveSystem ∧
    (updateShop g none).shopSystem = g.shopSystem := by
  unfold updateShop
  cases hs : g.shopSystem with
  | none => exact ⟨rfl, hs⟩
  | some s =>
    have hx : ShopSystem.update ⟨s, g.waveSystem, g.entityManager⟩ none
        = ⟨s, g.waveSystem, g.entityManager⟩ := by
      unfold ShopSystem.update
      split_ifs <;> rfl
    dsimp only
    rw [hx]
    exact ⟨rfl, rfl⟩

theorem updateShop_closed (g : GameplayManager) (input : Option KeyInput) (s : ShopSystem)
    (hs : g.shopSystem = some s) (hclosed : s.shopState ≠ ShopState.OPEN) :
    (updateShop g input).waveSystem = g.waveSystem ∧
    (updateShop g input).shopSystem = some s := by
  unfold updateShop
  rw [hs]
  have hx : ShopSystem.update ⟨s, g.waveSystem, g.entityManager⟩ input
      = ⟨s, g.waveSystem, g.entityManager⟩ := by
    unfold ShopSystem.update
    rw [if_neg hclosed]
  dsimp only
  rw [hx]
  exact ⟨rfl, rfl⟩

theorem buyItem_empty (s : ShopSystem) (m : EntityManager Component) (index : Int)
    (h : s.items = []) : s.buyItem m index = (s, m) := by
  apply ShopSystem.buyItem_out_of_range
  rw [h]
  simp only [List.length_nil, Int.ofNat_zero]
  omega

/-- The space key in a frame in which the shop is OPEN and the key was not
down before: the shop is closed, `startWave` is called on the wave controller,
and the engine of the shop is not used. -/
theorem updateShop_space (g : GameplayManager) (s : ShopSystem) (hs : g.shopSystem = some s)
    (hopen : s.shopState = ShopState.OPEN) (hsp : s.spacePressed = false) :
    (updateShop g (some { space := true })).waveSystem
      = g.waveSystem.map (fun w => w.startWave) ∧
    (updateShop g (some { space := true })).shopState = some ShopState.CLOSED ∧
    (updateShop g (some { space := true })).shopSystem.map (fun s => s.items) = some [] := by
  obtain ⟨pe, st, cw, rc, items, hov, sel, lmp, rP, eP, sP, rg⟩ := s
  simp only at hopen hsp
  subst hopen hsp
  unfold shopState updateShop
  rw [hs]
  cases hw : g.waveSystem <;>
    simp [ShopSystem.update, ShopSystem.handleInput, ShopSystem.closeShop,
      WaveSystem.closeShop, ShopSystem.buyItem]

/-- With the shop CLOSED and the wave controller COMPLETED or PREPARING, a
frame leaves the shop CLOSED and the wave controller PREPARING or as it was:
nothing starts the wave. -/
theorem stuck_update (g : GameplayManager) (dt : ℚ) (input : Option KeyInput)
    (world : EntityManager Component → EntityManager Component)
    (hs : g.shopState = some ShopState.CLOSED)
    (hw : g.waveState = some WaveState.COMPLETED ∨ g.waveState = some WaveState.PREPARING) :
    (g.update dt input world).shopState = some ShopState.CLOSED ∧
    ((g.update dt input world).waveState = some WaveState.COMPLETED ∨
      (g.update dt input world).waveState = some WaveState.PREPARING) := by
  cases halive : g.isPlayerAlive with
  | false =>
    obtain ⟨u1, u2⟩ := update_of_dead g dt input world halive
    unfold shopState at hs ⊢
    unfold waveState at hw ⊢
    rw [u1, u2]
    exact ⟨hs, hw⟩
  | true =>
    obtain ⟨u1, u2⟩ := update_of_alive g dt input world halive
    obtain ⟨s, hshop, hsc⟩ : ∃ s, g.shopSystem = some s ∧ s.shopState = ShopState.CLOSED := by
      unfold shopState at hs
      cases h : g.shopSystem with
      | none =>
        rw [h] at hs
        cases hs
      | some s =>
        rw [h] at hs
        exact ⟨s, rfl, Option.some.inj hs⟩
    obtain ⟨w, hwave, hwc⟩ : ∃ w, g.waveSystem = some w ∧
        (w.waveState = WaveState.COMPLETED ∨ w.waveState = WaveState.PREPARING) := by
      unfold waveState at hw
      cases h : g.waveSystem with
      | none =>
        rw [h] at hw
        rcases hw with hw | hw <;> cases hw
      | some w =>
        rw [h] at hw
        rcases hw with hw | hw
        · exact ⟨w, rfl, Or.inl (Option.some.inj hw)⟩
        · exact ⟨w, rfl, Or.inr (Option.some.inj hw)⟩
    have hprep : (w.update dt).waveState = WaveState.PREPARING := by
      rcases hwc with hc | hc
      · rw [WaveSystem.update_completed w dt hc]
      · rw [WaveSystem.update_preparing w dt hc]
        exact hc
    have hwv : (updateWave { g with gameTime := g.gameTime + dt } dt).waveSystem
        = some (w.update dt) ∧
        (updateWave { g with gameTime := g.gameTime + dt } dt).shopSystem = some s := by
      unfold updateWave
      have e1 : ({ g with gameTime := g.gameTime + dt } : GameplayManager).waveSystem
          = some w := hwave
      have e2 : ({ g with gameTime := g.gameTime + dt } : GameplayManager).shopSystem
          = some s := hshop
      rw [e1, e2]
      refine ⟨rfl, ?_⟩
      dsimp only
      have hstate : (w.update dt).getWaveState ≠ WaveState.COMPLETED := by
        unfold WaveSystem.getWaveState
        rw [hprep]
        decide
      rw [if_neg (fun hcontra => hstate hcontra.1)]
    obtain ⟨v1, v2⟩ := updateShop_closed
      (updateWave { g with gameTime := g.gameTime + dt } dt) input s hwv.2
      (by rw [hsc]; decide)
    unfold shopState waveState
    rw [u1, u2, v1, v2, hwv.1]
    exact ⟨congrArg some hsc, Or.inr (congrArg some hprep)⟩

theorem stuck_run (frames : List Frame) :
    ∀ (g : GameplayManager), g.shopState = some ShopState.CLOSED →
      (g.waveState = some WaveState.COMPLETED ∨ g.waveState = some WaveState.PREPARING) →
      (g.run frames).shopState = some ShopState.CLOSED ∧
      ((g.run frames).waveState = some WaveState.COMPLETED ∨
        (g.run frames).waveState = some WaveState.PREPARING) := by
  induction frames with
  | nil =>
    intro g hs hw
    exact ⟨hs, hw⟩
  | cons f rest ih =>
    intro g hs hw
    obtain ⟨h1, h2⟩ := stuck_update g f.deltaTime f.input f.world hs hw
    exact ih _ h1 h2

end GameplayManager

namespace GameplayManager

theorem generate_fold_keys (w : Int) (l : List Nat) :
    ∀ (s : ShopSystem),
      (l.foldl (fun (s : ShopSystem) (_ : Nat) =>
          { s with items := s.items ++ [(ShopSystem.generateItem w s.randomGenerator).1]
                   randomGenerator := (ShopSystem.generateItem w s.randomGenerator).2 })
          s).spacePressed = s.spacePressed ∧
      (l.foldl (fun (s : ShopSystem) (_ : Nat) =>
          { s with items := s.items ++ [(ShopSystem.generateItem w s.randomGenerator).1]
                   randomGenerator := (ShopSystem.generateItem w s.randomGenerator).2 })
          s).escapePressed = s.escapePressed := by
  induction l with
  | nil =>
    intro s
    exact ⟨rfl, rfl⟩
  | cons a l ih =>
    intro s
    exact ih _

theorem openShop_keys (s : ShopSystem) (w : Int) :
    (s.openShop w).spacePressed = s.spacePressed ∧
    (s.openShop w).escapePressed = s.escapePressed := by
  unfold ShopSystem.openShop
  split_ifs
  · exact ⟨rfl, rfl⟩
  · exact generate_fold_keys w (List.range ShopSystem.MAX_SHOP_ITEMS) _

/-- A frame in which the running wave reaches its duration while the shop is
CLOSED and the player is alive, up to the update of the shop. -/
theorem completing_frame (g : GameplayManager) (dt : ℚ) (input : Option KeyInput)
    (world : EntityManager Component → EntityManager Component) (w : WaveSystem)
    (s : ShopSystem) (hw : g.waveSystem = some w) (hs : g.shopSystem = some s)
    (halive : g.isPlayerAlive = true) (hact : w.waveState = WaveState.ACTIVE)
    (htime : w.waveTimer + dt ≥ w.waveDuration) (hclosed : s.shopState = ShopState.CLOSED) :
    ∃ g1 : GameplayManager,
      g1.waveSystem
        = some { w with waveTimer := w.waveTimer + dt, waveState := WaveState.COMPLETED } ∧
      g1.shopSystem = some (s.openShop (w.currentWave - 1)) ∧
      (g.update dt input world).waveSystem = (updateShop g1 input).waveSystem ∧
      (g.update dt input world).shopSystem = (updateShop g1 input).shopSystem := by
  obtain ⟨u1, u2⟩ := update_of_alive g dt input world halive
  obtain ⟨c1, c2, _⟩ := updateWave_completes { g with gameTime := g.gameTime + dt } dt w s hw hs
    hact htime hclosed
  exact ⟨_, c1, c2, u1, u2⟩

end GameplayManager

/-! ## Contact between enemies and the player -/

namespace EntityManager

/-- The signatures and the queue after `spawn` depend only on the signatures,
the queue and the id counter before it and on the component types. -/
theorem spawn_shape (m m1 : EntityManager Component)
    (comps comps1 : List (ComponentTypeId × Component))
    (hs : m.entitySignatures = m1.entitySignatures)
    (hq : m.availableEntities = m1.availableEntities)
    (hn : m.nextEntityId = m1.nextEntityId)
    (hc : comps.map Prod.fst = comps1.map Prod.fst) :
    (m.spawn comps).2.entitySignatures = (m1.spawn comps1).2.entitySignatures ∧
    (m.spawn comps).2.availableEntities = (m1.spawn comps1).2.availableEntities ∧
    (m.spawn comps).2.nextEntityId = (m1.spawn comps1).2.nextEntityId := by
  have hcreate : m.createEntity.1 = m1.createEntity.1 ∧
      m.createEntity.2.entitySignatures = m1.createEntity.2.entitySignatures ∧
      m.createEntity.2.availableEntities = m1.createEntity.2.availableEntities ∧
      m.createEntity.2.nextEntityId = m1.createEntity.2.nextEntityId := by
    unfold createEntity
    rw [hq]
    cases m1.availableEntities with
    | nil => simp only [hs, hn, and_self]
    | cons front rest => simp only [hs, hn, and_self]
  obtain ⟨e1, e2, e3, e4⟩ := hcreate
  have hfold : ∀ (E : EntityId) (l l1 : List (ComponentTypeId × Component)),
      l.map Prod.fst = l1.map Prod.fst → ∀ (r r1 : EntityManager Component),
      r.entitySignatures = r1.entitySignatures →
      r.availableEntities = r1.availableEntities → r.nextEntityId = r1.nextEntityId →
      (l.foldl (fun r c => (r.addComponent c.1 E c.2).2) r).entitySignatures
        = (l1.foldl (fun r c => (r.addComponent c.1 E c.2).2) r1).entitySignatures ∧
      (l.foldl (fun r c => (r.addComponent c.1 E c.2).2) r).availableEntities
        = (l1.foldl (fun r c => (r.addComponent c.1 E c.2).2) r1).availableEntities ∧
      (l.foldl (fun r c => (r.addComponent c.1 E c.2).2) r).nextEntityId
        = (l1.foldl (fun r c => (r.addComponent c.1 E c.2).2) r1).nextEntityId := by
    intro E l
    induction l with
    | nil =>
      intro l1 hl r r1 h1 h2 h3
      cases l1 with
      | nil => exact ⟨h1, h2, h3⟩
      | cons a l1 => cases hl
    | cons a l ih =>
      intro l1 hl r r1 h1 h2 h3
      cases l1 with
      | nil => cases hl
      | cons a1 l1 =>
        simp only [List.map_cons, List.cons.injEq] at hl
        simp only [List.foldl_cons]
        apply ih l1 hl.2
        · show r.entitySignatures.insert E ((r.signatureAt E).set a.1)
            = r1.entitySignatures.insert E ((r1.signatureAt E).set a1.1)
          unfold signatureAt
          rw [h1, hl.1]
        · exact h2
        · exact h3
  unfold spawn
  rw [e1]
  exact hfold _ comps comps1 hc _ _ e2 e3 e4

end EntityManager

namespace CollisionSystem

open EntityManager

theorem pushAway_self (quotient : ℚ → Root → ℚ) (t : Transform) :
    pushAway quotient t t = t := by
  obtain ⟨⟨x, y⟩, r, s⟩ := t
  simp [pushAway, Vector2.sub, Vector2.normalized, Vector2.length, Root.sqrt, Root.gt,
    Vector2.add, Vector2.scale]
  norm_num

theorem hitsToKill_facts (c : Int) (hc : 0 < c) :
    (c ≤ 10 → hitsToKill c = 1) ∧
    (10 < c → hitsToKill c = hitsToKill (max 0 (c - 10)) + 1) ∧
    (∀ k : Nat, k < hitsToKill c ↔ 10 * (k : Int) < c) := by
  unfold hitsToKill
  refine ⟨fun h => ?_, fun h => ?_, fun k => ?_⟩
  · omega
  · omega
  · omega

theorem health_arith (c : Int) (n : Nat) (hc : 10 < c) :
    max 0 (max 0 (c - 10) - 10 * (n : Int)) = max 0 (c - 10 * ((n + 1 : Nat) : Int)) := by
  push_cast
  omega

theorem strike_effect (cs : CollisionSystem) (quotient : ℚ → Root → ℚ)
    (m : EntityManager Component) (hwf : m.WF) (e : EntityId) (pt t : Transform) (ph : Health)
    (hpt : m.getTransform cs.playerEntity = some pt)
    (hph : m.getHealth cs.playerEntity = some ph)
    (ht : m.getTransform e = some t) (hinv : ph.invulnerable = false) :
    ∀ R, R = strike cs quotient m e t pt →
    R.WF ∧
    R.getHealth cs.playerEntity = some { ph with current := max 0 (ph.current - 10) } ∧
    R.getTransform cs.playerEntity = some pt ∧
    R.getTransform e = some (pushAway quotient t pt) ∧
    (∀ X, X ≠ e → R.getComponent TypeId.transform X = m.getComponent TypeId.transform X) ∧
    (∀ ty X, ty ≠ TypeId.transform → (ty ≠ TypeId.health ∨ X ≠ cs.playerEntity) →
      R.getComponent ty X = m.getComponent ty X) ∧
    (∀ X, R.isEntityValid X = m.isEntityValid X) := by
  intro R hR
  have hd : damagePlayer m cs.playerEntity ENEMY_CONTACT_DAMAGE
      = m.writeComponent TypeId.health cs.playerEntity
          (Component.health { ph with current := max 0 (ph.current - 10) }) := by
    unfold damagePlayer
    rw [hph]
    simp only [Health.takeDamage, hinv, ENEMY_CONTACT_DAMAGE]
    rfl
  unfold strike at hR
  rw [hd] at hR
  obtain ⟨w1, w2, w3, _, _⟩ := wf_writeComponent m hwf TypeId.health cs.playerEntity
    (Component.health { ph with current := max 0 (ph.current - 10) })
  obtain ⟨v1, v2, v3, _, _⟩ := wf_writeComponent _ w1 TypeId.transform e
    (Component.transform (pushAway quotient t pt))
  have hHne : m.getComponent TypeId.health cs.playerEntity ≠ none :=
    getHealth_ne_none m _ (by rw [hph]; exact Option.some_ne_none _)
  have hTne : m.getComponent TypeId.transform e ≠ none :=
    getTransform_ne_none m e (by rw [ht]; exact Option.some_ne_none _)
  have hth : TypeId.transform ≠ TypeId.health := by decide
  have hTne1 : (m.writeComponent TypeId.health cs.playerEntity
      (Component.health { ph with current := max 0 (ph.current - 10) })).getComponent
        TypeId.transform e ≠ none := by
    rw [w3 _ _ (Or.inl hth)]
    exact hTne
  subst hR
  have hTe := getTransform_of _ _ _ (v2 hTne1)
  refine ⟨v1, ?_, ?_, hTe, ?_, ?_, ?_⟩
  · apply getHealth_of
    rw [v3 _ _ (Or.inl hth.symm)]
    exact w2 hHne
  · by_cases hPe : cs.playerEntity = e
    · have key : ∀ M : EntityManager Component,
          M.getTransform e = some (pushAway quotient t pt) →
          M.getTransform cs.playerEntity = some pt := by
        intro M hM
        have htt : t = pt := by
          rw [hPe, ht] at hpt
          exact Option.some.inj hpt
        rw [hPe, hM, htt, pushAway_self]
      exact key _ hTe
    · rw [← hpt]
      apply getTransform_congr
      rw [v3 _ _ (Or.inr hPe), w3 _ _ (Or.inl hth)]
  · intro X hX
    rw [v3 _ _ (Or.inr hX), w3 _ _ (Or.inl hth)]
  · intro ty X hty h2
    rw [v3 _ _ (Or.inl hty)]
    exact w3 _ _ h2
  · intro X
    rw [isEntityValid_writeComponent _ w1, isEntityValid_writeComponent m hwf]

theorem contactLoop_miss (cs : CollisionSystem) (quotient : ℚ → Root → ℚ)
    (m : EntityManager Component) (pt : Transform) (e : EntityId) (rest : List EntityId)
    (hpt : m.getTransform cs.playerEntity = some pt)
    (hmiss : touches m pt.position e = false) :
    contactLoop cs quotient m (e :: rest) = contactLoop cs quotient m rest := by
  unfold touches at hmiss
  cases hT : m.getTransform e with
  | none => simp only [contactLoop, hT]
  | some t =>
    rw [hT] at hmiss
    simp only [contactLoop, hT, hpt]
    have hmiss1 : isCircleCollision t.position ENEMY_RADIUS pt.position PLAYER_RADIUS
        = false := hmiss
    rw [if_neg (by rw [hmiss1]; exact Bool.false_ne_true)]

theorem contactLoop_hit (cs : CollisionSystem) (quotient : ℚ → Root → ℚ)
    (m : EntityManager Component) (pt t : Transform) (ph1 : Health) (e : EntityId)
    (rest : List EntityId)
    (hpt : m.getTransform cs.playerEntity = some pt) (ht : m.getTransform e = some t)
    (hhit : touches m pt.position e = true)
    (hph1 : (strike cs quotient m e t pt).getHealth cs.playerEntity = some ph1) :
    contactLoop cs quotient m (e :: rest)
      = if ph1.current ≤ 0 then strike cs quotient m e t pt
        else contactLoop cs quotient (strike cs quotient m e t pt) rest := by
  unfold touches at hhit
  rw [ht] at hhit
  simp only [contactLoop, ht, hpt]
  rw [if_pos hhit]
  simp only [hph1, Health.isAlive]
  by_cases hc : ph1.current ≤ 0
  · rw [if_pos hc, if_pos (by simp; exact hc)]
  · rw [if_neg hc, if_neg (by simp; exact not_le.mp hc)]

theorem contactLoop_effect (cs : CollisionSystem) (quotient : ℚ → Root → ℚ) (pt : Transform) :
    ∀ (l : List EntityId), l.Nodup → ∀ (m : EntityManager Component) (ph : Health), m.WF →
    m.getTransform cs.playerEntity = some pt → m.getHealth cs.playerEntity = some ph →
    0 < ph.current → ph.invulnerable = false →
    ∀ R, R = contactLoop cs quotient m l →
    R.WF ∧
    R.getHealth cs.playerEntity = some { ph with current := max 0 (ph.current
      - 10 * ((l.filter (touches m pt.position)).length : Int)) } ∧
    R.getTransform cs.playerEntity = some pt ∧
    (∀ X, X ∉ (l.filter (touches m pt.position)).take (hitsToKill ph.current) →
      R.getComponent TypeId.transform X = m.getComponent TypeId.transform X) ∧
    (∀ X ∈ (l.filter (touches m pt.position)).take (hitsToKill ph.current),
      ∀ t, m.getTransform X = some t → R.getTransform X = some (pushAway quotient t pt)) ∧
    (∀ ty X, ty ≠ TypeId.transform → (ty ≠ TypeId.health ∨ X ≠ cs.playerEntity) →
      R.getComponent ty X = m.getComponent ty X) ∧
    (∀ X, R.isEntityValid X = m.isEntityValid X) := by
  intro l
  induction l with
  | nil =>
    intro _ m ph hwf hpt hph hpos _ R hR
    have hR1 : R = m := hR
    subst hR1
    refine ⟨hwf, ?_, hpt, fun _ _ => rfl, fun X hX => absurd (List.mem_of_mem_take hX) (List.not_mem_nil X),
      fun _ _ _ _ => rfl, fun _ => rfl⟩
    rw [hph]
    have harith : max 0 (ph.current - 10 * (([] : List EntityId).length : Int)) = ph.current := by
      simp only [List.length_nil]
      push_cast
      omega
    show some ph = some { ph with current := max 0 (ph.current
      - 10 * (([] : List EntityId).length : Int)) }
    rw [harith]
  | cons e rest ih =>
    intro hnd m ph hwf hpt hph hpos hinv R hR
    obtain ⟨hne, hnd1⟩ := List.nodup_cons.mp hnd
    cases htch : touches m pt.position e with
    | false =>
      rw [contactLoop_miss cs quotient m pt e rest hpt htch] at hR
      have hf : (e :: rest).filter (touches m pt.position)
          = rest.filter (touches m pt.position) := by
        simp [List.filter_cons, htch]
      rw [hf]
      exact ih hnd1 m ph hwf hpt hph hpos hinv R hR
    | true =>
      have hf : (e :: rest).filter (touches m pt.position)
          = e :: rest.filter (touches m pt.position) := by
        simp [List.filter_cons, htch]
      obtain ⟨t, ht⟩ : ∃ t, m.getTransform e = some t := by
        cases hT : m.getTransform e with
        | none =>
          unfold touches at htch
          rw [hT] at htch
          cases htch
        | some t => exact ⟨t, rfl⟩
      obtain ⟨k1, k2, k3, k4, k5, k6, k7⟩ :=
        strike_effect cs quotient m hwf e pt t ph hpt hph ht hinv _ rfl
      rw [contactLoop_hit cs quotient m pt t _ e rest hpt ht htch k2] at hR
      obtain ⟨f1, f2, _⟩ := hitsToKill_facts ph.current hpos
      have hsub : ∀ n X, X ∈ (rest.filter (touches m pt.position)).take n → X ≠ e := by
        intro n X hX he
        apply hne
        rw [← he]
        exact (List.mem_filter.mp (List.mem_of_mem_take hX)).1
      rw [hf]
      by_cases hdead : ph.current ≤ 10
      · have hR1 : R = strike cs quotient m e t pt := by
          rw [hR]
          exact if_pos (by
            show max 0 (ph.current - 10) ≤ 0
            omega)
        rw [f1 hdead]
        have htake : (e :: rest.filter (touches m pt.position)).take 1 = [e] := rfl
        rw [htake, hR1]
        refine ⟨k1, ?_, k3, ?_, ?_, k6, k7⟩
        · rw [k2]
          have harith : max 0 (ph.current
              - 10 * ((e :: rest.filter (touches m pt.position)).length : Int))
              = max 0 (ph.current - 10) := by
            simp only [List.length_cons]
            push_cast
            omega
          rw [harith]
        · intro X hX
          exact k5 X (fun he => hX (by rw [he]; exact List.mem_singleton_self e))
        · intro X hX t1 ht1
          rw [List.mem_singleton.mp hX] at ht1 ⊢
          rw [ht] at ht1
          rw [← Option.some.inj ht1]
          exact k4
      · have hgt : 10 < ph.current := not_le.mp hdead
        have hR1 : R = contactLoop cs quotient (strike cs quotient m e t pt) rest := by
          rw [hR]
          exact if_neg (by
            show ¬ max 0 (ph.current - 10) ≤ 0
            omega)
        have hfc : rest.filter (touches (strike cs quotient m e t pt) pt.position)
            = rest.filter (touches m pt.position) := by
          apply List.filter_congr
          intro X hX
          have hXe : X ≠ e := fun he => hne (he ▸ hX)
          unfold touches
          rw [getTransform_congr m (strike cs quotient m e t pt) X X (k5 X hXe)]
        obtain ⟨i1, i2, i3, i4, i5, i6, i7⟩ := ih hnd1 (strike cs quotient m e t pt)
          { ph with current := max 0 (ph.current - 10) } k1 k3 k2
          (by
            show 0 < max 0 (ph.current - 10)
            omega) hinv R hR1
        rw [hfc] at i2 i4 i5
        have hk : hitsToKill ph.current
            = hitsToKill ({ ph with current := max 0 (ph.current - 10) } : Health).current + 1 :=
          f2 hgt
        rw [hk, List.take_succ_cons]
        refine ⟨i1, ?_, i3, ?_, ?_, ?_, ?_⟩
        · rw [i2]
          have harith := health_arith ph.current
            (rest.filter (touches m pt.position)).length hgt
          show some ({ ph with current := max 0 (max 0 (ph.current - 10)
            - 10 * ((rest.filter (touches m pt.position)).length : Int)) } : Health) = _
          rw [harith]
          rfl
        · intro X hX
          have hXe : X ≠ e := fun he => hX (by rw [he]; exact List.mem_cons_self _ _)
          rw [i4 X (fun hmem => hX (List.mem_cons_of_mem _ hmem))]
          exact k5 X hXe
        · intro X hX t1 ht1
          rcases List.mem_cons.mp hX with he | hmem
          · rw [he] at ht1 ⊢
            rw [ht] at ht1
            rw [← Option.some.inj ht1, ← k4]
            apply getTransform_congr
            exact i4 e (fun hmem => hsub _ e hmem rfl)
          · apply i5 X hmem t1
            rw [← ht1]
            exact getTransform_congr m _ X X (k5 X (hsub _ X hmem))
        · intro ty X hty h2
          rw [i6 ty X hty h2]
          exact k6 ty X hty h2
        · intro X
          rw [i7 X]
          exact k7 X

theorem checkEnemyPlayerCollisions_alive (cs : CollisionSystem) (quotient : ℚ → Root → ℚ)
    (m : EntityManager Component) (pt : Transform) (ph : Health)
    (hpt : m.getTransform cs.playerEntity = some pt)
    (hph : m.getHealth cs.playerEntity = some ph) (halive : 0 < ph.current) :
    checkEnemyPlayerCollisions cs quotient m
      = contactLoop cs quotient m (m.getEntitiesWith [TypeId.transform, TypeId.enemy]) := by
  unfold checkEnemyPlayerCollisions
  rw [hpt, hph]
  simp only [Health.isAlive]
  rw [if_neg (by simp; exact halive)]

theorem struck_short (m : EntityManager Component) (pos : Vector2) (h : Int) (hpos : 0 < h)
    (X : EntityId) (hX : X ∈ contacts m pos) (hn : X ∉ struck m pos h) :
    h ≤ 10 * ((struck m pos h).length : Int) := by
  have hlt : hitsToKill h < (contacts m pos).length := by
    by_contra hc
    apply hn
    unfold struck
    rw [List.take_of_length_le (not_lt.mp hc)]
    exact hX
  have hlen : (struck m pos h).length = hitsToKill h := by
    unfold struck
    rw [List.length_take]
    omega
  rw [hlen]
  have h3 := ((hitsToKill_facts h hpos).2.2 (hitsToKill h)).mpr
  by_contra hc
  exact absurd (h3 (not_le.mp hc)) (lt_irrefl _)

theorem arena_signatures (H : Health) :
    (arena H).entitySignatures = (arena {}).entitySignatures := by
  obtain ⟨a1, a2, a3⟩ := spawn_shape (EntityManager.new : EntityManager Component)
    EntityManager.new
    [(TypeId.transform, Component.transform (Transform.ofPosition ⟨0, 0⟩)),
     (TypeId.health, Component.health H)]
    [(TypeId.transform, Component.transform (Transform.ofPosition ⟨0, 0⟩)),
     (TypeId.health, Component.health {})] rfl rfl rfl rfl
  obtain ⟨b1, b2, b3⟩ := spawn_shape _ _
    [(TypeId.transform, Component.transform (Transform.ofPosition ⟨10, 0⟩)),
     (TypeId.enemy, Component.enemy {})]
    [(TypeId.transform, Component.transform (Transform.ofPosition ⟨10, 0⟩)),
     (TypeId.enemy, Component.enemy {})] a1 a2 a3 rfl
  exact (spawn_shape _ _
    [(TypeId.transform, Component.transform (Transform.ofPosition ⟨100, 0⟩)),
     (TypeId.enemy, Component.enemy {})]
    [(TypeId.transform, Component.transform (Transform.ofPosition ⟨100, 0⟩)),
     (TypeId.enemy, Component.enemy {})] b1 b2 b3 rfl).1

theorem arena_facts (H : Health) :
    (arena H).WF ∧
    (arena H).getTransform 1 = some (Transform.ofPosition ⟨0, 0⟩) ∧
    (arena H).getHealth 1 = some H ∧
    (arena H).getTransform 2 = some (Transform.ofPosition ⟨10, 0⟩) ∧
    (arena H).getTransform 3 = some (Transform.ofPosition ⟨100, 0⟩) ∧
    (arena H).getEntitiesWith [TypeId.transform, TypeId.enemy] = [3, 2] := by
  have hnd1 : (List.map Prod.fst
      [(TypeId.transform, Component.transform (Transform.ofPosition ⟨0, 0⟩)),
       (TypeId.health, Component.health H)]).Nodup := by
    show [TypeId.transform, TypeId.health].Nodup
    decide
  obtain ⟨_, a2, a3, _, _, a6, _, _⟩ := wf_spawn (EntityManager.new : EntityManager Component)
    wf_new 1 (List.range' 2 9998) rfl _ hnd1
  have hnd2 : (List.map Prod.fst
      [(TypeId.transform, Component.transform (Transform.ofPosition ⟨10, 0⟩)),
       (TypeId.enemy, Component.enemy {})]).Nodup := by
    show [TypeId.transform, TypeId.enemy].Nodup
    decide
  obtain ⟨_, b2, b3, _, _, b6, _, b8⟩ := wf_spawn _ a2 2 (List.range' 3 9997) (a3.trans rfl) _ hnd2
  have hnd3 : (List.map Prod.fst
      [(TypeId.transform, Component.transform (Transform.ofPosition ⟨100, 0⟩)),
       (TypeId.enemy, Component.enemy {})]).Nodup := by
    show [TypeId.transform, TypeId.enemy].Nodup
    decide
  obtain ⟨_, c2, _, _, _, c6, _, c8⟩ := wf_spawn _ b2 3 (List.range' 4 9996) (b3.trans rfl) _ hnd3
  refine ⟨c2, ?_, ?_, ?_, getTransform_of _ _ _ (c6 _ (List.mem_cons_self _ _)), ?_⟩
  · apply getTransform_of
    show ((_ : EntityManager Component).spawn _).2.getComponent TypeId.transform 1 = _
    rw [c8 _ 1 (by decide), b8 _ 1 (by decide)]
    exact a6 _ (List.mem_cons_self _ _)
  · apply getHealth_of
    show ((_ : EntityManager Component).spawn _).2.getComponent TypeId.health 1 = _
    rw [c8 _ 1 (by decide), b8 _ 1 (by decide)]
    exact a6 _ (List.mem_cons_of_mem _ (List.mem_cons_self _ _))
  · apply getTransform_of
    show ((_ : EntityManager Component).spawn _).2.getComponent TypeId.transform 2 = _
    rw [c8 _ 2 (by decide)]
    exact b6 _ (List.mem_cons_self _ _)
  · rw [getEntitiesWith_congr (arena H) (arena {}) (arena_signatures H)]
    decide

theorem arena_contacts (H : Health) :
    contacts (arena H) (Transform.ofPosition ⟨0, 0⟩).position = [2] := by
  obtain ⟨_, _, _, f4, f5, f6⟩ := arena_facts H
  unfold contacts
  rw [f6]
  have h3 : touches (arena H) (Transform.ofPosition ⟨0, 0⟩).position 3 = false := by
    unfold touches
    rw [f5]
    simp [isCircleCollision, getDistance, Root.le, Root.sqrt, Transform.ofPosition,
      ENEMY_RADIUS, PLAYER_RADIUS]
    norm_num
  have h2 : touches (arena H) (Transform.ofPosition ⟨0, 0⟩).position 2 = true := by
    unfold touches
    rw [f4]
    simp [isCircleCollision, getDistance, Root.le, Root.sqrt, Transform.ofPosition,
      ENEMY_RADIUS, PLAYER_RADIUS]
    norm_num
  simp [List.filter_cons, h2, h3]

end CollisionSystem

/-! ## Spawning with an exhausted queue of ids -/

namespace EntityManager

variable {T : Type}

/-- A `createEntity` that takes an unused id from the queue adds no entity to
the answer of a query for at least one component type. -/
theorem getEntitiesWith_createEntity_of_cons (m : EntityManager T) (q : EntityId)
    (rest : List EntityId) (hq : m.availableEntities = q :: rest)
    (hinv : m.isEntityValid q = false) (types : List ComponentTypeId)
    (hne : (ComponentSignature.empty &&& querySignature types == querySignature types) = false) :
    m.createEntity.2.getEntitiesWith types = m.getEntitiesWith types := by
  rw [createEntity_of_cons m q rest hq]
  unfold getEntitiesWith
  have hnot : q ∉ m.entitySignatures := by
    rw [← AList.lookup_eq_none]
    unfold isEntityValid at hinv
    cases hl : m.entitySignatures.lookup q with
    | none => rfl
    | some v =>
      rw [hl] at hinv
      cases hinv
  show (((m.entitySignatures.insert q ComponentSignature.empty).entries.filter _).map _) = _
  rw [AList.insert_entries_of_neg hnot, List.filter_cons_of_neg]
  rw [hne]
  exact Bool.false_ne_true

theorem runLife_create_keeps (n : Nat) :
    ∀ (m : EntityManager T), m.WF → n ≤ m.availableEntities.length →
    (runLife m (List.replicate n LifeCall.create)).WF ∧
    (∀ t E, (runLife m (List.replicate n LifeCall.create)).getComponent t E
      = m.getComponent t E) ∧
    (∀ types : List ComponentTypeId,
      (ComponentSignature.empty &&& querySignature types == querySignature types) = false →
      (runLife m (List.replicate n LifeCall.create)).getEntitiesWith types
        = m.getEntitiesWith types) := by
  induction n with
  | zero =>
    intro m h _
    exact ⟨h, fun _ _ => rfl, fun _ _ => rfl⟩
  | succ n ih =>
    intro m h hlen
    cases hq : m.availableEntities with
    | nil =>
      rw [hq] at hlen
      cases hlen
    | cons q rest =>
      obtain ⟨w1, _, w3, _, w5, _⟩ := wf_createEntity m h q rest hq
      have hlen1 : n ≤ m.createEntity.2.availableEntities.length := by
        rw [w3]
        rw [hq] at hlen
        exact Nat.le_of_succ_le_succ hlen
      obtain ⟨i1, i2, i3⟩ := ih m.createEntity.2 w1 hlen1
      refine ⟨i1, fun t E => ?_, fun types hne => ?_⟩
      · exact (i2 t E).trans (getComponent_createEntity m t E)
      · exact (i3 types hne).trans
          (getEntitiesWith_createEntity_of_cons m q rest hq w5 types hne)

/-- With an empty queue `createEntity` returns `nextEntityId`. When that id is
valid and has no components, the registry stays well-formed, and no entity
becomes valid that was not valid before. -/
theorem wf_createEntity_reuse (m : EntityManager T) (h : m.WF) (hq : m.availableEntities = [])
    (hv : m.isEntityValid m.nextEntityId = true)
    (hnone : ∀ t, m.getComponent t m.nextEntityId = none) :
    m.createEntity.1 = m.nextEntityId ∧ m.createEntity.2.WF ∧
    (∀ E, m.createEntity.2.isEntityValid E = m.isEntityValid E) ∧
    (∀ t E, m.createEntity.2.getComponent t E = m.getComponent t E) := by
  obtain ⟨c1, c2, c3⟩ := createEntity_of_empty_queue m hq
  obtain ⟨h1, h2, h3, h4⟩ := h
  have hvalid : ∀ E, m.createEntity.2.isEntityValid E = m.isEntityValid E := by
    intro E
    unfold isEntityValid at hv ⊢
    rw [c2]
    by_cases hE : E = m.nextEntityId
    · rw [hE, AList.lookup_insert, hv]
      rfl
    · rw [AList.lookup_insert_ne hE]
  have hqueue : m.createEntity.2.availableEntities = [] := by
    unfold createEntity
    rw [hq]
  refine ⟨c1, ⟨?_, ?_, ?_, ?_⟩, hvalid, getComponent_createEntity m⟩
  · intro t arr ha
    rw [c3] at ha
    exact h1 t arr ha
  · intro t E hne
    rw [getComponent_createEntity] at hne
    have hE : E ≠ m.nextEntityId := by
      rintro rfl
      exact hne (hnone t)
    obtain ⟨sig, hsig, hbit⟩ := h2 t E hne
    exact ⟨sig, by rw [c2, AList.lookup_insert_ne hE]; exact hsig, hbit⟩
  · intro q hmem
    rw [hqueue] at hmem
    cases hmem
  · rw [hqueue]
    exact List.nodup_nil

end EntityManager

namespace EnemySpawnSystem

open EntityManager

theorem crowded_facts :
    crowded.WF ∧ crowded.availableEntities = [] ∧ crowded.nextEntityId = 1 ∧
    crowded.isEntityValid 1 = true ∧ (∀ t, crowded.getComponent t 1 = none) ∧
    crowded.isEntityValid 2 = true ∧
    crowded.getTransform 2 = some (Transform.ofPosition ⟨5, 7⟩) ∧
    crowded.getSpawnIndicator 2 = some ⟨EnemyType.SLIME, 2, 2, true⟩ ∧
    crowded.getEntitiesWith [TypeId.transform, TypeId.spawnIndicator] = [2] := by
  obtain ⟨a1, _, a3, a4, _, a6⟩ := wf_createEntity (EntityManager.new : EntityManager Component)
    wf_new 1 (List.range' 2 9998) rfl
  have hnd : (List.map Prod.fst
      [(TypeId.transform, Component.transform (Transform.ofPosition ⟨5, 7⟩)),
       (TypeId.spawnIndicator,
        Component.spawnIndicator ⟨EnemyType.SLIME, 2, 2, true⟩)]).Nodup := by
    show [TypeId.transform, TypeId.spawnIndicator].Nodup
    decide
  obtain ⟨_, b2, b3, _, b5, b6, _, b8⟩ := wf_spawn _ a1 2 (List.range' 3 9997) a3 _ hnd
  have hlen : 9997 ≤ ((EntityManager.new : EntityManager Component).createEntity.2.spawn
      [(TypeId.transform, Component.transform (Transform.ofPosition ⟨5, 7⟩)),
       (TypeId.spawnIndicator,
        Component.spawnIndicator ⟨EnemyType.SLIME, 2, 2, true⟩)]).2.availableEntities.length := by
    rw [b3, List.length_range']
  obtain ⟨r1, r2, r3⟩ := runLife_create_keeps 9997 _ b2 hlen
  obtain ⟨q1, q2⟩ := runLife_replicate_create 9997 _ (by rw [b3, List.length_range'])
  have hkeep : ∀ E, ((EntityManager.new : EntityManager Component).createEntity.2.spawn
      [(TypeId.transform, Component.transform (Transform.ofPosition ⟨5, 7⟩)),
       (TypeId.spawnIndicator,
        Component.spawnIndicator ⟨EnemyType.SLIME, 2, 2, true⟩)]).2.isEntityValid E = true →
      crowded.isEntityValid E = true := by
    intro E hE
    unfold crowded
    rw [isEntityValid_runLife]
    refine Or.inl ⟨hE, ?_⟩
    intro hmem
    have := List.eq_of_mem_replicate hmem
    cases this
  refine ⟨r1, q1, q2.trans rfl, hkeep 1 ((b5 1).mpr (Or.inr ((a6 1).mpr (Or.inl rfl)))), ?_,
    hkeep 2 ((b5 2).mpr (Or.inl rfl)), ?_, ?_, ?_⟩
  · intro t
    show (runLife _ _).getComponent t 1 = none
    rw [r2 t 1, b8 t 1 (by decide), getComponent_createEntity]
    rfl
  · apply getTransform_of
    show (runLife _ _).getComponent TypeId.transform 2 = _
    rw [r2]
    exact b6 _ (List.mem_cons_self _ _)
  · apply getSpawnIndicator_of
    show (runLife _ _).getComponent TypeId.spawnIndicator 2 = _
    rw [r2]
    exact b6 _ (List.mem_cons_of_mem _ (List.mem_cons_self _ _))
  · show (runLife _ _).getEntitiesWith _ = _
    rw [r3 _ (by decide)]
    decide

end EnemySpawnSystem
namespace EnemySpawnSystem

open EntityManager

/-- One pass over a single completed indicator `I` when the queue of ids is
empty and `nextEntityId` is a valid entity `N` without components: the enemy
is put on `N`, and the entities valid afterwards are the ones valid before
without `I`. -/
theorem processCompletedIndicators_reuse (m : EntityManager Component) (hwf : m.WF)
    (hq : m.availableEntities = []) (N I : EntityId) (hN : m.nextEntityId = N)
    (hv : m.isEntityValid N = true) (hnone : ∀ t, m.getComponent t N = none)
    (hsnap : m.getEntitiesWith [TypeId.transform, TypeId.spawnIndicator] = [I])
    (tr : Transform) (ind : SpawnIndicator) (hT : m.getTransform I = some tr)
    (hS : m.getSpawnIndicator I = some ind) (hc : ind.isComplete = true) (hNI : N ≠ I) :
    m.createEntity.1 = N ∧
    (processCompletedIndicators m).getTransform N = some (Transform.ofPosition tr.position) ∧
    (∃ en, (processCompletedIndicators m).getEnemy N = some en ∧
      en.type = spawnedType ind.enemyType) ∧
    (∀ E, (processCompletedIndicators m).isEntityValid E = true ↔
      (m.isEntityValid E = true ∧ E ≠ I)) := by
  obtain ⟨c1, c2, c3, c4⟩ := wf_createEntity_reuse m hwf hq (by rw [hN]; exact hv)
    (by rw [hN]; exact hnone)
  rw [hN] at c1
  obtain ⟨en, hh, mv, hcreate, hty⟩ := createEnemyOfType_eq m ind.enemyType tr.position
  have hpass : processCompletedIndicators m
      = (createEnemyOfType m ind.enemyType tr.position).destroyEntity I := by
    unfold processCompletedIndicators
    rw [hsnap]
    show processIndicator m I = _
    unfold processIndicator
    rw [hT, hS]
    simp only [hc, if_true]
  have hnd : (List.map Prod.fst
      [(TypeId.transform, Component.transform (Transform.ofPosition tr.position)),
       (TypeId.enemy, Component.enemy en), (TypeId.health, Component.health hh),
       (TypeId.movement, Component.movement mv)]).Nodup := by
    show [TypeId.transform, TypeId.enemy, TypeId.health, TypeId.movement].Nodup
    decide
  have hspawn : (m.spawn
      [(TypeId.transform, Component.transform (Transform.ofPosition tr.position)),
       (TypeId.enemy, Component.enemy en), (TypeId.health, Component.health hh),
       (TypeId.movement, Component.movement mv)]).2
      = List.foldl (fun r c => (r.addComponent c.1 N c.2).2) m.createEntity.2
          [(TypeId.transform, Component.transform (Transform.ofPosition tr.position)),
           (TypeId.enemy, Component.enemy en), (TypeId.health, Component.health hh),
           (TypeId.movement, Component.movement mv)] := by
    unfold EntityManager.spawn
    rw [c1]
  obtain ⟨a1, a2, _, _, a5, _⟩ := wf_addAll N _ m.createEntity.2
    c2 (by rw [c3]; exact hv) (fun c _ => by rw [c4]; exact hnone c.1) hnd
  rw [← hspawn, ← hcreate] at a1 a2 a5
  obtain ⟨_, _, d3, d4, _⟩ := wf_destroyEntity _ a1 I
  rw [← hpass] at d3 d4
  refine ⟨c1, ?_, ⟨en, ?_, hty⟩, ?_⟩
  · apply getTransform_of
    rw [d3 _ N hNI]
    exact a2 _ (List.mem_cons_self _ _)
  · apply getEnemy_of
    rw [d3 _ N hNI]
    exact a2 _ (List.mem_cons_of_mem _ (List.mem_cons_self _ _))
  · intro E
    rw [d4 E, a5 E, c3 E]

end EnemySpawnSystem

/-! ## Binary32 rounding -/

namespace Binary32

end Binary32

/-! ## The pass over spawn indicators while free ids remain -/

/-- While free ids remain: in a well-formed registry with enough free ids, one pass of
`processCompletedIndicators` handles exactly the entities `done` that have a
`Transform` and a `SpawnIndicator` whose elapsed time has reached its duration.
The k-th of them gets the k-th free id `news[k]` as a new enemy entity with a
`Transform` at the indicator's position and an `Enemy` whose type is SLIME for
SLIME, PEBBLIN for PEBBLIN and BASIC otherwise; the indicator entity itself is
destroyed; every entity outside `done` and `news`, incomplete indicators
included, keeps its validity and all its components. -/
theorem processCompletedIndicators_spawns (m : EntityManager Component) (hwf : m.WF)
    (done news : List EntityId)
    (hdone : done = (m.getEntitiesWith [TypeId.transform, TypeId.spawnIndicator]).filter
      (EnemySpawnSystem.isCompleteIndicator m))
    (hnews : news = m.availableEntities.take done.length)
    (hfree : done.length ≤ m.availableEntities.length) :
    (∀ I, I ∈ done ↔ ∃ tr ind, m.getTransform I = some tr ∧ m.getSpawnIndicator I = some ind ∧
      ind.duration ≤ ind.elapsed) ∧
    done.Nodup ∧ news.Nodup ∧ news.length = done.length ∧
    (∀ n ∈ news, m.isEntityValid n = false) ∧
    (∀ p ∈ List.zip done news,
      ∀ tr ind, m.getTransform p.1 = some tr → m.getSpawnIndicator p.1 = some ind →
        (EnemySpawnSystem.processCompletedIndicators m).isEntityValid p.2 = true ∧
        (EnemySpawnSystem.processCompletedIndicators m).getTransform p.2
          = some (Transform.ofPosition tr.position) ∧
        ∃ en, (EnemySpawnSystem.processCompletedIndicators m).getEnemy p.2 = some en ∧
          en.type = EnemySpawnSystem.spawnedType ind.enemyType) ∧
    (∀ I ∈ done,
      (EnemySpawnSystem.processCompletedIndicators m).isEntityValid I = false ∧
      ∀ t, (EnemySpawnSystem.processCompletedIndicators m).getComponent t I = none) ∧
    (∀ E, E ∉ done → E ∉ news →
      ((EnemySpawnSystem.processCompletedIndicators m).isEntityValid E = m.isEntityValid E ∧
        ∀ t, (EnemySpawnSystem.processCompletedIndicators m).getComponent t E
          = m.getComponent t E)) := by
  subst hnews
  subst hdone
  obtain ⟨_, r2, r3, r4⟩ := EnemySpawnSystem.processIndicators_list
    (m.getEntitiesWith [TypeId.transform, TypeId.spawnIndicator]) m hwf
    (EntityManager.nodup_getEntitiesWith m _) hfree
  refine ⟨?_, (EntityManager.nodup_getEntitiesWith m _).filter _,
    hwf.2.2.2.sublist (List.take_sublist _ _), ?_, ?_, r2, r3, r4⟩
  · intro I
    rw [List.mem_filter, EnemySpawnSystem.isCompleteIndicator_iff]
    constructor
    · rintro ⟨_, tr, ind, hT, hS, hc⟩
      exact ⟨tr, ind, hT, hS, by simpa [SpawnIndicator.isComplete] using hc⟩
    · rintro ⟨tr, ind, hT, hS, hc⟩
      refine ⟨?_, tr, ind, hT, hS, by simpa [SpawnIndicator.isComplete] using hc⟩
      apply EntityManager.mem_getEntitiesWith_of_components m hwf _ I _ (by simp)
      intro t ht
      rcases List.mem_cons.mp ht with ht | ht
      · rw [ht]
        exact EntityManager.getTransform_ne_none m I (by rw [hT]; exact Option.some_ne_none tr)
      · rw [List.mem_singleton.mp ht]
        exact EntityManager.getSpawnIndicator_ne_none m I
          (by rw [hS]; exact Option.some_ne_none ind)
  · rw [List.length_take]
    exact min_eq_left hfree
  · intro n hn
    exact hwf.2.2.1 n (List.mem_of_mem_take hn)

/-- An instance with a free id: in a registry whose only entity 1 is a completed SLIME
indicator at (3, 4), the pass creates entity 2 as a SLIME enemy at (3, 4) and
destroys entity 1. -/
theorem processCompletedIndicators_spawns_witness :
    (EnemySpawnSystem.indicatorAt ⟨3, 4⟩ ⟨EnemyType.SLIME, 2, 2, true⟩).WF ∧
    (EnemySpawnSystem.processCompletedIndicators
      (EnemySpawnSystem.indicatorAt ⟨3, 4⟩ ⟨EnemyType.SLIME, 2, 2, true⟩)).getTransform 2
        = some (Transform.ofPosition ⟨3, 4⟩) ∧
    (∃ en, (EnemySpawnSystem.processCompletedIndicators
      (EnemySpawnSystem.indicatorAt ⟨3, 4⟩ ⟨EnemyType.SLIME, 2, 2, true⟩)).getEnemy 2 = some en ∧
        en.type = EnemyType.SLIME) ∧
    (EnemySpawnSystem.processCompletedIndicators
      (EnemySpawnSystem.indicatorAt ⟨3, 4⟩ ⟨EnemyType.SLIME, 2, 2, true⟩)).isEntityValid 1
        = false := by
  obtain ⟨_, s2, s3, _, _, s6, _, _⟩ := EntityManager.wf_spawn
    (EntityManager.new : EntityManager Component) EntityManager.wf_new 1 (List.range' 2 9998) rfl
    [(TypeId.transform, Component.transform (Transform.ofPosition ⟨3, 4⟩)),
     (TypeId.spawnIndicator, Component.spawnIndicator ⟨EnemyType.SLIME, 2, 2, true⟩)]
    (by decide)
  have hT : (EnemySpawnSystem.indicatorAt ⟨3, 4⟩ ⟨EnemyType.SLIME, 2, 2, true⟩).getTransform 1
      = some (Transform.ofPosition ⟨3, 4⟩) :=
    EntityManager.getTransform_of _ _ _ (s6 _ (List.mem_cons_self _ _))
  have hS : (EnemySpawnSystem.indicatorAt ⟨3, 4⟩
      ⟨EnemyType.SLIME, 2, 2, true⟩).getSpawnIndicator 1
      = some ⟨EnemyType.SLIME, 2, 2, true⟩ :=
    EntityManager.getSpawnIndicator_of _ _ _
      (s6 _ (List.mem_cons_of_mem _ (List.mem_cons_self _ _)))
  have hq : (EnemySpawnSystem.indicatorAt ⟨3, 4⟩
      ⟨EnemyType.SLIME, 2, 2, true⟩).availableEntities = List.range' 2 9998 := s3
  have key := processCompletedIndicators_spawns
    (EnemySpawnSystem.indicatorAt ⟨3, 4⟩ ⟨EnemyType.SLIME, 2, 2, true⟩) s2 [1] [2]
    (by decide) (by rw [hq]; rfl) (by rw [hq]; simp)
  obtain ⟨_, _, _, _, _, k6, k7, _⟩ := key
  obtain ⟨_, kT, kE⟩ := k6 (1, 2) (by simp) _ _ hT hS
  exact ⟨s2, kT, kE, (k7 1 (by simp)).1⟩

/-! ## The circle test in exact arithmetic -/

/-- The circle test in exact arithmetic: `isCircleCollision p1 r1 p2 r2` holds exactly when
the Euclidean distance between `p1` and `p2` is at most `r1 + r2`; with the
radii of a bullet and an enemy the bound is 18, so distance exactly 18 is a hit
and every greater distance is not; and the test gives the same answer when the
two circles are exchanged. -/
theorem isCircleCollision_boundary_inclusive (p1 p2 : Vector2) (r1 r2 : ℚ) :
    (CollisionSystem.isCircleCollision p1 r1 p2 r2 = true ↔
      Real.sqrt (((p2.x : ℝ) - p1.x) ^ 2 + ((p2.y : ℝ) - p1.y) ^ 2) ≤ (r1 : ℝ) + r2) ∧
    (CollisionSystem.isCircleCollision p1 CollisionSystem.BULLET_RADIUS p2
        CollisionSystem.ENEMY_RADIUS = true ↔
      Real.sqrt (((p2.x : ℝ) - p1.x) ^ 2 + ((p2.y : ℝ) - p1.y) ^ 2) ≤ 18) ∧
    (Real.sqrt (((p2.x : ℝ) - p1.x) ^ 2 + ((p2.y : ℝ) - p1.y) ^ 2) = 18 →
      CollisionSystem.isCircleCollision p1 CollisionSystem.BULLET_RADIUS p2
        CollisionSystem.ENEMY_RADIUS = true) ∧
    (18 < Real.sqrt (((p2.x : ℝ) - p1.x) ^ 2 + ((p2.y : ℝ) - p1.y) ^ 2) →
      CollisionSystem.isCircleCollision p1 CollisionSystem.BULLET_RADIUS p2
        CollisionSystem.ENEMY_RADIUS = false) ∧
    CollisionSystem.isCircleCollision p1 r1 p2 r2
      = CollisionSystem.isCircleCollision p2 r2 p1 r1 := by
  have h18 : CollisionSystem.isCircleCollision p1 CollisionSystem.BULLET_RADIUS p2
      CollisionSystem.ENEMY_RADIUS = true ↔
      Real.sqrt (((p2.x : ℝ) - p1.x) ^ 2 + ((p2.y : ℝ) - p1.y) ^ 2) ≤ 18 := by
    rw [CollisionSystem.isCircleCollision_iff]
    have hsum : ((CollisionSystem.BULLET_RADIUS : ℚ) : ℝ) + (CollisionSystem.ENEMY_RADIUS : ℚ)
        = 18 := by
      unfold CollisionSystem.BULLET_RADIUS CollisionSystem.ENEMY_RADIUS
      norm_num
    rw [hsum]
  refine ⟨CollisionSystem.isCircleCollision_iff p1 p2 r1 r2, h18, fun hd => h18.mpr (le_of_eq hd),
    fun hd => ?_, ?_⟩
  · cases hc : CollisionSystem.isCircleCollision p1 CollisionSystem.BULLET_RADIUS p2
      CollisionSystem.ENEMY_RADIUS with
    | false => rfl
    | true => exact absurd (h18.mp hc) (not_le.mpr hd)
  · apply Bool.eq_iff_iff.mpr
    rw [CollisionSystem.isCircleCollision_iff, CollisionSystem.isCircleCollision_iff]
    have e1 : ((p2.x : ℝ) - p1.x) ^ 2 = ((p1.x : ℝ) - p2.x) ^ 2 := by ring
    have e2 : ((p2.y : ℝ) - p1.y) ^ 2 = ((p1.y : ℝ) - p2.y) ^ 2 := by ring
    rw [e1, e2, add_comm (r1 : ℝ) r2]

/-! ## Settled properties -/

/-- C1. For every finite sequence of `createEntity`/`destroyEntity` calls on a
fresh manager and every id: the id is valid after the sequence exactly when
some `createEntity` call of the sequence returned it and no `destroyEntity`
of that id was called since (so it is valid from the call that returns it
until its next destruction, and not valid before it was first returned nor
after it was destroyed); and right after every `createEntity` call the
returned id is registered with the empty signature. -/
theorem entity_identity_create_destroy (T : Type) (calls : List EntityManager.LifeCall)
    (id : EntityId) :
    ((EntityManager.runLife (EntityManager.new : EntityManager T) calls).isEntityValid id = true ↔
      ∃ before after, calls = before ++ EntityManager.LifeCall.create :: after ∧
        (EntityManager.runLife (EntityManager.new : EntityManager T) before).createEntity.1 = id ∧
        EntityManager.LifeCall.destroy id ∉ after) ∧
    (∀ before after, calls = before ++ EntityManager.LifeCall.create :: after →
      (EntityManager.runLife (EntityManager.new : EntityManager T) before).createEntity.2.entitySignatures.lookup
          (EntityManager.runLife (EntityManager.new : EntityManager T) before).createEntity.1 =
        some ComponentSignature.empty) := by
  constructor
  · rw [EntityManager.isEntityValid_runLife]
    simp [EntityManager.isEntityValid, EntityManager.new]
  · intro before after _
    rw [EntityManager.createEntity_signatures, AList.lookup_insert]

/-- C4. For every registry state, every entity `E` and every list of requested
component types (the empty list included): `E` is in the result of
`getEntitiesWith` exactly when `E` has a registered signature in which the
bit of every requested type is set; with no requested type the result is
exactly the set of entities that have a signature; and no entity occurs
twice in the result. -/
theorem getEntitiesWith_exact (T : Type) (m : EntityManager T) (types : List ComponentTypeId)
    (E : EntityId) :
    (E ∈ m.getEntitiesWith types ↔
      ∃ sig, m.entitySignatures.lookup E = some sig ∧
        ∀ t ∈ types, ComponentSignature.test sig t.val = true) ∧
    (E ∈ m.getEntitiesWith [] ↔ m.isEntityValid E = true) ∧
    (m.getEntitiesWith types).Nodup := by
  refine ⟨EntityManager.mem_getEntitiesWith m types E, ?_,
    EntityManager.nodup_getEntitiesWith m types⟩
  rw [EntityManager.mem_getEntitiesWith]
  simp [EntityManager.isEntityValid, Option.isSome_iff_exists]

/-- C9. On a storage built by any sequence of `insertComponent` and
`removeComponent` calls in which every stored entity has exactly one entry:
`removeComponent(e)` for a stored `e` shrinks the backing vector by exactly
one, makes `getComponent(e)` null, and leaves `getComponent(e')` unchanged for
every other stored entity `e'`, whose index changes only when it was the last
one (it then becomes the removed slot); `removeComponent(e)` for an `e` that
is not stored leaves the storage unchanged. -/
theorem removeComponent_swap_remove (T : Type) (calls : List (ComponentArray.Call T))
    (e : EntityId)
    (hone : ((ComponentArray.empty : ComponentArray T).run calls).OneEntryEach) :
    (∀ r, ((ComponentArray.empty : ComponentArray T).run calls).entityToIndex.lookup e = some r →
      (((ComponentArray.empty : ComponentArray T).run calls).removeComponent e).components.length + 1
        = ((ComponentArray.empty : ComponentArray T).run calls).components.length ∧
      (((ComponentArray.empty : ComponentArray T).run calls).removeComponent e).getComponent e
        = none ∧
      ∀ e', e' ≠ e → ∀ i,
        ((ComponentArray.empty : ComponentArray T).run calls).entityToIndex.lookup e' = some i →
        (((ComponentArray.empty : ComponentArray T).run calls).removeComponent e).getComponent e'
          = ((ComponentArray.empty : ComponentArray T).run calls).getComponent e' ∧
        (((ComponentArray.empty : ComponentArray T).run calls).removeComponent e).entityToIndex.lookup e'
          = some (if i = ((ComponentArray.empty : ComponentArray T).run calls).components.length - 1
              then r else i)) ∧
    (((ComponentArray.empty : ComponentArray T).run calls).entityToIndex.lookup e = none →
      ((ComponentArray.empty : ComponentArray T).run calls).removeComponent e
        = (ComponentArray.empty : ComponentArray T).run calls) := by
  have hl := ComponentArray.linked_run calls (ComponentArray.empty : ComponentArray T)
    ComponentArray.linked_empty
  exact ⟨fun r hr => ComponentArray.removeComponent_stored_effect _ hl hone e r hr,
    ComponentArray.removeComponent_of_not_stored _ e⟩

/-- Instance of C9 on the storage holding entities 1, 2, 3 with values 10, 20,
30: removing entity 1 keeps the value of entity 3 (which moves to slot 0) and
the value of entity 2. -/
theorem removeComponent_swap_remove_witness :
    ((ComponentArray.empty : ComponentArray Nat).run
        [ComponentArray.Call.insert 1 10, ComponentArray.Call.insert 2 20,
          ComponentArray.Call.insert 3 30]).OneEntryEach ∧
    ((((ComponentArray.empty : ComponentArray Nat).run
        [ComponentArray.Call.insert 1 10, ComponentArray.Call.insert 2 20,
          ComponentArray.Call.insert 3 30]).removeComponent 1).getComponent 3
      = ((ComponentArray.empty : ComponentArray Nat).run
        [ComponentArray.Call.insert 1 10, ComponentArray.Call.insert 2 20,
          ComponentArray.Call.insert 3 30]).getComponent 3) := by
  refine ⟨by decide, ?_⟩
  exact ((((removeComponent_swap_remove Nat
    [ComponentArray.Call.insert 1 10, ComponentArray.Call.insert 2 20,
      ComponentArray.Call.insert 3 30] 1 (by decide)).1 0 (by decide)).2.2 3 (by decide) 2
        (by decide))).1

/-- C8. In every registry reached from a fresh one through its public
interface, for every entity `E`, component type `T` and value `v` (so in
particular for a valid `E` that has no `T` yet): `addComponent<T>(E, v)`
returns a pointer to `v`, afterwards `getComponent<T>(E)` yields `v` and
`hasComponent<T>(E)` is true, the signature bits of `E` for the other types,
the signatures of all other entities and every other component value (of
another entity, or of `E` for another type) are unchanged; and
`addComponent<T>(E)` without a value stores the default constructed value. -/
theorem addComponent_contract (T : Type) [Inhabited T] (calls : List (EntityManager.Call T))
    (typeId : ComponentTypeId) (E : EntityId) (v : T) :
    (((EntityManager.new : EntityManager T).run calls).addComponent typeId E v).1 = some v ∧
    (((EntityManager.new : EntityManager T).run calls).addComponent typeId E v).2.getComponent
      typeId E = some v ∧
    ((((EntityManager.new : EntityManager T).run calls).addComponent typeId E v).2.hasComponent
      typeId E).1 = true ∧
    (∀ j : Nat, j ≠ typeId.val →
      ComponentSignature.test
        ((((EntityManager.new : EntityManager T).run calls).addComponent
          typeId E v).2.getEntitySignature E) j =
      ComponentSignature.test
        (((EntityManager.new : EntityManager T).run calls).getEntitySignature E) j) ∧
    (∀ E', E' ≠ E →
      (((EntityManager.new : EntityManager T).run calls).addComponent
        typeId E v).2.entitySignatures.lookup E' =
      ((EntityManager.new : EntityManager T).run calls).entitySignatures.lookup E') ∧
    (∀ t' E', (t' ≠ typeId ∨ E' ≠ E) →
      (((EntityManager.new : EntityManager T).run calls).addComponent
        typeId E v).2.getComponent t' E' =
      ((EntityManager.new : EntityManager T).run calls).getComponent t' E') ∧
    (((EntityManager.new : EntityManager T).run calls).addComponentDefault
      typeId E).2.getComponent typeId E = some default := by
  have hl := EntityManager.storages_linked_run_new (T := T) calls
  obtain ⟨h1, h2, h3, h4, h5, h6⟩ :=
    EntityManager.addComponent_effect ((EntityManager.new : EntityManager T).run calls) hl
      typeId E v
  exact ⟨h1, h2, h3, h4, h5, h6,
    (EntityManager.addComponent_effect ((EntityManager.new : EntityManager T).run calls) hl
      typeId E default).2.1⟩

/-- C5 (evaluation of the code). On a fresh manager no entity is valid, yet
`getEntityCount()` is `2^64 - 9999`; after one `createEntity` exactly one
entity (id 1) is valid and `getEntityCount()` is `2^64 - 9997`. -/
theorem getEntityCount_fresh_not_zero :
    (EntityManager.new : EntityManager Nat).getEntitiesWith [] = [] ∧
    (EntityManager.new : EntityManager Nat).getEntityCount = 2 ^ 64 - 9999 ∧
    ((EntityManager.new : EntityManager Nat).run [EntityManager.Call.createEntity]).getEntitiesWith []
      = [1] ∧
    ((EntityManager.new : EntityManager Nat).run [EntityManager.Call.createEntity]).getEntityCount
      = 2 ^ 64 - 9997 := by
  refine ⟨by decide, ?_, by decide, ?_⟩
  · simp [EntityManager.getEntityCount, EntityManager.new]
  · have h : ((EntityManager.new : EntityManager Nat).run
        [EntityManager.Call.createEntity]).availableEntities = List.range' 2 9998 := rfl
    have h2 : ((EntityManager.new : EntityManager Nat).run
        [EntityManager.Call.createEntity]).entitySignatures.entries.length = 1 := by decide
    simp [EntityManager.getEntityCount, h, h2]

/-- C7 (evaluation of the code). After `createEntity` (which returns 1) and
`destroyEntity(1)` the id 1 is invalid, but a following `hasComponent<T0>(1)`
registers a signature for it: the id is valid again and is returned by
`getEntitiesWith<>()` although `createEntity` did not return it again. The
same happens with `removeComponent<T0>(1)` once the storage of `T0` exists. -/
theorem stale_id_revived_by_hasComponent :
    ((EntityManager.new : EntityManager Nat).createEntity).1 = 1 ∧
    ((EntityManager.new : EntityManager Nat).run
      [EntityManager.Call.createEntity, EntityManager.Call.destroyEntity 1]).isEntityValid 1
      = false ∧
    ((EntityManager.new : EntityManager Nat).run
      [EntityManager.Call.createEntity, EntityManager.Call.destroyEntity 1,
        EntityManager.Call.hasComponent 0 1]).isEntityValid 1 = true ∧
    ((EntityManager.new : EntityManager Nat).run
      [EntityManager.Call.createEntity, EntityManager.Call.destroyEntity 1,
        EntityManager.Call.hasComponent 0 1]).getEntitiesWith [] = [1] ∧
    ((EntityManager.new : EntityManager Nat).run
      [EntityManager.Call.createEntity, EntityManager.Call.addComponent 0 1 10,
        EntityManager.Call.destroyEntity 1]).isEntityValid 1 = false ∧
    ((EntityManager.new : EntityManager Nat).run
      [EntityManager.Call.createEntity, EntityManager.Call.addComponent 0 1 10,
        EntityManager.Call.destroyEntity 1,
        EntityManager.Call.removeComponent 0 1]).isEntityValid 1 = true := by
  decide

/-- C3 (evaluation of the code). After `insertComponent(1, 10)` and
`insertComponent(1, 20)` on an empty storage the backing vector has two
elements while `entityToIndex` has one key and `indexToEntity` two, and
`indexToEntity[0] = 1` although `entityToIndex[1] = 1`, not 0. -/
theorem insert_twice_breaks_density :
    ((ComponentArray.empty : ComponentArray Nat).run
      [ComponentArray.Call.insert 1 10, ComponentArray.Call.insert 1 20]).components
      = [10, 20] ∧
    ((ComponentArray.empty : ComponentArray Nat).run
      [ComponentArray.Call.insert 1 10, ComponentArray.Call.insert 1 20]).entityToIndex.keys
      = [1] ∧
    ((ComponentArray.empty : ComponentArray Nat).run
      [ComponentArray.Call.insert 1 10, ComponentArray.Call.insert 1 20]).indexToEntity.keys
      = [1, 0] ∧
    ((ComponentArray.empty : ComponentArray Nat).run
      [ComponentArray.Call.insert 1 10,
        ComponentArray.Call.insert 1 20]).indexToEntity.lookup 0 = some 1 ∧
    ((ComponentArray.empty : ComponentArray Nat).run
      [ComponentArray.Call.insert 1 10,
        ComponentArray.Call.insert 1 20]).entityToIndex.lookup 1 = some 1 := by
  decide

/-- C10 (evaluation of the code). Entity 1 is created and given the value 10
of type `T0`; `addComponent<T0>(1, 20)` then makes `getComponent<T0>(1)` yield
20, but `getAllComponents<T0>()` grows from `[10]` to `[10, 20]` and two slots
of the storage are assigned to entity 1. -/
theorem addComponent_twice_appends :
    ((EntityManager.new : EntityManager Nat).run
      [EntityManager.Call.createEntity,
        EntityManager.Call.addComponent 0 1 10]).isEntityValid 1 = true ∧
    ((EntityManager.new : EntityManager Nat).run
      [EntityManager.Call.createEntity,
        EntityManager.Call.addComponent 0 1 10]).getComponent 0 1 = some 10 ∧
    (((EntityManager.new : EntityManager Nat).run
      [EntityManager.Call.createEntity,
        EntityManager.Call.addComponent 0 1 10]).getAllComponents 0).1 = [10] ∧
    ((EntityManager.new : EntityManager Nat).run
      [EntityManager.Call.createEntity, EntityManager.Call.addComponent 0 1 10,
        EntityManager.Call.addComponent 0 1 20]).getComponent 0 1 = some 20 ∧
    (((EntityManager.new : EntityManager Nat).run
      [EntityManager.Call.createEntity, EntityManager.Call.addComponent 0 1 10,
        EntityManager.Call.addComponent 0 1 20]).getAllComponents 0).1 = [10, 20] ∧
    (((EntityManager.new : EntityManager Nat).run
      [EntityManager.Call.createEntity, EntityManager.Call.addComponent 0 1 10,
        EntityManager.Call.addComponent 0 1 20]).componentArrays 0).map
          (fun a => a.entryCount 1) = some 2 := by
  decide

/-- C6 (evaluation of the code). Entities 1, 2, 3 are created; 2 and 3 get
the values 100 and 200 of type `T0`, entity 1 gets 10 and then 20, and the
component of 3 is removed. Entity 2 is valid and `getComponent<T0>(1)` is 20;
after `destroyEntity(2)` entity 1 is still valid but `getComponent<T0>(1)`
is 10. -/
theorem destroyEntity_changes_other_entity :
    ((EntityManager.new : EntityManager Nat).run
      [EntityManager.Call.createEntity, EntityManager.Call.createEntity,
        EntityManager.Call.createEntity, EntityManager.Call.addComponent 0 2 100,
        EntityManager.Call.addComponent 0 3 200, EntityManager.Call.addComponent 0 1 10,
        EntityManager.Call.addComponent 0 1 20,
        EntityManager.Call.removeComponent 0 3]).isEntityValid 2 = true ∧
    ((EntityManager.new : EntityManager Nat).run
      [EntityManager.Call.createEntity, EntityManager.Call.createEntity,
        EntityManager.Call.createEntity, EntityManager.Call.addComponent 0 2 100,
        EntityManager.Call.addComponent 0 3 200, EntityManager.Call.addComponent 0 1 10,
        EntityManager.Call.addComponent 0 1 20,
        EntityManager.Call.removeComponent 0 3]).getComponent 0 1 = some 20 ∧
    (((EntityManager.new : EntityManager Nat).run
      [EntityManager.Call.createEntity, EntityManager.Call.createEntity,
        EntityManager.Call.createEntity, EntityManager.Call.addComponent 0 2 100,
        EntityManager.Call.addComponent 0 3 200, EntityManager.Call.addComponent 0 1 10,
        EntityManager.Call.addComponent 0 1 20,
        EntityManager.Call.removeComponent 0 3]).destroyEntity 2).isEntityValid 1 = true ∧
    (((EntityManager.new : EntityManager Nat).run
      [EntityManager.Call.createEntity, EntityManager.Call.createEntity,
        EntityManager.Call.createEntity, EntityManager.Call.addComponent 0 2 100,
        EntityManager.Call.addComponent 0 3 200, EntityManager.Call.addComponent 0 1 10,
        EntityManager.Call.addComponent 0 1 20,
        EntityManager.Call.removeComponent 0 3]).destroyEntity 2).getComponent 0 1
      = some 10 := by
  decide

/-- C2 (evaluation of the code). Three runs from a fresh manager end in a
state where entity 1 has the bit of `T0` clear while the storage of `T0`
holds an entry for it.
(1) `addComponent<T0>(1, 7)` on the never created id 1, then `createEntity()`,
which returns 1 and resets its signature.
(2) Entities 1 and 2 are created, 2 gets a `T0`, 1 gets a `T0` twice; after
`removeComponent<T0>(1)` entity 1 has no entry, and `removeComponent<T0>(2)`
brings the first value of entity 1 back.
(3) Entity 1 is created and, being valid and without a `T0`, gets the value
7; 9998 further `createEntity` calls empty the queue of reserved ids, and the
next `createEntity` returns the live id 1 (`nextEntityId` starts at 1) and
resets its signature. -/
theorem signature_bit_without_storage_agreement :
    (((EntityManager.new : EntityManager Nat).run
        [EntityManager.Call.addComponent 0 1 7]).createEntity.1 = 1 ∧
      ComponentSignature.test (((EntityManager.new : EntityManager Nat).run
        [EntityManager.Call.addComponent 0 1 7,
          EntityManager.Call.createEntity]).getEntitySignature 1) 0 = false ∧
      ((EntityManager.new : EntityManager Nat).run
        [EntityManager.Call.addComponent 0 1 7,
          EntityManager.Call.createEntity]).getComponent 0 1 = some 7) ∧
    (((EntityManager.new : EntityManager Nat).run
        [EntityManager.Call.createEntity, EntityManager.Call.createEntity,
          EntityManager.Call.addComponent 0 2 200, EntityManager.Call.addComponent 0 1 10,
          EntityManager.Call.addComponent 0 1 20,
          EntityManager.Call.removeComponent 0 1]).getComponent 0 1 = none ∧
      ComponentSignature.test (((EntityManager.new : EntityManager Nat).run
        [EntityManager.Call.createEntity, EntityManager.Call.createEntity,
          EntityManager.Call.addComponent 0 2 200, EntityManager.Call.addComponent 0 1 10,
          EntityManager.Call.addComponent 0 1 20, EntityManager.Call.removeComponent 0 1,
          EntityManager.Call.removeComponent 0 2]).getEntitySignature 1) 0 = false ∧
      ((EntityManager.new : EntityManager Nat).run
        [EntityManager.Call.createEntity, EntityManager.Call.createEntity,
          EntityManager.Call.addComponent 0 2 200, EntityManager.Call.addComponent 0 1 10,
          EntityManager.Call.addComponent 0 1 20, EntityManager.Call.removeComponent 0 1,
          EntityManager.Call.removeComponent 0 2]).getComponent 0 1 = some 10) ∧
    (((EntityManager.new : EntityManager Nat).run
        [EntityManager.Call.createEntity]).isEntityValid 1 = true ∧
      ((EntityManager.new : EntityManager Nat).run
        [EntityManager.Call.createEntity]).getComponent 0 1 = none ∧
      ((EntityManager.new : EntityManager Nat).run
        ([EntityManager.Call.createEntity, EntityManager.Call.addComponent 0 1 7] ++
          List.replicate 9998 EntityManager.Call.createEntity)).createEntity.1 = 1 ∧
      ComponentSignature.test (((EntityManager.new : EntityManager Nat).run
        (([EntityManager.Call.createEntity, EntityManager.Call.addComponent 0 1 7] ++
          List.replicate 9998 EntityManager.Call.createEntity) ++
            [EntityManager.Call.createEntity])).getEntitySignature 1) 0 = false ∧
      ((EntityManager.new : EntityManager Nat).run
        (([EntityManager.Call.createEntity, EntityManager.Call.addComponent 0 1 7] ++
          List.replicate 9998 EntityManager.Call.createEntity) ++
            [EntityManager.Call.createEntity])).getComponent 0 1 = some 7) := by
  refine ⟨by decide, by decide, by decide, by decide, ?_⟩
  have hq : ((EntityManager.new : EntityManager Nat).run
      [EntityManager.Call.createEntity,
        EntityManager.Call.addComponent 0 1 7]).availableEntities = List.range' 2 9998 := rfl
  have hlen : ((EntityManager.new : EntityManager Nat).run
      [EntityManager.Call.createEntity,
        EntityManager.Call.addComponent 0 1 7]).availableEntities.length = 9998 := by
    rw [hq, List.length_range']
  obtain ⟨d1, d2, d3⟩ := EntityManager.run_replicate_createEntity 9998 _ hlen
  have hnext : ((EntityManager.new : EntityManager Nat).run
      [EntityManager.Call.createEntity,
        EntityManager.Call.addComponent 0 1 7]).nextEntityId = 1 := rfl
  have hget : ((EntityManager.new : EntityManager Nat).run
      [EntityManager.Call.createEntity,
        EntityManager.Call.addComponent 0 1 7]).getComponent 0 1 = some 7 := by decide
  rw [hnext] at d2
  obtain ⟨e1, e2, e3⟩ := EntityManager.createEntity_empty_queue_effect _ _ 0 1 7 d1 d3 hget
  rw [d2] at e1 e2
  simp only [EntityManager.run_append]
  refine ⟨e1, ?_, e3⟩
  rw [e2]
  rfl

/-- C11. In every state of the wave system reached from its constructor by
`update`, `startWave`, `endWave`, `startNextWave` and `closeShop` calls:
`currentWave >= 1` and `waveDuration = min(60, 20 + (currentWave - 1) * 5)`;
so wave 1 lasts 20 s, wave 5 lasts 40 s and every wave from 9 on lasts 60 s. -/
theorem wave_duration_formula (calls : List WaveSystem.Call) :
    1 ≤ (WaveSystem.new.run calls).currentWave ∧
    (WaveSystem.new.run calls).waveDuration =
      min 60 (20 + (((WaveSystem.new.run calls).currentWave - 1 : Int) : ℚ) * 5) ∧
    ((WaveSystem.new.run calls).currentWave = 1 → (WaveSystem.new.run calls).waveDuration = 20) ∧
    ((WaveSystem.new.run calls).currentWave = 5 → (WaveSystem.new.run calls).waveDuration = 40) ∧
    (9 ≤ (WaveSystem.new.run calls).currentWave →
      (WaveSystem.new.run calls).waveDuration = 60) := by
  obtain ⟨h1, h2⟩ := WaveSystem.good_run calls WaveSystem.new WaveSystem.good_new
  refine ⟨h1, h2, ?_, ?_, ?_⟩
  · intro h
    rw [h2, h]
    norm_num
  · intro h
    rw [h2, h]
    norm_num
  · intro h
    rw [h2]
    apply min_eq_left
    have : (9 : ℚ) ≤ (((WaveSystem.new.run calls).currentWave : Int) : ℚ) := by exact_mod_cast h
    push_cast
    linarith

/-- C12. `WaveSystem::update(dt)` in any state: in PREPARING nothing changes;
in ACTIVE the timer grows by `dt`, the state becomes COMPLETED if and only if
the new timer is `>= waveDuration` and stays ACTIVE otherwise, and
`currentWave` and `waveDuration` are unchanged; in COMPLETED the state becomes
PREPARING, `currentWave` grows by exactly 1, `waveDuration` is recomputed for
the new wave and the timer is unchanged. One update changes the state in no
other way, and every call of the wave system moves along the cycle
PREPARING -> ACTIVE -> COMPLETED -> PREPARING or stays. -/
theorem update_state_machine (w : WaveSystem) (dt : ℚ) :
    (w.waveState = WaveState.PREPARING → w.update dt = w) ∧
    (w.waveState = WaveState.ACTIVE →
      (w.update dt).waveTimer = w.waveTimer + dt ∧
      ((w.update dt).waveState = WaveState.COMPLETED ↔ w.waveTimer + dt ≥ w.waveDuration) ∧
      (¬ w.waveTimer + dt ≥ w.waveDuration → (w.update dt).waveState = WaveState.ACTIVE) ∧
      (w.update dt).currentWave = w.currentWave ∧
      (w.update dt).waveDuration = w.waveDuration) ∧
    (w.waveState = WaveState.COMPLETED →
      (w.update dt).waveState = WaveState.PREPARING ∧
      (w.update dt).currentWave = w.currentWave + 1 ∧
      (w.update dt).waveDuration =
        min 60 (20 + (((w.update dt).currentWave - 1 : Int) : ℚ) * 5) ∧
      (w.update dt).waveTimer = w.waveTimer) ∧
    ((w.update dt).waveState = w.waveState ∨
      (w.waveState = WaveState.ACTIVE ∧ (w.update dt).waveState = WaveState.COMPLETED) ∨
      (w.waveState = WaveState.COMPLETED ∧ (w.update dt).waveState = WaveState.PREPARING)) ∧
    (∀ call : WaveSystem.Call, WaveSystem.Step w.waveState (w.apply call).waveState) := by
  refine ⟨WaveSystem.update_preparing w dt, ?_, ?_, ?_, WaveSystem.step_apply w⟩
  · intro h
    rw [WaveSystem.update_active w dt h]
    split_ifs with hc
    · exact ⟨rfl, ⟨fun _ => hc, fun _ => rfl⟩, fun hn => absurd hc hn, rfl, rfl⟩
    · refine ⟨rfl, ⟨fun hs => ?_, fun hge => absurd hge hc⟩, fun _ => h, rfl, rfl⟩
      rw [show ({ w with waveTimer := w.waveTimer + dt } : WaveSystem).waveState = w.waveState
        from rfl, h] at hs
      cases hs
  · intro h
    rw [WaveSystem.update_completed w dt h]
    obtain ⟨h1, h2, _, h4⟩ :=
      WaveSystem.calculateWaveDuration_eq { w with currentWave := w.currentWave + 1 }
    refine ⟨rfl, h2, ?_, h4⟩
    show (WaveSystem.calculateWaveDuration { w with currentWave := w.currentWave + 1 }).waveDuration
      = min 60 (20 + (((WaveSystem.calculateWaveDuration
          { w with currentWave := w.currentWave + 1 }).currentWave - 1 : Int) : ℚ) * 5)
    rw [h1, h2]
  · cases hs : w.waveState with
    | PREPARING =>
      rw [WaveSystem.update_preparing w dt hs]
      exact Or.inl hs
    | ACTIVE =>
      rw [WaveSystem.update_active w dt hs]
      split_ifs
      · exact Or.inr (Or.inl ⟨rfl, rfl⟩)
      · exact Or.inl hs
    | COMPLETED =>
      rw [WaveSystem.update_completed w dt hs]
      exact Or.inr (Or.inr ⟨rfl, rfl⟩)

/-- C13. A wave transition requested in the wrong state changes nothing:
`startWave` outside PREPARING, `endWave` outside ACTIVE and `startNextWave`
outside COMPLETED return the wave system as it was (state, wave number, timer
and duration); `startWave` in PREPARING sets the state to ACTIVE and the timer
to 0 and changes nothing else. -/
theorem wrong_state_request_ignored (w : WaveSystem) :
    (w.waveState ≠ WaveState.PREPARING → w.startWave = w) ∧
    (w.waveState ≠ WaveState.ACTIVE → w.endWave = w) ∧
    (w.waveState ≠ WaveState.COMPLETED → w.startNextWave = w) ∧
    (w.waveState = WaveState.PREPARING →
      w.startWave = { w with waveState := WaveState.ACTIVE, waveTimer := 0 }) := by
  refine ⟨fun h => ?_, fun h => ?_, fun h => ?_, fun h => ?_⟩
  · unfold WaveSystem.startWave
    rw [if_pos h]
  · unfold WaveSystem.endWave
    rw [if_pos h]
  · unfold WaveSystem.startNextWave
    rw [if_pos h]
  · unfold WaveSystem.startWave
    rw [if_neg (not_not.mpr h)]

/-- C20 (as stated, refuted). A default constructed player (level 1) that gained
15 experience passes the level-up check although 15 is below
`(1 + 3)^2 = 16`. -/
theorem canLevelUp_quadratic_threshold_fails :
    ¬ (((({} : Player).run [Player.Call.gainExperience 15]).canLevelUp = true) ↔
      (({} : Player).run [Player.Call.gainExperience 15]).experience ≥
        ((({} : Player).run [Player.Call.gainExperience 15]).level + 3) ^ 2) := by
  decide

/-- C20 (amended). For every player record reached from a default constructed
one by `gainExperience`, `gainMaterials` and `levelUp`: the level is at least
1 and the level-up check `canLevelUp` succeeds if and only if
`experience >= 10 + 15 * (level - 1) + 5 * (level - 1)^2`, the requirement
that `levelUp` stores in `experienceToNextLevel`; at level 1 it succeeds with
10 experience and fails with 9. -/
theorem canLevelUp_threshold (calls : List Player.Call) :
    1 ≤ (({} : Player).run calls).level ∧
    ((({} : Player).run calls).canLevelUp = true ↔
      (({} : Player).run calls).experience ≥
        10 + 15 * ((({} : Player).run calls).level - 1) +
          5 * ((({} : Player).run calls).level - 1) ^ 2) ∧
    (({} : Player).run [Player.Call.gainExperience 10]).canLevelUp = true ∧
    (({} : Player).run [Player.Call.gainExperience 9]).canLevelUp = false := by
  obtain ⟨h1, h2⟩ := Player.threshold_run calls {} ⟨by decide, by decide⟩
  refine ⟨h1, ?_, by decide, by decide⟩
  unfold Player.canLevelUp
  rw [decide_eq_true_iff, h2]

/-- C14. On every tick of `Game::update` in which a wave is active (the game is
being played, the player is alive, the shop is closed and `waveActive` is
set) the wave block is reached, and the wave is completed in that tick (the
wave counter grows by one and the shop opens) if and only if the wave timer,
advanced by the tick, has reached the wave duration or the boss is defeated;
otherwise the wave counter is unchanged. The boss is defeated exactly when a
boss was spawned this wave and no boss-type spawn indicator is pending and no
living boss-type enemy exists. -/
theorem wave_completion_condition (g : Game) (dt : ℚ)
    (hplay : g.gameState = Game.GameState.PLAYING) (halive : 0 < g.playerHealth)
    (hshop : g.shopActive = false) (hactive : g.waveActive = true) :
    (g.updateWavePhase dt).2 = true ∧
    ((g.updateWavePhase dt).1.wave = g.wave + 1 ↔
      (g.waveTimer + dt ≥ g.waveDuration ∨ g.isBossDefeated = true)) ∧
    ((g.updateWavePhase dt).1.shopActive = true ↔
      (g.waveTimer + dt ≥ g.waveDuration ∨ g.isBossDefeated = true)) ∧
    (¬ (g.waveTimer + dt ≥ g.waveDuration ∨ g.isBossDefeated = true) →
      (g.updateWavePhase dt).1.wave = g.wave ∧
      (g.updateWavePhase dt).1.waveTimer = g.waveTimer + dt) ∧
    (g.isBossDefeated = true ↔
      g.bossSpawnedThisWave = true ∧
      (∀ i ∈ g.spawnIndicators, i.enemyType ≠ Game.EnemySpawnType.BOSS) ∧
      (∀ e ∈ g.enemies, ¬ (e.isBoss = true ∧ e.isAlive = true))) := by
  obtain ⟨g1, hu, hw, ht, hd, ha, hb, hs⟩ :=
    Game.updateWavePhase_active g dt hplay halive hshop
  have hiff : Game.waveCompleted { g1 with waveTimer := g1.waveTimer + dt } = true ↔
      (g.waveTimer + dt ≥ g.waveDuration ∨ g.isBossDefeated = true) :=
    (Game.waveCompleted_iff g1 dt).trans (by rw [ht, hd, hb])
  rw [hu]
  refine ⟨rfl, ?_, ?_, ?_, Game.isBossDefeated_iff g⟩
  · by_cases hc : Game.waveCompleted { g1 with waveTimer := g1.waveTimer + dt } = true
    · have := (Game.waveBlock_completed g1 dt (ha.trans hactive) hc).1
      exact ⟨fun _ => hiff.mp hc, fun _ => by rw [this, hw]⟩
    · constructor
      · intro h
        rw [Game.waveBlock_not_completed g1 dt (ha.trans hactive) hc] at h
        have h' : g1.wave = g.wave + 1 := h
        omega
      · intro h
        exact absurd (hiff.mpr h) hc
  · by_cases hc : Game.waveCompleted { g1 with waveTimer := g1.waveTimer + dt } = true
    · have := (Game.waveBlock_completed g1 dt (ha.trans hactive) hc).2.1
      exact ⟨fun _ => hiff.mp hc, fun _ => this⟩
    · constructor
      · intro h
        rw [Game.waveBlock_not_completed g1 dt (ha.trans hactive) hc] at h
        have h' : g1.shopActive = true := h
        rw [hs, hshop] at h'
        cases h'
      · intro h
        exact absurd (hiff.mpr h) hc
  · intro hn
    have hc : ¬ Game.waveCompleted { g1 with waveTimer := g1.waveTimer + dt } = true :=
      fun hc => hn (hiff.mp hc)
    rw [Game.waveBlock_not_completed g1 dt (ha.trans hactive) hc]
    exact ⟨hw, by show g1.waveTimer + dt = _; rw [ht]⟩

/-- Instance of C14: a new game that is being played completes wave 1 on a
tick of 25 seconds, because the timer reaches the duration of 20 seconds. -/
theorem wave_completion_condition_witness :
    ({ Game.new 100 2 with gameState := Game.GameState.PLAYING } : Game).gameState
      = Game.GameState.PLAYING ∧
    0 < ({ Game.new 100 2 with gameState := Game.GameState.PLAYING } : Game).playerHealth ∧
    ({ Game.new 100 2 with gameState := Game.GameState.PLAYING } : Game).shopActive = false ∧
    ({ Game.new 100 2 with gameState := Game.GameState.PLAYING } : Game).waveActive = true ∧
    (({ Game.new 100 2 with gameState := Game.GameState.PLAYING } : Game).updateWavePhase 25).1.wave
      = ({ Game.new 100 2 with gameState := Game.GameState.PLAYING } : Game).wave + 1 :=
  ⟨rfl, by decide, rfl, rfl,
    (wave_completion_condition { Game.new 100 2 with gameState := Game.GameState.PLAYING } 25
      rfl (by decide) rfl rfl).2.1.mpr (Or.inl (by norm_num [Game.new, Game.initializeBossWaves]))⟩

/-- C15. With the boss wave table of `initializeBossWaves` (waves 2, 4, 7, 10):
once a boss is planned for the wave (`bossSpawnedThisWave`), a call of the
spawn step changes nothing, whatever the elapsed time; on a boss wave with no
boss planned yet the call queues exactly one boss indicator, queues nothing
else and sets the flag, so any run of spawn steps in that wave queues that one
boss indicator and nothing more; on any other wave a run of spawn steps only
queues indicators that are not of boss type; and the wave block of `update`
keeps the flag unless it increments the wave counter. -/
theorem boss_wave_single_indicator (g : Game) (hb : g.bossWaves = Game.initialBossWaves) :
    (∀ r, g.bossSpawnedThisWave = true → g.spawnEnemies r = g) ∧
    (∀ r, (g.wave = 2 ∨ g.wave = 4 ∨ g.wave = 7 ∨ g.wave = 10) →
      g.bossSpawnedThisWave = false →
      g.spawnEnemies r =
        { g with spawnIndicators :=
                   g.spawnIndicators ++
                     [⟨r.bossPos, g.spawnTelegraphSeconds, Game.EnemySpawnType.BOSS, 0⟩]
                 bossSpawnedThisWave := true }) ∧
    (∀ r rs, (g.wave = 2 ∨ g.wave = 4 ∨ g.wave = 7 ∨ g.wave = 10) →
      g.bossSpawnedThisWave = false →
      (g.spawnRun (r :: rs)).spawnIndicators =
        g.spawnIndicators ++ [⟨r.bossPos, g.spawnTelegraphSeconds, Game.EnemySpawnType.BOSS, 0⟩] ∧
      (g.spawnRun (r :: rs)).bossSpawnedThisWave = true ∧
      (g.spawnRun (r :: rs)).wave = g.wave) ∧
    (∀ rs, ¬ (g.wave = 2 ∨ g.wave = 4 ∨ g.wave = 7 ∨ g.wave = 10) →
      ∃ added, (g.spawnRun rs).spawnIndicators = g.spawnIndicators ++ added ∧
        ∀ i ∈ added, i.enemyType ≠ Game.EnemySpawnType.BOSS) ∧
    (∀ dt, (g.waveBlock dt).bossSpawnedThisWave = g.bossSpawnedThisWave ∨
      (g.waveBlock dt).wave = g.wave + 1) := by
  refine ⟨fun r h => Game.spawnEnemies_boss_planned g r h,
    fun r hw h => Game.spawnEnemies_boss_wave g r hb hw h, ?_,
    fun rs hw => Game.spawnRun_regular_wave rs g hb hw, Game.waveBlock_flag g⟩
  intro r rs hw h
  show ((g.spawnEnemies r).spawnRun rs).spawnIndicators = _ ∧
    ((g.spawnEnemies r).spawnRun rs).bossSpawnedThisWave = true ∧
    ((g.spawnEnemies r).spawnRun rs).wave = g.wave
  rw [Game.spawnRun_boss_planned rs (g.spawnEnemies r)
    (by rw [Game.spawnEnemies_boss_wave g r hb hw h]),
    Game.spawnEnemies_boss_wave g r hb hw h]
  exact ⟨rfl, rfl, rfl⟩

/-- Instance of C15: in wave 2 of a new game three spawn steps queue the boss
indicator of the first step and nothing else. -/
theorem boss_wave_single_indicator_witness :
    ({ Game.new 100 2 with wave := 2 } : Game).bossWaves = Game.initialBossWaves ∧
    (({ Game.new 100 2 with wave := 2 } : Game).spawnRun
      [⟨⟨100, 100⟩, ⟨5, 5⟩, 0⟩, ⟨⟨7, 7⟩, ⟨6, 6⟩, 0⟩, ⟨⟨8, 8⟩, ⟨9, 9⟩, 0⟩]).spawnIndicators =
      ({ Game.new 100 2 with wave := 2 } : Game).spawnIndicators ++
        [⟨⟨100, 100⟩, ({ Game.new 100 2 with wave := 2 } : Game).spawnTelegraphSeconds,
          Game.EnemySpawnType.BOSS, 0⟩] :=
  ⟨rfl, ((boss_wave_single_indicator { Game.new 100 2 with wave := 2 } rfl).2.2.1
    ⟨⟨100, 100⟩, ⟨5, 5⟩, 0⟩ [⟨⟨7, 7⟩, ⟨6, 6⟩, 0⟩, ⟨⟨8, 8⟩, ⟨9, 9⟩, 0⟩]
    (Or.inl rfl) rfl).1⟩

/-- C16: with the queue of reserved ids used up, a completed spawn indicator
does not get a new enemy entity. In the registry `crowded` all 9999 reserved
ids are valid, entity 1 among them, and entity 2 is the only spawn indicator,
a completed one. `createEntity` then returns the live id 1, so the pass of
`processCompletedIndicators` puts the `Transform` at (5, 7) and the SLIME
`Enemy` on entity 1 and destroys entity 2: the entities valid after the pass
are those valid before it without entity 2, that is, no entity is new. -/
theorem completed_indicator_takes_live_id :
    EnemySpawnSystem.crowded.availableEntities = [] ∧
    EnemySpawnSystem.crowded.isEntityValid 1 = true ∧
    EnemySpawnSystem.crowded.getEntitiesWith [TypeId.transform, TypeId.spawnIndicator] = [2] ∧
    EnemySpawnSystem.isCompleteIndicator EnemySpawnSystem.crowded 2 = true ∧
    EnemySpawnSystem.crowded.getTransform 2 = some (Transform.ofPosition ⟨5, 7⟩) ∧
    EnemySpawnSystem.crowded.createEntity.1 = 1 ∧
    (EnemySpawnSystem.processCompletedIndicators EnemySpawnSystem.crowded).getTransform 1
      = some (Transform.ofPosition ⟨5, 7⟩) ∧
    (∃ en, (EnemySpawnSystem.processCompletedIndicators EnemySpawnSystem.crowded).getEnemy 1
      = some en ∧ en.type = EnemyType.SLIME) ∧
    (EnemySpawnSystem.processCompletedIndicators EnemySpawnSystem.crowded).isEntityValid 2
      = false ∧
    (∀ E, (EnemySpawnSystem.processCompletedIndicators EnemySpawnSystem.crowded).isEntityValid E
        = true ↔ (EnemySpawnSystem.crowded.isEntityValid E = true ∧ E ≠ 2)) := by
  obtain ⟨f1, f2, f3, f4, f5, _, f7, f8, f9⟩ := EnemySpawnSystem.crowded_facts
  have hc : SpawnIndicator.isComplete ⟨EnemyType.SLIME, 2, 2, true⟩ = true := by decide
  obtain ⟨k1, k2, k3, k4⟩ := EnemySpawnSystem.processCompletedIndicators_reuse
    EnemySpawnSystem.crowded f1 f2 1 2 f3 f4 f5 f9 _ _ f7 f8 hc (by decide)
  refine ⟨f2, f4, f9, (EnemySpawnSystem.isCompleteIndicator_iff _ 2).mpr ⟨_, _, f7, f8, hc⟩,
    f7, k1, k2, k3, ?_, k4⟩
  cases hv : (EnemySpawnSystem.processCompletedIndicators
      EnemySpawnSystem.crowded).isEntityValid 2 with
  | false => rfl
  | true => exact absurd rfl ((k4 2).mp hv).2

/-- C18: `checkBulletEnemyCollisions` never reads the `enemyOwned` flag. With an
enemy of health 30 (entity 1) and an enemy-owned projectile of damage 10
(entity 2) at the same place, the pass leaves the enemy with health 20 and
destroys the projectile. -/
theorem enemy_owned_projectile_hits_enemy :
    (CollisionSystem.duel (Health.ofHp 30) { enemyOwned := true }).getProjectile 2
      = some { enemyOwned := true } ∧
    (CollisionSystem.duel (Health.ofHp 30) { enemyOwned := true }).getHealth 1
      = some (Health.ofHp 30) ∧
    (CollisionSystem.checkBulletEnemyCollisions ⟨true, none, INVALID_ENTITY_ID⟩
      (CollisionSystem.duel (Health.ofHp 30) { enemyOwned := true })
      ⟨fun _ => 0, 0⟩).1.getHealth 1 = some { current := 20, maximum := 30 } ∧
    (CollisionSystem.checkBulletEnemyCollisions ⟨true, none, INVALID_ENTITY_ID⟩
      (CollisionSystem.duel (Health.ofHp 30) { enemyOwned := true })
      ⟨fun _ => 0, 0⟩).1.isEntityValid 1 = true ∧
    (CollisionSystem.checkBulletEnemyCollisions ⟨true, none, INVALID_ENTITY_ID⟩
      (CollisionSystem.duel (Health.ofHp 30) { enemyOwned := true })
      ⟨fun _ => 0, 0⟩).1.isEntityValid 2 = false := by
  obtain ⟨_, _, _, _, f5, _, f7, _, _, _⟩ :=
    CollisionSystem.duel_facts (Health.ofHp 30) { enemyOwned := true }
  obtain ⟨p1, p2, _⟩ := CollisionSystem.duel_pass ⟨true, none, INVALID_ENTITY_ID⟩ ⟨fun _ => 0, 0⟩
    (Health.ofHp 30) { enemyOwned := true } _ rfl
  have hpos : 0 < ((Health.ofHp 30).takeDamage
      ({ enemyOwned := true } : Projectile).damage).current := by decide
  exact ⟨f7, f5, (p2 hpos).2, (p2 hpos).1, p1⟩

/-- C19, as stated, fails for an invulnerable enemy: with an invulnerable enemy
of health 30 (entity 1) overlapped by a projectile of damage 10 (entity 2), the
pass destroys the projectile and the enemy keeps health 30, which is not
max(0, 30 - 10). -/
theorem invulnerable_enemy_keeps_health :
    (CollisionSystem.duel { current := 30, maximum := 30, invulnerable := true } {}).getHealth 1
      = some { current := 30, maximum := 30, invulnerable := true } ∧
    (CollisionSystem.duel { current := 30, maximum := 30, invulnerable := true } {}).getProjectile 2
      = some {} ∧
    CollisionSystem.hits
      (CollisionSystem.duel { current := 30, maximum := 30, invulnerable := true } {})
      (Transform.ofPosition ⟨0, 0⟩).position 1 = true ∧
    (CollisionSystem.checkBulletEnemyCollisions ⟨true, none, INVALID_ENTITY_ID⟩
      (CollisionSystem.duel { current := 30, maximum := 30, invulnerable := true } {})
      ⟨fun _ => 0, 0⟩).1.isEntityValid 2 = false ∧
    (CollisionSystem.checkBulletEnemyCollisions ⟨true, none, INVALID_ENTITY_ID⟩
      (CollisionSystem.duel { current := 30, maximum := 30, invulnerable := true } {})
      ⟨fun _ => 0, 0⟩).1.getHealth 1
      = some { current := 30, maximum := 30, invulnerable := true } ∧
    (30 : Int) ≠ max 0 (30 - ({} : Projectile).damage) := by
  obtain ⟨_, _, _, _, f5, _, f7, _, _, f10⟩ :=
    CollisionSystem.duel_facts { current := 30, maximum := 30, invulnerable := true } {}
  obtain ⟨p1, p2, _⟩ := CollisionSystem.duel_pass ⟨true, none, INVALID_ENTITY_ID⟩ ⟨fun _ => 0, 0⟩
    { current := 30, maximum := 30, invulnerable := true } {} _ rfl
  have hpos : 0 < (({ current := 30, maximum := 30, invulnerable := true } : Health).takeDamage
      ({} : Projectile).damage).current := by decide
  exact ⟨f5, f7, f10, p1, (p2 hpos).2, by decide⟩

/-- C19 (amended): in a well-formed registry `m` with at least two free ids,
(1) when a projectile `B` is processed and `E` is the first entity of the
enemy list that has a `Transform` and an `Enemy` and overlaps it, `B` is
destroyed; a `Health` of `E` becomes `takeDamage` of it, whose `current` is
max(0, current - damage) unless the health is invulnerable, in which case it
is unchanged; `E` stays (with all its other components) when the new health is
positive and is destroyed otherwise, after an experience orb has been created
at its position if a pickup system is attached; an `E` without `Health` and
every other existing entity are unchanged; the result is again well-formed
with two free ids. (2) A projectile that overlaps no enemy changes nothing.
(3) If no entity is both projectile and enemy, an entity that is neither a
projectile overlapping an enemy nor an enemy overlapped by a projectile is
unchanged by the whole pass. -/
theorem bullet_enemy_resolution (cs : CollisionSystem) (m : EntityManager Component)
    (rng : RandomSource) (hwf : m.WF) (hfree : 2 ≤ m.availableEntities.length) :
    (∀ (enemies pre post : List EntityId) (B E : EntityId) (bt : Transform) (p : Projectile),
      m.getTransform B = some bt → m.getProjectile B = some p →
      enemies = pre ++ E :: post →
      (∀ e ∈ pre, CollisionSystem.hits m bt.position e = false) →
      CollisionSystem.hits m bt.position E = true → B ≠ E →
      ∀ R, R = (CollisionSystem.processBullet cs enemies (m, rng) B).1 →
        R.WF ∧ 2 ≤ R.availableEntities.length ∧
        R.isEntityValid B = false ∧ (∀ t, R.getComponent t B = none) ∧
        (∀ hh, m.getHealth E = some hh →
          (hh.invulnerable = false →
            (hh.takeDamage p.damage).current = max 0 (hh.current - p.damage)) ∧
          (hh.invulnerable = true → hh.takeDamage p.damage = hh) ∧
          (0 < (hh.takeDamage p.damage).current →
            R.isEntityValid E = true ∧ R.getHealth E = some (hh.takeDamage p.damage) ∧
            ∀ t, t ≠ TypeId.health → R.getComponent t E = m.getComponent t E) ∧
          ((hh.takeDamage p.damage).current ≤ 0 →
            R.isEntityValid E = false ∧ (∀ t, R.getComponent t E = none) ∧
            (cs.pickupSystem = true → ∀ et, m.getTransform E = some et →
              ∀ q, m.availableEntities.head? = some q →
                R.isEntityValid q = true ∧
                R.getTransform q = some (Transform.ofPosition et.position) ∧
                ∃ orb, R.getExperienceOrb q = some orb))) ∧
        (m.getHealth E = none → EntityManager.Unchanged m R E) ∧
        (∀ X, X ≠ B → X ≠ E → m.isEntityValid X = true → EntityManager.Unchanged m R X)) ∧
    (∀ (enemies : List EntityId) (B : EntityId) (bt : Transform) (p : Projectile),
      m.getTransform B = some bt → m.getProjectile B = some p →
      (∀ e ∈ enemies, CollisionSystem.hits m bt.position e = false) →
      CollisionSystem.processBullet cs enemies (m, rng) B = (m, rng)) ∧
    ((∀ Y, m.getProjectile Y = none ∨ m.getEnemy Y = none) →
      ∀ X, m.isEntityValid X = true →
        (∀ B E bt pr et en, m.getTransform B = some bt → m.getProjectile B = some pr →
          m.getTransform E = some et → m.getEnemy E = some en →
          CollisionSystem.isCircleCollision bt.position CollisionSystem.BULLET_RADIUS
            et.position CollisionSystem.ENEMY_RADIUS = true →
          X ≠ B ∧ X ≠ E) →
        EntityManager.Unchanged m (CollisionSystem.checkBulletEnemyCollisions cs m rng).1 X) := by
  refine ⟨?_, ?_, ?_⟩
  · intro enemies pre post B E bt p hT hP hsplit hpre hE hBE R hR
    obtain ⟨r1, r2, r3, r4, r5, r6, r7, _, _⟩ :=
      CollisionSystem.processBullet_hit cs m hwf rng hfree enemies pre post B E bt p hT hP hsplit
        hpre hE hBE R hR
    exact ⟨r1, r2, r3, r4, r5, r6, r7⟩
  · intro enemies B bt p hT hP hmiss
    exact CollisionSystem.processBullet_miss cs enemies m rng B bt p hT hP hmiss
  · intro hsep X hXv hXfree
    exact CollisionSystem.pass_frame cs m _ hsep X hXv hXfree _ m rng hwf hfree
      (fun _ _ => ⟨rfl, rfl, rfl⟩) (EntityManager.unchanged_refl m X)

/-- Instance of C19: with an enemy of health 30 (entity 1) overlapped by a
projectile of damage 10 (entity 2), processing the projectile leaves the enemy
with health 20 and destroys the projectile. -/
theorem bullet_enemy_resolution_witness :
    (CollisionSystem.duel (Health.ofHp 30) {}).WF ∧
    2 ≤ (CollisionSystem.duel (Health.ofHp 30) {}).availableEntities.length ∧
    (CollisionSystem.processBullet ⟨true, none, INVALID_ENTITY_ID⟩ [1]
      (CollisionSystem.duel (Health.ofHp 30) {}, ⟨fun _ => 0, 0⟩) 2).1.getHealth 1
      = some { current := 20, maximum := 30 } ∧
    (CollisionSystem.processBullet ⟨true, none, INVALID_ENTITY_ID⟩ [1]
      (CollisionSystem.duel (Health.ofHp 30) {}, ⟨fun _ => 0, 0⟩) 2).1.isEntityValid 2
      = false := by
  obtain ⟨f1, f2, _, _, f5, f6, f7, _, _, f10⟩ :=
    CollisionSystem.duel_facts (Health.ofHp 30) {}
  have hlen : 2 ≤ (CollisionSystem.duel (Health.ofHp 30) {}).availableEntities.length := by
    rw [f2]
    simp
  obtain ⟨_, _, r3, _, r5, _, _⟩ :=
    (bullet_enemy_resolution ⟨true, none, INVALID_ENTITY_ID⟩
      (CollisionSystem.duel (Health.ofHp 30) {}) ⟨fun _ => 0, 0⟩ f1 hlen).1
      [1] [] [] 2 1 (Transform.ofPosition ⟨0, 0⟩) {} f6 f7 rfl
      (fun e he => absurd he (List.not_mem_nil e)) f10 (by decide) _ rfl
  have hpos : 0 < ((Health.ofHp 30).takeDamage ({} : Projectile).damage).current := by decide
  exact ⟨f1, hlen, ((r5 _ f5).2.2.1 hpos).2.1, r3⟩

/-- C30: `createEntity` can hand out a live id. After 9999 `createEntity` calls
on a fresh registry the queue of reserved ids is empty and entity 1 (returned
by the first call) is valid; the next `createEntity` returns `nextEntityId`,
which is 1 again. -/
theorem createEntity_returns_live_id :
    (EntityManager.runLife (EntityManager.new : EntityManager Nat)
      (List.replicate 9999 EntityManager.LifeCall.create)).isEntityValid 1 = true ∧
    (EntityManager.runLife (EntityManager.new : EntityManager Nat)
      (List.replicate 9999 EntityManager.LifeCall.create)).availableEntities = [] ∧
    (EntityManager.runLife (EntityManager.new : EntityManager Nat)
      (List.replicate 9999 EntityManager.LifeCall.create)).createEntity.1 = 1 :=
  EntityManager.live_id_after_full_run (EntityManager.new : EntityManager Nat) 9998 1
    (List.length_range' 1 1 9999) rfl rfl

/-- C24: for every wave number `w` and every engine state, `openShop w` on a
CLOSED shop leaves the shop OPEN with exactly 4 offers, reroll counter 0 and
wave `w`; every offer is unlocked, passes the tier gate (tier 2 only if
`w ≥ 2`, tier 3 only if `w ≥ 4`, tier 4 only if `w ≥ 8`, which is
`canItemAppear`), and its price is `calculateItemPrice`, that is the tier base
15, 25, 40, 60 plus the type modifier 0, +5, +10, +20 or -5 (the floor 5 is
never reached). -/
theorem openShop_offers (s : ShopSystem) (w : Int) (h : s.shopState = ShopState.CLOSED) :
    (s.openShop w).shopState = ShopState.OPEN ∧ (s.openShop w).items.length = 4 ∧
    (s.openShop w).rerollCount = 0 ∧ (s.openShop w).currentWave = w ∧
    ∀ item ∈ (s.openShop w).items,
      (item.tier = WeaponTier.TIER_2 → 2 ≤ w) ∧ (item.tier = WeaponTier.TIER_3 → 4 ≤ w) ∧
      (item.tier = WeaponTier.TIER_4 → 8 ≤ w) ∧
      ShopSystem.canItemAppear item.weaponType item.tier w = true ∧
      item.price = ShopSystem.calculateItemPrice item.weaponType item.tier w ∧
      item.price
        = max 5 (ShopSystem.tierBase item.tier + ShopSystem.typeModifier item.weaponType) ∧
      item.price = ShopSystem.tierBase item.tier + ShopSystem.typeModifier item.weaponType ∧
      item.locked = false := by
  have hopen : s.openShop w = ShopSystem.generateItems
      { s with shopState := ShopState.OPEN
               currentWave := w
               rerollCount := 0
               selectedItem := 0
               hoveredItem := -1 } w := by
    unfold ShopSystem.openShop
    rw [if_neg (not_not.mpr h)]
  rw [hopen]
  obtain ⟨fresh, h1, h2, h3, h4, h5, h6, _⟩ := ShopSystem.generateItems_fresh
    { s with shopState := ShopState.OPEN
             currentWave := w
             rerollCount := 0
             selectedItem := 0
             hoveredItem := -1 } w
  refine ⟨h4, by rw [h3, h1]; rfl, h6, h5, ?_⟩
  intro item hitem
  rw [h3] at hitem
  obtain ⟨⟨_, f2, f3, f4, f5, f6, f7⟩, hgate⟩ := h2 item hitem
  exact ⟨f3, f4, f5, hgate,
    f6.trans (ShopSystem.calculateItemPrice_table item.weaponType item.tier w).1.symm, f6, f7, f2⟩

/-- Instance of C24: a new shop opened for wave 3 is OPEN with 4 offers and
reroll counter 0. -/
theorem openShop_offers_witness :
    (ShopSystem.new ⟨fun _ => 0, 0⟩).shopState = ShopState.CLOSED ∧
    ((ShopSystem.new ⟨fun _ => 0, 0⟩).openShop 3).shopState = ShopState.OPEN ∧
    ((ShopSystem.new ⟨fun _ => 0, 0⟩).openShop 3).items.length = 4 ∧
    ((ShopSystem.new ⟨fun _ => 0, 0⟩).openShop 3).rerollCount = 0 :=
  ⟨rfl, (openShop_offers (ShopSystem.new ⟨fun _ => 0, 0⟩) 3 rfl).1,
    (openShop_offers (ShopSystem.new ⟨fun _ => 0, 0⟩) 3 rfl).2.1,
    (openShop_offers (ShopSystem.new ⟨fun _ => 0, 0⟩) 3 rfl).2.2.1⟩

/-- C23: `buyItem index` in a well-formed registry. An index outside the offer
list changes nothing, and so does a missing player. For a valid index with
offer `item` and player record `p`: if `p.materials < item.price` the shop and
the registry are unchanged; otherwise the offer list is the old one without
position `index` (the offers before it and after it in their order), nothing
else of the shop changes, the player record is the weapon bonus applied to `p`
with `materials` reduced by exactly the price, which is not negative, and the
other components of the player and all other entities are unchanged. -/
theorem buyItem_contract (s : ShopSystem) (m : EntityManager Component) (hwf : m.WF)
    (index : Int) :
    ((index < 0 ∨ (s.items.length : Int) ≤ index) → s.buyItem m index = (s, m)) ∧
    (m.getPlayer s.playerEntity = none → s.buyItem m index = (s, m)) ∧
    (∀ (p : Player) (item : ShopItem), 0 ≤ index → s.items.get? index.toNat = some item →
      m.getPlayer s.playerEntity = some p →
      (p.materials < item.price → s.buyItem m index = (s, m)) ∧
      (item.price ≤ p.materials →
        (s.buyItem m index).1 = { s with items := s.items.eraseIdx index.toNat } ∧
        s.items.eraseIdx index.toNat
          = s.items.take index.toNat ++ s.items.drop (index.toNat + 1) ∧
        (s.buyItem m index).2.getPlayer s.playerEntity
          = some (ShopSystem.applyWeaponBonus { p with materials := p.materials - item.price }
              item.weaponType) ∧
        (ShopSystem.applyWeaponBonus { p with materials := p.materials - item.price }
              item.weaponType).materials = p.materials - item.price ∧
        0 ≤ p.materials - item.price ∧
        (∀ t, t ≠ TypeId.player →
          (s.buyItem m index).2.getComponent t s.playerEntity
            = m.getComponent t s.playerEntity) ∧
        (∀ X, X ≠ s.playerEntity → EntityManager.Unchanged m (s.buyItem m index).2 X))) := by
  refine ⟨ShopSystem.buyItem_out_of_range s m index, ShopSystem.buyItem_no_player s m index, ?_⟩
  intro p item h0 hget hp
  have heq := ShopSystem.buyItem_eq s m index p item h0 hget hp
  constructor
  · intro hlt
    rw [heq, if_pos hlt]
  · intro hle
    rw [heq, if_neg (not_lt.mpr hle)]
    obtain ⟨_, w2, w3, _, w5, _⟩ := ShopSystem.writePlayer_effect m hwf s.playerEntity p
      (ShopSystem.applyWeaponBonus { p with materials := p.materials - item.price }
        item.weaponType) hp
    exact ⟨rfl, List.eraseIdx_eq_take_drop_succ _ _, w2,
      ShopSystem.applyWeaponBonus_materials _ _, by omega, w3, w5⟩

/-- Instance of C23: with a 25-cost offer, a player with 20 materials keeps
them and the offer, and a player with 30 materials is left with 5 and an empty
offer list. -/
theorem buyItem_contract_witness :
    (ShopSystem.lonePlayer { materials := 30 }).WF ∧
    ({ ShopSystem.new ⟨fun _ => 0, 0⟩ with
        playerEntity := 1
        items := [⟨ShopItemType.WEAPON, WeaponType.PISTOL, WeaponTier.TIER_2, 25, false⟩] }
      : ShopSystem).buyItem (ShopSystem.lonePlayer { materials := 20 }) 0
      = ({ ShopSystem.new ⟨fun _ => 0, 0⟩ with
            playerEntity := 1
            items := [⟨ShopItemType.WEAPON, WeaponType.PISTOL, WeaponTier.TIER_2, 25, false⟩] },
          ShopSystem.lonePlayer { materials := 20 }) ∧
    (({ ShopSystem.new ⟨fun _ => 0, 0⟩ with
        playerEntity := 1
        items := [⟨ShopItemType.WEAPON, WeaponType.PISTOL, WeaponTier.TIER_2, 25, false⟩] }
      : ShopSystem).buyItem (ShopSystem.lonePlayer { materials := 30 }) 0).1.items = [] ∧
    ((({ ShopSystem.new ⟨fun _ => 0, 0⟩ with
        playerEntity := 1
        items := [⟨ShopItemType.WEAPON, WeaponType.PISTOL, WeaponTier.TIER_2, 25, false⟩] }
      : ShopSystem).buyItem (ShopSystem.lonePlayer { materials := 30 }) 0).2.getPlayer 1).map
        (fun q => q.materials) = some 5 := by
  have b20 := ((buyItem_contract
    ({ ShopSystem.new ⟨fun _ => 0, 0⟩ with
        playerEntity := 1
        items := [⟨ShopItemType.WEAPON, WeaponType.PISTOL, WeaponTier.TIER_2, 25, false⟩] })
    (ShopSystem.lonePlayer { materials := 20 }) (ShopSystem.lonePlayer_facts _).1 0).2.2
    { materials := 20 } ⟨ShopItemType.WEAPON, WeaponType.PISTOL, WeaponTier.TIER_2, 25, false⟩
    (le_refl 0) rfl (ShopSystem.lonePlayer_facts _).2).1 (by decide)
  obtain ⟨c1, _, c3, c4, _⟩ := ((buyItem_contract
    ({ ShopSystem.new ⟨fun _ => 0, 0⟩ with
        playerEntity := 1
        items := [⟨ShopItemType.WEAPON, WeaponType.PISTOL, WeaponTier.TIER_2, 25, false⟩] })
    (ShopSystem.lonePlayer { materials := 30 }) (ShopSystem.lonePlayer_facts _).1 0).2.2
    { materials := 30 } ⟨ShopItemType.WEAPON, WeaponType.PISTOL, WeaponTier.TIER_2, 25, false⟩
    (le_refl 0) rfl (ShopSystem.lonePlayer_facts _).2).2 (by decide)
  refine ⟨(ShopSystem.lonePlayer_facts _).1, b20, ?_, ?_⟩
  · rw [c1]
    rfl
  · rw [c3]
    exact congrArg some c4

/-- C25: `rerollItems` in a well-formed registry, for a shop with wave `w` and
reroll counter `c`. The price is `(2 + w) + 2 * c`. Without a player nothing
changes. With player record `p`: if `p.materials` is less than the price, the
shop (counter and offers included) and the registry are unchanged; otherwise
the counter becomes `c + 1`, the wave and the state of the shop stay, the
player record is `p` with `materials` reduced by exactly the price, and the
other components of the player and all other entities are unchanged. In a
session that starts with counter 0 and wave `w`, after any sequence of shop
actions the counter is the number of rerolls that went through, so the next
reroll costs `(2 + w) + 2 *` that number. -/
theorem rerollItems_cost (s : ShopSystem) (m : EntityManager Component) (hwf : m.WF) :
    ShopSystem.calculateRerollPrice s.currentWave s.rerollCount
      = (2 + s.currentWave) + 2 * s.rerollCount ∧
    (m.getPlayer s.playerEntity = none → s.rerollItems m = (s, m)) ∧
    (∀ p : Player, m.getPlayer s.playerEntity = some p →
      (p.materials < (2 + s.currentWave) + 2 * s.rerollCount → s.rerollItems m = (s, m)) ∧
      ((2 + s.currentWave) + 2 * s.rerollCount ≤ p.materials →
        (s.rerollItems m).1.rerollCount = s.rerollCount + 1 ∧
        (s.rerollItems m).1.currentWave = s.currentWave ∧
        (s.rerollItems m).1.shopState = s.shopState ∧
        (s.rerollItems m).2.getPlayer s.playerEntity
          = some { p with
              materials := p.materials - ((2 + s.currentWave) + 2 * s.rerollCount) } ∧
        (∀ t, t ≠ TypeId.player →
          (s.rerollItems m).2.getComponent t s.playerEntity
            = m.getComponent t s.playerEntity) ∧
        (∀ X, X ≠ s.playerEntity → EntityManager.Unchanged m (s.rerollItems m).2 X))) ∧
    (∀ (w : Int) (x : ShopSystem × EntityManager Component) (actions : List ShopSystem.Action),
      x.1.currentWave = w → x.1.rerollCount = 0 →
      (ShopSystem.actAll x actions).1.rerollCount = ShopSystem.successfulRerolls x actions ∧
      ShopSystem.calculateRerollPrice (ShopSystem.actAll x actions).1.currentWave
          (ShopSystem.actAll x actions).1.rerollCount
        = (2 + w) + 2 * (ShopSystem.successfulRerolls x actions : Int)) := by
  have hprice : ShopSystem.calculateRerollPrice s.currentWave s.rerollCount
      = (2 + s.currentWave) + 2 * s.rerollCount := by
    unfold ShopSystem.calculateRerollPrice
    ring
  refine ⟨hprice, ShopSystem.rerollItems_no_player s m, ?_, ?_⟩
  · intro p hp
    rw [← hprice]
    constructor
    · intro hlt
      rw [ShopSystem.rerollItems_eq s m p hp, if_pos hlt]
    · intro hle
      obtain ⟨r1, r2, _, r4⟩ := ShopSystem.rerollItems_shop s m
      have hc : ShopSystem.canReroll (s, m) = true := by
        unfold ShopSystem.canReroll
        rw [hp]
        simpa using hle
      rw [hc, if_pos rfl] at r2
      obtain ⟨_, w2, w3, _, w5, _⟩ := ShopSystem.writePlayer_effect m hwf s.playerEntity p
        { p with materials :=
            p.materials - ShopSystem.calculateRerollPrice s.currentWave s.rerollCount } hp
      have hm : (s.rerollItems m).2 = m.writeComponent TypeId.player s.playerEntity
          (Component.player { p with materials :=
            p.materials - ShopSystem.calculateRerollPrice s.currentWave s.rerollCount }) := by
        rw [ShopSystem.rerollItems_eq s m p hp, if_neg (not_lt.mpr hle)]
      rw [hm]
      exact ⟨r2, r1, r4, w2, w3, w5⟩
  · intro w x actions hw hc
    obtain ⟨a1, a2, _⟩ := ShopSystem.actAll_shop actions x
    rw [hc, zero_add] at a2
    refine ⟨a2, ?_⟩
    rw [a1, a2, hw]
    unfold ShopSystem.calculateRerollPrice
    ring

/-- Instance of C25: in a shop for wave 1 with reroll counter 0 a player with 30
materials pays 3 and the counter becomes 1. -/
theorem rerollItems_cost_witness :
    (ShopSystem.lonePlayer { materials := 30 }).WF ∧
    (({ ShopSystem.new ⟨fun _ => 0, 0⟩ with playerEntity := 1, currentWave := 1 }
      : ShopSystem).rerollItems (ShopSystem.lonePlayer { materials := 30 })).1.rerollCount = 1 ∧
    ((({ ShopSystem.new ⟨fun _ => 0, 0⟩ with playerEntity := 1, currentWave := 1 }
      : ShopSystem).rerollItems (ShopSystem.lonePlayer { materials := 30 })).2.getPlayer 1).map
        (fun q => q.materials) = some 27 := by
  obtain ⟨c1, _, _, c4, _⟩ := ((rerollItems_cost
    ({ ShopSystem.new ⟨fun _ => 0, 0⟩ with playerEntity := 1, currentWave := 1 })
    (ShopSystem.lonePlayer { materials := 30 }) (ShopSystem.lonePlayer_facts _).1).2.2.1
    { materials := 30 } (ShopSystem.lonePlayer_facts _).2).2 (by decide)
  refine ⟨(ShopSystem.lonePlayer_facts _).1, c1, ?_⟩
  rw [c4]
  rfl

/-- C26: a reroll that goes through, in a shop with at most `MAX_SHOP_ITEMS`
offers (every shop reached from the constructor by `openShop` and the shop
actions is one, last part). The new offer list is the list of the offers that
were locked, in their order, followed by freshly generated offers: 4 offers are
generated for the wave of the shop, all unlocked, passing the tier gate and
priced by the table, and those at the positions after the locked ones are
kept. So the locked offers of the new list are exactly the old locked offers,
every locked offer occurs as often as before, and every unlocked offer of the
new list is a generated one. -/
theorem rerollItems_keeps_locked (s : ShopSystem) (m : EntityManager Component) (p : Player)
    (hp : m.getPlayer s.playerEntity = some p)
    (hcost : ShopSystem.calculateRerollPrice s.currentWave s.rerollCount ≤ p.materials)
    (hlen : s.items.length ≤ ShopSystem.MAX_SHOP_ITEMS) :
    (∃ fresh : List ShopItem, fresh.length = 4 ∧
      (∀ f ∈ fresh, f.locked = false ∧
        ShopSystem.canItemAppear f.weaponType f.tier s.currentWave = true ∧
        f.price = ShopSystem.calculateItemPrice f.weaponType f.tier s.currentWave) ∧
      (s.rerollItems m).1.items = s.items.filter (fun item => item.locked) ++
        fresh.drop (s.items.filter (fun item => item.locked)).length ∧
      (∀ item ∈ (s.rerollItems m).1.items, item.locked = false → item ∈ fresh)) ∧
    (s.rerollItems m).1.items.filter (fun item => item.locked)
      = s.items.filter (fun item => item.locked) ∧
    (∀ item : ShopItem, item.locked = true →
      (s.rerollItems m).1.items.count item = s.items.count item) ∧
    (s.rerollItems m).1.items.length = 4 ∧
    (∀ (g : Generator) (w : Int) (m0 : EntityManager Component)
      (actions : List ShopSystem.Action),
      (ShopSystem.actAll ((ShopSystem.new g).openShop w, m0) actions).1.items.length
        ≤ ShopSystem.MAX_SHOP_ITEMS) := by
  have hl : (s.items.filter (fun item => item.locked)).length ≤ ShopSystem.MAX_SHOP_ITEMS :=
    le_trans (List.length_filter_le _ _) hlen
  obtain ⟨fresh, h1, h2, h3, _⟩ := ShopSystem.rerollItems_items s m p hp hcost hl
  have hunlocked : ∀ f ∈ fresh.drop (s.items.filter (fun item => item.locked)).length,
      ¬((fun item : ShopItem => item.locked) f = true) := by
    intro f hf
    have := (h2 f (List.mem_of_mem_drop hf)).1.2.1
    simp [this]
  have hfilter : (s.rerollItems m).1.items.filter (fun item => item.locked)
      = s.items.filter (fun item => item.locked) := by
    rw [h3, List.filter_append, List.filter_filter, List.filter_eq_nil_iff.mpr hunlocked,
      List.append_nil]
    simp
  refine ⟨⟨fresh, h1, ?_, h3, ?_⟩, hfilter, ?_, ?_, ?_⟩
  · intro f hf
    obtain ⟨⟨_, f2, _, _, _, f6, _⟩, hgate⟩ := h2 f hf
    exact ⟨f2, hgate,
      f6.trans (ShopSystem.calculateItemPrice_table f.weaponType f.tier s.currentWave).1.symm⟩
  · intro item hitem hunl
    rw [h3] at hitem
    rcases List.mem_append.mp hitem with e | e
    · have := (List.mem_filter.mp e).2
      simp [hunl] at this
    · exact List.mem_of_mem_drop e
  · intro item hlocked
    have e1 := List.count_filter (l := (s.rerollItems m).1.items)
      (p := fun item : ShopItem => item.locked) (a := item) hlocked
    have e2 := List.count_filter (l := s.items)
      (p := fun item : ShopItem => item.locked) (a := item) hlocked
    rw [← e1, ← e2, hfilter]
  · rw [h3, List.length_append, List.length_drop, h1]
    have : (s.items.filter (fun item => item.locked)).length ≤ 4 := hl
    show _ + (ShopSystem.MAX_SHOP_ITEMS - _) = 4
    unfold ShopSystem.MAX_SHOP_ITEMS
    omega
  · intro g w m0 actions
    exact (ShopSystem.actAll_shop actions _).2.2
      (ShopSystem.openShop_length (ShopSystem.new g) w (Nat.zero_le _))

/-- Instance of C26: a shop for wave 1 with a locked tier-1 pistol and an
unlocked tier-1 SMG, rerolled by a player with 30 materials, has 4 offers again
and the pistol is its only locked offer. -/
theorem rerollItems_keeps_locked_witness :
    (ShopSystem.lonePlayer { materials := 30 }).getPlayer 1 = some { materials := 30 } ∧
    (({ ShopSystem.new ⟨fun _ => 0, 0⟩ with
          playerEntity := 1
          currentWave := 1
          items := [⟨ShopItemType.WEAPON, WeaponType.PISTOL, WeaponTier.TIER_1, 15, true⟩,
            ⟨ShopItemType.WEAPON, WeaponType.SMG, WeaponTier.TIER_1, 20, false⟩] }
        : ShopSystem).rerollItems (ShopSystem.lonePlayer { materials := 30 })).1.items.filter
          (fun item => item.locked)
      = [⟨ShopItemType.WEAPON, WeaponType.PISTOL, WeaponTier.TIER_1, 15, true⟩] ∧
    (({ ShopSystem.new ⟨fun _ => 0, 0⟩ with
          playerEntity := 1
          currentWave := 1
          items := [⟨ShopItemType.WEAPON, WeaponType.PISTOL, WeaponTier.TIER_1, 15, true⟩,
            ⟨ShopItemType.WEAPON, WeaponType.SMG, WeaponTier.TIER_1, 20, false⟩] }
        : ShopSystem).rerollItems (ShopSystem.lonePlayer { materials := 30 })).1.items.length
      = 4 :=
  ⟨(ShopSystem.lonePlayer_facts _).2,
    (rerollItems_keeps_locked
      ({ ShopSystem.new ⟨fun _ => 0, 0⟩ with
          playerEntity := 1
          currentWave := 1
          items := [⟨ShopItemType.WEAPON, WeaponType.PISTOL, WeaponTier.TIER_1, 15, true⟩,
            ⟨ShopItemType.WEAPON, WeaponType.SMG, WeaponTier.TIER_1, 20, false⟩] })
      (ShopSystem.lonePlayer { materials := 30 }) { materials := 30 }
      (ShopSystem.lonePlayer_facts _).2 (by decide) (by decide)).2.1,
    (rerollItems_keeps_locked
      ({ ShopSystem.new ⟨fun _ => 0, 0⟩ with
          playerEntity := 1
          currentWave := 1
          items := [⟨ShopItemType.WEAPON, WeaponType.PISTOL, WeaponTier.TIER_1, 15, true⟩,
            ⟨ShopItemType.WEAPON, WeaponType.SMG, WeaponTier.TIER_1, 20, false⟩] })
      (ShopSystem.lonePlayer { materials := 30 }) { materials := 30 }
      (ShopSystem.lonePlayer_facts _).2 (by decide) (by decide)).2.2.2.1⟩

/-- C21: the collect methods test `canLevelUp` once (`if`, not `while`). A new
player (level 1, experience 0, threshold 10) who collects an orb worth 30
experience ends at level 2 with experience 30 and threshold 30, so `canLevelUp`
is still true when `collectExperienceOrb` returns. -/
theorem collect_leaves_levelUp_pending :
    ∃ R p1, PickupSystem.collectExperienceOrb 1 (PickupSystem.hero {} (Health.ofHp 100)) 2
        (ExperienceOrb.ofXp 30) = some R ∧
      R.getPlayer 1 = some p1 ∧ p1.level = 2 ∧ p1.experience = 30 ∧
      p1.experienceToNextLevel = 30 ∧ p1.canLevelUp = true := by
  obtain ⟨f1, f2, f3⟩ := PickupSystem.hero_facts {} (Health.ofHp 100)
  obtain ⟨R, e, _, e1, _, _⟩ := PickupSystem.collect_effect 1 2
    (PickupSystem.hero {} (Health.ofHp 100)) f1 {}
    (({} : Player).gainExperience (ExperienceOrb.ofXp 30).experienceValue) (Health.ofHp 100)
    f2 f3 (by decide)
  refine ⟨R, _, ?_, (e1 (by decide)).1, ?_, ?_, ?_, ?_⟩
  · rw [PickupSystem.collectExperienceOrb_eq 1 2 _ _ {} (Health.ofHp 100) f2 f3]
    exact e
  · decide
  · decide
  · decide
  · decide

/-- C22: in a well-formed registry where the player entity has a `Player`
record `p` and a `Health` record, a collection of an experience orb or of a
material (another entity than the player) whose gains make `canLevelUp` true
returns with the player one level higher, `maxHealth` 5 higher, `damage` 1
higher and `moveSpeed` 2 higher than `p`, and with a `Health` whose `current`
and `maximum` both are the new `maxHealth`, whatever they were before. -/
theorem pickup_levelUp_full_heal (E pickup : EntityId) (m : EntityManager Component)
    (hwf : m.WF) (p : Player) (h : Health) (hp : m.getPlayer E = some p)
    (hh : m.getHealth E = some h) (hne : pickup ≠ E) :
    (∀ orb : ExperienceOrb, (p.gainExperience orb.experienceValue).canLevelUp = true →
      ∃ R p1 h1, PickupSystem.collectExperienceOrb E m pickup orb = some R ∧
        R.getPlayer E = some p1 ∧ R.getHealth E = some h1 ∧
        p1.level = p.level + 1 ∧ p1.maxHealth = p.maxHealth + 5 ∧ p1.damage = p.damage + 1 ∧
        p1.moveSpeed = p.moveSpeed + 2 ∧ p1.experience = p.experience + orb.experienceValue ∧
        h1.current = p1.maxHealth ∧ h1.maximum = p1.maxHealth) ∧
    (∀ material : Material,
      ((p.gainMaterials material.materialValue).gainExperience
        material.experienceValue).canLevelUp = true →
      ∃ R p1 h1, PickupSystem.collectMaterial E m pickup material = some R ∧
        R.getPlayer E = some p1 ∧ R.getHealth E = some h1 ∧
        p1.level = p.level + 1 ∧ p1.maxHealth = p.maxHealth + 5 ∧ p1.damage = p.damage + 1 ∧
        p1.moveSpeed = p.moveSpeed + 2 ∧
        p1.experience = p.experience + material.experienceValue ∧
        p1.materials = p.materials + material.materialValue ∧
        h1.current = p1.maxHealth ∧ h1.maximum = p1.maxHealth) := by
  constructor
  · intro orb hc
    obtain ⟨R, p1, h1, e, e1, e2, e3, l1, l2, l3, l4, c1, c2⟩ :=
      PickupSystem.collect_levelUp E pickup m hwf p _ h hp hh hne hc
    refine ⟨R, p1, h1, ?_, e1, e2, l1, l2, l3, l4, ?_, c1, c2⟩
    · rw [PickupSystem.collectExperienceOrb_eq E pickup m orb p h hp hh]
      exact e
    · rw [e3]
      rfl
  · intro material hc
    obtain ⟨R, p1, h1, e, e1, e2, e3, l1, l2, l3, l4, c1, c2⟩ :=
      PickupSystem.collect_levelUp E pickup m hwf p _ h hp hh hne hc
    refine ⟨R, p1, h1, ?_, e1, e2, l1, l2, l3, l4, ?_, ?_, c1, c2⟩
    · rw [PickupSystem.collectMaterial_eq E pickup m material p h hp hh]
      exact e
    · rw [e3]
      rfl
    · rw [e3]
      rfl

/-- Instance of C22: a level-1 player with 15 experience and health 40/100 who
collects an orb worth 1 (16 experience in all) is at level 2 with health
105/105 afterwards. -/
theorem pickup_levelUp_full_heal_witness :
    (PickupSystem.hero { experience := 15 } { current := 40, maximum := 100 }).WF ∧
    ∃ R p1 h1, PickupSystem.collectExperienceOrb 1
        (PickupSystem.hero { experience := 15 } { current := 40, maximum := 100 }) 2
        (ExperienceOrb.ofXp 1) = some R ∧
      R.getPlayer 1 = some p1 ∧ R.getHealth 1 = some h1 ∧ p1.level = 2 ∧
      p1.experience = 16 ∧ h1.current = 105 ∧ h1.maximum = 105 := by
  obtain ⟨f1, f2, f3⟩ :=
    PickupSystem.hero_facts { experience := 15 } { current := 40, maximum := 100 }
  obtain ⟨R, p1, h1, e, e1, e2, l1, l2, _, _, l5, c1, c2⟩ :=
    (pickup_levelUp_full_heal 1 2
      (PickupSystem.hero { experience := 15 } { current := 40, maximum := 100 }) f1
      { experience := 15 } { current := 40, maximum := 100 } f2 f3 (by decide)).1
      (ExperienceOrb.ofXp 1) (by decide)
  refine ⟨f1, R, p1, h1, e, e1, e2, ?_, ?_, ?_, ?_⟩
  · rw [l1]
    rfl
  · rw [l5]
    rfl
  · rw [c1, l2]
    rfl
  · rw [c2, l2]
    rfl

/-- C29: when a frame of `GameplayManager::update` sees wave `n` reach its
duration (player alive, shop CLOSED, no key pressed), the wave controller is
COMPLETED with `currentWave` still `n`, and the shop is opened by
`openShop (n - 1)`: its wave is `n - 1`, the first reroll costs
`2 + (n - 1)`, and the offers pass the tier gate of wave `n - 1`; after wave 2
every offer is of tier 1. -/
theorem shop_opens_for_previous_wave (g : GameplayManager) (dt : ℚ)
    (world : EntityManager Component → EntityManager Component) (w : WaveSystem)
    (s : ShopSystem) (hw : g.waveSystem = some w) (hs : g.shopSystem = some s)
    (halive : g.isPlayerAlive = true) (hact : w.waveState = WaveState.ACTIVE)
    (htime : w.waveTimer + dt ≥ w.waveDuration) (hclosed : s.shopState = ShopState.CLOSED) :
    (g.update dt none world).waveState = some WaveState.COMPLETED ∧
    (g.update dt none world).waveSystem.map (fun w1 => w1.currentWave) = some w.currentWave ∧
    (g.update dt none world).shopSystem = some (s.openShop (w.currentWave - 1)) ∧
    (s.openShop (w.currentWave - 1)).shopState = ShopState.OPEN ∧
    (s.openShop (w.currentWave - 1)).currentWave = w.currentWave - 1 ∧
    ShopSystem.calculateRerollPrice (s.openShop (w.currentWave - 1)).currentWave
      (s.openShop (w.currentWave - 1)).rerollCount = 2 + (w.currentWave - 1) ∧
    (∀ item ∈ (s.openShop (w.currentWave - 1)).items,
      ShopSystem.canItemAppear item.weaponType item.tier (w.currentWave - 1) = true) ∧
    (w.currentWave = 2 →
      ∀ item ∈ (s.openShop (w.currentWave - 1)).items, item.tier = WeaponTier.TIER_1) := by
  obtain ⟨g1, c1, c2, u1, u2⟩ :=
    GameplayManager.completing_frame g dt none world w s hw hs halive hact htime hclosed
  obtain ⟨n1, n2⟩ := GameplayManager.updateShop_no_input g1
  obtain ⟨o1, o2, o3, _, o5⟩ := GameplayManager.openShop_closed s (w.currentWave - 1) hclosed
  refine ⟨?_, ?_, ?_, o1, o2, ?_, o5, ?_⟩
  · unfold GameplayManager.waveState
    rw [u1, n1, c1]
    rfl
  · rw [u1, n1, c1]
    rfl
  · rw [u2, n2, c2]
  · rw [o2, o3]
    unfold ShopSystem.calculateRerollPrice
    ring
  · intro hn item hitem
    have hgate := o5 item hitem
    rw [hn] at hgate
    unfold ShopSystem.canItemAppear at hgate
    cases ht : item.tier with
    | TIER_1 => rfl
    | TIER_2 =>
      rw [ht] at hgate
      simp at hgate
    | TIER_3 =>
      rw [ht] at hgate
      simp at hgate
    | TIER_4 =>
      rw [ht] at hgate
      simp at hgate

/-- Instance of C29: the frame that completes wave 1 of a new game opens the
shop for wave 0. -/
theorem shop_opens_for_previous_wave_witness :
    (GameplayManager.start ⟨fun _ => 0, 0⟩).isPlayerAlive = true ∧
    ((GameplayManager.start ⟨fun _ => 0, 0⟩).update 20 none id).waveSystem.map
      (fun w1 => w1.currentWave) = some 1 ∧
    ((GameplayManager.start ⟨fun _ => 0, 0⟩).update 20 none id).shopSystem.map
      (fun s1 => s1.currentWave) = some 0 := by
  obtain ⟨_, f2, f3, f4⟩ := GameplayManager.start_facts ⟨fun _ => 0, 0⟩
  obtain ⟨_, k2, k3, _, k5, _⟩ := shop_opens_for_previous_wave
    (GameplayManager.start ⟨fun _ => 0, 0⟩) 20 id ⟨WaveState.ACTIVE, 1, 0, 20⟩
    { ShopSystem.new ⟨fun _ => 0, 0⟩ with playerEntity := 1 } f3 f4 f2 rfl (by norm_num) rfl
  refine ⟨f2, k2, ?_⟩
  rw [k3]
  exact congrArg some k5

/-- C27: `closeShop` on an OPEN shop does not always start the wave. The frame
of a new game in which wave 1 reaches its duration leaves the shop OPEN and the
wave controller COMPLETED; `closeShop` in that state closes and empties the
shop, but `startWave` refuses, so the wave controller stays COMPLETED with its
timer at 20. The same happens inside one frame when the space key is pressed
in the frame that opens the shop, and from then on the shop stays CLOSED and
the wave controller never becomes ACTIVE, whatever the later frames are. -/
theorem closeShop_leaves_wave_completed (gen : Generator) :
    ((GameplayManager.start gen).update 20 none id).shopState = some ShopState.OPEN ∧
    ((GameplayManager.start gen).update 20 none id).waveState = some WaveState.COMPLETED ∧
    (∃ s w, ((GameplayManager.start gen).update 20 none id).shopSystem = some s ∧
      ((GameplayManager.start gen).update 20 none id).waveSystem = some w ∧
      s.shopState = ShopState.OPEN ∧
      (s.closeShop (some w)).1.shopState = ShopState.CLOSED ∧
      (s.closeShop (some w)).1.items = [] ∧
      (s.closeShop (some w)).2.map (fun w1 => w1.waveState) = some WaveState.COMPLETED ∧
      (s.closeShop (some w)).2.map (fun w1 => w1.waveTimer) = some 20) ∧
    ((GameplayManager.start gen).update 20 (some { space := true }) id).shopState
      = some ShopState.CLOSED ∧
    ((GameplayManager.start gen).update 20 (some { space := true }) id).waveState
      = some WaveState.COMPLETED ∧
    (∀ frames : List GameplayManager.Frame,
      (((GameplayManager.start gen).update 20 (some { space := true }) id).run frames).shopState
        = some ShopState.CLOSED ∧
      ((((GameplayManager.start gen).update 20 (some { space := true }) id).run
          frames).waveState = some WaveState.COMPLETED ∨
        (((GameplayManager.start gen).update 20 (some { space := true }) id).run
          frames).waveState = some WaveState.PREPARING)) := by
  obtain ⟨_, f2, f3, f4⟩ := GameplayManager.start_facts gen
  have htime : (⟨WaveState.ACTIVE, 1, 0, 20⟩ : WaveSystem).waveTimer + 20
      ≥ (⟨WaveState.ACTIVE, 1, 0, 20⟩ : WaveSystem).waveDuration := by norm_num
  obtain ⟨o1, _, _, _, _⟩ := GameplayManager.openShop_closed
    { ShopSystem.new gen with playerEntity := 1 } ((1 : Int) - 1) rfl
  have htimer : (({ (⟨WaveState.ACTIVE, 1, 0, 20⟩ : WaveSystem) with
      waveTimer := (⟨WaveState.ACTIVE, 1, 0, 20⟩ : WaveSystem).waveTimer + 20
      waveState := WaveState.COMPLETED } : WaveSystem)).waveTimer = 20 := by norm_num
  -- the frame without a key
  obtain ⟨g1, c1, c2, u1, u2⟩ := GameplayManager.completing_frame
    (GameplayManager.start gen) 20 none id ⟨WaveState.ACTIVE, 1, 0, 20⟩
    { ShopSystem.new gen with playerEntity := 1 } f3 f4 f2 rfl htime rfl
  obtain ⟨n1, n2⟩ := GameplayManager.updateShop_no_input g1
  have hshop1 : ((GameplayManager.start gen).update 20 none id).shopSystem
      = some (({ ShopSystem.new gen with playerEntity := 1 } : ShopSystem).openShop (1 - 1)) := by
    rw [u2, n2, c2]
  have hwave1 : ((GameplayManager.start gen).update 20 none id).waveSystem
      = some { (⟨WaveState.ACTIVE, 1, 0, 20⟩ : WaveSystem) with
          waveTimer := (⟨WaveState.ACTIVE, 1, 0, 20⟩ : WaveSystem).waveTimer + 20
          waveState := WaveState.COMPLETED } := by
    rw [u1, n1, c1]
  -- the frame with the space key
  obtain ⟨g2, d1, d2, v1, v2⟩ := GameplayManager.completing_frame
    (GameplayManager.start gen) 20 (some { space := true }) id ⟨WaveState.ACTIVE, 1, 0, 20⟩
    { ShopSystem.new gen with playerEntity := 1 } f3 f4 f2 rfl htime rfl
  obtain ⟨s1, s2, _⟩ := GameplayManager.updateShop_space g2 _ d2 o1
    ((GameplayManager.openShop_keys _ _).1.trans rfl)
  have hshop2 : ((GameplayManager.start gen).update 20 (some { space := true }) id).shopState
      = some ShopState.CLOSED := by
    unfold GameplayManager.shopState at s2 ⊢
    rw [v2]
    exact s2
  have hwave2 : ((GameplayManager.start gen).update 20 (some { space := true }) id).waveState
      = some WaveState.COMPLETED := by
    unfold GameplayManager.waveState
    rw [v1, s1, d1]
    rfl
  refine ⟨?_, ?_, ⟨_, _, hshop1, hwave1, o1, ?_, ?_, ?_, ?_⟩, hshop2, hwave2, ?_⟩
  · unfold GameplayManager.shopState
    rw [hshop1]
    exact congrArg some o1
  · unfold GameplayManager.waveState
    rw [hwave1]
    rfl
  · unfold ShopSystem.closeShop
    rw [if_neg (not_not.mpr o1)]
  · unfold ShopSystem.closeShop
    rw [if_neg (not_not.mpr o1)]
  · unfold ShopSystem.closeShop
    rw [if_neg (not_not.mpr o1)]
    rfl
  · unfold ShopSystem.closeShop
    rw [if_neg (not_not.mpr o1)]
    exact congrArg some htimer
  · intro frames
    exact GameplayManager.stuck_run frames _ hshop2 (Or.inl hwave2)

/-- C28: one pass of `checkEnemyPlayerCollisions` with a living player that is
not invulnerable, in a registry that satisfies the data-model invariants. With
`h` the health of the player and `n` the number of entities of the
`Transform` and `Enemy` snapshot that overlap the player, the health after the
pass is `max 0 (h - 10 * n)`. The enemies that are struck are the first
`hitsToKill h` overlapping ones: each is pushed by `pushAway`; every other
entity is unchanged (the player keeps its `Transform` and changes only its
`Health`), an overlapping enemy is left out only when the struck ones have used
up the health of the player, and an enemy that does not overlap the player
keeps its `Transform`. -/
theorem checkEnemyPlayerCollisions_contact (cs : CollisionSystem)
    (quotient : ℚ → Root → ℚ) (m : EntityManager Component) (pt : Transform) (ph : Health)
    (hwf : m.WF) (hpt : m.getTransform cs.playerEntity = some pt)
    (hph : m.getHealth cs.playerEntity = some ph) (halive : 0 < ph.current)
    (hinv : ph.invulnerable = false) :
    (CollisionSystem.checkEnemyPlayerCollisions cs quotient m).getHealth cs.playerEntity
      = some { ph with current := max 0 (ph.current
          - CollisionSystem.ENEMY_CONTACT_DAMAGE * ((CollisionSystem.contacts m pt.position).length : Int)) } ∧
    (CollisionSystem.checkEnemyPlayerCollisions cs quotient m).getTransform cs.playerEntity = some pt ∧
    (∀ X ∈ CollisionSystem.struck m pt.position ph.current, ∀ t, m.getTransform X = some t →
      (CollisionSystem.checkEnemyPlayerCollisions cs quotient m).getTransform X
        = some (CollisionSystem.pushAway quotient t pt)) ∧
    (∀ X, X ∉ CollisionSystem.struck m pt.position ph.current → X ≠ cs.playerEntity →
      EntityManager.Unchanged m (CollisionSystem.checkEnemyPlayerCollisions cs quotient m) X) ∧
    (∀ X ∈ CollisionSystem.contacts m pt.position, X ∉ CollisionSystem.struck m pt.position ph.current →
      ph.current ≤ CollisionSystem.ENEMY_CONTACT_DAMAGE * ((CollisionSystem.struck m pt.position ph.current).length : Int)) ∧
    (∀ X, CollisionSystem.touches m pt.position X = false →
      (CollisionSystem.checkEnemyPlayerCollisions cs quotient m).getTransform X = m.getTransform X) ∧
    (∀ ty X, ty ≠ TypeId.transform → (ty ≠ TypeId.health ∨ X ≠ cs.playerEntity) →
      (CollisionSystem.checkEnemyPlayerCollisions cs quotient m).getComponent ty X = m.getComponent ty X) ∧
    (∀ X, (CollisionSystem.checkEnemyPlayerCollisions cs quotient m).isEntityValid X = m.isEntityValid X) := by
  obtain ⟨_, i2, i3, i4, i5, i6, i7⟩ := CollisionSystem.contactLoop_effect cs quotient pt
    (m.getEntitiesWith [TypeId.transform, TypeId.enemy]) (EntityManager.nodup_getEntitiesWith m _) m ph hwf
    hpt hph halive hinv _ (CollisionSystem.checkEnemyPlayerCollisions_alive cs quotient m pt ph hpt hph halive)
  refine ⟨i2, i3, i5, ?_, ?_, ?_, i6, i7⟩
  · intro X hX hXP
    refine ⟨i7 X, fun ty => ?_⟩
    by_cases hty : ty = TypeId.transform
    · rw [hty]
      exact i4 X hX
    · exact i6 ty X hty (Or.inr hXP)
  · intro X hX hn
    exact CollisionSystem.struck_short m pt.position ph.current halive X hX hn
  · intro X hX
    apply EntityManager.getTransform_congr
    apply i4
    intro hmem
    have h1 := (List.mem_filter.mp (List.mem_of_mem_take hmem)).2
    rw [hX] at h1
    cases h1

/-- Instance of C28: a player of health 15 at the origin, an enemy at (10, 0)
and an enemy at (100, 0); the pass leaves the player with health 5. -/
theorem checkEnemyPlayerCollisions_contact_witness :
    (CollisionSystem.arena (Health.ofHp 15)).WF ∧
    (CollisionSystem.arena (Health.ofHp 15)).getTransform 1 = some (Transform.ofPosition ⟨0, 0⟩) ∧
    (CollisionSystem.arena (Health.ofHp 15)).getHealth 1 = some (Health.ofHp 15) ∧
    (CollisionSystem.checkEnemyPlayerCollisions ⟨false, none, 1⟩ (fun x _ => x)
      (CollisionSystem.arena (Health.ofHp 15))).getHealth 1 = some { current := 5, maximum := 15 } ∧
    (CollisionSystem.checkEnemyPlayerCollisions ⟨false, none, 1⟩ (fun x _ => x)
      (CollisionSystem.arena (Health.ofHp 15))).getTransform 3 = some (Transform.ofPosition ⟨100, 0⟩) := by
  obtain ⟨f1, f2, f3, _, f5, _⟩ := CollisionSystem.arena_facts (Health.ofHp 15)
  obtain ⟨k1, _, _, k4, _⟩ := checkEnemyPlayerCollisions_contact ⟨false, none, 1⟩
    (fun x _ => x) (CollisionSystem.arena (Health.ofHp 15)) (Transform.ofPosition ⟨0, 0⟩) (Health.ofHp 15)
    f1 f2 f3 (by decide) rfl
  refine ⟨f1, f2, f3, ?_, ?_⟩
  · rw [k1, CollisionSystem.arena_contacts]
    rfl
  · rw [← f5]
    apply EntityManager.getTransform_congr
    refine (k4 3 ?_ (by decide)).2 TypeId.transform
    unfold CollisionSystem.struck
    rw [CollisionSystem.arena_contacts]
    intro hmem
    have h1 := List.mem_of_mem_take hmem
    simp at h1

end BrotatoGame
